import Mathlib

/-!
IRMP infrared multi-protocol decoder (`src/libraries/ir/irmp.c`)

Shallow embedding of the decoder of `irmp.c`: the latched-frame retrieval `irmp_get_data`,
the bit store `irmp_store_bit` / `irmp_store_bit2` and the sampling routine `irmp_ISR`.

Conventions of the embedding

* C unsigned integers are `Nat`; every store into a `uint8_t` / `uint16_t` object reduces
  modulo `2^8` / `2^16` explicitly.  C expressions are evaluated in `int` after integer
  promotion, so comparisons are made on the unreduced values.
* `irmp.h` and `irmpconfig.h` are not part of the sources.  Everything they define is a
  parameter collected in `Config`: the `IRMP_SUPPORT_*` switches (each `#if` becomes a
  conjunct of the guarded condition), the width of the `PAUSE_LEN` typedef, and the
  numeric macros (`Key`), among them the tick windows `*_LEN_MIN` / `*_LEN_MAX`, which
  `irmp.c` computes in floating point from the nominal times of `irmp.h`.
* `input(IRMP_PIN)` is the argument `irmp_input` of `irmp_ISR` (`true` = pin high = dark).
* Logging (`irmp_log`), the `ANALYZE` diagnostics and the optional level-change callback
  do not touch the decoder variables and are left out.
-/

namespace Irmp

/-! ## Configuration: what `irmp.h` / `irmpconfig.h` provide -/

/-- Names of the numeric macros used by the protocol table and by the decoder. The value of
`JVC_START_BIT_PULSE_LEN` stands for the expression
`(uint8_t)(F_INTERRUPTS * JVC_START_BIT_PULSE_TIME)` of `irmp_ISR`. -/
inductive Key where
  | AUTO_FRAME_REPETITION_LEN | BANG_OLUFSEN_0_PAUSE_LEN_MAX | BANG_OLUFSEN_0_PAUSE_LEN_MIN
  | BANG_OLUFSEN_1_PAUSE_LEN_MAX | BANG_OLUFSEN_1_PAUSE_LEN_MIN | BANG_OLUFSEN_ADDRESS_LEN
  | BANG_OLUFSEN_ADDRESS_OFFSET | BANG_OLUFSEN_COMMAND_LEN | BANG_OLUFSEN_COMMAND_OFFSET
  | BANG_OLUFSEN_COMPLETE_DATA_LEN | BANG_OLUFSEN_FLAGS | BANG_OLUFSEN_LSB | BANG_OLUFSEN_PULSE_LEN_MAX
  | BANG_OLUFSEN_PULSE_LEN_MIN | BANG_OLUFSEN_R_PAUSE_LEN_MAX | BANG_OLUFSEN_R_PAUSE_LEN_MIN
  | BANG_OLUFSEN_START_BIT1_PAUSE_LEN_MAX | BANG_OLUFSEN_START_BIT1_PAUSE_LEN_MIN
  | BANG_OLUFSEN_START_BIT1_PULSE_LEN_MAX | BANG_OLUFSEN_START_BIT1_PULSE_LEN_MIN
  | BANG_OLUFSEN_START_BIT3_PAUSE_LEN_MAX | BANG_OLUFSEN_START_BIT3_PAUSE_LEN_MIN | BANG_OLUFSEN_STOP_BIT
  | BANG_OLUFSEN_TRAILER_BIT_PAUSE_LEN_MAX | BANG_OLUFSEN_TRAILER_BIT_PAUSE_LEN_MIN | DENON_0_PAUSE_LEN_MAX
  | DENON_0_PAUSE_LEN_MIN | DENON_1_PAUSE_LEN_MAX | DENON_1_PAUSE_LEN_MIN | DENON_ADDRESS_LEN | DENON_ADDRESS_OFFSET
  | DENON_COMMAND_LEN | DENON_COMMAND_OFFSET | DENON_COMPLETE_DATA_LEN | DENON_FLAGS | DENON_LSB
  | DENON_PULSE_LEN_MAX | DENON_PULSE_LEN_MIN | DENON_STOP_BIT | FDC_0_PAUSE_LEN_MAX | FDC_0_PAUSE_LEN_MIN
  | FDC_1_PAUSE_LEN_MAX | FDC_1_PAUSE_LEN_MIN | FDC_ADDRESS_LEN | FDC_ADDRESS_OFFSET | FDC_COMMAND_LEN
  | FDC_COMMAND_OFFSET | FDC_COMPLETE_DATA_LEN | FDC_FLAGS | FDC_LSB | FDC_PULSE_LEN_MAX | FDC_PULSE_LEN_MIN
  | FDC_START_BIT_PAUSE_LEN_MAX | FDC_START_BIT_PAUSE_LEN_MIN | FDC_START_BIT_PULSE_LEN_MAX
  | FDC_START_BIT_PULSE_LEN_MIN | FDC_STOP_BIT | GRUNDIG_ADDRESS_LEN | GRUNDIG_ADDRESS_OFFSET | GRUNDIG_COMMAND_LEN
  | GRUNDIG_COMMAND_OFFSET | GRUNDIG_COMPLETE_DATA_LEN | GRUNDIG_NOKIA_IR60_BIT_LEN_MAX
  | GRUNDIG_NOKIA_IR60_BIT_LEN_MIN | GRUNDIG_NOKIA_IR60_FLAGS | GRUNDIG_NOKIA_IR60_LSB
  | GRUNDIG_NOKIA_IR60_PRE_PAUSE_LEN_MAX | GRUNDIG_NOKIA_IR60_PRE_PAUSE_LEN_MIN
  | GRUNDIG_NOKIA_IR60_START_BIT_LEN_MAX | GRUNDIG_NOKIA_IR60_START_BIT_LEN_MIN | GRUNDIG_NOKIA_IR60_STOP_BIT
  | IR60_ADDRESS_LEN | IR60_ADDRESS_OFFSET | IR60_COMMAND_LEN | IR60_COMMAND_OFFSET | IR60_COMPLETE_DATA_LEN
  | IR60_TIMEOUT_LEN | IRMP_KEY_REPETITION_LEN | IRMP_TIMEOUT_LEN | IRMP_TIMEOUT_NIKON_LEN
  | JVC_REPEAT_START_BIT_PAUSE_LEN_MAX | JVC_REPEAT_START_BIT_PAUSE_LEN_MIN | JVC_START_BIT_PULSE_LEN_MAX
  | JVC_START_BIT_PULSE_LEN_MIN | KASEIKYO_0_PAUSE_LEN_MAX | KASEIKYO_0_PAUSE_LEN_MIN | KASEIKYO_1_PAUSE_LEN_MAX
  | KASEIKYO_1_PAUSE_LEN_MIN | KASEIKYO_ADDRESS_LEN | KASEIKYO_ADDRESS_OFFSET | KASEIKYO_COMMAND_LEN
  | KASEIKYO_COMMAND_OFFSET | KASEIKYO_COMPLETE_DATA_LEN | KASEIKYO_FLAGS | KASEIKYO_LSB | KASEIKYO_PULSE_LEN_MAX
  | KASEIKYO_PULSE_LEN_MIN | KASEIKYO_START_BIT_PAUSE_LEN_MAX | KASEIKYO_START_BIT_PAUSE_LEN_MIN
  | KASEIKYO_START_BIT_PULSE_LEN_MAX | KASEIKYO_START_BIT_PULSE_LEN_MIN | KASEIKYO_STOP_BIT
  | KATHREIN_0_PAUSE_LEN_MAX | KATHREIN_0_PAUSE_LEN_MIN | KATHREIN_0_PULSE_LEN_MAX | KATHREIN_0_PULSE_LEN_MIN
  | KATHREIN_1_PAUSE_LEN_MAX | KATHREIN_1_PAUSE_LEN_MIN | KATHREIN_1_PULSE_LEN_MAX | KATHREIN_1_PULSE_LEN_MIN
  | KATHREIN_ADDRESS_LEN | KATHREIN_ADDRESS_OFFSET | KATHREIN_COMMAND_LEN | KATHREIN_COMMAND_OFFSET
  | KATHREIN_COMPLETE_DATA_LEN | KATHREIN_FLAGS | KATHREIN_LSB | KATHREIN_START_BIT_PAUSE_LEN_MAX
  | KATHREIN_START_BIT_PAUSE_LEN_MIN | KATHREIN_START_BIT_PULSE_LEN_MAX | KATHREIN_START_BIT_PULSE_LEN_MIN
  | KATHREIN_STOP_BIT | KATHREIN_SYNC_BIT_PAUSE_LEN_MAX | KATHREIN_SYNC_BIT_PAUSE_LEN_MIN | LEGO_0_PAUSE_LEN_MAX
  | LEGO_0_PAUSE_LEN_MIN | LEGO_1_PAUSE_LEN_MAX | LEGO_1_PAUSE_LEN_MIN | LEGO_ADDRESS_LEN | LEGO_ADDRESS_OFFSET
  | LEGO_COMMAND_LEN | LEGO_COMMAND_OFFSET | LEGO_COMPLETE_DATA_LEN | LEGO_FLAGS | LEGO_LSB | LEGO_PULSE_LEN_MAX
  | LEGO_PULSE_LEN_MIN | LEGO_START_BIT_PAUSE_LEN_MAX | LEGO_START_BIT_PAUSE_LEN_MIN | LEGO_START_BIT_PULSE_LEN_MAX
  | LEGO_START_BIT_PULSE_LEN_MIN | LEGO_STOP_BIT | MATSUSHITA_0_PAUSE_LEN_MAX | MATSUSHITA_0_PAUSE_LEN_MIN
  | MATSUSHITA_1_PAUSE_LEN_MAX | MATSUSHITA_1_PAUSE_LEN_MIN | MATSUSHITA_ADDRESS_LEN | MATSUSHITA_ADDRESS_OFFSET
  | MATSUSHITA_COMMAND_LEN | MATSUSHITA_COMMAND_OFFSET | MATSUSHITA_COMPLETE_DATA_LEN | MATSUSHITA_FLAGS
  | MATSUSHITA_LSB | MATSUSHITA_PULSE_LEN_MAX | MATSUSHITA_PULSE_LEN_MIN | MATSUSHITA_START_BIT_PAUSE_LEN_MAX
  | MATSUSHITA_START_BIT_PAUSE_LEN_MIN | MATSUSHITA_START_BIT_PULSE_LEN_MAX | MATSUSHITA_START_BIT_PULSE_LEN_MIN
  | MATSUSHITA_STOP_BIT | NEC16_ADDRESS_LEN | NEC16_ADDRESS_OFFSET | NEC16_COMMAND_LEN | NEC16_COMMAND_OFFSET
  | NEC16_COMPLETE_DATA_LEN | NEC42_ADDRESS_LEN | NEC42_ADDRESS_OFFSET | NEC42_COMMAND_LEN | NEC42_COMMAND_OFFSET
  | NEC42_COMPLETE_DATA_LEN | NEC_0_PAUSE_LEN_MAX | NEC_0_PAUSE_LEN_MIN | NEC_1_PAUSE_LEN_MAX | NEC_1_PAUSE_LEN_MIN
  | NEC_ADDRESS_LEN | NEC_ADDRESS_OFFSET | NEC_COMMAND_LEN | NEC_COMMAND_OFFSET | NEC_COMPLETE_DATA_LEN | NEC_FLAGS
  | NEC_FRAME_REPEAT_PAUSE_LEN_MAX | NEC_LSB | NEC_PULSE_LEN_MAX | NEC_PULSE_LEN_MIN
  | NEC_REPEAT_START_BIT_PAUSE_LEN_MAX | NEC_REPEAT_START_BIT_PAUSE_LEN_MIN | NEC_START_BIT_PAUSE_LEN_MAX
  | NEC_START_BIT_PAUSE_LEN_MIN | NEC_START_BIT_PULSE_LEN_MAX | NEC_START_BIT_PULSE_LEN_MIN | NEC_STOP_BIT
  | NETBOX_ADDRESS_LEN | NETBOX_ADDRESS_OFFSET | NETBOX_COMMAND_LEN | NETBOX_COMMAND_OFFSET
  | NETBOX_COMPLETE_DATA_LEN | NETBOX_FLAGS | NETBOX_LSB | NETBOX_PAUSE_LEN | NETBOX_PAUSE_REST_LEN
  | NETBOX_PULSE_LEN | NETBOX_PULSE_REST_LEN | NETBOX_START_BIT_PAUSE_LEN_MAX | NETBOX_START_BIT_PAUSE_LEN_MIN
  | NETBOX_START_BIT_PULSE_LEN_MAX | NETBOX_START_BIT_PULSE_LEN_MIN | NETBOX_STOP_BIT | NIKON_0_PAUSE_LEN_MAX
  | NIKON_0_PAUSE_LEN_MIN | NIKON_1_PAUSE_LEN_MAX | NIKON_1_PAUSE_LEN_MIN | NIKON_ADDRESS_LEN | NIKON_ADDRESS_OFFSET
  | NIKON_COMMAND_LEN | NIKON_COMMAND_OFFSET | NIKON_COMPLETE_DATA_LEN | NIKON_FLAGS | NIKON_LSB
  | NIKON_PULSE_LEN_MAX | NIKON_PULSE_LEN_MIN | NIKON_START_BIT_PAUSE_LEN_MAX | NIKON_START_BIT_PAUSE_LEN_MIN
  | NIKON_START_BIT_PULSE_LEN_MAX | NIKON_START_BIT_PULSE_LEN_MIN | NIKON_STOP_BIT | NOKIA_ADDRESS_LEN
  | NOKIA_ADDRESS_OFFSET | NOKIA_COMMAND_LEN | NOKIA_COMMAND_OFFSET | NOKIA_COMPLETE_DATA_LEN
  | NUBERT_0_PAUSE_LEN_MAX | NUBERT_0_PAUSE_LEN_MIN | NUBERT_0_PULSE_LEN_MAX | NUBERT_0_PULSE_LEN_MIN
  | NUBERT_1_PAUSE_LEN_MAX | NUBERT_1_PAUSE_LEN_MIN | NUBERT_1_PULSE_LEN_MAX | NUBERT_1_PULSE_LEN_MIN
  | NUBERT_ADDRESS_LEN | NUBERT_ADDRESS_OFFSET | NUBERT_COMMAND_LEN | NUBERT_COMMAND_OFFSET
  | NUBERT_COMPLETE_DATA_LEN | NUBERT_FLAGS | NUBERT_LSB | NUBERT_START_BIT_PAUSE_LEN_MAX
  | NUBERT_START_BIT_PAUSE_LEN_MIN | NUBERT_START_BIT_PULSE_LEN_MAX | NUBERT_START_BIT_PULSE_LEN_MIN
  | NUBERT_STOP_BIT | RC5_ADDRESS_LEN | RC5_ADDRESS_OFFSET | RC5_BIT_LEN_MAX | RC5_BIT_LEN_MIN | RC5_COMMAND_LEN
  | RC5_COMMAND_OFFSET | RC5_COMPLETE_DATA_LEN | RC5_FLAGS | RC5_LSB | RC5_START_BIT_LEN_MAX | RC5_START_BIT_LEN_MIN
  | RC5_STOP_BIT | RC6_ADDRESS_LEN | RC6_ADDRESS_OFFSET | RC6_BIT_PAUSE_LEN_MAX | RC6_BIT_PAUSE_LEN_MIN
  | RC6_BIT_PULSE_LEN_MAX | RC6_BIT_PULSE_LEN_MIN | RC6_COMMAND_LEN | RC6_COMMAND_OFFSET | RC6_COMPLETE_DATA_LEN_LONG
  | RC6_COMPLETE_DATA_LEN_SHORT | RC6_FLAGS | RC6_LSB | RC6_START_BIT_PAUSE_LEN_MAX | RC6_START_BIT_PAUSE_LEN_MIN
  | RC6_START_BIT_PULSE_LEN_MAX | RC6_START_BIT_PULSE_LEN_MIN | RC6_STOP_BIT | RC6_TOGGLE_BIT_LEN_MIN
  | RCCAR_0_PAUSE_LEN_MAX | RCCAR_0_PAUSE_LEN_MIN | RCCAR_1_PAUSE_LEN_MAX | RCCAR_1_PAUSE_LEN_MIN | RCCAR_ADDRESS_LEN
  | RCCAR_ADDRESS_OFFSET | RCCAR_COMMAND_LEN | RCCAR_COMMAND_OFFSET | RCCAR_COMPLETE_DATA_LEN | RCCAR_FLAGS
  | RCCAR_LSB | RCCAR_PULSE_LEN_MAX | RCCAR_PULSE_LEN_MIN | RCCAR_START_BIT_PAUSE_LEN_MAX
  | RCCAR_START_BIT_PAUSE_LEN_MIN | RCCAR_START_BIT_PULSE_LEN_MAX | RCCAR_START_BIT_PULSE_LEN_MIN | RCCAR_STOP_BIT
  | RECS80EXT_0_PAUSE_LEN_MAX | RECS80EXT_0_PAUSE_LEN_MIN | RECS80EXT_1_PAUSE_LEN_MAX | RECS80EXT_1_PAUSE_LEN_MIN
  | RECS80EXT_ADDRESS_LEN | RECS80EXT_ADDRESS_OFFSET | RECS80EXT_COMMAND_LEN | RECS80EXT_COMMAND_OFFSET
  | RECS80EXT_COMPLETE_DATA_LEN | RECS80EXT_FLAGS | RECS80EXT_LSB | RECS80EXT_PULSE_LEN_MAX | RECS80EXT_PULSE_LEN_MIN
  | RECS80EXT_START_BIT_PAUSE_LEN_MAX | RECS80EXT_START_BIT_PAUSE_LEN_MIN | RECS80EXT_START_BIT_PULSE_LEN_MAX
  | RECS80EXT_START_BIT_PULSE_LEN_MIN | RECS80EXT_STOP_BIT | RECS80_0_PAUSE_LEN_MAX | RECS80_0_PAUSE_LEN_MIN
  | RECS80_1_PAUSE_LEN_MAX | RECS80_1_PAUSE_LEN_MIN | RECS80_ADDRESS_LEN | RECS80_ADDRESS_OFFSET | RECS80_COMMAND_LEN
  | RECS80_COMMAND_OFFSET | RECS80_COMPLETE_DATA_LEN | RECS80_FLAGS | RECS80_LSB | RECS80_PULSE_LEN_MAX
  | RECS80_PULSE_LEN_MIN | RECS80_START_BIT_PAUSE_LEN_MAX | RECS80_START_BIT_PAUSE_LEN_MIN
  | RECS80_START_BIT_PULSE_LEN_MAX | RECS80_START_BIT_PULSE_LEN_MIN | RECS80_STOP_BIT | RUWIDO_ADDRESS_LEN
  | RUWIDO_ADDRESS_OFFSET | RUWIDO_COMMAND_LEN | RUWIDO_COMMAND_OFFSET | RUWIDO_COMPLETE_DATA_LEN
  | SAMSUNG32_COMMAND_LEN | SAMSUNG32_COMMAND_OFFSET | SAMSUNG32_COMPLETE_DATA_LEN | SAMSUNG_0_PAUSE_LEN_MAX
  | SAMSUNG_0_PAUSE_LEN_MIN | SAMSUNG_1_PAUSE_LEN_MAX | SAMSUNG_1_PAUSE_LEN_MIN | SAMSUNG_ADDRESS_LEN
  | SAMSUNG_ADDRESS_OFFSET | SAMSUNG_COMMAND_LEN | SAMSUNG_COMMAND_OFFSET | SAMSUNG_COMPLETE_DATA_LEN | SAMSUNG_FLAGS
  | SAMSUNG_ID_LEN | SAMSUNG_ID_OFFSET | SAMSUNG_LSB | SAMSUNG_PULSE_LEN_MAX | SAMSUNG_PULSE_LEN_MIN
  | SAMSUNG_START_BIT_PAUSE_LEN_MAX | SAMSUNG_START_BIT_PAUSE_LEN_MIN | SAMSUNG_START_BIT_PULSE_LEN_MAX
  | SAMSUNG_START_BIT_PULSE_LEN_MIN | SAMSUNG_STOP_BIT | SIEMENS_ADDRESS_LEN | SIEMENS_ADDRESS_OFFSET
  | SIEMENS_COMMAND_LEN | SIEMENS_COMMAND_OFFSET | SIEMENS_COMPLETE_DATA_LEN | SIEMENS_OR_RUWIDO_BIT_PAUSE_LEN_MAX
  | SIEMENS_OR_RUWIDO_BIT_PAUSE_LEN_MIN | SIEMENS_OR_RUWIDO_BIT_PULSE_LEN_MAX | SIEMENS_OR_RUWIDO_BIT_PULSE_LEN_MIN
  | SIEMENS_OR_RUWIDO_FLAGS | SIEMENS_OR_RUWIDO_LSB | SIEMENS_OR_RUWIDO_START_BIT_PAUSE_LEN_MAX
  | SIEMENS_OR_RUWIDO_START_BIT_PAUSE_LEN_MIN | SIEMENS_OR_RUWIDO_START_BIT_PULSE_LEN_MAX
  | SIEMENS_OR_RUWIDO_START_BIT_PULSE_LEN_MIN | SIEMENS_OR_RUWIDO_STOP_BIT | SIRCS_0_PULSE_LEN_MAX
  | SIRCS_0_PULSE_LEN_MIN | SIRCS_1_PULSE_LEN_MAX | SIRCS_1_PULSE_LEN_MIN | SIRCS_ADDRESS_LEN | SIRCS_ADDRESS_OFFSET
  | SIRCS_COMMAND_LEN | SIRCS_COMMAND_OFFSET | SIRCS_COMPLETE_DATA_LEN | SIRCS_FLAGS | SIRCS_LSB
  | SIRCS_MINIMUM_DATA_LEN | SIRCS_PAUSE_LEN_MAX | SIRCS_PAUSE_LEN_MIN | SIRCS_START_BIT_PAUSE_LEN_MAX
  | SIRCS_START_BIT_PAUSE_LEN_MIN | SIRCS_START_BIT_PULSE_LEN_MAX | SIRCS_START_BIT_PULSE_LEN_MIN | SIRCS_STOP_BIT
  | THOMSON_0_PAUSE_LEN_MAX | THOMSON_0_PAUSE_LEN_MIN | THOMSON_1_PAUSE_LEN_MAX | THOMSON_1_PAUSE_LEN_MIN
  | THOMSON_ADDRESS_LEN | THOMSON_ADDRESS_OFFSET | THOMSON_COMMAND_LEN | THOMSON_COMMAND_OFFSET
  | THOMSON_COMPLETE_DATA_LEN | THOMSON_FLAGS | THOMSON_LSB | THOMSON_PULSE_LEN_MAX | THOMSON_PULSE_LEN_MIN
  | THOMSON_STOP_BIT | JVC_START_BIT_PULSE_LEN
/-- Build configuration (`irmpconfig.h`) together with the numeric macros of `irmp.h`. -/
structure Config where
  IRMP_SUPPORT_SIRCS_PROTOCOL : Bool
  IRMP_SUPPORT_NEC_PROTOCOL : Bool
  IRMP_SUPPORT_SAMSUNG_PROTOCOL : Bool
  IRMP_SUPPORT_MATSUSHITA_PROTOCOL : Bool
  IRMP_SUPPORT_KASEIKYO_PROTOCOL : Bool
  IRMP_SUPPORT_RECS80_PROTOCOL : Bool
  IRMP_SUPPORT_RC5_PROTOCOL : Bool
  IRMP_SUPPORT_DENON_PROTOCOL : Bool
  IRMP_SUPPORT_RC6_PROTOCOL : Bool
  IRMP_SUPPORT_RECS80EXT_PROTOCOL : Bool
  IRMP_SUPPORT_NUBERT_PROTOCOL : Bool
  IRMP_SUPPORT_BANG_OLUFSEN_PROTOCOL : Bool
  IRMP_SUPPORT_GRUNDIG_PROTOCOL : Bool
  IRMP_SUPPORT_NOKIA_PROTOCOL : Bool
  IRMP_SUPPORT_IR60_PROTOCOL : Bool
  IRMP_SUPPORT_SIEMENS_PROTOCOL : Bool
  IRMP_SUPPORT_RUWIDO_PROTOCOL : Bool
  IRMP_SUPPORT_FDC_PROTOCOL : Bool
  IRMP_SUPPORT_RCCAR_PROTOCOL : Bool
  IRMP_SUPPORT_JVC_PROTOCOL : Bool
  IRMP_SUPPORT_NIKON_PROTOCOL : Bool
  IRMP_SUPPORT_KATHREIN_PROTOCOL : Bool
  IRMP_SUPPORT_NETBOX_PROTOCOL : Bool
  IRMP_SUPPORT_NEC16_PROTOCOL : Bool
  IRMP_SUPPORT_NEC42_PROTOCOL : Bool
  IRMP_SUPPORT_LEGO_PROTOCOL : Bool
  IRMP_SUPPORT_THOMSON_PROTOCOL : Bool
  /-- Number of values of the `PAUSE_LEN` typedef: `2^8` or `2^16`. -/
  PAUSE_LEN_MOD : Nat
  /-- Value of each numeric macro, as the `int` the C expression evaluates to. -/
  K : Key → Int

namespace Config

/-- Lines 357-361. -/
def IRMP_SUPPORT_GRUNDIG_NOKIA_IR60_PROTOCOL (c : Config) : Bool :=
  c.IRMP_SUPPORT_GRUNDIG_PROTOCOL || c.IRMP_SUPPORT_NOKIA_PROTOCOL || c.IRMP_SUPPORT_IR60_PROTOCOL

/-- Lines 363-367. -/
def IRMP_SUPPORT_SIEMENS_OR_RUWIDO_PROTOCOL (c : Config) : Bool :=
  c.IRMP_SUPPORT_SIEMENS_PROTOCOL || c.IRMP_SUPPORT_RUWIDO_PROTOCOL

/-- Lines 369-377. -/
def IRMP_SUPPORT_MANCHESTER (c : Config) : Bool :=
  c.IRMP_SUPPORT_RC5_PROTOCOL || c.IRMP_SUPPORT_RC6_PROTOCOL ||
    c.IRMP_SUPPORT_GRUNDIG_NOKIA_IR60_PROTOCOL || c.IRMP_SUPPORT_SIEMENS_OR_RUWIDO_PROTOCOL ||
    c.IRMP_SUPPORT_IR60_PROTOCOL

/-- Lines 379-383. -/
def IRMP_SUPPORT_SERIAL (c : Config) : Bool :=
  c.IRMP_SUPPORT_NETBOX_PROTOCOL

/-- Guard of lines 1517, 1824, 1983 (`irmp_param2` and `irmp_store_bit2` exist). -/
def RC5_WITH_FDC_OR_RCCAR (c : Config) : Bool :=
  c.IRMP_SUPPORT_RC5_PROTOCOL && (c.IRMP_SUPPORT_FDC_PROTOCOL || c.IRMP_SUPPORT_RCCAR_PROTOCOL)

end Config

/-! ## Constants of `irmp.h` that are fixed by the sources -/

/-- Conversion to `uint8_t`. -/
def u8 (x : Int) : Nat := (x % 256).toNat

/-- Conversion to `uint16_t`. -/
def u16 (x : Int) : Nat := (x % 65536).toNat

/-- The test `lo <= x && x <= hi`, the window test the decoder applies to a tick count. -/
def within (x : Nat) (lo hi : Int) : Prop := lo ≤ (x : Int) ∧ (x : Int) ≤ hi

instance (x : Nat) (lo hi : Int) : Decidable (within x lo hi) := by
  unfold within; infer_instance

/-- Modelled from the spec: `irmp.h` is absent; `TRUE`. -/
def TRUE : Nat := 1

/-- Modelled from the spec: `irmp.h` is absent; `FALSE`. -/
def FALSE : Nat := 0

/-- Modelled from the spec: `irmp.h` is absent; the `REPETITION` bit of the frame flags. -/
def IRMP_FLAG_REPETITION : Nat := 0x01

/-- Modelled from the spec: `irmp.h` is absent; feature flag "is Manchester". -/
def IRMP_PARAM_FLAG_IS_MANCHESTER : Nat := 0x01

/-- Modelled from the spec: `irmp.h` is absent; feature flag "first pulse is one". -/
def IRMP_PARAM_FLAG_1ST_PULSE_IS_1 : Nat := 0x02

/-- Modelled from the spec: `irmp.h` is absent; feature flag "is serial". -/
def IRMP_PARAM_FLAG_IS_SERIAL : Nat := 0x04

/-! Protocol numbers: the index of the protocol in `irmp_protocol_names` (lines 714-747). -/

def IRMP_UNKNOWN_PROTOCOL : Nat := 0
def IRMP_SIRCS_PROTOCOL : Nat := 1
def IRMP_NEC_PROTOCOL : Nat := 2
def IRMP_SAMSUNG_PROTOCOL : Nat := 3
def IRMP_MATSUSHITA_PROTOCOL : Nat := 4
def IRMP_KASEIKYO_PROTOCOL : Nat := 5
def IRMP_RECS80_PROTOCOL : Nat := 6
def IRMP_RC5_PROTOCOL : Nat := 7
def IRMP_DENON_PROTOCOL : Nat := 8
def IRMP_RC6_PROTOCOL : Nat := 9
def IRMP_SAMSUNG32_PROTOCOL : Nat := 10
def IRMP_APPLE_PROTOCOL : Nat := 11
def IRMP_RECS80EXT_PROTOCOL : Nat := 12
def IRMP_NUBERT_PROTOCOL : Nat := 13
def IRMP_BANG_OLUFSEN_PROTOCOL : Nat := 14
def IRMP_GRUNDIG_PROTOCOL : Nat := 15
def IRMP_NOKIA_PROTOCOL : Nat := 16
def IRMP_SIEMENS_PROTOCOL : Nat := 17
def IRMP_FDC_PROTOCOL : Nat := 18
def IRMP_RCCAR_PROTOCOL : Nat := 19
def IRMP_JVC_PROTOCOL : Nat := 20
def IRMP_RC6A_PROTOCOL : Nat := 21
def IRMP_NIKON_PROTOCOL : Nat := 22
def IRMP_RUWIDO_PROTOCOL : Nat := 23
def IRMP_IR60_PROTOCOL : Nat := 24
def IRMP_KATHREIN_PROTOCOL : Nat := 25
def IRMP_NETBOX_PROTOCOL : Nat := 26
def IRMP_NEC16_PROTOCOL : Nat := 27
def IRMP_NEC42_PROTOCOL : Nat := 28
def IRMP_LEGO_PROTOCOL : Nat := 29
def IRMP_THOMSON_PROTOCOL : Nat := 30

/-! ## Data model -/

/-- Lines 918-937: `IRMP_PARAMETER`. -/
structure IRMP_PARAMETER where
  protocol : Nat
  pulse_1_len_min : Nat
  pulse_1_len_max : Nat
  pause_1_len_min : Nat
  pause_1_len_max : Nat
  pulse_0_len_min : Nat
  pulse_0_len_max : Nat
  pause_0_len_min : Nat
  pause_0_len_max : Nat
  address_offset : Nat
  address_end : Nat
  command_offset : Nat
  command_end : Nat
  complete_len : Nat
  stop_bit : Nat
  lsb_first : Nat
  flags : Nat
deriving DecidableEq

/-- The caller's `IRMP_DATA` structure, as written by lines 1691-1694. -/
structure IRMP_DATA where
  protocol : Nat
  address : Nat
  command : Nat
  flags : Nat
deriving DecidableEq

/-! ## Protocol table (lines 939-1512) -/

/-- Table row `sircs_param`; every field is a `uint8_t`. -/
def sircs_param (c : Config) : IRMP_PARAMETER where
  protocol := IRMP_SIRCS_PROTOCOL
  pulse_1_len_min := u8 (c.K .SIRCS_1_PULSE_LEN_MIN)
  pulse_1_len_max := u8 (c.K .SIRCS_1_PULSE_LEN_MAX)
  pause_1_len_min := u8 (c.K .SIRCS_PAUSE_LEN_MIN)
  pause_1_len_max := u8 (c.K .SIRCS_PAUSE_LEN_MAX)
  pulse_0_len_min := u8 (c.K .SIRCS_0_PULSE_LEN_MIN)
  pulse_0_len_max := u8 (c.K .SIRCS_0_PULSE_LEN_MAX)
  pause_0_len_min := u8 (c.K .SIRCS_PAUSE_LEN_MIN)
  pause_0_len_max := u8 (c.K .SIRCS_PAUSE_LEN_MAX)
  address_offset := u8 (c.K .SIRCS_ADDRESS_OFFSET)
  address_end := u8 (c.K .SIRCS_ADDRESS_OFFSET + c.K .SIRCS_ADDRESS_LEN)
  command_offset := u8 (c.K .SIRCS_COMMAND_OFFSET)
  command_end := u8 (c.K .SIRCS_COMMAND_OFFSET + c.K .SIRCS_COMMAND_LEN)
  complete_len := u8 (c.K .SIRCS_COMPLETE_DATA_LEN)
  stop_bit := u8 (c.K .SIRCS_STOP_BIT)
  lsb_first := u8 (c.K .SIRCS_LSB)
  flags := u8 (c.K .SIRCS_FLAGS)

/-- Table row `nec_param`; every field is a `uint8_t`. -/
def nec_param (c : Config) : IRMP_PARAMETER where
  protocol := IRMP_NEC_PROTOCOL
  pulse_1_len_min := u8 (c.K .NEC_PULSE_LEN_MIN)
  pulse_1_len_max := u8 (c.K .NEC_PULSE_LEN_MAX)
  pause_1_len_min := u8 (c.K .NEC_1_PAUSE_LEN_MIN)
  pause_1_len_max := u8 (c.K .NEC_1_PAUSE_LEN_MAX)
  pulse_0_len_min := u8 (c.K .NEC_PULSE_LEN_MIN)
  pulse_0_len_max := u8 (c.K .NEC_PULSE_LEN_MAX)
  pause_0_len_min := u8 (c.K .NEC_0_PAUSE_LEN_MIN)
  pause_0_len_max := u8 (c.K .NEC_0_PAUSE_LEN_MAX)
  address_offset := u8 (c.K .NEC_ADDRESS_OFFSET)
  address_end := u8 (c.K .NEC_ADDRESS_OFFSET + c.K .NEC_ADDRESS_LEN)
  command_offset := u8 (c.K .NEC_COMMAND_OFFSET)
  command_end := u8 (c.K .NEC_COMMAND_OFFSET + c.K .NEC_COMMAND_LEN)
  complete_len := u8 (c.K .NEC_COMPLETE_DATA_LEN)
  stop_bit := u8 (c.K .NEC_STOP_BIT)
  lsb_first := u8 (c.K .NEC_LSB)
  flags := u8 (c.K .NEC_FLAGS)

/-- Table row `nec_rep_param`; every field is a `uint8_t`. -/
def nec_rep_param (c : Config) : IRMP_PARAMETER where
  protocol := IRMP_NEC_PROTOCOL
  pulse_1_len_min := u8 (c.K .NEC_PULSE_LEN_MIN)
  pulse_1_len_max := u8 (c.K .NEC_PULSE_LEN_MAX)
  pause_1_len_min := u8 (c.K .NEC_1_PAUSE_LEN_MIN)
  pause_1_len_max := u8 (c.K .NEC_1_PAUSE_LEN_MAX)
  pulse_0_len_min := u8 (c.K .NEC_PULSE_LEN_MIN)
  pulse_0_len_max := u8 (c.K .NEC_PULSE_LEN_MAX)
  pause_0_len_min := u8 (c.K .NEC_0_PAUSE_LEN_MIN)
  pause_0_len_max := u8 (c.K .NEC_0_PAUSE_LEN_MAX)
  address_offset := u8 (0)
  address_end := u8 (0)
  command_offset := u8 (0)
  command_end := u8 (0)
  complete_len := u8 (0)
  stop_bit := u8 (c.K .NEC_STOP_BIT)
  lsb_first := u8 (c.K .NEC_LSB)
  flags := u8 (c.K .NEC_FLAGS)

/-- Table row `nec42_param`; every field is a `uint8_t`. -/
def nec42_param (c : Config) : IRMP_PARAMETER where
  protocol := IRMP_NEC42_PROTOCOL
  pulse_1_len_min := u8 (c.K .NEC_PULSE_LEN_MIN)
  pulse_1_len_max := u8 (c.K .NEC_PULSE_LEN_MAX)
  pause_1_len_min := u8 (c.K .NEC_1_PAUSE_LEN_MIN)
  pause_1_len_max := u8 (c.K .NEC_1_PAUSE_LEN_MAX)
  pulse_0_len_min := u8 (c.K .NEC_PULSE_LEN_MIN)
  pulse_0_len_max := u8 (c.K .NEC_PULSE_LEN_MAX)
  pause_0_len_min := u8 (c.K .NEC_0_PAUSE_LEN_MIN)
  pause_0_len_max := u8 (c.K .NEC_0_PAUSE_LEN_MAX)
  address_offset := u8 (c.K .NEC42_ADDRESS_OFFSET)
  address_end := u8 (c.K .NEC42_ADDRESS_OFFSET + c.K .NEC42_ADDRESS_LEN)
  command_offset := u8 (c.K .NEC42_COMMAND_OFFSET)
  command_end := u8 (c.K .NEC42_COMMAND_OFFSET + c.K .NEC42_COMMAND_LEN)
  complete_len := u8 (c.K .NEC42_COMPLETE_DATA_LEN)
  stop_bit := u8 (c.K .NEC_STOP_BIT)
  lsb_first := u8 (c.K .NEC_LSB)
  flags := u8 (c.K .NEC_FLAGS)

/-- Table row `samsung_param`; every field is a `uint8_t`. -/
def samsung_param (c : Config) : IRMP_PARAMETER where
  protocol := IRMP_SAMSUNG_PROTOCOL
  pulse_1_len_min := u8 (c.K .SAMSUNG_PULSE_LEN_MIN)
  pulse_1_len_max := u8 (c.K .SAMSUNG_PULSE_LEN_MAX)
  pause_1_len_min := u8 (c.K .SAMSUNG_1_PAUSE_LEN_MIN)
  pause_1_len_max := u8 (c.K .SAMSUNG_1_PAUSE_LEN_MAX)
  pulse_0_len_min := u8 (c.K .SAMSUNG_PULSE_LEN_MIN)
  pulse_0_len_max := u8 (c.K .SAMSUNG_PULSE_LEN_MAX)
  pause_0_len_min := u8 (c.K .SAMSUNG_0_PAUSE_LEN_MIN)
  pause_0_len_max := u8 (c.K .SAMSUNG_0_PAUSE_LEN_MAX)
  address_offset := u8 (c.K .SAMSUNG_ADDRESS_OFFSET)
  address_end := u8 (c.K .SAMSUNG_ADDRESS_OFFSET + c.K .SAMSUNG_ADDRESS_LEN)
  command_offset := u8 (c.K .SAMSUNG_COMMAND_OFFSET)
  command_end := u8 (c.K .SAMSUNG_COMMAND_OFFSET + c.K .SAMSUNG_COMMAND_LEN)
  complete_len := u8 (c.K .SAMSUNG_COMPLETE_DATA_LEN)
  stop_bit := u8 (c.K .SAMSUNG_STOP_BIT)
  lsb_first := u8 (c.K .SAMSUNG_LSB)
  flags := u8 (c.K .SAMSUNG_FLAGS)

/-- Table row `matsushita_param`; every field is a `uint8_t`. -/
def matsushita_param (c : Config) : IRMP_PARAMETER where
  protocol := IRMP_MATSUSHITA_PROTOCOL
  pulse_1_len_min := u8 (c.K .MATSUSHITA_PULSE_LEN_MIN)
  pulse_1_len_max := u8 (c.K .MATSUSHITA_PULSE_LEN_MAX)
  pause_1_len_min := u8 (c.K .MATSUSHITA_1_PAUSE_LEN_MIN)
  pause_1_len_max := u8 (c.K .MATSUSHITA_1_PAUSE_LEN_MAX)
  pulse_0_len_min := u8 (c.K .MATSUSHITA_PULSE_LEN_MIN)
  pulse_0_len_max := u8 (c.K .MATSUSHITA_PULSE_LEN_MAX)
  pause_0_len_min := u8 (c.K .MATSUSHITA_0_PAUSE_LEN_MIN)
  pause_0_len_max := u8 (c.K .MATSUSHITA_0_PAUSE_LEN_MAX)
  address_offset := u8 (c.K .MATSUSHITA_ADDRESS_OFFSET)
  address_end := u8 (c.K .MATSUSHITA_ADDRESS_OFFSET + c.K .MATSUSHITA_ADDRESS_LEN)
  command_offset := u8 (c.K .MATSUSHITA_COMMAND_OFFSET)
  command_end := u8 (c.K .MATSUSHITA_COMMAND_OFFSET + c.K .MATSUSHITA_COMMAND_LEN)
  complete_len := u8 (c.K .MATSUSHITA_COMPLETE_DATA_LEN)
  stop_bit := u8 (c.K .MATSUSHITA_STOP_BIT)
  lsb_first := u8 (c.K .MATSUSHITA_LSB)
  flags := u8 (c.K .MATSUSHITA_FLAGS)

/-- Table row `kaseikyo_param`; every field is a `uint8_t`. -/
def kaseikyo_param (c : Config) : IRMP_PARAMETER where
  protocol := IRMP_KASEIKYO_PROTOCOL
  pulse_1_len_min := u8 (c.K .KASEIKYO_PULSE_LEN_MIN)
  pulse_1_len_max := u8 (c.K .KASEIKYO_PULSE_LEN_MAX)
  pause_1_len_min := u8 (c.K .KASEIKYO_1_PAUSE_LEN_MIN)
  pause_1_len_max := u8 (c.K .KASEIKYO_1_PAUSE_LEN_MAX)
  pulse_0_len_min := u8 (c.K .KASEIKYO_PULSE_LEN_MIN)
  pulse_0_len_max := u8 (c.K .KASEIKYO_PULSE_LEN_MAX)
  pause_0_len_min := u8 (c.K .KASEIKYO_0_PAUSE_LEN_MIN)
  pause_0_len_max := u8 (c.K .KASEIKYO_0_PAUSE_LEN_MAX)
  address_offset := u8 (c.K .KASEIKYO_ADDRESS_OFFSET)
  address_end := u8 (c.K .KASEIKYO_ADDRESS_OFFSET + c.K .KASEIKYO_ADDRESS_LEN)
  command_offset := u8 (c.K .KASEIKYO_COMMAND_OFFSET)
  command_end := u8 (c.K .KASEIKYO_COMMAND_OFFSET + c.K .KASEIKYO_COMMAND_LEN)
  complete_len := u8 (c.K .KASEIKYO_COMPLETE_DATA_LEN)
  stop_bit := u8 (c.K .KASEIKYO_STOP_BIT)
  lsb_first := u8 (c.K .KASEIKYO_LSB)
  flags := u8 (c.K .KASEIKYO_FLAGS)

/-- Table row `recs80_param`; every field is a `uint8_t`. -/
def recs80_param (c : Config) : IRMP_PARAMETER where
  protocol := IRMP_RECS80_PROTOCOL
  pulse_1_len_min := u8 (c.K .RECS80_PULSE_LEN_MIN)
  pulse_1_len_max := u8 (c.K .RECS80_PULSE_LEN_MAX)
  pause_1_len_min := u8 (c.K .RECS80_1_PAUSE_LEN_MIN)
  pause_1_len_max := u8 (c.K .RECS80_1_PAUSE_LEN_MAX)
  pulse_0_len_min := u8 (c.K .RECS80_PULSE_LEN_MIN)
  pulse_0_len_max := u8 (c.K .RECS80_PULSE_LEN_MAX)
  pause_0_len_min := u8 (c.K .RECS80_0_PAUSE_LEN_MIN)
  pause_0_len_max := u8 (c.K .RECS80_0_PAUSE_LEN_MAX)
  address_offset := u8 (c.K .RECS80_ADDRESS_OFFSET)
  address_end := u8 (c.K .RECS80_ADDRESS_OFFSET + c.K .RECS80_ADDRESS_LEN)
  command_offset := u8 (c.K .RECS80_COMMAND_OFFSET)
  command_end := u8 (c.K .RECS80_COMMAND_OFFSET + c.K .RECS80_COMMAND_LEN)
  complete_len := u8 (c.K .RECS80_COMPLETE_DATA_LEN)
  stop_bit := u8 (c.K .RECS80_STOP_BIT)
  lsb_first := u8 (c.K .RECS80_LSB)
  flags := u8 (c.K .RECS80_FLAGS)

/-- Table row `rc5_param`; every field is a `uint8_t`. -/
def rc5_param (c : Config) : IRMP_PARAMETER where
  protocol := IRMP_RC5_PROTOCOL
  pulse_1_len_min := u8 (c.K .RC5_BIT_LEN_MIN)
  pulse_1_len_max := u8 (c.K .RC5_BIT_LEN_MAX)
  pause_1_len_min := u8 (c.K .RC5_BIT_LEN_MIN)
  pause_1_len_max := u8 (c.K .RC5_BIT_LEN_MAX)
  pulse_0_len_min := u8 (0)
  pulse_0_len_max := u8 (0)
  pause_0_len_min := u8 (0)
  pause_0_len_max := u8 (0)
  address_offset := u8 (c.K .RC5_ADDRESS_OFFSET)
  address_end := u8 (c.K .RC5_ADDRESS_OFFSET + c.K .RC5_ADDRESS_LEN)
  command_offset := u8 (c.K .RC5_COMMAND_OFFSET)
  command_end := u8 (c.K .RC5_COMMAND_OFFSET + c.K .RC5_COMMAND_LEN)
  complete_len := u8 (c.K .RC5_COMPLETE_DATA_LEN)
  stop_bit := u8 (c.K .RC5_STOP_BIT)
  lsb_first := u8 (c.K .RC5_LSB)
  flags := u8 (c.K .RC5_FLAGS)

/-- Table row `denon_param`; every field is a `uint8_t`. -/
def denon_param (c : Config) : IRMP_PARAMETER where
  protocol := IRMP_DENON_PROTOCOL
  pulse_1_len_min := u8 (c.K .DENON_PULSE_LEN_MIN)
  pulse_1_len_max := u8 (c.K .DENON_PULSE_LEN_MAX)
  pause_1_len_min := u8 (c.K .DENON_1_PAUSE_LEN_MIN)
  pause_1_len_max := u8 (c.K .DENON_1_PAUSE_LEN_MAX)
  pulse_0_len_min := u8 (c.K .DENON_PULSE_LEN_MIN)
  pulse_0_len_max := u8 (c.K .DENON_PULSE_LEN_MAX)
  pause_0_len_min := u8 (c.K .DENON_0_PAUSE_LEN_MIN)
  pause_0_len_max := u8 (c.K .DENON_0_PAUSE_LEN_MAX)
  address_offset := u8 (c.K .DENON_ADDRESS_OFFSET)
  address_end := u8 (c.K .DENON_ADDRESS_OFFSET + c.K .DENON_ADDRESS_LEN)
  command_offset := u8 (c.K .DENON_COMMAND_OFFSET)
  command_end := u8 (c.K .DENON_COMMAND_OFFSET + c.K .DENON_COMMAND_LEN)
  complete_len := u8 (c.K .DENON_COMPLETE_DATA_LEN)
  stop_bit := u8 (c.K .DENON_STOP_BIT)
  lsb_first := u8 (c.K .DENON_LSB)
  flags := u8 (c.K .DENON_FLAGS)

/-- Table row `rc6_param`; every field is a `uint8_t`. -/
def rc6_param (c : Config) : IRMP_PARAMETER where
  protocol := IRMP_RC6_PROTOCOL
  pulse_1_len_min := u8 (c.K .RC6_BIT_PULSE_LEN_MIN)
  pulse_1_len_max := u8 (c.K .RC6_BIT_PULSE_LEN_MAX)
  pause_1_len_min := u8 (c.K .RC6_BIT_PAUSE_LEN_MIN)
  pause_1_len_max := u8 (c.K .RC6_BIT_PAUSE_LEN_MAX)
  pulse_0_len_min := u8 (0)
  pulse_0_len_max := u8 (0)
  pause_0_len_min := u8 (0)
  pause_0_len_max := u8 (0)
  address_offset := u8 (c.K .RC6_ADDRESS_OFFSET)
  address_end := u8 (c.K .RC6_ADDRESS_OFFSET + c.K .RC6_ADDRESS_LEN)
  command_offset := u8 (c.K .RC6_COMMAND_OFFSET)
  command_end := u8 (c.K .RC6_COMMAND_OFFSET + c.K .RC6_COMMAND_LEN)
  complete_len := u8 (c.K .RC6_COMPLETE_DATA_LEN_SHORT)
  stop_bit := u8 (c.K .RC6_STOP_BIT)
  lsb_first := u8 (c.K .RC6_LSB)
  flags := u8 (c.K .RC6_FLAGS)

/-- Table row `recs80ext_param`; every field is a `uint8_t`. -/
def recs80ext_param (c : Config) : IRMP_PARAMETER where
  protocol := IRMP_RECS80EXT_PROTOCOL
  pulse_1_len_min := u8 (c.K .RECS80EXT_PULSE_LEN_MIN)
  pulse_1_len_max := u8 (c.K .RECS80EXT_PULSE_LEN_MAX)
  pause_1_len_min := u8 (c.K .RECS80EXT_1_PAUSE_LEN_MIN)
  pause_1_len_max := u8 (c.K .RECS80EXT_1_PAUSE_LEN_MAX)
  pulse_0_len_min := u8 (c.K .RECS80EXT_PULSE_LEN_MIN)
  pulse_0_len_max := u8 (c.K .RECS80EXT_PULSE_LEN_MAX)
  pause_0_len_min := u8 (c.K .RECS80EXT_0_PAUSE_LEN_MIN)
  pause_0_len_max := u8 (c.K .RECS80EXT_0_PAUSE_LEN_MAX)
  address_offset := u8 (c.K .RECS80EXT_ADDRESS_OFFSET)
  address_end := u8 (c.K .RECS80EXT_ADDRESS_OFFSET + c.K .RECS80EXT_ADDRESS_LEN)
  command_offset := u8 (c.K .RECS80EXT_COMMAND_OFFSET)
  command_end := u8 (c.K .RECS80EXT_COMMAND_OFFSET + c.K .RECS80EXT_COMMAND_LEN)
  complete_len := u8 (c.K .RECS80EXT_COMPLETE_DATA_LEN)
  stop_bit := u8 (c.K .RECS80EXT_STOP_BIT)
  lsb_first := u8 (c.K .RECS80EXT_LSB)
  flags := u8 (c.K .RECS80EXT_FLAGS)

/-- Table row `nubert_param`; every field is a `uint8_t`. -/
def nubert_param (c : Config) : IRMP_PARAMETER where
  protocol := IRMP_NUBERT_PROTOCOL
  pulse_1_len_min := u8 (c.K .NUBERT_1_PULSE_LEN_MIN)
  pulse_1_len_max := u8 (c.K .NUBERT_1_PULSE_LEN_MAX)
  pause_1_len_min := u8 (c.K .NUBERT_1_PAUSE_LEN_MIN)
  pause_1_len_max := u8 (c.K .NUBERT_1_PAUSE_LEN_MAX)
  pulse_0_len_min := u8 (c.K .NUBERT_0_PULSE_LEN_MIN)
  pulse_0_len_max := u8 (c.K .NUBERT_0_PULSE_LEN_MAX)
  pause_0_len_min := u8 (c.K .NUBERT_0_PAUSE_LEN_MIN)
  pause_0_len_max := u8 (c.K .NUBERT_0_PAUSE_LEN_MAX)
  address_offset := u8 (c.K .NUBERT_ADDRESS_OFFSET)
  address_end := u8 (c.K .NUBERT_ADDRESS_OFFSET + c.K .NUBERT_ADDRESS_LEN)
  command_offset := u8 (c.K .NUBERT_COMMAND_OFFSET)
  command_end := u8 (c.K .NUBERT_COMMAND_OFFSET + c.K .NUBERT_COMMAND_LEN)
  complete_len := u8 (c.K .NUBERT_COMPLETE_DATA_LEN)
  stop_bit := u8 (c.K .NUBERT_STOP_BIT)
  lsb_first := u8 (c.K .NUBERT_LSB)
  flags := u8 (c.K .NUBERT_FLAGS)

/-- Table row `bang_olufsen_param`; every field is a `uint8_t`. -/
def bang_olufsen_param (c : Config) : IRMP_PARAMETER where
  protocol := IRMP_BANG_OLUFSEN_PROTOCOL
  pulse_1_len_min := u8 (c.K .BANG_OLUFSEN_PULSE_LEN_MIN)
  pulse_1_len_max := u8 (c.K .BANG_OLUFSEN_PULSE_LEN_MAX)
  pause_1_len_min := u8 (c.K .BANG_OLUFSEN_1_PAUSE_LEN_MIN)
  pause_1_len_max := u8 (c.K .BANG_OLUFSEN_1_PAUSE_LEN_MAX)
  pulse_0_len_min := u8 (c.K .BANG_OLUFSEN_PULSE_LEN_MIN)
  pulse_0_len_max := u8 (c.K .BANG_OLUFSEN_PULSE_LEN_MAX)
  pause_0_len_min := u8 (c.K .BANG_OLUFSEN_0_PAUSE_LEN_MIN)
  pause_0_len_max := u8 (c.K .BANG_OLUFSEN_0_PAUSE_LEN_MAX)
  address_offset := u8 (c.K .BANG_OLUFSEN_ADDRESS_OFFSET)
  address_end := u8 (c.K .BANG_OLUFSEN_ADDRESS_OFFSET + c.K .BANG_OLUFSEN_ADDRESS_LEN)
  command_offset := u8 (c.K .BANG_OLUFSEN_COMMAND_OFFSET)
  command_end := u8 (c.K .BANG_OLUFSEN_COMMAND_OFFSET + c.K .BANG_OLUFSEN_COMMAND_LEN)
  complete_len := u8 (c.K .BANG_OLUFSEN_COMPLETE_DATA_LEN)
  stop_bit := u8 (c.K .BANG_OLUFSEN_STOP_BIT)
  lsb_first := u8 (c.K .BANG_OLUFSEN_LSB)
  flags := u8 (c.K .BANG_OLUFSEN_FLAGS)

/-- Table row `grundig_param`; every field is a `uint8_t`. -/
def grundig_param (c : Config) : IRMP_PARAMETER where
  protocol := IRMP_GRUNDIG_PROTOCOL
  pulse_1_len_min := u8 (c.K .GRUNDIG_NOKIA_IR60_BIT_LEN_MIN)
  pulse_1_len_max := u8 (c.K .GRUNDIG_NOKIA_IR60_BIT_LEN_MAX)
  pause_1_len_min := u8 (c.K .GRUNDIG_NOKIA_IR60_BIT_LEN_MIN)
  pause_1_len_max := u8 (c.K .GRUNDIG_NOKIA_IR60_BIT_LEN_MAX)
  pulse_0_len_min := u8 (0)
  pulse_0_len_max := u8 (0)
  pause_0_len_min := u8 (0)
  pause_0_len_max := u8 (0)
  address_offset := u8 (c.K .GRUNDIG_ADDRESS_OFFSET)
  address_end := u8 (c.K .GRUNDIG_ADDRESS_OFFSET + c.K .GRUNDIG_ADDRESS_LEN)
  command_offset := u8 (c.K .GRUNDIG_COMMAND_OFFSET)
  command_end := u8 (c.K .GRUNDIG_COMMAND_OFFSET + c.K .GRUNDIG_COMMAND_LEN + 1)
  complete_len := u8 (c.K .NOKIA_COMPLETE_DATA_LEN)
  stop_bit := u8 (c.K .GRUNDIG_NOKIA_IR60_STOP_BIT)
  lsb_first := u8 (c.K .GRUNDIG_NOKIA_IR60_LSB)
  flags := u8 (c.K .GRUNDIG_NOKIA_IR60_FLAGS)

/-- Table row `ruwido_param`; every field is a `uint8_t`. -/
def ruwido_param (c : Config) : IRMP_PARAMETER where
  protocol := IRMP_RUWIDO_PROTOCOL
  pulse_1_len_min := u8 (c.K .SIEMENS_OR_RUWIDO_BIT_PULSE_LEN_MIN)
  pulse_1_len_max := u8 (c.K .SIEMENS_OR_RUWIDO_BIT_PULSE_LEN_MAX)
  pause_1_len_min := u8 (c.K .SIEMENS_OR_RUWIDO_BIT_PAUSE_LEN_MIN)
  pause_1_len_max := u8 (c.K .SIEMENS_OR_RUWIDO_BIT_PAUSE_LEN_MAX)
  pulse_0_len_min := u8 (0)
  pulse_0_len_max := u8 (0)
  pause_0_len_min := u8 (0)
  pause_0_len_max := u8 (0)
  address_offset := u8 (c.K .RUWIDO_ADDRESS_OFFSET)
  address_end := u8 (c.K .RUWIDO_ADDRESS_OFFSET + c.K .RUWIDO_ADDRESS_LEN)
  command_offset := u8 (c.K .RUWIDO_COMMAND_OFFSET)
  command_end := u8 (c.K .RUWIDO_COMMAND_OFFSET + c.K .RUWIDO_COMMAND_LEN)
  complete_len := u8 (c.K .SIEMENS_COMPLETE_DATA_LEN)
  stop_bit := u8 (c.K .SIEMENS_OR_RUWIDO_STOP_BIT)
  lsb_first := u8 (c.K .SIEMENS_OR_RUWIDO_LSB)
  flags := u8 (c.K .SIEMENS_OR_RUWIDO_FLAGS)

/-- Table row `fdc_param`; every field is a `uint8_t`. -/
def fdc_param (c : Config) : IRMP_PARAMETER where
  protocol := IRMP_FDC_PROTOCOL
  pulse_1_len_min := u8 (c.K .FDC_PULSE_LEN_MIN)
  pulse_1_len_max := u8 (c.K .FDC_PULSE_LEN_MAX)
  pause_1_len_min := u8 (c.K .FDC_1_PAUSE_LEN_MIN)
  pause_1_len_max := u8 (c.K .FDC_1_PAUSE_LEN_MAX)
  pulse_0_len_min := u8 (c.K .FDC_PULSE_LEN_MIN)
  pulse_0_len_max := u8 (c.K .FDC_PULSE_LEN_MAX)
  pause_0_len_min := u8 (c.K .FDC_0_PAUSE_LEN_MIN)
  pause_0_len_max := u8 (c.K .FDC_0_PAUSE_LEN_MAX)
  address_offset := u8 (c.K .FDC_ADDRESS_OFFSET)
  address_end := u8 (c.K .FDC_ADDRESS_OFFSET + c.K .FDC_ADDRESS_LEN)
  command_offset := u8 (c.K .FDC_COMMAND_OFFSET)
  command_end := u8 (c.K .FDC_COMMAND_OFFSET + c.K .FDC_COMMAND_LEN)
  complete_len := u8 (c.K .FDC_COMPLETE_DATA_LEN)
  stop_bit := u8 (c.K .FDC_STOP_BIT)
  lsb_first := u8 (c.K .FDC_LSB)
  flags := u8 (c.K .FDC_FLAGS)

/-- Table row `rccar_param`; every field is a `uint8_t`. -/
def rccar_param (c : Config) : IRMP_PARAMETER where
  protocol := IRMP_RCCAR_PROTOCOL
  pulse_1_len_min := u8 (c.K .RCCAR_PULSE_LEN_MIN)
  pulse_1_len_max := u8 (c.K .RCCAR_PULSE_LEN_MAX)
  pause_1_len_min := u8 (c.K .RCCAR_1_PAUSE_LEN_MIN)
  pause_1_len_max := u8 (c.K .RCCAR_1_PAUSE_LEN_MAX)
  pulse_0_len_min := u8 (c.K .RCCAR_PULSE_LEN_MIN)
  pulse_0_len_max := u8 (c.K .RCCAR_PULSE_LEN_MAX)
  pause_0_len_min := u8 (c.K .RCCAR_0_PAUSE_LEN_MIN)
  pause_0_len_max := u8 (c.K .RCCAR_0_PAUSE_LEN_MAX)
  address_offset := u8 (c.K .RCCAR_ADDRESS_OFFSET)
  address_end := u8 (c.K .RCCAR_ADDRESS_OFFSET + c.K .RCCAR_ADDRESS_LEN)
  command_offset := u8 (c.K .RCCAR_COMMAND_OFFSET)
  command_end := u8 (c.K .RCCAR_COMMAND_OFFSET + c.K .RCCAR_COMMAND_LEN)
  complete_len := u8 (c.K .RCCAR_COMPLETE_DATA_LEN)
  stop_bit := u8 (c.K .RCCAR_STOP_BIT)
  lsb_first := u8 (c.K .RCCAR_LSB)
  flags := u8 (c.K .RCCAR_FLAGS)

/-- Table row `nikon_param`; every field is a `uint8_t`. -/
def nikon_param (c : Config) : IRMP_PARAMETER where
  protocol := IRMP_NIKON_PROTOCOL
  pulse_1_len_min := u8 (c.K .NIKON_PULSE_LEN_MIN)
  pulse_1_len_max := u8 (c.K .NIKON_PULSE_LEN_MAX)
  pause_1_len_min := u8 (c.K .NIKON_1_PAUSE_LEN_MIN)
  pause_1_len_max := u8 (c.K .NIKON_1_PAUSE_LEN_MAX)
  pulse_0_len_min := u8 (c.K .NIKON_PULSE_LEN_MIN)
  pulse_0_len_max := u8 (c.K .NIKON_PULSE_LEN_MAX)
  pause_0_len_min := u8 (c.K .NIKON_0_PAUSE_LEN_MIN)
  pause_0_len_max := u8 (c.K .NIKON_0_PAUSE_LEN_MAX)
  address_offset := u8 (c.K .NIKON_ADDRESS_OFFSET)
  address_end := u8 (c.K .NIKON_ADDRESS_OFFSET + c.K .NIKON_ADDRESS_LEN)
  command_offset := u8 (c.K .NIKON_COMMAND_OFFSET)
  command_end := u8 (c.K .NIKON_COMMAND_OFFSET + c.K .NIKON_COMMAND_LEN)
  complete_len := u8 (c.K .NIKON_COMPLETE_DATA_LEN)
  stop_bit := u8 (c.K .NIKON_STOP_BIT)
  lsb_first := u8 (c.K .NIKON_LSB)
  flags := u8 (c.K .NIKON_FLAGS)

/-- Table row `kathrein_param`; every field is a `uint8_t`. -/
def kathrein_param (c : Config) : IRMP_PARAMETER where
  protocol := IRMP_KATHREIN_PROTOCOL
  pulse_1_len_min := u8 (c.K .KATHREIN_1_PULSE_LEN_MIN)
  pulse_1_len_max := u8 (c.K .KATHREIN_1_PULSE_LEN_MAX)
  pause_1_len_min := u8 (c.K .KATHREIN_1_PAUSE_LEN_MIN)
  pause_1_len_max := u8 (c.K .KATHREIN_1_PAUSE_LEN_MAX)
  pulse_0_len_min := u8 (c.K .KATHREIN_0_PULSE_LEN_MIN)
  pulse_0_len_max := u8 (c.K .KATHREIN_0_PULSE_LEN_MAX)
  pause_0_len_min := u8 (c.K .KATHREIN_0_PAUSE_LEN_MIN)
  pause_0_len_max := u8 (c.K .KATHREIN_0_PAUSE_LEN_MAX)
  address_offset := u8 (c.K .KATHREIN_ADDRESS_OFFSET)
  address_end := u8 (c.K .KATHREIN_ADDRESS_OFFSET + c.K .KATHREIN_ADDRESS_LEN)
  command_offset := u8 (c.K .KATHREIN_COMMAND_OFFSET)
  command_end := u8 (c.K .KATHREIN_COMMAND_OFFSET + c.K .KATHREIN_COMMAND_LEN)
  complete_len := u8 (c.K .KATHREIN_COMPLETE_DATA_LEN)
  stop_bit := u8 (c.K .KATHREIN_STOP_BIT)
  lsb_first := u8 (c.K .KATHREIN_LSB)
  flags := u8 (c.K .KATHREIN_FLAGS)

/-- Table row `netbox_param`; every field is a `uint8_t`. -/
def netbox_param (c : Config) : IRMP_PARAMETER where
  protocol := IRMP_NETBOX_PROTOCOL
  pulse_1_len_min := u8 (c.K .NETBOX_PULSE_LEN)
  pulse_1_len_max := u8 (c.K .NETBOX_PULSE_REST_LEN)
  pause_1_len_min := u8 (c.K .NETBOX_PAUSE_LEN)
  pause_1_len_max := u8 (c.K .NETBOX_PAUSE_REST_LEN)
  pulse_0_len_min := u8 (c.K .NETBOX_PULSE_LEN)
  pulse_0_len_max := u8 (c.K .NETBOX_PULSE_REST_LEN)
  pause_0_len_min := u8 (c.K .NETBOX_PAUSE_LEN)
  pause_0_len_max := u8 (c.K .NETBOX_PAUSE_REST_LEN)
  address_offset := u8 (c.K .NETBOX_ADDRESS_OFFSET)
  address_end := u8 (c.K .NETBOX_ADDRESS_OFFSET + c.K .NETBOX_ADDRESS_LEN)
  command_offset := u8 (c.K .NETBOX_COMMAND_OFFSET)
  command_end := u8 (c.K .NETBOX_COMMAND_OFFSET + c.K .NETBOX_COMMAND_LEN)
  complete_len := u8 (c.K .NETBOX_COMPLETE_DATA_LEN)
  stop_bit := u8 (c.K .NETBOX_STOP_BIT)
  lsb_first := u8 (c.K .NETBOX_LSB)
  flags := u8 (c.K .NETBOX_FLAGS)

/-- Table row `lego_param`; every field is a `uint8_t`. -/
def lego_param (c : Config) : IRMP_PARAMETER where
  protocol := IRMP_LEGO_PROTOCOL
  pulse_1_len_min := u8 (c.K .LEGO_PULSE_LEN_MIN)
  pulse_1_len_max := u8 (c.K .LEGO_PULSE_LEN_MAX)
  pause_1_len_min := u8 (c.K .LEGO_1_PAUSE_LEN_MIN)
  pause_1_len_max := u8 (c.K .LEGO_1_PAUSE_LEN_MAX)
  pulse_0_len_min := u8 (c.K .LEGO_PULSE_LEN_MIN)
  pulse_0_len_max := u8 (c.K .LEGO_PULSE_LEN_MAX)
  pause_0_len_min := u8 (c.K .LEGO_0_PAUSE_LEN_MIN)
  pause_0_len_max := u8 (c.K .LEGO_0_PAUSE_LEN_MAX)
  address_offset := u8 (c.K .LEGO_ADDRESS_OFFSET)
  address_end := u8 (c.K .LEGO_ADDRESS_OFFSET + c.K .LEGO_ADDRESS_LEN)
  command_offset := u8 (c.K .LEGO_COMMAND_OFFSET)
  command_end := u8 (c.K .LEGO_COMMAND_OFFSET + c.K .LEGO_COMMAND_LEN)
  complete_len := u8 (c.K .LEGO_COMPLETE_DATA_LEN)
  stop_bit := u8 (c.K .LEGO_STOP_BIT)
  lsb_first := u8 (c.K .LEGO_LSB)
  flags := u8 (c.K .LEGO_FLAGS)

/-- Table row `thomson_param`; every field is a `uint8_t`. -/
def thomson_param (c : Config) : IRMP_PARAMETER where
  protocol := IRMP_THOMSON_PROTOCOL
  pulse_1_len_min := u8 (c.K .THOMSON_PULSE_LEN_MIN)
  pulse_1_len_max := u8 (c.K .THOMSON_PULSE_LEN_MAX)
  pause_1_len_min := u8 (c.K .THOMSON_1_PAUSE_LEN_MIN)
  pause_1_len_max := u8 (c.K .THOMSON_1_PAUSE_LEN_MAX)
  pulse_0_len_min := u8 (c.K .THOMSON_PULSE_LEN_MIN)
  pulse_0_len_max := u8 (c.K .THOMSON_PULSE_LEN_MAX)
  pause_0_len_min := u8 (c.K .THOMSON_0_PAUSE_LEN_MIN)
  pause_0_len_max := u8 (c.K .THOMSON_0_PAUSE_LEN_MAX)
  address_offset := u8 (c.K .THOMSON_ADDRESS_OFFSET)
  address_end := u8 (c.K .THOMSON_ADDRESS_OFFSET + c.K .THOMSON_ADDRESS_LEN)
  command_offset := u8 (c.K .THOMSON_COMMAND_OFFSET)
  command_end := u8 (c.K .THOMSON_COMMAND_OFFSET + c.K .THOMSON_COMMAND_LEN)
  complete_len := u8 (c.K .THOMSON_COMPLETE_DATA_LEN)
  stop_bit := u8 (c.K .THOMSON_STOP_BIT)
  lsb_first := u8 (c.K .THOMSON_LSB)
  flags := u8 (c.K .THOMSON_FLAGS)
/-! ## Decoder state -/

/-- The file-scope variables of `irmp.c` (lines 1288, 1514-1526, 1721-1733) and the `static`
locals of `irmp_ISR` (lines 1858-1878). -/
structure State where
  irmp_bit : Nat
  irmp_param : IRMP_PARAMETER
  irmp_param2 : IRMP_PARAMETER
  irmp_ir_detected : Nat
  irmp_protocol : Nat
  irmp_address : Nat
  irmp_command : Nat
  irmp_id : Nat
  irmp_flags : Nat
  irmp_tmp_address : Nat
  irmp_tmp_command : Nat
  irmp_tmp_address2 : Nat
  irmp_tmp_command2 : Nat
  irmp_tmp_id : Nat
  xor_check : List Nat
  first_bit : Nat
  irmp_start_bit_detected : Nat
  wait_for_space : Nat
  wait_for_start_space : Nat
  irmp_pulse_time : Nat
  irmp_pause_time : Nat
  last_irmp_address : Nat
  last_irmp_command : Nat
  repetition_len : Nat
  repetition_frame_number : Nat
  last_irmp_denon_command : Nat
  rc5_cmd_bit6 : Nat
  last_pause : Nat
  last_value : Nat
deriving DecidableEq

/-- An all-zero table row: the content of the `static` `irmp_param` at program start. -/
def zero_param : IRMP_PARAMETER :=
  ⟨0, 0, 0, 0, 0, 0, 0, 0, 0, 0, 0, 0, 0, 0, 0, 0, 0⟩

/-- State at program start: statics are zero-initialised, except `last_irmp_address` and
`last_irmp_command` (lines 1863-1864). -/
def initial : State where
  irmp_bit := 0
  irmp_param := zero_param
  irmp_param2 := zero_param
  irmp_ir_detected := 0
  irmp_protocol := 0
  irmp_address := 0
  irmp_command := 0
  irmp_id := 0
  irmp_flags := 0
  irmp_tmp_address := 0
  irmp_tmp_command := 0
  irmp_tmp_address2 := 0
  irmp_tmp_command2 := 0
  irmp_tmp_id := 0
  xor_check := [0, 0, 0, 0, 0, 0]
  first_bit := 0
  irmp_start_bit_detected := 0
  wait_for_space := 0
  wait_for_start_space := 0
  irmp_pulse_time := 0
  irmp_pause_time := 0
  last_irmp_address := 0xFFFF
  last_irmp_command := 0xFFFF
  repetition_len := 0
  repetition_frame_number := 0
  last_irmp_denon_command := 0
  rc5_cmd_bit6 := 0
  last_pause := 0
  last_value := 0

/-! ## `irmp_get_data` (lines 1559-1704) -/

/-- The `switch (irmp_protocol)` of lines 1566-1687: returns `rtc` and the state after the
case body.  A `case` label compiled out by its `#if` falls to `default`. -/
def get_data_switch (c : Config) (s : State) : Bool × State :=
  if c.IRMP_SUPPORT_SAMSUNG_PROTOCOL ∧ s.irmp_protocol = IRMP_SAMSUNG_PROTOCOL then
    if s.irmp_command >>> 8 = (s.irmp_command ^^^ 0xFFFF) &&& 0x00FF then
      (true, { s with irmp_command := ((s.irmp_command &&& 0xff) ||| (s.irmp_id <<< 8)) % 65536 })
    else (false, s)
  else if c.IRMP_SUPPORT_NEC_PROTOCOL ∧ s.irmp_protocol = IRMP_NEC_PROTOCOL then
    if s.irmp_command >>> 8 = (s.irmp_command ^^^ 0xFFFF) &&& 0x00FF then
      (true, { s with irmp_command := s.irmp_command &&& 0xff })
    else if s.irmp_address = 0x87EE then
      (true, { s with irmp_protocol := IRMP_APPLE_PROTOCOL
                      irmp_address := (s.irmp_command &&& 0xFF00) >>> 8
                      irmp_command := s.irmp_command &&& 0x00FF })
    else (false, s)
  else if c.IRMP_SUPPORT_SIEMENS_OR_RUWIDO_PROTOCOL ∧
      (s.irmp_protocol = IRMP_SIEMENS_PROTOCOL ∨ s.irmp_protocol = IRMP_RUWIDO_PROTOCOL) then
    if (s.irmp_command >>> 1) &&& 0x0001 = (s.irmp_command ^^^ 0xFFFF) &&& 0x0001 then
      (true, { s with irmp_command := s.irmp_command >>> 1 })
    else (false, s)
  else if c.IRMP_SUPPORT_KATHREIN_PROTOCOL ∧ s.irmp_protocol = IRMP_KATHREIN_PROTOCOL then
    if s.irmp_command ≠ 0x0000 then (true, s) else (false, s)
  else if c.IRMP_SUPPORT_RC5_PROTOCOL ∧ s.irmp_protocol = IRMP_RC5_PROTOCOL then
    (true, { s with irmp_address := s.irmp_address &&& 0xFFDF })
  else if c.IRMP_SUPPORT_IR60_PROTOCOL ∧ s.irmp_protocol = IRMP_IR60_PROTOCOL then
    if s.irmp_command ≠ 0x007d then (true, s) else (false, s)
  else if c.IRMP_SUPPORT_RCCAR_PROTOCOL ∧ s.irmp_protocol = IRMP_RCCAR_PROTOCOL then
    (true, { s with irmp_address := (s.irmp_command &&& 0x000C) >>> 2
                    irmp_command := (((s.irmp_command &&& 0x1000) >>> 2) |||
                                     ((s.irmp_command &&& 0x0003) <<< 8) |||
                                     ((s.irmp_command &&& 0x0FF0) >>> 4)) % 65536 })
  else if c.IRMP_SUPPORT_NETBOX_PROTOCOL ∧ s.irmp_protocol = IRMP_NETBOX_PROTOCOL then
    if s.irmp_command &&& 0x1000 ≠ 0 then
      if s.irmp_command &&& 0x1f = 0x15 then
        (true, { s with irmp_command := (s.irmp_command >>> 5) &&& 0x7F })
      else if s.irmp_command &&& 0x1f = 0x10 then
        (true, { s with irmp_command := (s.irmp_command >>> 5) ||| 0x80 })
      else (false, s)
    else (false, s)
  else if c.IRMP_SUPPORT_LEGO_PROTOCOL ∧ s.irmp_protocol = IRMP_LEGO_PROTOCOL then
    let crc := (0x0F ^^^ ((s.irmp_command &&& 0xF000) >>> 12) ^^^ ((s.irmp_command &&& 0x0F00) >>> 8)
                 ^^^ ((s.irmp_command &&& 0x00F0) >>> 4)) % 256
    if s.irmp_command &&& 0x000F = crc then
      (true, { s with irmp_command := s.irmp_command >>> 4 })
    else (true, s)
  else (true, s)

/-- Lines 1559-1704: `irmp_get_data`.  The third component is the caller's structure
`*irmp_data_p` after the call, `d` being its content before. -/
def irmp_get_data (c : Config) (s : State) (d : IRMP_DATA) : Bool × State × IRMP_DATA :=
  if s.irmp_ir_detected ≠ 0 then
    let r := get_data_switch c s
    let s1 := r.2
    if r.1 then
      (true,
       { s1 with irmp_command := 0, irmp_address := 0, irmp_flags := 0, irmp_ir_detected := FALSE },
       { protocol := s1.irmp_protocol, address := s1.irmp_address,
         command := s1.irmp_command, flags := s1.irmp_flags })
    else
      (false, { s1 with irmp_ir_detected := FALSE }, d)
  else
    (false, s, d)

/-! ## `irmp_store_bit` (lines 1745-1816) and `irmp_store_bit2` (lines 1825-1847) -/

/-- Lines 1801-1811: the Kaseikyo parity bytes; `xor_check` has six entries. -/
def store_xor_check (s : State) (value : Nat) : State :=
  let i := s.irmp_bit / 8
  let x := s.xor_check.getD i 0
  if value ≠ 0 then
    { s with xor_check := s.xor_check.set i ((x ||| (1 <<< (s.irmp_bit % 8))) % 256) }
  else
    { s with xor_check := s.xor_check.set i ((x &&& (0xFF ^^^ (1 <<< (s.irmp_bit % 8)))) % 256) }

/-- Lines 1745-1816: `irmp_store_bit`. -/
def irmp_store_bit (c : Config) (s : State) (value : Nat) : State :=
  let p := s.irmp_param
  let s1 : State :=
    if c.IRMP_SUPPORT_GRUNDIG_NOKIA_IR60_PROTOCOL ∧ s.irmp_bit = 0 ∧
        p.protocol = IRMP_GRUNDIG_PROTOCOL then
      { s with first_bit := value }
    else if p.address_offset ≤ s.irmp_bit ∧ s.irmp_bit < p.address_end then
      if p.lsb_first ≠ 0 then
        { s with irmp_tmp_address :=
            (s.irmp_tmp_address ||| (value <<< (s.irmp_bit - p.address_offset))) % 65536 }
      else
        { s with irmp_tmp_address := (((s.irmp_tmp_address <<< 1) % 65536) ||| value) % 65536 }
    else if p.command_offset ≤ s.irmp_bit ∧ s.irmp_bit < p.command_end then
      if p.lsb_first ≠ 0 then
        { s with irmp_tmp_command :=
            (s.irmp_tmp_command ||| (value <<< (s.irmp_bit - p.command_offset))) % 65536 }
      else
        { s with irmp_tmp_command := (((s.irmp_tmp_command <<< 1) % 65536) ||| value) % 65536 }
    else if c.IRMP_SUPPORT_NEC42_PROTOCOL ∧ p.protocol = IRMP_NEC42_PROTOCOL ∧
        13 ≤ s.irmp_bit ∧ s.irmp_bit < 26 then
      { s with irmp_tmp_address2 := (s.irmp_tmp_address2 ||| (value <<< (s.irmp_bit - 13))) % 65536 }
    else if c.IRMP_SUPPORT_SAMSUNG_PROTOCOL ∧ p.protocol = IRMP_SAMSUNG_PROTOCOL ∧
        c.K .SAMSUNG_ID_OFFSET ≤ (s.irmp_bit : Int) ∧
        (s.irmp_bit : Int) < c.K .SAMSUNG_ID_OFFSET + c.K .SAMSUNG_ID_LEN then
      { s with irmp_tmp_id :=
          (s.irmp_tmp_id ||| (value <<< ((s.irmp_bit : Int) - c.K .SAMSUNG_ID_OFFSET).toNat)) % 65536 }
    else if c.IRMP_SUPPORT_KASEIKYO_PROTOCOL ∧ p.protocol = IRMP_KASEIKYO_PROTOCOL ∧
        20 ≤ s.irmp_bit ∧ s.irmp_bit < 24 then
      { s with irmp_tmp_command := (s.irmp_tmp_command ||| (value <<< (s.irmp_bit - 8))) % 65536 }
    else s
  let s2 : State :=
    if c.IRMP_SUPPORT_KASEIKYO_PROTOCOL ∧ p.protocol = IRMP_KASEIKYO_PROTOCOL ∧
        (s.irmp_bit : Int) < c.K .KASEIKYO_COMPLETE_DATA_LEN then
      store_xor_check s1 value
    else s1
  { s2 with irmp_bit := (s.irmp_bit + 1) % 256 }

/-- Lines 1825-1847: `irmp_store_bit2`; `irmp_bit2` is a `uint8_t`. -/
def irmp_store_bit2 (s : State) (value : Nat) : State :=
  let irmp_bit2 : Nat :=
    if s.irmp_param.protocol ≠ 0 then (s.irmp_bit + 256 - 2) % 256
    else (s.irmp_bit + 256 - 1) % 256
  let p2 := s.irmp_param2
  if p2.address_offset ≤ irmp_bit2 ∧ irmp_bit2 < p2.address_end then
    { s with irmp_tmp_address2 :=
        (s.irmp_tmp_address2 ||| (value <<< (irmp_bit2 - p2.address_offset))) % 65536 }
  else if p2.command_offset ≤ irmp_bit2 ∧ irmp_bit2 < p2.command_end then
    { s with irmp_tmp_command2 :=
        (s.irmp_tmp_command2 ||| (value <<< (irmp_bit2 - p2.command_offset))) % 65536 }
  else s

/-! ## `irmp_ISR` (lines 1855-3386) -/

/-- Conversion to the `PAUSE_LEN` typedef. -/
def pl (c : Config) (x : Int) : Nat := (x % (c.PAUSE_LEN_MOD : Int)).toNat

/-- Test of a bit mask of the `flags` field: `irmp_param.flags & mask`. -/
def has_flag (p : IRMP_PARAMETER) (mask : Nat) : Prop := p.flags &&& mask ≠ 0

instance (p : IRMP_PARAMETER) (mask : Nat) : Decidable (has_flag p mask) := by
  unfold has_flag; infer_instance

/-- Lines 1904-1946: no start bit detected so far. -/
def isr_idle (c : Config) (s : State) (irmp_input : Bool) : State :=
  if irmp_input = false then
    { s with irmp_pulse_time := (s.irmp_pulse_time + 1) % 256 }
  else if s.irmp_pulse_time ≠ 0 then
    let s1 : State :=
      { s with irmp_start_bit_detected := 1, wait_for_start_space := 1, wait_for_space := 0,
               irmp_tmp_command := 0, irmp_tmp_address := 0 }
    let s2 : State :=
      if c.RC5_WITH_FDC_OR_RCCAR ∨ c.IRMP_SUPPORT_NEC42_PROTOCOL then
        { s1 with irmp_tmp_command2 := 0, irmp_tmp_address2 := 0 }
      else s1
    let s3 : State := { s2 with irmp_bit := 0xff, irmp_pause_time := 1 }
    if c.IRMP_SUPPORT_RC5_PROTOCOL then { s3 with rc5_cmd_bit6 := 0 } else s3
  else if s.repetition_len < 0xFFFF then
    { s with repetition_len := s.repetition_len + 1 }
  else s

/-- Lines 1951-1978: still dark after the start pulse. -/
def isr_start_dark (c : Config) (s : State) : State :=
  let s1 : State := { s with irmp_pause_time := (s.irmp_pause_time + 1) % c.PAUSE_LEN_MOD }
  let timeout : Prop :=
    if c.IRMP_SUPPORT_NIKON_PROTOCOL then
      (((s1.irmp_pulse_time : Int) < c.K .NIKON_START_BIT_PULSE_LEN_MIN ∨
          (s1.irmp_pulse_time : Int) > c.K .NIKON_START_BIT_PULSE_LEN_MAX) ∧
        (s1.irmp_pause_time : Int) > c.K .IRMP_TIMEOUT_LEN) ∨
      (s1.irmp_pause_time : Int) > c.K .IRMP_TIMEOUT_NIKON_LEN
    else (s1.irmp_pause_time : Int) > c.K .IRMP_TIMEOUT_LEN
  if timeout then
    { s1 with irmp_start_bit_detected := 0, irmp_pulse_time := 0, irmp_pause_time := 0 }
  else s1

/-- Lines 1981-2350: the start-bit classifier.  The first component is `irmp_param_p`
(`none` is the null pointer); the state carries the side effects of the chosen branch. -/
def classify (c : Config) (s : State) : Option IRMP_PARAMETER × State :=
  let pu := s.irmp_pulse_time
  let pa := s.irmp_pause_time
  if c.IRMP_SUPPORT_SIRCS_PROTOCOL ∧
      within pu (c.K .SIRCS_START_BIT_PULSE_LEN_MIN) (c.K .SIRCS_START_BIT_PULSE_LEN_MAX) ∧
      within pa (c.K .SIRCS_START_BIT_PAUSE_LEN_MIN) (c.K .SIRCS_START_BIT_PAUSE_LEN_MAX) then
    (some (sircs_param c), s)
  else if c.IRMP_SUPPORT_JVC_PROTOCOL ∧ s.irmp_protocol = IRMP_JVC_PROTOCOL ∧
      within pu (c.K .JVC_START_BIT_PULSE_LEN_MIN) (c.K .JVC_START_BIT_PULSE_LEN_MAX) ∧
      within pa (c.K .JVC_REPEAT_START_BIT_PAUSE_LEN_MIN) (c.K .JVC_REPEAT_START_BIT_PAUSE_LEN_MAX) then
    (some (nec_param c), s)
  else if c.IRMP_SUPPORT_NEC_PROTOCOL ∧
      within pu (c.K .NEC_START_BIT_PULSE_LEN_MIN) (c.K .NEC_START_BIT_PULSE_LEN_MAX) ∧
      within pa (c.K .NEC_START_BIT_PAUSE_LEN_MIN) (c.K .NEC_START_BIT_PAUSE_LEN_MAX) then
    (some (if c.IRMP_SUPPORT_NEC42_PROTOCOL then nec42_param c else nec_param c), s)
  else if c.IRMP_SUPPORT_NEC_PROTOCOL ∧
      within pu (c.K .NEC_START_BIT_PULSE_LEN_MIN) (c.K .NEC_START_BIT_PULSE_LEN_MAX) ∧
      within pa (c.K .NEC_REPEAT_START_BIT_PAUSE_LEN_MIN) (c.K .NEC_REPEAT_START_BIT_PAUSE_LEN_MAX) then
    (some (nec_rep_param c), s)
  else if c.IRMP_SUPPORT_NIKON_PROTOCOL ∧
      within pu (c.K .NIKON_START_BIT_PULSE_LEN_MIN) (c.K .NIKON_START_BIT_PULSE_LEN_MAX) ∧
      within pa (c.K .NIKON_START_BIT_PAUSE_LEN_MIN) (c.K .NIKON_START_BIT_PAUSE_LEN_MAX) then
    (some (nikon_param c), s)
  else if c.IRMP_SUPPORT_SAMSUNG_PROTOCOL ∧
      within pu (c.K .SAMSUNG_START_BIT_PULSE_LEN_MIN) (c.K .SAMSUNG_START_BIT_PULSE_LEN_MAX) ∧
      within pa (c.K .SAMSUNG_START_BIT_PAUSE_LEN_MIN) (c.K .SAMSUNG_START_BIT_PAUSE_LEN_MAX) then
    (some (samsung_param c), s)
  else if c.IRMP_SUPPORT_MATSUSHITA_PROTOCOL ∧
      within pu (c.K .MATSUSHITA_START_BIT_PULSE_LEN_MIN) (c.K .MATSUSHITA_START_BIT_PULSE_LEN_MAX) ∧
      within pa (c.K .MATSUSHITA_START_BIT_PAUSE_LEN_MIN) (c.K .MATSUSHITA_START_BIT_PAUSE_LEN_MAX) then
    (some (matsushita_param c), s)
  else if c.IRMP_SUPPORT_KASEIKYO_PROTOCOL ∧
      within pu (c.K .KASEIKYO_START_BIT_PULSE_LEN_MIN) (c.K .KASEIKYO_START_BIT_PULSE_LEN_MAX) ∧
      within pa (c.K .KASEIKYO_START_BIT_PAUSE_LEN_MIN) (c.K .KASEIKYO_START_BIT_PAUSE_LEN_MAX) then
    (some (kaseikyo_param c), s)
  else if c.IRMP_SUPPORT_RECS80_PROTOCOL ∧
      within pu (c.K .RECS80_START_BIT_PULSE_LEN_MIN) (c.K .RECS80_START_BIT_PULSE_LEN_MAX) ∧
      within pa (c.K .RECS80_START_BIT_PAUSE_LEN_MIN) (c.K .RECS80_START_BIT_PAUSE_LEN_MAX) then
    (some (recs80_param c), s)
  else if c.IRMP_SUPPORT_RC5_PROTOCOL ∧
      (within pu (c.K .RC5_START_BIT_LEN_MIN) (c.K .RC5_START_BIT_LEN_MAX) ∨
        within pu (2 * c.K .RC5_START_BIT_LEN_MIN) (2 * c.K .RC5_START_BIT_LEN_MAX)) ∧
      (within pa (c.K .RC5_START_BIT_LEN_MIN) (c.K .RC5_START_BIT_LEN_MAX) ∨
        within pa (2 * c.K .RC5_START_BIT_LEN_MIN) (2 * c.K .RC5_START_BIT_LEN_MAX)) then
    let s1 : State :=
      if c.IRMP_SUPPORT_FDC_PROTOCOL ∧
          within pu (c.K .FDC_START_BIT_PULSE_LEN_MIN) (c.K .FDC_START_BIT_PULSE_LEN_MAX) ∧
          within pa (c.K .FDC_START_BIT_PAUSE_LEN_MIN) (c.K .FDC_START_BIT_PAUSE_LEN_MAX) then
        { s with irmp_param2 := fdc_param c }
      else if c.IRMP_SUPPORT_RCCAR_PROTOCOL ∧
          within pu (c.K .RCCAR_START_BIT_PULSE_LEN_MIN) (c.K .RCCAR_START_BIT_PULSE_LEN_MAX) ∧
          within pa (c.K .RCCAR_START_BIT_PAUSE_LEN_MIN) (c.K .RCCAR_START_BIT_PAUSE_LEN_MAX) then
        { s with irmp_param2 := rccar_param c }
      else s
    let s2 : State := { s1 with last_pause := pa }
    if (c.K .RC5_START_BIT_LEN_MAX < (pu : Int) ∧ (pu : Int) ≤ 2 * c.K .RC5_START_BIT_LEN_MAX) ∨
        (c.K .RC5_START_BIT_LEN_MAX < (pa : Int) ∧ (pa : Int) ≤ 2 * c.K .RC5_START_BIT_LEN_MAX) then
      (some (rc5_param c), { s2 with last_value := 0, rc5_cmd_bit6 := 1 <<< 6 })
    else
      (some (rc5_param c), { s2 with last_value := 1 })
  else if c.IRMP_SUPPORT_DENON_PROTOCOL ∧
      within pu (c.K .DENON_PULSE_LEN_MIN) (c.K .DENON_PULSE_LEN_MAX) ∧
      (within pa (c.K .DENON_1_PAUSE_LEN_MIN) (c.K .DENON_1_PAUSE_LEN_MAX) ∨
        within pa (c.K .DENON_0_PAUSE_LEN_MIN) (c.K .DENON_0_PAUSE_LEN_MAX)) then
    (some (denon_param c), s)
  else if c.IRMP_SUPPORT_THOMSON_PROTOCOL ∧
      within pu (c.K .THOMSON_PULSE_LEN_MIN) (c.K .THOMSON_PULSE_LEN_MAX) ∧
      (within pa (c.K .THOMSON_1_PAUSE_LEN_MIN) (c.K .THOMSON_1_PAUSE_LEN_MAX) ∨
        within pa (c.K .THOMSON_0_PAUSE_LEN_MIN) (c.K .THOMSON_0_PAUSE_LEN_MAX)) then
    (some (thomson_param c), s)
  else if c.IRMP_SUPPORT_RC6_PROTOCOL ∧
      within pu (c.K .RC6_START_BIT_PULSE_LEN_MIN) (c.K .RC6_START_BIT_PULSE_LEN_MAX) ∧
      within pa (c.K .RC6_START_BIT_PAUSE_LEN_MIN) (c.K .RC6_START_BIT_PAUSE_LEN_MAX) then
    (some (rc6_param c), { s with last_pause := 0, last_value := 1 })
  else if c.IRMP_SUPPORT_RECS80EXT_PROTOCOL ∧
      within pu (c.K .RECS80EXT_START_BIT_PULSE_LEN_MIN) (c.K .RECS80EXT_START_BIT_PULSE_LEN_MAX) ∧
      within pa (c.K .RECS80EXT_START_BIT_PAUSE_LEN_MIN) (c.K .RECS80EXT_START_BIT_PAUSE_LEN_MAX) then
    (some (recs80ext_param c), s)
  else if c.IRMP_SUPPORT_NUBERT_PROTOCOL ∧
      within pu (c.K .NUBERT_START_BIT_PULSE_LEN_MIN) (c.K .NUBERT_START_BIT_PULSE_LEN_MAX) ∧
      within pa (c.K .NUBERT_START_BIT_PAUSE_LEN_MIN) (c.K .NUBERT_START_BIT_PAUSE_LEN_MAX) then
    (some (nubert_param c), s)
  else if c.IRMP_SUPPORT_BANG_OLUFSEN_PROTOCOL ∧
      within pu (c.K .BANG_OLUFSEN_START_BIT1_PULSE_LEN_MIN) (c.K .BANG_OLUFSEN_START_BIT1_PULSE_LEN_MAX) ∧
      within pa (c.K .BANG_OLUFSEN_START_BIT1_PAUSE_LEN_MIN) (c.K .BANG_OLUFSEN_START_BIT1_PAUSE_LEN_MAX) then
    (some (bang_olufsen_param c), { s with last_value := 0 })
  else if c.IRMP_SUPPORT_GRUNDIG_NOKIA_IR60_PROTOCOL ∧
      within pu (c.K .GRUNDIG_NOKIA_IR60_START_BIT_LEN_MIN) (c.K .GRUNDIG_NOKIA_IR60_START_BIT_LEN_MAX) ∧
      within pa (c.K .GRUNDIG_NOKIA_IR60_PRE_PAUSE_LEN_MIN) (c.K .GRUNDIG_NOKIA_IR60_PRE_PAUSE_LEN_MAX) then
    (some (grundig_param c), { s with last_pause := pa, last_value := 1 })
  else if c.IRMP_SUPPORT_SIEMENS_OR_RUWIDO_PROTOCOL ∧
      (within pu (c.K .SIEMENS_OR_RUWIDO_START_BIT_PULSE_LEN_MIN)
          (c.K .SIEMENS_OR_RUWIDO_START_BIT_PULSE_LEN_MAX) ∨
        within pu (2 * c.K .SIEMENS_OR_RUWIDO_START_BIT_PULSE_LEN_MIN)
          (2 * c.K .SIEMENS_OR_RUWIDO_START_BIT_PULSE_LEN_MAX)) ∧
      (within pa (c.K .SIEMENS_OR_RUWIDO_START_BIT_PAUSE_LEN_MIN)
          (c.K .SIEMENS_OR_RUWIDO_START_BIT_PAUSE_LEN_MAX) ∨
        within pa (2 * c.K .SIEMENS_OR_RUWIDO_START_BIT_PAUSE_LEN_MIN)
          (2 * c.K .SIEMENS_OR_RUWIDO_START_BIT_PAUSE_LEN_MAX)) then
    (some (ruwido_param c), { s with last_pause := pa, last_value := 1 })
  else if c.IRMP_SUPPORT_FDC_PROTOCOL ∧
      within pu (c.K .FDC_START_BIT_PULSE_LEN_MIN) (c.K .FDC_START_BIT_PULSE_LEN_MAX) ∧
      within pa (c.K .FDC_START_BIT_PAUSE_LEN_MIN) (c.K .FDC_START_BIT_PAUSE_LEN_MAX) then
    (some (fdc_param c), s)
  else if c.IRMP_SUPPORT_RCCAR_PROTOCOL ∧
      within pu (c.K .RCCAR_START_BIT_PULSE_LEN_MIN) (c.K .RCCAR_START_BIT_PULSE_LEN_MAX) ∧
      within pa (c.K .RCCAR_START_BIT_PAUSE_LEN_MIN) (c.K .RCCAR_START_BIT_PAUSE_LEN_MAX) then
    (some (rccar_param c), s)
  else if c.IRMP_SUPPORT_KATHREIN_PROTOCOL ∧
      within pu (c.K .KATHREIN_START_BIT_PULSE_LEN_MIN) (c.K .KATHREIN_START_BIT_PULSE_LEN_MAX) ∧
      within pa (c.K .KATHREIN_START_BIT_PAUSE_LEN_MIN) (c.K .KATHREIN_START_BIT_PAUSE_LEN_MAX) then
    (some (kathrein_param c), s)
  else if c.IRMP_SUPPORT_NETBOX_PROTOCOL ∧
      within pu (c.K .NETBOX_START_BIT_PULSE_LEN_MIN) (c.K .NETBOX_START_BIT_PULSE_LEN_MAX) ∧
      within pa (c.K .NETBOX_START_BIT_PAUSE_LEN_MIN) (c.K .NETBOX_START_BIT_PAUSE_LEN_MAX) then
    (some (netbox_param c), s)
  else if c.IRMP_SUPPORT_LEGO_PROTOCOL ∧
      within pu (c.K .LEGO_START_BIT_PULSE_LEN_MIN) (c.K .LEGO_START_BIT_PULSE_LEN_MAX) ∧
      within pa (c.K .LEGO_START_BIT_PAUSE_LEN_MIN) (c.K .LEGO_START_BIT_PAUSE_LEN_MAX) then
    (some (lego_param c), s)
  else
    (none, { s with irmp_start_bit_detected := 0 })

/-- Lines 2409-2486: after the classifier, `irmp_bit = 0` and the first data bit of the
Manchester, Denon and Thomson protocols, decided by the start pause. -/
def first_data_bit (c : Config) (s0 : State) : State :=
  let s : State := { s0 with irmp_bit := 0 }
  let p := s.irmp_param
  if c.IRMP_SUPPORT_MANCHESTER ∧ has_flag p IRMP_PARAM_FLAG_IS_MANCHESTER ∧
      p.protocol ≠ IRMP_RUWIDO_PROTOCOL ∧ p.protocol ≠ IRMP_RC6_PROTOCOL then
    if s.irmp_pause_time > p.pulse_1_len_max ∧ s.irmp_pause_time ≤ 2 * p.pulse_1_len_max then
      irmp_store_bit c s (if has_flag p IRMP_PARAM_FLAG_1ST_PULSE_IS_1 then 0 else 1)
    else if s.last_value = 0 then
      irmp_store_bit c s (if has_flag p IRMP_PARAM_FLAG_1ST_PULSE_IS_1 then 1 else 0)
    else s
  else if c.IRMP_SUPPORT_SERIAL ∧ has_flag p IRMP_PARAM_FLAG_IS_SERIAL then
    s
  else if c.IRMP_SUPPORT_DENON_PROTOCOL ∧ p.protocol = IRMP_DENON_PROTOCOL then
    if within s.irmp_pause_time (c.K .DENON_1_PAUSE_LEN_MIN) (c.K .DENON_1_PAUSE_LEN_MAX) then
      irmp_store_bit c s 1
    else
      irmp_store_bit c s 0
  else if c.IRMP_SUPPORT_THOMSON_PROTOCOL ∧ p.protocol = IRMP_THOMSON_PROTOCOL then
    if within s.irmp_pause_time (c.K .THOMSON_1_PAUSE_LEN_MIN) (c.K .THOMSON_1_PAUSE_LEN_MAX) then
      irmp_store_bit c s 1
    else
      irmp_store_bit c s 0
  else s

/-- Lines 1983-1985: `irmp_param2.protocol = 0`, compiled in when `irmp_param2` exists. -/
def reset_param2 (c : Config) (s : State) : State :=
  if c.RC5_WITH_FDC_OR_RCCAR then { s with irmp_param2 := { s.irmp_param2 with protocol := 0 } }
  else s

/-- Lines 2352-2354: `memcpy_P (&irmp_param, irmp_param_p, ...)` when a protocol was found. -/
def load_param (r : Option IRMP_PARAMETER × State) : State :=
  if r.2.irmp_start_bit_detected ≠ 0 then
    match r.1 with
    | some p => { r.2 with irmp_param := p }
    | none => r.2
  else r.2

/-- Lines 1980-2491: the first data pulse begins; the start pair is classified. -/
def isr_start_light (c : Config) (s : State) : State :=
  let s3 : State := first_data_bit c (load_param (classify c (reset_param2 c s)))
  { s3 with irmp_pulse_time := 1, irmp_pause_time := 0, wait_for_start_space := 0 }

/-- Lines 2636-2697: the pause after a data bit exceeded `IRMP_TIMEOUT_LEN`. -/
def data_timeout (c : Config) (s : State) : State :=
  let p := s.irmp_param
  if (s.irmp_bit : Int) = (p.complete_len : Int) - 1 ∧ p.stop_bit = 0 then
    { s with irmp_bit := (s.irmp_bit + 1) % 256 }
  else if c.IRMP_SUPPORT_JVC_PROTOCOL ∧ p.protocol = IRMP_NEC_PROTOCOL ∧
      (s.irmp_bit = 16 ∨ s.irmp_bit = 17) then
    { s with irmp_param := { p with stop_bit := TRUE, protocol := IRMP_JVC_PROTOCOL,
                                    complete_len := s.irmp_bit }
             irmp_tmp_command := s.irmp_tmp_address >>> 4
             irmp_tmp_address := s.irmp_tmp_address &&& 0x000F
             irmp_start_bit_detected := 1 }
  else if c.IRMP_SUPPORT_NEC42_PROTOCOL ∧ c.IRMP_SUPPORT_NEC_PROTOCOL ∧
      p.protocol = IRMP_NEC42_PROTOCOL ∧ s.irmp_bit = 32 then
    { s with irmp_param := { p with stop_bit := TRUE, protocol := IRMP_NEC_PROTOCOL,
                                    complete_len := s.irmp_bit }
             irmp_tmp_address :=
               (s.irmp_tmp_address ||| ((s.irmp_tmp_address2 &&& 0x0007) <<< 12)) % 65536
             irmp_tmp_command :=
               ((s.irmp_tmp_address2 >>> 3) ||| (s.irmp_tmp_command <<< 10)) % 65536 }
  else if c.IRMP_SUPPORT_NEC42_PROTOCOL ∧ c.IRMP_SUPPORT_JVC_PROTOCOL ∧
      p.protocol = IRMP_NEC42_PROTOCOL ∧ s.irmp_bit = 16 then
    { s with irmp_param := { p with stop_bit := TRUE, protocol := IRMP_JVC_PROTOCOL,
                                    complete_len := s.irmp_bit }
             irmp_tmp_command :=
               ((s.irmp_tmp_address >>> 4) ||| (s.irmp_tmp_address2 <<< 9)) % 65536
             irmp_tmp_address := s.irmp_tmp_address &&& 0x000F }
  else
    { s with irmp_start_bit_detected := 0, irmp_pulse_time := 0, irmp_pause_time := 0 }

/-- Lines 2497-2699: data section, still dark.  The second component is `got_light`. -/
def isr_space_dark (c : Config) (s : State) : State × Bool :=
  let p := s.irmp_param
  if s.irmp_bit = p.complete_len ∧ p.stop_bit = 1 then
    if (c.IRMP_SUPPORT_MANCHESTER ∧ has_flag p IRMP_PARAM_FLAG_IS_MANCHESTER) ∨
        (c.IRMP_SUPPORT_SERIAL ∧ has_flag p IRMP_PARAM_FLAG_IS_SERIAL) ∨
        (p.pulse_0_len_min ≤ s.irmp_pulse_time ∧ s.irmp_pulse_time ≤ p.pulse_0_len_max) then
      ({ s with irmp_param := { p with stop_bit := 0 } }, false)
    else
      ({ s with irmp_start_bit_detected := 0, irmp_pulse_time := 0, irmp_pause_time := 0 }, false)
  else
    let s1 : State := { s with irmp_pause_time := (s.irmp_pause_time + 1) % c.PAUSE_LEN_MOD }
    let pa := s1.irmp_pause_time
    if c.IRMP_SUPPORT_SIRCS_PROTOCOL ∧ p.protocol = IRMP_SIRCS_PROTOCOL ∧
        (pa : Int) > c.K .SIRCS_PAUSE_LEN_MAX ∧ s1.irmp_bit ≥ 12 - 1 then
      ({ s1 with
           irmp_param := { p with complete_len := (s1.irmp_bit + 1) % 256,
                                  command_end := (p.command_offset + s1.irmp_bit + 1) % 256 }
           irmp_tmp_address :=
             (s1.irmp_tmp_address |||
               u16 (((s1.irmp_bit : Int) - c.K .SIRCS_MINIMUM_DATA_LEN + 1) * 256)) % 65536
           irmp_pause_time := pl c (c.K .SIRCS_PAUSE_LEN_MAX - 1) }, true)
    else if c.IRMP_SUPPORT_SERIAL ∧ has_flag p IRMP_PARAM_FLAG_IS_SERIAL ∧
        p.protocol = IRMP_NETBOX_PROTOCOL ∧
        (pa : Int) ≥ c.K .NETBOX_PULSE_LEN * (c.K .NETBOX_COMPLETE_DATA_LEN - (s1.irmp_bit : Int)) then
      (s1, true)
    else if c.IRMP_SUPPORT_GRUNDIG_NOKIA_IR60_PROTOCOL ∧ p.protocol = IRMP_GRUNDIG_PROTOCOL ∧
        p.stop_bit = 0 then
      if (pa : Int) > c.K .IR60_TIMEOUT_LEN ∧ s1.irmp_bit = 6 then
        ({ s1 with
             irmp_param := { p with stop_bit := TRUE, protocol := IRMP_IR60_PROTOCOL,
                                    complete_len := u8 (c.K .IR60_COMPLETE_DATA_LEN),
                                    address_offset := u8 (c.K .IR60_ADDRESS_OFFSET),
                                    address_end := u8 (c.K .IR60_ADDRESS_OFFSET + c.K .IR60_ADDRESS_LEN),
                                    command_offset := u8 (c.K .IR60_COMMAND_OFFSET),
                                    command_end := u8 (c.K .IR60_COMMAND_OFFSET + c.K .IR60_COMMAND_LEN) }
             irmp_tmp_command := (((s1.irmp_tmp_command <<< 1) % 65536) ||| s1.first_bit) % 65536 },
         true)
      else if pa ≥ 2 * p.pause_1_len_max ∧
          (s1.irmp_bit : Int) ≥ c.K .GRUNDIG_COMPLETE_DATA_LEN - 2 then
        ({ s1 with irmp_param := { p with complete_len := u8 (c.K .GRUNDIG_COMPLETE_DATA_LEN),
                                          stop_bit := TRUE } }, true)
      else if (s1.irmp_bit : Int) ≥ c.K .GRUNDIG_COMPLETE_DATA_LEN then
        let s2 : State :=
          { s1 with
              irmp_param := { p with protocol := IRMP_NOKIA_PROTOCOL,
                                     address_offset := u8 (c.K .NOKIA_ADDRESS_OFFSET),
                                     address_end := u8 (c.K .NOKIA_ADDRESS_OFFSET + c.K .NOKIA_ADDRESS_LEN),
                                     command_offset := u8 (c.K .NOKIA_COMMAND_OFFSET),
                                     command_end := u8 (c.K .NOKIA_COMMAND_OFFSET + c.K .NOKIA_COMMAND_LEN) } }
        if s2.irmp_tmp_command &&& 0x300 ≠ 0 then
          ({ s2 with irmp_tmp_address := s2.irmp_tmp_command >>> 8,
                     irmp_tmp_command := s2.irmp_tmp_command &&& 0xFF }, false)
        else (s2, false)
      else (s1, false)
    else if c.IRMP_SUPPORT_SIEMENS_OR_RUWIDO_PROTOCOL ∧ p.protocol = IRMP_RUWIDO_PROTOCOL ∧
        p.stop_bit = 0 then
      if pa ≥ 2 * p.pause_1_len_max ∧ (s1.irmp_bit : Int) ≥ c.K .RUWIDO_COMPLETE_DATA_LEN - 2 then
        ({ s1 with irmp_param := { p with complete_len := u8 (c.K .RUWIDO_COMPLETE_DATA_LEN),
                                          stop_bit := TRUE } }, true)
      else if (s1.irmp_bit : Int) ≥ c.K .RUWIDO_COMPLETE_DATA_LEN then
        let a1 := (s1.irmp_tmp_address <<< 2) % 65536
        let a2 := (a1 ||| (s1.irmp_tmp_command >>> 6)) % 65536
        let c1 := s1.irmp_tmp_command &&& 0x003F
        let c2 := (c1 <<< 4) % 65536
        ({ s1 with
             irmp_param := { p with protocol := IRMP_SIEMENS_PROTOCOL,
                                    address_offset := u8 (c.K .SIEMENS_ADDRESS_OFFSET),
                                    address_end := u8 (c.K .SIEMENS_ADDRESS_OFFSET + c.K .SIEMENS_ADDRESS_LEN),
                                    command_offset := u8 (c.K .SIEMENS_COMMAND_OFFSET),
                                    command_end := u8 (c.K .SIEMENS_COMMAND_OFFSET + c.K .SIEMENS_COMMAND_LEN) }
             irmp_tmp_address := a2
             irmp_tmp_command := (c2 ||| s1.last_value) % 65536 }, false)
      else (s1, false)
    else if c.IRMP_SUPPORT_MANCHESTER ∧ has_flag p IRMP_PARAM_FLAG_IS_MANCHESTER ∧
        pa ≥ 2 * p.pause_1_len_max ∧ (s1.irmp_bit : Int) ≥ (p.complete_len : Int) - 2 ∧
        p.stop_bit = 0 then
      ({ s1 with irmp_param := { p with stop_bit := TRUE } }, true)
    else if (pa : Int) > c.K .IRMP_TIMEOUT_LEN then
      (data_timeout c s1, false)
    else (s1, false)

/-- Lines 2710-2897: a run pair of a Manchester protocol. -/
def got_light_manchester (c : Config) (s : State) : State :=
  let first_is_1 : Prop := has_flag s.irmp_param IRMP_PARAM_FLAG_1ST_PULSE_IS_1
  let rc6_toggle (t : State) : Prop :=
    c.IRMP_SUPPORT_RC6_PROTOCOL ∧ t.irmp_param.protocol = IRMP_RC6_PROTOCOL ∧ t.irmp_bit = 4 ∧
      (t.irmp_pulse_time : Int) > c.K .RC6_TOGGLE_BIT_LEN_MIN
  -- lines 2713-2844
  let sa : State :=
    if s.irmp_pulse_time > s.irmp_param.pulse_1_len_max then
      if rc6_toggle s then
        if (s.irmp_param.complete_len : Int) = c.K .RC6_COMPLETE_DATA_LEN_LONG then
          { irmp_store_bit c s 1 with last_value := 1 }
        else
          { irmp_store_bit c s 0 with last_value := 0 }
      else
        let s1 := irmp_store_bit c s (if first_is_1 then 0 else 1)
        if rc6_toggle s1 then
          let s2 := irmp_store_bit c s1 1
          if s2.irmp_pause_time > 2 * s2.irmp_param.pause_1_len_max then
            { s2 with last_value := 0 }
          else
            { s2 with last_value := 1 }
        else
          let s2 := irmp_store_bit c s1 (if first_is_1 then 1 else 0)
          { s2 with last_value := if first_is_1 then 1 else 0 }
    else if s.irmp_param.pulse_1_len_min ≤ s.irmp_pulse_time ∧
        s.irmp_pulse_time ≤ s.irmp_param.pulse_1_len_max then
      let long_pause : Prop :=
        s.last_pause > s.irmp_param.pause_1_len_max ∧ s.last_pause ≤ 2 * s.irmp_param.pause_1_len_max
      let manchester_value : Nat :=
        if long_pause then (if s.last_value ≠ 0 then 0 else 1) else s.last_value
      let s1 : State := if long_pause then { s with last_value := manchester_value } else s
      let s2 : State :=
        if c.IRMP_SUPPORT_RC6_PROTOCOL ∧ s1.irmp_param.protocol = IRMP_RC6_PROTOCOL ∧
            s1.irmp_bit = 1 ∧ manchester_value = 1 then
          { s1 with
              irmp_param := { s1.irmp_param with
                                complete_len := u8 (c.K .RC6_COMPLETE_DATA_LEN_LONG),
                                address_offset := 5,
                                address_end := 5 + 15,
                                command_offset := 5 + 15 + 1,
                                command_end := 5 + 15 + 1 + 16 - 1 }
              irmp_tmp_address := 0 }
        else s1
      irmp_store_bit c s2 manchester_value
    else
      if c.IRMP_SUPPORT_RC5_PROTOCOL ∧ c.IRMP_SUPPORT_FDC_PROTOCOL ∧
          s.irmp_param2.protocol = IRMP_FDC_PROTOCOL ∧
          within s.irmp_pulse_time (c.K .FDC_PULSE_LEN_MIN) (c.K .FDC_PULSE_LEN_MAX) ∧
          (within s.irmp_pause_time (c.K .FDC_1_PAUSE_LEN_MIN) (c.K .FDC_1_PAUSE_LEN_MAX) ∨
            within s.irmp_pause_time (c.K .FDC_0_PAUSE_LEN_MIN) (c.K .FDC_0_PAUSE_LEN_MAX)) then
        { s with irmp_param := { s.irmp_param with protocol := 0 } }
      else if c.IRMP_SUPPORT_RC5_PROTOCOL ∧ c.IRMP_SUPPORT_RCCAR_PROTOCOL ∧
          s.irmp_param2.protocol = IRMP_RCCAR_PROTOCOL ∧
          within s.irmp_pulse_time (c.K .RCCAR_PULSE_LEN_MIN) (c.K .RCCAR_PULSE_LEN_MAX) ∧
          (within s.irmp_pause_time (c.K .RCCAR_1_PAUSE_LEN_MIN) (c.K .RCCAR_1_PAUSE_LEN_MAX) ∨
            within s.irmp_pause_time (c.K .RCCAR_0_PAUSE_LEN_MIN) (c.K .RCCAR_0_PAUSE_LEN_MAX)) then
        { s with irmp_param := { s.irmp_param with protocol := 0 } }
      else
        { s with irmp_start_bit_detected := 0, irmp_pause_time := 0 }
  -- lines 2846-2869
  let adopt (t : State) : State :=
    if t.irmp_param.protocol = 0 then
      { t with irmp_param := t.irmp_param2
               irmp_param2 := { t.irmp_param2 with protocol := 0 }
               irmp_tmp_address := t.irmp_tmp_address2
               irmp_tmp_command := t.irmp_tmp_command2 }
    else t
  let sb : State :=
    if c.IRMP_SUPPORT_RC5_PROTOCOL ∧ c.IRMP_SUPPORT_FDC_PROTOCOL ∧
        sa.irmp_param2.protocol = IRMP_FDC_PROTOCOL ∧
        within sa.irmp_pulse_time (c.K .FDC_PULSE_LEN_MIN) (c.K .FDC_PULSE_LEN_MAX) then
      let t : State :=
        if within sa.irmp_pause_time (c.K .FDC_1_PAUSE_LEN_MIN) (c.K .FDC_1_PAUSE_LEN_MAX) then
          irmp_store_bit2 sa 1
        else if within sa.irmp_pause_time (c.K .FDC_0_PAUSE_LEN_MIN) (c.K .FDC_0_PAUSE_LEN_MAX) then
          irmp_store_bit2 sa 0
        else sa
      adopt t
    else sa
  -- lines 2870-2893
  let sc : State :=
    if c.IRMP_SUPPORT_RC5_PROTOCOL ∧ c.IRMP_SUPPORT_RCCAR_PROTOCOL ∧
        sb.irmp_param2.protocol = IRMP_RCCAR_PROTOCOL ∧
        within sb.irmp_pulse_time (c.K .RCCAR_PULSE_LEN_MIN) (c.K .RCCAR_PULSE_LEN_MAX) then
      let t : State :=
        if within sb.irmp_pause_time (c.K .RCCAR_1_PAUSE_LEN_MIN) (c.K .RCCAR_1_PAUSE_LEN_MAX) then
          irmp_store_bit2 sb 1
        else if within sb.irmp_pause_time (c.K .RCCAR_0_PAUSE_LEN_MIN) (c.K .RCCAR_0_PAUSE_LEN_MAX) then
          irmp_store_bit2 sb 0
        else sb
      adopt t
    else sb
  { sc with last_pause := sc.irmp_pause_time, wait_for_space := 0 }

/-- Lines 2904-2917: first loop of the serial decoder; the first argument bounds the number
of iterations. -/
def serial_pulse_loop (c : Config) : Nat → State → State
  | 0, s => s
  | n + 1, s =>
    if s.irmp_bit < s.irmp_param.complete_len ∧
        s.irmp_pulse_time > s.irmp_param.pulse_1_len_max then
      let s1 := irmp_store_bit c s 1
      let s2 : State :=
        if s1.irmp_pulse_time ≥ s1.irmp_param.pulse_1_len_min then
          { s1 with irmp_pulse_time := s1.irmp_pulse_time - s1.irmp_param.pulse_1_len_min }
        else
          { s1 with irmp_pulse_time := 0 }
      serial_pulse_loop c n s2
    else s

/-- Lines 2919-2932: second loop of the serial decoder; the first argument bounds the
number of iterations. -/
def serial_pause_loop (c : Config) : Nat → State → State
  | 0, s => s
  | n + 1, s =>
    if s.irmp_bit < s.irmp_param.complete_len ∧
        s.irmp_pause_time > s.irmp_param.pause_1_len_max then
      let s1 := irmp_store_bit c s 0
      let s2 : State :=
        if s1.irmp_pause_time ≥ s1.irmp_param.pause_1_len_min then
          { s1 with irmp_pause_time := s1.irmp_pause_time - s1.irmp_param.pause_1_len_min }
        else
          { s1 with irmp_pause_time := 0 }
      serial_pause_loop c n s2
    else s

/-- Lines 2902-2935: a run pair of the serial protocol.  Each loop iteration increments
the 8-bit `irmp_bit` below `complete_len`, so 256 iterations are never exceeded. -/
def got_light_serial (c : Config) (s : State) : State :=
  let s1 := serial_pulse_loop c 256 s
  let s2 := serial_pause_loop c 256 s1
  { s2 with wait_for_space := 0 }

/-- Lines 2940-2982: Samsung, 16th bit (sync pause or switch to SAMSUNG32). -/
def got_light_samsung (c : Config) (s : State) : State :=
  if within s.irmp_pulse_time (c.K .SAMSUNG_PULSE_LEN_MIN) (c.K .SAMSUNG_PULSE_LEN_MAX) ∧
      within s.irmp_pause_time (c.K .SAMSUNG_START_BIT_PAUSE_LEN_MIN)
        (c.K .SAMSUNG_START_BIT_PAUSE_LEN_MAX) then
    { s with wait_for_space := 0, irmp_tmp_id := 0, irmp_bit := (s.irmp_bit + 1) % 256 }
  else if within s.irmp_pulse_time (c.K .SAMSUNG_PULSE_LEN_MIN) (c.K .SAMSUNG_PULSE_LEN_MAX) then
    let s1 : State :=
      { s with irmp_param :=
          { s.irmp_param with
              protocol := IRMP_SAMSUNG32_PROTOCOL,
              command_offset := u8 (c.K .SAMSUNG32_COMMAND_OFFSET),
              command_end := u8 (c.K .SAMSUNG32_COMMAND_OFFSET + c.K .SAMSUNG32_COMMAND_LEN),
              complete_len := u8 (c.K .SAMSUNG32_COMPLETE_DATA_LEN) } }
    if within s1.irmp_pause_time (c.K .SAMSUNG_1_PAUSE_LEN_MIN) (c.K .SAMSUNG_1_PAUSE_LEN_MAX) then
      { irmp_store_bit c s1 1 with wait_for_space := 0 }
    else
      { irmp_store_bit c s1 0 with wait_for_space := 0 }
  else
    { s with irmp_start_bit_detected := 0, irmp_pause_time := 0 }

/-- Lines 3007-3088: Bang & Olufsen. -/
def got_light_bang_olufsen (c : Config) (s : State) : State :=
  let err : State := { s with irmp_start_bit_detected := 0, irmp_pause_time := 0 }
  if within s.irmp_pulse_time (c.K .BANG_OLUFSEN_PULSE_LEN_MIN) (c.K .BANG_OLUFSEN_PULSE_LEN_MAX) then
    if s.irmp_bit = 1 then
      if within s.irmp_pause_time (c.K .BANG_OLUFSEN_START_BIT3_PAUSE_LEN_MIN)
          (c.K .BANG_OLUFSEN_START_BIT3_PAUSE_LEN_MAX) then
        { s with wait_for_space := 0, irmp_bit := (s.irmp_bit + 1) % 256 }
      else err
    else if s.irmp_bit = 19 then
      if within s.irmp_pause_time (c.K .BANG_OLUFSEN_TRAILER_BIT_PAUSE_LEN_MIN)
          (c.K .BANG_OLUFSEN_TRAILER_BIT_PAUSE_LEN_MAX) then
        { s with wait_for_space := 0, irmp_bit := (s.irmp_bit + 1) % 256 }
      else err
    else
      if within s.irmp_pause_time (c.K .BANG_OLUFSEN_1_PAUSE_LEN_MIN)
          (c.K .BANG_OLUFSEN_1_PAUSE_LEN_MAX) then
        { irmp_store_bit c s 1 with last_value := 1, wait_for_space := 0 }
      else if within s.irmp_pause_time (c.K .BANG_OLUFSEN_0_PAUSE_LEN_MIN)
          (c.K .BANG_OLUFSEN_0_PAUSE_LEN_MAX) then
        { irmp_store_bit c s 0 with last_value := 0, wait_for_space := 0 }
      else if within s.irmp_pause_time (c.K .BANG_OLUFSEN_R_PAUSE_LEN_MIN)
          (c.K .BANG_OLUFSEN_R_PAUSE_LEN_MAX) then
        { irmp_store_bit c s s.last_value with wait_for_space := 0 }
      else err
  else err

/-- Lines 2705-3145: a run pair (pulse, pause) is complete (`got_light`). -/
def isr_got_light (c : Config) (s : State) : State :=
  let p := s.irmp_param
  let s1 : State :=
    if c.IRMP_SUPPORT_MANCHESTER ∧ has_flag p IRMP_PARAM_FLAG_IS_MANCHESTER then
      got_light_manchester c s
    else if c.IRMP_SUPPORT_SERIAL ∧ has_flag p IRMP_PARAM_FLAG_IS_SERIAL then
      got_light_serial c s
    else if c.IRMP_SUPPORT_SAMSUNG_PROTOCOL ∧ p.protocol = IRMP_SAMSUNG_PROTOCOL ∧
        s.irmp_bit = 16 then
      got_light_samsung c s
    else if c.IRMP_SUPPORT_NEC16_PROTOCOL ∧
        p.protocol = (if c.IRMP_SUPPORT_NEC42_PROTOCOL then IRMP_NEC42_PROTOCOL
                      else IRMP_NEC_PROTOCOL) ∧
        s.irmp_bit = 8 ∧
        within s.irmp_pause_time (c.K .NEC_START_BIT_PAUSE_LEN_MIN)
          (c.K .NEC_START_BIT_PAUSE_LEN_MAX) then
      { s with
          irmp_param := { p with
                            protocol := IRMP_NEC16_PROTOCOL,
                            address_offset := u8 (c.K .NEC16_ADDRESS_OFFSET),
                            address_end := u8 (c.K .NEC16_ADDRESS_OFFSET + c.K .NEC16_ADDRESS_LEN),
                            command_offset := u8 (c.K .NEC16_COMMAND_OFFSET),
                            command_end := u8 (c.K .NEC16_COMMAND_OFFSET + c.K .NEC16_COMMAND_LEN),
                            complete_len := u8 (c.K .NEC16_COMPLETE_DATA_LEN) }
          wait_for_space := 0 }
    else if c.IRMP_SUPPORT_BANG_OLUFSEN_PROTOCOL ∧ p.protocol = IRMP_BANG_OLUFSEN_PROTOCOL then
      got_light_bang_olufsen c s
    else if p.pulse_1_len_min ≤ s.irmp_pulse_time ∧ s.irmp_pulse_time ≤ p.pulse_1_len_max ∧
        p.pause_1_len_min ≤ s.irmp_pause_time ∧ s.irmp_pause_time ≤ p.pause_1_len_max then
      { irmp_store_bit c s 1 with wait_for_space := 0 }
    else if p.pulse_0_len_min ≤ s.irmp_pulse_time ∧ s.irmp_pulse_time ≤ p.pulse_0_len_max ∧
        p.pause_0_len_min ≤ s.irmp_pause_time ∧ s.irmp_pause_time ≤ p.pause_0_len_max then
      { irmp_store_bit c s 0 with wait_for_space := 0 }
    else if c.IRMP_SUPPORT_KATHREIN_PROTOCOL ∧ p.protocol = IRMP_KATHREIN_PROTOCOL ∧
        within s.irmp_pulse_time (c.K .KATHREIN_1_PULSE_LEN_MIN) (c.K .KATHREIN_1_PULSE_LEN_MAX) ∧
        (((s.irmp_bit = 8 ∨ s.irmp_bit = 6) ∧
            within s.irmp_pause_time (c.K .KATHREIN_SYNC_BIT_PAUSE_LEN_MIN)
              (c.K .KATHREIN_SYNC_BIT_PAUSE_LEN_MAX)) ∨
          (s.irmp_bit = 12 ∧
            within s.irmp_pause_time (c.K .KATHREIN_START_BIT_PAUSE_LEN_MIN)
              (c.K .KATHREIN_START_BIT_PAUSE_LEN_MAX))) then
      if s.irmp_bit = 8 then
        { s with irmp_bit := (s.irmp_bit + 1) % 256,
                 irmp_tmp_command := (s.irmp_tmp_command <<< 1) % 65536,
                 wait_for_space := 0 }
      else
        { irmp_store_bit c s 1 with wait_for_space := 0 }
    else
      { s with irmp_start_bit_detected := 0, irmp_pause_time := 0 }
  { s1 with irmp_pulse_time := 1 }

/-- Lines 3147-3158: counting the pulse of a data bit. -/
def isr_pulse (s : State) (irmp_input : Bool) : State :=
  if irmp_input = false then
    { s with irmp_pulse_time := (s.irmp_pulse_time + 1) % 256 }
  else
    { s with wait_for_space := 1, irmp_pause_time := 1 }

/-- Lines 3219-3348: the frame is accepted for latching (`irmp_ir_detected = TRUE` was just
set): protocol specific checks, then the frame is copied to the output variables. -/
def latch_frame (c : Config) (s0 : State) : State :=
  let s : State := { s0 with irmp_ir_detected := TRUE }
  let p := s.irmp_param
  if c.IRMP_SUPPORT_DENON_PROTOCOL ∧ p.protocol = IRMP_DENON_PROTOCOL then
    if (s.irmp_tmp_command ^^^ 0xFFFF) &&& 0x3FF = s.last_irmp_denon_command then
      { s with irmp_tmp_command := s.last_irmp_denon_command
               irmp_protocol := p.protocol
               irmp_address := s.irmp_tmp_address
               irmp_command := s.last_irmp_denon_command }
    else
      { s with irmp_ir_detected := FALSE, last_irmp_denon_command := s.irmp_tmp_command }
  else if c.IRMP_SUPPORT_GRUNDIG_PROTOCOL ∧ p.protocol = IRMP_GRUNDIG_PROTOCOL ∧
      s.irmp_tmp_command = 0x01ff then
    { s with irmp_ir_detected := FALSE }
  else if c.IRMP_SUPPORT_NOKIA_PROTOCOL ∧ p.protocol = IRMP_NOKIA_PROTOCOL ∧
      s.irmp_tmp_address = 0x00ff ∧ s.irmp_tmp_command = 0x00fe then
    { s with irmp_ir_detected := FALSE }
  else
    -- lines 3258-3276
    let s1 : State :=
      if c.IRMP_SUPPORT_NEC_PROTOCOL ∧ p.protocol = IRMP_NEC_PROTOCOL ∧ s.irmp_bit = 0 then
        if (s.repetition_len : Int) < c.K .NEC_FRAME_REPEAT_PAUSE_LEN_MAX then
          { s with irmp_tmp_address := s.last_irmp_address
                   irmp_tmp_command := s.last_irmp_command
                   irmp_flags := (s.irmp_flags ||| IRMP_FLAG_REPETITION) % 256
                   repetition_len := 0 }
        else
          { s with irmp_ir_detected := FALSE }
      else s
    -- lines 3278-3301
    let s2 : State :=
      if c.IRMP_SUPPORT_KASEIKYO_PROTOCOL ∧ p.protocol = IRMP_KASEIKYO_PROTOCOL then
        let x0 := s1.xor_check.getD 0 0
        let x1 := s1.xor_check.getD 1 0
        let x2 := s1.xor_check.getD 2 0
        let x3 := s1.xor_check.getD 3 0
        let x4 := s1.xor_check.getD 4 0
        let x5 := s1.xor_check.getD 5 0
        let xor1 := ((x0 &&& 0x0F) ^^^ ((x0 &&& 0xF0) >>> 4) ^^^ (x1 &&& 0x0F) ^^^
                      ((x1 &&& 0xF0) >>> 4)) % 256
        let t : State := if xor1 ≠ (x2 &&& 0x0F) then { s1 with irmp_ir_detected := FALSE } else s1
        let xor2 := (x2 ^^^ x3 ^^^ x4) % 256
        if xor2 ≠ x5 then { t with irmp_ir_detected := FALSE } else t
      else s1
    -- lines 3303-3311
    let s3 : State :=
      if c.IRMP_SUPPORT_RC6_PROTOCOL ∧ p.protocol = IRMP_RC6_PROTOCOL ∧
          (p.complete_len : Int) = c.K .RC6_COMPLETE_DATA_LEN_LONG then
        { s2 with irmp_protocol := IRMP_RC6A_PROTOCOL }
      else
        { s2 with irmp_protocol := p.protocol }
    -- lines 3313-3327
    let s4 : State :=
      if c.IRMP_SUPPORT_FDC_PROTOCOL ∧ p.protocol = IRMP_FDC_PROTOCOL then
        let cmd : Nat :=
          if s3.irmp_tmp_command &&& 0x000F ≠ 0 then (s3.irmp_tmp_command >>> 4) ||| 0x80
          else s3.irmp_tmp_command >>> 4
        { s3 with irmp_tmp_command := (cmd ||| ((s3.irmp_tmp_address <<< 2) &&& 0x0F00)) % 65536
                  irmp_tmp_address := s3.irmp_tmp_address &&& 0x003F }
      else s3
    -- lines 3329-3335
    let s5 : State := { s4 with irmp_address := s4.irmp_tmp_address }
    let s6 : State :=
      if c.IRMP_SUPPORT_NEC_PROTOCOL ∧ p.protocol = IRMP_NEC_PROTOCOL then
        { s5 with last_irmp_address := s5.irmp_tmp_address }
      else s5
    -- lines 3337-3347
    let s7 : State :=
      if c.IRMP_SUPPORT_RC5_PROTOCOL ∧ p.protocol = IRMP_RC5_PROTOCOL then
        { s6 with irmp_tmp_command := (s6.irmp_tmp_command ||| s6.rc5_cmd_bit6) % 65536 }
      else s6
    let s8 : State := { s7 with irmp_command := s7.irmp_tmp_command }
    if c.IRMP_SUPPORT_SAMSUNG_PROTOCOL then { s8 with irmp_id := s8.irmp_tmp_id } else s8

/-- Lines 3160-3382: enough bits received; end of the frame. -/
def isr_frame_end (c : Config) (s : State) : State :=
  let p := s.irmp_param
  if s.irmp_start_bit_detected ≠ 0 ∧ s.irmp_bit = p.complete_len ∧ p.stop_bit = 0 then
    -- lines 3162-3169
    let s1 : State :=
      if s.last_irmp_command = s.irmp_tmp_command ∧
          (s.repetition_len : Int) < c.K .AUTO_FRAME_REPETITION_LEN then
        { s with repetition_frame_number := (s.repetition_frame_number + 1) % 256 }
      else
        { s with repetition_frame_number := 0 }
    let n := s1.repetition_frame_number
    -- lines 3171-3349
    let s2 : State :=
      if c.IRMP_SUPPORT_SIRCS_PROTOCOL ∧ p.protocol = IRMP_SIRCS_PROTOCOL ∧ (n = 1 ∨ n = 2) then
        { s1 with repetition_len := 0 }
      else if c.IRMP_SUPPORT_KASEIKYO_PROTOCOL ∧ p.protocol = IRMP_KASEIKYO_PROTOCOL ∧ n = 1 then
        { s1 with repetition_len := 0 }
      else if c.IRMP_SUPPORT_SAMSUNG_PROTOCOL ∧ p.protocol = IRMP_SAMSUNG32_PROTOCOL ∧
          n &&& 0x01 ≠ 0 then
        { s1 with repetition_len := 0 }
      else if c.IRMP_SUPPORT_NUBERT_PROTOCOL ∧ p.protocol = IRMP_NUBERT_PROTOCOL ∧
          n &&& 0x01 ≠ 0 then
        { s1 with repetition_len := 0 }
      else latch_frame c s1
    -- lines 3351-3368
    let s3 : State :=
      if s2.irmp_ir_detected ≠ 0 then
        let t : State :=
          if s2.last_irmp_command = s2.irmp_tmp_command ∧
              s2.last_irmp_address = s2.irmp_tmp_address ∧
              (s2.repetition_len : Int) < c.K .IRMP_KEY_REPETITION_LEN then
            { s2 with irmp_flags := (s2.irmp_flags ||| IRMP_FLAG_REPETITION) % 256 }
          else s2
        { t with last_irmp_address := t.irmp_tmp_address,
                 last_irmp_command := t.irmp_tmp_command,
                 repetition_len := 0 }
      else s2
    -- lines 3371-3381
    let s4 : State :=
      { s3 with irmp_start_bit_detected := 0, irmp_tmp_command := 0,
                irmp_pulse_time := 0, irmp_pause_time := 0 }
    if c.IRMP_SUPPORT_JVC_PROTOCOL ∧ s4.irmp_protocol = IRMP_JVC_PROTOCOL then
      { s4 with irmp_pulse_time := u8 (c.K .JVC_START_BIT_PULSE_LEN) }
    else s4
  else s

/-- Lines 1902-3384: the decoder variables after one call of `irmp_ISR`. -/
def isr_step (c : Config) (s : State) (irmp_input : Bool) : State :=
  if s.irmp_ir_detected = 0 then
    if s.irmp_start_bit_detected = 0 then
      isr_idle c s irmp_input
    else
      let s1 : State :=
        if s.wait_for_start_space ≠ 0 then
          if irmp_input then isr_start_dark c s else isr_start_light c s
        else if s.wait_for_space ≠ 0 then
          let r : State × Bool := if irmp_input then isr_space_dark c s else (s, true)
          if r.2 then isr_got_light c r.1 else r.1
        else
          isr_pulse s irmp_input
      isr_frame_end c s1
  else s

/-- Lines 1855-3386: `irmp_ISR`; the second component is the returned `irmp_ir_detected`. -/
def irmp_ISR (c : Config) (s : State) (irmp_input : Bool) : State × Nat :=
  let s1 := isr_step c s irmp_input
  (s1, s1.irmp_ir_detected)

/-- Lines 1538-1551: `irmp_init` only programs the port registers of the input pin (and the
UART when logging); it writes no decoder variable. -/
def irmp_init (s : State) : State := s

/-! ## Driving the decoder -/

/-- Samples `xs` fed to `irmp_ISR` one per call, without retrieval in between. -/
def run_isr (c : Config) (s : State) (xs : List Bool) : State :=
  xs.foldl (fun t x => (irmp_ISR c t x).1) s

/-- One sample period of a polling consumer: `irmp_ISR`, then `irmp_get_data`; the frame
is appended to `out` when `irmp_get_data` returns `TRUE`. -/
def poll_step (c : Config) (st : State × List IRMP_DATA) (x : Bool) : State × List IRMP_DATA :=
  let s1 := (irmp_ISR c st.1 x).1
  let r := irmp_get_data c s1 ⟨0, 0, 0, 0⟩
  (r.2.1, if r.1 then st.2 ++ [r.2.2] else st.2)

/-- Samples `xs` fed to `irmp_ISR` with `irmp_get_data` polled after every tick: the final
decoder state and the frames delivered, in order. -/
def run_poll (c : Config) (s : State) (xs : List Bool) : State × List IRMP_DATA :=
  xs.foldl (poll_step c) (s, [])

/-! ## A build with NEC only, sampled at 10 kHz -/

/-- Tick windows of the NEC protocol at `F_INTERRUPTS = 10000` (lines 432-443 with the
nominal times 9000 us / 4500 us / 2250 us / 560 us / 1690 us / 560 us), the frame geometry
of NEC (16 address bits, then 16 command bits, LSB first, one stop bit) and the timeouts
(`IRMP_TIMEOUT_LEN = 165`); every other macro is 0. -/
def nec_keys : Key → Int
  | .NEC_START_BIT_PULSE_LEN_MIN => 53
  | .NEC_START_BIT_PULSE_LEN_MAX => 127
  | .NEC_START_BIT_PAUSE_LEN_MIN => 26
  | .NEC_START_BIT_PAUSE_LEN_MAX => 64
  | .NEC_REPEAT_START_BIT_PAUSE_LEN_MIN => 13
  | .NEC_REPEAT_START_BIT_PAUSE_LEN_MAX => 32
  | .NEC_PULSE_LEN_MIN => 2
  | .NEC_PULSE_LEN_MAX => 9
  | .NEC_1_PAUSE_LEN_MIN => 9
  | .NEC_1_PAUSE_LEN_MAX => 25
  | .NEC_0_PAUSE_LEN_MIN => 2
  | .NEC_0_PAUSE_LEN_MAX => 9
  | .NEC_FRAME_REPEAT_PAUSE_LEN_MAX => 1200
  | .NEC_ADDRESS_OFFSET => 0
  | .NEC_ADDRESS_LEN => 16
  | .NEC_COMMAND_OFFSET => 16
  | .NEC_COMMAND_LEN => 16
  | .NEC_COMPLETE_DATA_LEN => 32
  | .NEC_STOP_BIT => 1
  | .NEC_LSB => 1
  | .NEC_FLAGS => 0
  | .IRMP_TIMEOUT_LEN => 165
  | .IRMP_KEY_REPETITION_LEN => 1500
  | .AUTO_FRAME_REPETITION_LEN => 500
  | _ => 0

/-- The build configuration with `IRMP_SUPPORT_NEC_PROTOCOL` as the only enabled protocol
and an 8-bit `PAUSE_LEN`. -/
def nec_build : Config where
  IRMP_SUPPORT_SIRCS_PROTOCOL := false
  IRMP_SUPPORT_NEC_PROTOCOL := true
  IRMP_SUPPORT_SAMSUNG_PROTOCOL := false
  IRMP_SUPPORT_MATSUSHITA_PROTOCOL := false
  IRMP_SUPPORT_KASEIKYO_PROTOCOL := false
  IRMP_SUPPORT_RECS80_PROTOCOL := false
  IRMP_SUPPORT_RC5_PROTOCOL := false
  IRMP_SUPPORT_DENON_PROTOCOL := false
  IRMP_SUPPORT_RC6_PROTOCOL := false
  IRMP_SUPPORT_RECS80EXT_PROTOCOL := false
  IRMP_SUPPORT_NUBERT_PROTOCOL := false
  IRMP_SUPPORT_BANG_OLUFSEN_PROTOCOL := false
  IRMP_SUPPORT_GRUNDIG_PROTOCOL := false
  IRMP_SUPPORT_NOKIA_PROTOCOL := false
  IRMP_SUPPORT_IR60_PROTOCOL := false
  IRMP_SUPPORT_SIEMENS_PROTOCOL := false
  IRMP_SUPPORT_RUWIDO_PROTOCOL := false
  IRMP_SUPPORT_FDC_PROTOCOL := false
  IRMP_SUPPORT_RCCAR_PROTOCOL := false
  IRMP_SUPPORT_JVC_PROTOCOL := false
  IRMP_SUPPORT_NIKON_PROTOCOL := false
  IRMP_SUPPORT_KATHREIN_PROTOCOL := false
  IRMP_SUPPORT_NETBOX_PROTOCOL := false
  IRMP_SUPPORT_NEC16_PROTOCOL := false
  IRMP_SUPPORT_NEC42_PROTOCOL := false
  IRMP_SUPPORT_LEGO_PROTOCOL := false
  IRMP_SUPPORT_THOMSON_PROTOCOL := false
  PAUSE_LEN_MOD := 256
  K := nec_keys

/-! ## The canonical NEC waveform -/

/-- The 32 data bits of a NEC frame in transmission order: address low byte, address high
byte, command, inverted command, each LSB first. -/
def nec_bits (A C : Nat) : List Bool :=
  (List.range 16).map (fun i => A.testBit i) ++
  (List.range 8).map (fun i => C.testBit i) ++
  (List.range 8).map (fun i => !C.testBit i)

/-- One data bit: a 6-tick pulse, then a 17-tick pause for 1 or a 6-tick pause for 0. -/
def nec_bit_wave (b : Bool) : List Bool :=
  List.replicate 6 false ++ List.replicate (if b then 17 else 6) true

/-- Samples of a NEC frame whose start pulse lasts `start` ticks (90 in the canonical
waveform): start pulse, 45-tick pause, the 32 data bits, the 6-tick stop pulse, and `dark`
ticks of darkness. -/
def nec_wave_from (start : Nat) (A C : Nat) (dark : Nat) : List Bool :=
  List.replicate start false ++ List.replicate 45 true ++
  (nec_bits A C).flatMap nec_bit_wave ++
  List.replicate 6 false ++ List.replicate dark true

/-- The canonical NEC waveform for address `A` and command `C`, followed by `dark` ticks
of darkness. -/
def nec_wave (A C : Nat) (dark : Nat) : List Bool :=
  nec_wave_from 90 A C dark

/-! ## Definitions used by the statements and by the proofs -/

/-- The (pulse, pause) run pairs of a sample stream in true tick counts: `pu` and `pa` are
the lengths of the pulse and the pause being measured.  Darkness before the first pulse
is skipped; a pulse at the end of the stream is paired with the darkness measured so far. -/
def run_pairs_from : List Bool → Nat → Nat → List (Nat × Nat)
  | [], pu, pa => if pu = 0 then [] else [(pu, pa)]
  | false :: xs, pu, pa =>
    if pa = 0 then run_pairs_from xs (pu + 1) 0 else (pu, pa) :: run_pairs_from xs 1 0
  | true :: xs, pu, pa =>
    if pu = 0 then run_pairs_from xs 0 0 else run_pairs_from xs pu (pa + 1)

/-- The (pulse, pause) run pairs of a sample stream, in true tick counts. -/
def run_pairs (xs : List Bool) : List (Nat × Nat) := run_pairs_from xs 0 0

/-- The start-bit classifier of `irmp_ISR` accepts the pair `(pu, pa)`: the pair lies in
the start windows of an enabled protocol (no frame received before). -/
def is_start_pair (c : Config) (pu pa : Nat) : Prop :=
  (classify c { initial with irmp_pulse_time := pu, irmp_pause_time := pa }).1 ≠ none

instance (c : Config) (pu pa : Nat) : Decidable (is_start_pair c pu pa) := by
  unfold is_start_pair; infer_instance

/-- A decoder state with a latched frame `(p, a, r)` and no flags, otherwise as at start. -/
def latched_frame (p a r : Nat) : State :=
  { initial with irmp_ir_detected := 1, irmp_protocol := p, irmp_address := a, irmp_command := r }

/-- The NEC build with Samsung enabled in addition. -/
def nec_samsung_build : Config :=
  { nec_build with IRMP_SUPPORT_SAMSUNG_PROTOCOL := true }

/-- The run predicate `Reach c Q s xs`: feeding the samples `xs` from state `s` never sets `irmp_ir_detected`,
and the final state satisfies `Q`. -/
def Reach (c : Config) (Q : State → Prop) : State → List Bool → Prop
  | s, [] => Q s
  | s, x :: xs => (isr_step c s x).irmp_ir_detected = 0 ∧ Reach c Q (isr_step c s x) xs

/-- The NEC row of the protocol table with the 10 kHz windows. -/
def nec_row : IRMP_PARAMETER :=
  ⟨2, 2, 9, 9, 25, 2, 9, 2, 9, 0, 16, 16, 32, 32, 1, 1, 0⟩

/-- A build that decodes NEC frames sampled at 10 kHz: NEC is enabled, NEC42 is not, the
NEC windows and timeout have their 10 kHz values and NEC has its frame geometry. -/
structure NecBuild (c : Config) : Prop where
  nec : c.IRMP_SUPPORT_NEC_PROTOCOL = true
  nec42 : c.IRMP_SUPPORT_NEC42_PROTOCOL = false
  pause_len : 256 ≤ c.PAUSE_LEN_MOD
  start_pulse_min : c.K .NEC_START_BIT_PULSE_LEN_MIN = 53
  start_pulse_max : c.K .NEC_START_BIT_PULSE_LEN_MAX = 127
  start_pause_min : c.K .NEC_START_BIT_PAUSE_LEN_MIN = 26
  start_pause_max : c.K .NEC_START_BIT_PAUSE_LEN_MAX = 64
  pulse_min : c.K .NEC_PULSE_LEN_MIN = 2
  pulse_max : c.K .NEC_PULSE_LEN_MAX = 9
  pause_1_min : c.K .NEC_1_PAUSE_LEN_MIN = 9
  pause_1_max : c.K .NEC_1_PAUSE_LEN_MAX = 25
  pause_0_min : c.K .NEC_0_PAUSE_LEN_MIN = 2
  pause_0_max : c.K .NEC_0_PAUSE_LEN_MAX = 9
  address_offset : c.K .NEC_ADDRESS_OFFSET = 0
  address_len : c.K .NEC_ADDRESS_LEN = 16
  command_offset : c.K .NEC_COMMAND_OFFSET = 16
  command_len : c.K .NEC_COMMAND_LEN = 16
  complete_len : c.K .NEC_COMPLETE_DATA_LEN = 32
  stop_bit : c.K .NEC_STOP_BIT = 1
  lsb : c.K .NEC_LSB = 1
  flags : c.K .NEC_FLAGS = 0
  timeout : c.K .IRMP_TIMEOUT_LEN = 165
  timeout_nikon : c.IRMP_SUPPORT_NIKON_PROTOCOL = true → 45 ≤ c.K .IRMP_TIMEOUT_NIKON_LEN

/-- The start pair `(pu, 45)` is not taken by the SIRCS branch, which the classifier tries
before NEC. -/
def NotSircs (c : Config) (pu : Nat) : Prop :=
  c.IRMP_SUPPORT_SIRCS_PROTOCOL = true →
    ¬ (within pu (c.K .SIRCS_START_BIT_PULSE_LEN_MIN) (c.K .SIRCS_START_BIT_PULSE_LEN_MAX) ∧
       within 45 (c.K .SIRCS_START_BIT_PAUSE_LEN_MIN) (c.K .SIRCS_START_BIT_PAUSE_LEN_MAX))

/-- Idle, counting the start pulse; nothing was received before. -/
structure IdleSt (s : State) (pu : Nat) : Prop where
  det : s.irmp_ir_detected = 0
  sbd : s.irmp_start_bit_detected = 0
  param : s.irmp_param = zero_param
  pulse : s.irmp_pulse_time = pu
  proto : s.irmp_protocol = 0
  flags : s.irmp_flags = 0
  lcmd : s.last_irmp_command = 0xFFFF

/-- Counting the pause after the start pulse. -/
structure StartSt (s : State) (pu pa : Nat) : Prop where
  det : s.irmp_ir_detected = 0
  sbd : s.irmp_start_bit_detected = 1
  wfss : s.wait_for_start_space = 1
  wfs : s.wait_for_space = 0
  param : s.irmp_param = zero_param
  bit : s.irmp_bit = 0xff
  ta : s.irmp_tmp_address = 0
  tc : s.irmp_tmp_command = 0
  pulse : s.irmp_pulse_time = pu
  pause : s.irmp_pause_time = pa
  proto : s.irmp_protocol = 0
  flags : s.irmp_flags = 0
  lcmd : s.last_irmp_command = 0xFFFF

/-- Inside the data section of a NEC frame: `k` bits stored, accumulators `ta` and `tc`,
`wfs` the flag `wait_for_space`, `pu` and `pa` the tick counters. -/
structure NecSt (s : State) (k ta tc wfs pu pa : Nat) : Prop where
  det : s.irmp_ir_detected = 0
  sbd : s.irmp_start_bit_detected = 1
  wfss : s.wait_for_start_space = 0
  wfs : s.wait_for_space = wfs
  param : s.irmp_param = nec_row
  bit : s.irmp_bit = k
  ta : s.irmp_tmp_address = ta
  tc : s.irmp_tmp_command = tc
  pulse : s.irmp_pulse_time = pu
  pause : s.irmp_pause_time = pa
  proto : s.irmp_protocol = 0
  flags : s.irmp_flags = 0
  lcmd : s.last_irmp_command = 0xFFFF

/-- Accumulators after `irmp_store_bit` stores `v` as bit `k` of a NEC frame. -/
def nec_store (k ta tc v : Nat) : Nat × Nat :=
  if k < 16 then ((ta ||| (v <<< k)) % 65536, tc)
  else (ta, (tc ||| (v <<< (k - 16))) % 65536)

/-- A NEC frame with address `a` and raw command `r` is latched, the decoder is idle. -/
structure Latched (s : State) (a r : Nat) : Prop where
  det : s.irmp_ir_detected = 1
  proto : s.irmp_protocol = IRMP_NEC_PROTOCOL
  addr : s.irmp_address = a
  cmd : s.irmp_command = r
  flags : s.irmp_flags = 0
  sbd : s.irmp_start_bit_detected = 0
  pulse : s.irmp_pulse_time = 0

/-- Idle in darkness: nothing latched, no start pulse pending. -/
structure IdleDark (s : State) : Prop where
  det : s.irmp_ir_detected = 0
  sbd : s.irmp_start_bit_detected = 0
  pulse : s.irmp_pulse_time = 0

/-- The raw 16-bit command field of a NEC frame: the command and its complement. -/
def nec_raw (C : Nat) : Nat := C + 256 * (255 - C)

/-- Bit counter and accumulators after storing the bits `bs`, starting from `(k, ta, tc)`. -/
def nec_fold (bs : List Bool) (k ta tc : Nat) : Nat × Nat × Nat :=
  bs.foldl (fun st b => (st.1 + 1, nec_store st.1 st.2.1 st.2.2 b.toNat)) (k, ta, tc)

/-- The samples from the second tick of a data pulse to the first tick of the next pulse. -/
def nec_bit_ticks (b : Bool) : List Bool :=
  List.replicate 5 false ++ (List.replicate (if b then 17 else 6) true ++ [false])

/-! ## The end of a frame in stages, builds and waveforms of further protocols -/

/-- Lines 1949-3158: the decoder variables at line 3160 in a call of `irmp_ISR` made with no
frame latched and a start bit detected (the `else` branch of line 1947). -/
def isr_body (c : Config) (s : State) (irmp_input : Bool) : State :=
  if s.wait_for_start_space ≠ 0 then
    if irmp_input then isr_start_dark c s else isr_start_light c s
  else if s.wait_for_space ≠ 0 then
    let r : State × Bool := if irmp_input then isr_space_dark c s else (s, true)
    if r.2 then isr_got_light c r.1 else r.1
  else
    isr_pulse s irmp_input

/-- The test of line 3160: a start bit was detected, `irmp_bit` has reached
`irmp_param.complete_len` and no stop bit is pending. -/
def frame_complete (s : State) : Prop :=
  s.irmp_start_bit_detected ≠ 0 ∧ s.irmp_bit = s.irmp_param.complete_len ∧
    s.irmp_param.stop_bit = 0

instance (s : State) : Decidable (frame_complete s) := by
  unfold frame_complete; infer_instance

/-- Lines 3162-3169: the value `repetition_frame_number` takes at the end of a frame. -/
def next_frame_number (c : Config) (s : State) : Nat :=
  if s.last_irmp_command = s.irmp_tmp_command ∧
      (s.repetition_len : Int) < c.K .AUTO_FRAME_REPETITION_LEN then
    (s.repetition_frame_number + 1) % 256
  else 0

/-- Lines 3171-3213: the conditions under which a complete frame is skipped as a repetition
generated by the remote control, `n` being the updated `repetition_frame_number`. -/
def auto_repeat_skip (c : Config) (s : State) (n : Nat) : Prop :=
  (c.IRMP_SUPPORT_SIRCS_PROTOCOL ∧ s.irmp_param.protocol = IRMP_SIRCS_PROTOCOL ∧
      (n = 1 ∨ n = 2)) ∨
    (c.IRMP_SUPPORT_KASEIKYO_PROTOCOL ∧ s.irmp_param.protocol = IRMP_KASEIKYO_PROTOCOL ∧
      n = 1) ∨
    (c.IRMP_SUPPORT_SAMSUNG_PROTOCOL ∧ s.irmp_param.protocol = IRMP_SAMSUNG32_PROTOCOL ∧
      n &&& 0x01 ≠ 0) ∨
    (c.IRMP_SUPPORT_NUBERT_PROTOCOL ∧ s.irmp_param.protocol = IRMP_NUBERT_PROTOCOL ∧
      n &&& 0x01 ≠ 0)

instance (c : Config) (s : State) (n : Nat) : Decidable (auto_repeat_skip c s n) := by
  unfold auto_repeat_skip; infer_instance

/-- Lines 3351-3364: the key repetition test and the bookkeeping of a latched frame. -/
def key_repetition (c : Config) (s : State) : State :=
  if s.irmp_ir_detected ≠ 0 then
    let t : State :=
      if s.last_irmp_command = s.irmp_tmp_command ∧
          s.last_irmp_address = s.irmp_tmp_address ∧
          (s.repetition_len : Int) < c.K .IRMP_KEY_REPETITION_LEN then
        { s with irmp_flags := (s.irmp_flags ||| IRMP_FLAG_REPETITION) % 256 }
      else s
    { t with last_irmp_address := t.irmp_tmp_address,
             last_irmp_command := t.irmp_tmp_command,
             repetition_len := 0 }
  else s

/-- Lines 3371-3381: the decoder waits for the next start bit. -/
def frame_reset (c : Config) (s : State) : State :=
  let s4 : State :=
    { s with irmp_start_bit_detected := 0, irmp_tmp_command := 0,
             irmp_pulse_time := 0, irmp_pause_time := 0 }
  if c.IRMP_SUPPORT_JVC_PROTOCOL ∧ s4.irmp_protocol = IRMP_JVC_PROTOCOL then
    { s4 with irmp_pulse_time := u8 (c.K .JVC_START_BIT_PULSE_LEN) }
  else s4

/-- Lines 3258-3301: the NEC repetition frame and the Kaseikyo parity tests; `p` is
`irmp_param`. -/
def frame_checks (c : Config) (p : IRMP_PARAMETER) (s : State) : State :=
  let s1 : State :=
    if c.IRMP_SUPPORT_NEC_PROTOCOL ∧ p.protocol = IRMP_NEC_PROTOCOL ∧ s.irmp_bit = 0 then
      if (s.repetition_len : Int) < c.K .NEC_FRAME_REPEAT_PAUSE_LEN_MAX then
        { s with irmp_tmp_address := s.last_irmp_address
                 irmp_tmp_command := s.last_irmp_command
                 irmp_flags := (s.irmp_flags ||| IRMP_FLAG_REPETITION) % 256
                 repetition_len := 0 }
      else
        { s with irmp_ir_detected := FALSE }
    else s
  if c.IRMP_SUPPORT_KASEIKYO_PROTOCOL ∧ p.protocol = IRMP_KASEIKYO_PROTOCOL then
    let x0 := s1.xor_check.getD 0 0
    let x1 := s1.xor_check.getD 1 0
    let x2 := s1.xor_check.getD 2 0
    let x3 := s1.xor_check.getD 3 0
    let x4 := s1.xor_check.getD 4 0
    let x5 := s1.xor_check.getD 5 0
    let xor1 := ((x0 &&& 0x0F) ^^^ ((x0 &&& 0xF0) >>> 4) ^^^ (x1 &&& 0x0F) ^^^
                  ((x1 &&& 0xF0) >>> 4)) % 256
    let t : State := if xor1 ≠ (x2 &&& 0x0F) then { s1 with irmp_ir_detected := FALSE } else s1
    let xor2 := (x2 ^^^ x3 ^^^ x4) % 256
    if xor2 ≠ x5 then { t with irmp_ir_detected := FALSE } else t
  else s1

/-- Lines 3303-3347: the frame is copied to `irmp_protocol`, `irmp_address`, `irmp_command`
and `irmp_id`; `p` is `irmp_param`. -/
def frame_store (c : Config) (p : IRMP_PARAMETER) (s2 : State) : State :=
  let s3 : State :=
    if c.IRMP_SUPPORT_RC6_PROTOCOL ∧ p.protocol = IRMP_RC6_PROTOCOL ∧
        (p.complete_len : Int) = c.K .RC6_COMPLETE_DATA_LEN_LONG then
      { s2 with irmp_protocol := IRMP_RC6A_PROTOCOL }
    else
      { s2 with irmp_protocol := p.protocol }
  let s4 : State :=
    if c.IRMP_SUPPORT_FDC_PROTOCOL ∧ p.protocol = IRMP_FDC_PROTOCOL then
      let cmd : Nat :=
        if s3.irmp_tmp_command &&& 0x000F ≠ 0 then (s3.irmp_tmp_command >>> 4) ||| 0x80
        else s3.irmp_tmp_command >>> 4
      { s3 with irmp_tmp_command := (cmd ||| ((s3.irmp_tmp_address <<< 2) &&& 0x0F00)) % 65536
                irmp_tmp_address := s3.irmp_tmp_address &&& 0x003F }
    else s3
  let s5 : State := { s4 with irmp_address := s4.irmp_tmp_address }
  let s6 : State :=
    if c.IRMP_SUPPORT_NEC_PROTOCOL ∧ p.protocol = IRMP_NEC_PROTOCOL then
      { s5 with last_irmp_address := s5.irmp_tmp_address }
    else s5
  let s7 : State :=
    if c.IRMP_SUPPORT_RC5_PROTOCOL ∧ p.protocol = IRMP_RC5_PROTOCOL then
      { s6 with irmp_tmp_command := (s6.irmp_tmp_command ||| s6.rc5_cmd_bit6) % 65536 }
    else s6
  let s8 : State := { s7 with irmp_command := s7.irmp_tmp_command }
  if c.IRMP_SUPPORT_SAMSUNG_PROTOCOL then { s8 with irmp_id := s8.irmp_tmp_id } else s8

/-- Tick windows at `F_INTERRUPTS = 10000` of SIRCS (lines 417-431 with the nominal times
2400 us / 600 us for the start bit, 1200 us and 600 us for the pulses, 600 us for the
pause), of Kaseikyo (lines 474-483 with 3380 us / 1690 us, 525 us, 1275 us, 425 us) and of
Denon (lines 502-511 with 310 us, 1780 us, 745 us), the frame geometry of the three
protocols, and everything `nec_keys` defines. -/
def remote_keys : Key → Int
  | .SIRCS_START_BIT_PULSE_LEN_MIN => 21
  | .SIRCS_START_BIT_PULSE_LEN_MAX => 27
  | .SIRCS_START_BIT_PAUSE_LEN_MIN => 4
  | .SIRCS_START_BIT_PAUSE_LEN_MAX => 7
  | .SIRCS_1_PULSE_LEN_MIN => 10
  | .SIRCS_1_PULSE_LEN_MAX => 14
  | .SIRCS_0_PULSE_LEN_MIN => 4
  | .SIRCS_0_PULSE_LEN_MAX => 8
  | .SIRCS_PAUSE_LEN_MIN => 4
  | .SIRCS_PAUSE_LEN_MAX => 8
  | .SIRCS_ADDRESS_OFFSET => 15
  | .SIRCS_ADDRESS_LEN => 5
  | .SIRCS_COMMAND_OFFSET => 0
  | .SIRCS_COMMAND_LEN => 15
  | .SIRCS_COMPLETE_DATA_LEN => 20
  | .SIRCS_MINIMUM_DATA_LEN => 12
  | .SIRCS_STOP_BIT => 0
  | .SIRCS_LSB => 1
  | .SIRCS_FLAGS => 0
  | .KASEIKYO_START_BIT_PULSE_LEN_MIN => 29
  | .KASEIKYO_START_BIT_PULSE_LEN_MAX => 38
  | .KASEIKYO_START_BIT_PAUSE_LEN_MIN => 14
  | .KASEIKYO_START_BIT_PAUSE_LEN_MAX => 20
  | .KASEIKYO_PULSE_LEN_MIN => 2
  | .KASEIKYO_PULSE_LEN_MAX => 9
  | .KASEIKYO_1_PAUSE_LEN_MIN => 8
  | .KASEIKYO_1_PAUSE_LEN_MAX => 18
  | .KASEIKYO_0_PAUSE_LEN_MIN => 1
  | .KASEIKYO_0_PAUSE_LEN_MAX => 7
  | .KASEIKYO_ADDRESS_OFFSET => 0
  | .KASEIKYO_ADDRESS_LEN => 16
  | .KASEIKYO_COMMAND_OFFSET => 28
  | .KASEIKYO_COMMAND_LEN => 12
  | .KASEIKYO_COMPLETE_DATA_LEN => 48
  | .KASEIKYO_STOP_BIT => 1
  | .KASEIKYO_LSB => 1
  | .KASEIKYO_FLAGS => 0
  | .DENON_PULSE_LEN_MIN => 2
  | .DENON_PULSE_LEN_MAX => 4
  | .DENON_1_PAUSE_LEN_MIN => 15
  | .DENON_1_PAUSE_LEN_MAX => 21
  | .DENON_0_PAUSE_LEN_MIN => 6
  | .DENON_0_PAUSE_LEN_MAX => 9
  | .DENON_ADDRESS_OFFSET => 0
  | .DENON_ADDRESS_LEN => 5
  | .DENON_COMMAND_OFFSET => 5
  | .DENON_COMMAND_LEN => 10
  | .DENON_COMPLETE_DATA_LEN => 15
  | .DENON_STOP_BIT => 1
  | .DENON_LSB => 0
  | .DENON_FLAGS => 0
  | k => nec_keys k

/-- The build configuration with SIRCS, NEC, Kaseikyo and Denon enabled and an 8-bit
`PAUSE_LEN`. -/
def remote_build : Config :=
  { nec_build with
      IRMP_SUPPORT_SIRCS_PROTOCOL := true
      IRMP_SUPPORT_KASEIKYO_PROTOCOL := true
      IRMP_SUPPORT_DENON_PROTOCOL := true
      K := remote_keys }

/-- Samples of a pulse-distance bit: `pulse` ticks of light, then `pause` ticks of
darkness. -/
def bit_wave (pulse pause : Nat) : List Bool :=
  List.replicate pulse false ++ List.replicate pause true

/-- The bits `n-1 .. 0` of `v`, most significant first. -/
def msb_bits (n v : Nat) : List Bool :=
  (List.range n).map (fun i => v.testBit (n - 1 - i))

/-- The bits `0 .. n-1` of `v`, least significant first. -/
def lsb_bits (n v : Nat) : List Bool :=
  (List.range n).map (fun i => v.testBit i)

/-- Samples of a Denon frame at 10 kHz: 5 address bits and 10 command bits, most
significant bit first, each a 3-tick pulse followed by an 18-tick pause for 1 or a 7-tick
pause for 0, then the 3-tick stop pulse and `dark` ticks of darkness. -/
def denon_wave (A C dark : Nat) : List Bool :=
  (msb_bits 5 A ++ msb_bits 10 C).flatMap (fun b => bit_wave 3 (if b then 18 else 7)) ++
  bit_wave 3 dark

/-- Samples of a SIRCS frame at 10 kHz: a 24-tick start pulse and a 6-tick pause, then the
given bits, each a 12-tick pulse for 1 or a 6-tick pulse for 0 followed by a 6-tick pause;
`dark` further ticks of darkness follow the last pause. -/
def sircs_wave (bits : List Bool) (dark : Nat) : List Bool :=
  bit_wave 24 6 ++ bits.flatMap (fun b => bit_wave (if b then 12 else 6) 6) ++
  List.replicate dark true

/-- Samples of a Kaseikyo frame at 10 kHz: a 34-tick start pulse and a 17-tick pause, the
six bytes with the least significant bit first, each bit a 5-tick pulse followed by a
13-tick pause for 1 or a 4-tick pause for 0, then the 5-tick stop pulse and `dark` ticks of
darkness. -/
def kaseikyo_wave (bytes : List Nat) (dark : Nat) : List Bool :=
  bit_wave 34 17 ++
  (bytes.flatMap (lsb_bits 8)).flatMap (fun b => bit_wave 5 (if b then 13 else 4)) ++
  bit_wave 5 dark

/-- The decoder of `remote_build` 615 ticks into
`kaseikyo_wave [0x02, 0x20, 0x90, 0x31, 0x42, 0xE3] 2` fed from `initial`: the 48 bits
are stored, the stop pulse is counted and the first tick of darkness is due. -/
def kaseikyo_stop : State :=
  ⟨48, ⟨5, 2, 9, 8, 18, 2, 9, 1, 7, 0, 16, 28, 40, 48, 1, 1, 0⟩, zero_param,
    0, 0, 0, 0, 0, 0, 8194, 37923, 0, 0, 0, [2, 32, 144, 49, 66, 227],
    0, 1, 1, 0, 5, 1, 65535, 65535, 0, 0, 0, 0, 0, 0⟩

/-- The decoder of `remote_build` 1079 ticks into
`denon_wave 8 0x155 640 ++ denon_wave 8 0x2AA 2` fed from `initial`: the first half-frame
`0x155` is held, the second half-frame `0x2AA` is stored up to its stop pulse. -/
def denon_second_stop : State :=
  ⟨15, ⟨8, 2, 4, 15, 21, 2, 4, 6, 9, 0, 5, 5, 15, 15, 1, 0, 0⟩, zero_param,
    0, 0, 0, 0, 0, 0, 8, 682, 0, 0, 0, [0, 0, 0, 0, 0, 0],
    0, 1, 1, 0, 3, 1, 65535, 65535, 638, 0, 341, 0, 0, 0⟩

/-- The decoder of `remote_build` 1187 ticks into
`nec_wave 0x1234 0x56 400 ++ bit_wave 90 22 ++ bit_wave 6 2` fed from `initial` with
`irmp_get_data` polled after every tick: the frame `(0x1234, 0x56)` was delivered 398 idle
ticks ago and the stop pulse of a NEC repetition frame is counted. -/
def nec_repeat_stop : State :=
  ⟨0, ⟨2, 2, 9, 9, 25, 2, 9, 2, 9, 0, 0, 0, 0, 0, 1, 1, 0⟩, zero_param,
    0, 2, 0, 0, 0, 0, 0, 0, 0, 0, 0, [0, 0, 0, 0, 0, 0],
    0, 1, 1, 0, 6, 1, 4660, 43350, 398, 0, 0, 0, 0, 0⟩

/-- The decoder of `remote_build` in the last pause of a 20-bit SIRCS frame that follows
the delivered frame `(0x0801, 0x95)` after 147 idle ticks: 19 bits are stored, the pause
has lasted 8 ticks; `a` is the address accumulated so far, `n` the frame counter. -/
def sircs_last_pause (a n : Nat) : State :=
  ⟨19, ⟨1, 10, 14, 4, 8, 4, 8, 4, 8, 15, 20, 0, 15, 20, 0, 1, 0⟩, zero_param,
    0, 1, 0, 0, 0, 0, a, 149, 0, 0, 0, [0, 0, 0, 0, 0, 0],
    0, 1, 1, 0, 6, 8, 2049, 149, 147, n, 0, 0, 0, 0⟩

/-- The build `nec_build` with the RCCAR, Netbox, Siemens and Ruwido cases of
`irmp_get_data` compiled in. -/
def switch_build : Config :=
  { nec_build with
      IRMP_SUPPORT_SIEMENS_PROTOCOL := true
      IRMP_SUPPORT_RUWIDO_PROTOCOL := true
      IRMP_SUPPORT_RCCAR_PROTOCOL := true
      IRMP_SUPPORT_NETBOX_PROTOCOL := true }

/-- Samples of the 20-bit SIRCS frame with command `0x0095` and the five address bits `a`,
followed by 150 ticks of darkness. -/
def sircs_frame (a : Nat) : List Bool :=
  sircs_wave (lsb_bits 15 0x0095 ++ lsb_bits 5 a) 150

/-- Hands the number `n` to `k` once it is evaluated: `forceNat n k = k n`. -/
def forceNat {α : Type} (n : Nat) (k : Nat → α) : α :=
  match n with
  | 0 => k 0
  | m + 1 => k (m + 1)

/-- Hands a list of numbers to `k` once its entries are evaluated. -/
def forceList {α : Type} : List Nat → (List Nat → α) → α
  | [], k => k []
  | v :: vs, k => forceNat v (fun v1 => forceList vs (fun vs1 => k (v1 :: vs1)))

/-- Hands a table row to `k` once its fields are evaluated. -/
def forceParam {α : Type} (p : IRMP_PARAMETER) (k : IRMP_PARAMETER → α) : α :=
  forceList [p.protocol, p.pulse_1_len_min, p.pulse_1_len_max, p.pause_1_len_min,
    p.pause_1_len_max, p.pulse_0_len_min, p.pulse_0_len_max, p.pause_0_len_min,
    p.pause_0_len_max, p.address_offset, p.address_end, p.command_offset, p.command_end,
    p.complete_len, p.stop_bit, p.lsb_first, p.flags] (fun l =>
    match l with
    | [a0, a1, a2, a3, a4, a5, a6, a7, a8, a9, a10, a11, a12, a13, a14, a15, a16] =>
      k ⟨a0, a1, a2, a3, a4, a5, a6, a7, a8, a9, a10, a11, a12, a13, a14, a15, a16⟩
    | _ => k p)

/-- Hands a decoder state to `k` once its fields are evaluated. -/
def forceState {α : Type} (s : State) (k : State → α) : α :=
  forceParam s.irmp_param (fun p1 => forceParam s.irmp_param2 (fun p2 =>
  forceList s.xor_check (fun xc =>
  forceList [s.irmp_bit, s.irmp_ir_detected, s.irmp_protocol, s.irmp_address, s.irmp_command,
    s.irmp_id, s.irmp_flags, s.irmp_tmp_address, s.irmp_tmp_command, s.irmp_tmp_address2,
    s.irmp_tmp_command2, s.irmp_tmp_id, s.first_bit, s.irmp_start_bit_detected,
    s.wait_for_space, s.wait_for_start_space, s.irmp_pulse_time, s.irmp_pause_time,
    s.last_irmp_address, s.last_irmp_command, s.repetition_len, s.repetition_frame_number,
    s.last_irmp_denon_command, s.rc5_cmd_bit6, s.last_pause, s.last_value] (fun l =>
    match l with
    | [b0, b1, b2, b3, b4, b5, b6, b7, b8, b9, b10, b11, b12, b13, b14, b15, b16, b17, b18,
        b19, b20, b21, b22, b23, b24, b25] =>
      k ⟨b0, p1, p2, b1, b2, b3, b4, b5, b6, b7, b8, b9, b10, b11, xc, b12, b13, b14, b15,
        b16, b17, b18, b19, b20, b21, b22, b23, b24, b25⟩
    | _ => k s))))

/-- Hands a list of frames to `k` once the fields of the frames are evaluated. -/
def forceFrames {α : Type} : List IRMP_DATA → (List IRMP_DATA → α) → α
  | [], k => k []
  | d :: ds, k =>
    forceList [d.protocol, d.address, d.command, d.flags] (fun l =>
      match l with
      | [a, b, e, f] => forceFrames ds (fun ds1 => k (⟨a, b, e, f⟩ :: ds1))
      | _ => forceFrames ds (fun ds1 => k (d :: ds1)))

/-- The run of `run_poll` from `st` in blocks of 64 samples, the decoder state and the
delivered frames being evaluated after each of the first `n` blocks. -/
def run_poll_blocks (c : Config) :
    Nat → List Bool → State × List IRMP_DATA → State × List IRMP_DATA
  | 0, xs, st => xs.foldl (poll_step c) st
  | n + 1, xs, st =>
    forceState ((xs.take 64).foldl (poll_step c) st).1 (fun s1 =>
      forceFrames ((xs.take 64).foldl (poll_step c) st).2 (fun o1 =>
        run_poll_blocks c n (xs.drop 64) (s1, o1)))

/-! ## Bit storage, the Manchester decoder in stages, builds and states of further protocols -/

/-- The build `nec_build` with the LEGO and RC5 cases of `irmp_get_data` compiled in. -/
def lego_rc5_build : Config :=
  { nec_build with
      IRMP_SUPPORT_LEGO_PROTOCOL := true
      IRMP_SUPPORT_RC5_PROTOCOL := true }

/-- Line 1670: the variable `crc` of the LEGO case, a `uint8_t`, for the raw command `r`. -/
def lego_crc (r : Nat) : Nat :=
  (0x0F ^^^ ((r &&& 0xF000) >>> 12) ^^^ ((r &&& 0x0F00) >>> 8) ^^^ ((r &&& 0x00F0) >>> 4)) % 256

/-- The registers of the input pin that `irmp_init` programs (`IRMP_PORT` and `IRMP_DDR`),
eight bits wide. -/
structure Port where
  IRMP_PORT : Nat
  IRMP_DDR : Nat
deriving DecidableEq

/-- Lines 1543-1544: `IRMP_PORT &= ~(1<<IRMP_BIT); IRMP_DDR &= ~(1<<IRMP_BIT);`, the bit
number `IRMP_BIT` of `irmpconfig.h` being a parameter. -/
def irmp_init_port (IRMP_BIT : Nat) (r : Port) : Port :=
  { IRMP_PORT := (r.IRMP_PORT &&& (0xFF ^^^ ((1 <<< IRMP_BIT) % 256))) % 256
    IRMP_DDR := (r.IRMP_DDR &&& (0xFF ^^^ ((1 <<< IRMP_BIT) % 256))) % 256 }

/-- Lines 1538-1551 with `IRMP_LOGGING == 0`, on the registers and the decoder variables
together: the two statements of `irmp_init` write the registers only. -/
def irmp_init_machine (IRMP_BIT : Nat) (m : Port × State) : Port × State :=
  (irmp_init_port IRMP_BIT m.1, irmp_init m.2)

/-- The decoder in the middle of a NEC frame: the state after the first 300 samples of the
canonical waveform of `(0x1234, 0x56)`, received from program start. -/
def nec_mid_frame : State :=
  (run_poll nec_build initial ((nec_wave 0x1234 0x56 0).take 300)).1

/-- Consecutive calls `irmp_store_bit (b_0)`, ..., `irmp_store_bit (b_(n-1))` with the bit
values of the list `bs`. -/
def store_bits (c : Config) (s : State) (bs : List Bool) : State :=
  bs.foldl (fun t b => irmp_store_bit c t (if b then 1 else 0)) s

/-- The value `sum of b_k * 2^k` of the bits `b_0 .. b_(n-1)`: the first bit is the least
significant one. -/
def lsb_sum (bs : List Bool) : Nat :=
  ∑ k ∈ Finset.range bs.length, (if bs.getD k false then 1 else 0) * 2 ^ k

/-- The value `sum of b_k * 2^(n-1-k)` of the bits `b_0 .. b_(n-1)`: the first bit is the
most significant one. -/
def msb_sum (bs : List Bool) : Nat :=
  ∑ k ∈ Finset.range bs.length, (if bs.getD k false then 1 else 0) * 2 ^ (bs.length - 1 - k)

/-- A decoder at the first data bit of a NEC frame: descriptor `nec_param` (LSB first,
address bits 0..15, command bits 16..31), `irmp_bit = 0`, accumulators zero. -/
def nec_data_start : State :=
  { initial with irmp_param := nec_param nec_build, irmp_start_bit_detected := 1 }

/-- A decoder at data bit `k` of a Denon frame: descriptor `denon_param` (MSB first,
address bits 0..4, command bits 5..14), accumulators zero. -/
def denon_data_at (k : Nat) : State :=
  { initial with irmp_param := denon_param remote_build, irmp_start_bit_detected := 1,
                 irmp_bit := k }

/-- Tick windows and frame geometry of RC5 and RC6 at `F_INTERRUPTS = 10000` (lines 496-500
and 520-529 with the nominal times 889 us for a RC5 half bit, 2666 us / 889 us for the RC6
start pulse and pause, 889 us for the RC6 toggle half bit and 444 us for a RC6 half bit):
RC5 has one toggle and five address bits at 1..6, six command bits at 7..12, 13 bits, MSB
first, no stop bit; RC6 has eight address bits at 5..12, eight command bits at 13..20, 21
bits (36 in mode 6A), MSB first, and the first half of a 1 is a pulse.  The timeouts are
those of `nec_keys`; every other macro is 0. -/
def manchester_keys : Key → Int
  | .RC5_START_BIT_LEN_MIN => 7
  | .RC5_START_BIT_LEN_MAX => 11
  | .RC5_BIT_LEN_MIN => 7
  | .RC5_BIT_LEN_MAX => 11
  | .RC5_ADDRESS_OFFSET => 1
  | .RC5_ADDRESS_LEN => 6
  | .RC5_COMMAND_OFFSET => 7
  | .RC5_COMMAND_LEN => 6
  | .RC5_COMPLETE_DATA_LEN => 13
  | .RC5_STOP_BIT => 0
  | .RC5_LSB => 0
  | .RC5_FLAGS => 1
  | .RC6_START_BIT_PULSE_LEN_MIN => 23
  | .RC6_START_BIT_PULSE_LEN_MAX => 30
  | .RC6_START_BIT_PAUSE_LEN_MIN => 7
  | .RC6_START_BIT_PAUSE_LEN_MAX => 11
  | .RC6_TOGGLE_BIT_LEN_MIN => 7
  | .RC6_BIT_PULSE_LEN_MIN => 3
  | .RC6_BIT_PULSE_LEN_MAX => 8
  | .RC6_BIT_PAUSE_LEN_MIN => 3
  | .RC6_BIT_PAUSE_LEN_MAX => 6
  | .RC6_ADDRESS_OFFSET => 5
  | .RC6_ADDRESS_LEN => 8
  | .RC6_COMMAND_OFFSET => 13
  | .RC6_COMMAND_LEN => 8
  | .RC6_COMPLETE_DATA_LEN_SHORT => 21
  | .RC6_COMPLETE_DATA_LEN_LONG => 36
  | .RC6_STOP_BIT => 0
  | .RC6_LSB => 0
  | .RC6_FLAGS => 3
  | .IRMP_TIMEOUT_LEN => 165
  | .IRMP_KEY_REPETITION_LEN => 1500
  | .AUTO_FRAME_REPETITION_LEN => 500
  | _ => 0

/-- The build with `IRMP_SUPPORT_RC5_PROTOCOL` and `IRMP_SUPPORT_RC6_PROTOCOL` as the only
enabled protocols, sampled at 10 kHz, with an 8-bit `PAUSE_LEN`. -/
def manchester_build : Config :=
  { nec_build with
      IRMP_SUPPORT_NEC_PROTOCOL := false
      IRMP_SUPPORT_RC5_PROTOCOL := true
      IRMP_SUPPORT_RC6_PROTOCOL := true
      K := manchester_keys }

/-- One Manchester bit of `half` ticks per half bit: with `pulse_first` a 1 is a pulse
followed by darkness and a 0 darkness followed by a pulse (RC6); without it the other way
round (RC5). -/
def manchester_bit (half : Nat) (pulse_first : Bool) (b : Bool) : List Bool :=
  if b = pulse_first then List.replicate half false ++ List.replicate half true
  else List.replicate half true ++ List.replicate half false

/-- Samples of a RC5 frame at 10 kHz, 9 ticks per half bit: the two start bits `1 1`, the
toggle bit `t`, five address bits and six command bits, most significant bit first,
followed by `dark` ticks of darkness.  The dark first half of the first start bit is
left out. -/
def rc5_wave (t : Bool) (A C dark : Nat) : List Bool :=
  (([true, true, t] ++ msb_bits 5 A ++ msb_bits 6 C).flatMap (manchester_bit 9 false)).drop 9
    ++ List.replicate dark true

/-- Lines 2796-2807: the switch to the RC6A geometry, made before the bit
`manchester_value` of a short pulse is stored. -/
def rc6a_switch (c : Config) (s1 : State) (manchester_value : Nat) : State :=
  if c.IRMP_SUPPORT_RC6_PROTOCOL ∧ s1.irmp_param.protocol = IRMP_RC6_PROTOCOL ∧
      s1.irmp_bit = 1 ∧ manchester_value = 1 then
    { s1 with
        irmp_param := { s1.irmp_param with
                          complete_len := u8 (c.K .RC6_COMPLETE_DATA_LEN_LONG),
                          address_offset := 5,
                          address_end := 5 + 15,
                          command_offset := 5 + 15 + 1,
                          command_end := 5 + 15 + 1 + 16 - 1 }
        irmp_tmp_address := 0 }
  else s1

/-- The test of lines 2720 and 2742: the RC6 toggle bit is due. -/
def rc6_toggle (c : Config) (t : State) : Prop :=
  c.IRMP_SUPPORT_RC6_PROTOCOL ∧ t.irmp_param.protocol = IRMP_RC6_PROTOCOL ∧ t.irmp_bit = 4 ∧
    (t.irmp_pulse_time : Int) > c.K .RC6_TOGGLE_BIT_LEN_MIN

instance (c : Config) (t : State) : Decidable (rc6_toggle c t) := by
  unfold rc6_toggle; infer_instance

/-- The test of line 2777: the previous pause was a long one. -/
def long_pause (s : State) : Prop :=
  s.last_pause > s.irmp_param.pause_1_len_max ∧ s.last_pause ≤ 2 * s.irmp_param.pause_1_len_max

instance (s : State) : Decidable (long_pause s) := by
  unfold long_pause; infer_instance

/-- Lines 2775-2785: the variable `manchester_value` of a short pulse. -/
def manchester_value (s : State) : Nat :=
  if long_pause s then (if s.last_value ≠ 0 then 0 else 1) else s.last_value

/-- Lines 2713-2844: what a run pair of a Manchester protocol stores. -/
def manchester_store (c : Config) (s : State) : State :=
  let first_is_1 : Prop := has_flag s.irmp_param IRMP_PARAM_FLAG_1ST_PULSE_IS_1
  if s.irmp_pulse_time > s.irmp_param.pulse_1_len_max then
    if rc6_toggle c s then
      if (s.irmp_param.complete_len : Int) = c.K .RC6_COMPLETE_DATA_LEN_LONG then
        { irmp_store_bit c s 1 with last_value := 1 }
      else
        { irmp_store_bit c s 0 with last_value := 0 }
    else
      let s1 := irmp_store_bit c s (if first_is_1 then 0 else 1)
      if rc6_toggle c s1 then
        let s2 := irmp_store_bit c s1 1
        if s2.irmp_pause_time > 2 * s2.irmp_param.pause_1_len_max then
          { s2 with last_value := 0 }
        else
          { s2 with last_value := 1 }
      else
        let s2 := irmp_store_bit c s1 (if first_is_1 then 1 else 0)
        { s2 with last_value := if first_is_1 then 1 else 0 }
  else if s.irmp_param.pulse_1_len_min ≤ s.irmp_pulse_time ∧
      s.irmp_pulse_time ≤ s.irmp_param.pulse_1_len_max then
    let s1 : State := if long_pause s then { s with last_value := manchester_value s } else s
    irmp_store_bit c (rc6a_switch c s1 (manchester_value s)) (manchester_value s)
  else
    if c.IRMP_SUPPORT_RC5_PROTOCOL ∧ c.IRMP_SUPPORT_FDC_PROTOCOL ∧
        s.irmp_param2.protocol = IRMP_FDC_PROTOCOL ∧
        within s.irmp_pulse_time (c.K .FDC_PULSE_LEN_MIN) (c.K .FDC_PULSE_LEN_MAX) ∧
        (within s.irmp_pause_time (c.K .FDC_1_PAUSE_LEN_MIN) (c.K .FDC_1_PAUSE_LEN_MAX) ∨
          within s.irmp_pause_time (c.K .FDC_0_PAUSE_LEN_MIN) (c.K .FDC_0_PAUSE_LEN_MAX)) then
      { s with irmp_param := { s.irmp_param with protocol := 0 } }
    else if c.IRMP_SUPPORT_RC5_PROTOCOL ∧ c.IRMP_SUPPORT_RCCAR_PROTOCOL ∧
        s.irmp_param2.protocol = IRMP_RCCAR_PROTOCOL ∧
        within s.irmp_pulse_time (c.K .RCCAR_PULSE_LEN_MIN) (c.K .RCCAR_PULSE_LEN_MAX) ∧
        (within s.irmp_pause_time (c.K .RCCAR_1_PAUSE_LEN_MIN) (c.K .RCCAR_1_PAUSE_LEN_MAX) ∨
          within s.irmp_pause_time (c.K .RCCAR_0_PAUSE_LEN_MIN) (c.K .RCCAR_0_PAUSE_LEN_MAX)) then
      { s with irmp_param := { s.irmp_param with protocol := 0 } }
    else
      { s with irmp_start_bit_detected := 0, irmp_pause_time := 0 }

/-- Lines 2860-2867 and 2884-2891: the secondary descriptor becomes the working one when
`irmp_param.protocol` was set to 0. -/
def adopt_param2 (t : State) : State :=
  if t.irmp_param.protocol = 0 then
    { t with irmp_param := t.irmp_param2
             irmp_param2 := { t.irmp_param2 with protocol := 0 }
             irmp_tmp_address := t.irmp_tmp_address2
             irmp_tmp_command := t.irmp_tmp_command2 }
  else t

/-- Lines 2846-2869: the FDC candidate of a RC5 start. -/
def shadow_fdc (c : Config) (sa : State) : State :=
  if c.IRMP_SUPPORT_RC5_PROTOCOL ∧ c.IRMP_SUPPORT_FDC_PROTOCOL ∧
      sa.irmp_param2.protocol = IRMP_FDC_PROTOCOL ∧
      within sa.irmp_pulse_time (c.K .FDC_PULSE_LEN_MIN) (c.K .FDC_PULSE_LEN_MAX) then
    let t : State :=
      if within sa.irmp_pause_time (c.K .FDC_1_PAUSE_LEN_MIN) (c.K .FDC_1_PAUSE_LEN_MAX) then
        irmp_store_bit2 sa 1
      else if within sa.irmp_pause_time (c.K .FDC_0_PAUSE_LEN_MIN) (c.K .FDC_0_PAUSE_LEN_MAX) then
        irmp_store_bit2 sa 0
      else sa
    adopt_param2 t
  else sa

/-- Lines 2870-2893: the RCCAR candidate of a RC5 start. -/
def shadow_rccar (c : Config) (sb : State) : State :=
  if c.IRMP_SUPPORT_RC5_PROTOCOL ∧ c.IRMP_SUPPORT_RCCAR_PROTOCOL ∧
      sb.irmp_param2.protocol = IRMP_RCCAR_PROTOCOL ∧
      within sb.irmp_pulse_time (c.K .RCCAR_PULSE_LEN_MIN) (c.K .RCCAR_PULSE_LEN_MAX) then
    let t : State :=
      if within sb.irmp_pause_time (c.K .RCCAR_1_PAUSE_LEN_MIN) (c.K .RCCAR_1_PAUSE_LEN_MAX) then
        irmp_store_bit2 sb 1
      else if within sb.irmp_pause_time (c.K .RCCAR_0_PAUSE_LEN_MIN) (c.K .RCCAR_0_PAUSE_LEN_MAX) then
        irmp_store_bit2 sb 0
      else sb
    adopt_param2 t
  else sb

/-- Lines 2846-2897: the candidates FDC and RCCAR of a RC5 start, then `last_pause` and
`wait_for_space`. -/
def manchester_shadow (c : Config) (sa : State) : State :=
  let sc := shadow_rccar c (shadow_fdc c sa)
  { sc with last_pause := sc.irmp_pause_time, wait_for_space := 0 }

/-- Samples of a RC6 frame at 10 kHz: the leader (27-tick pulse, 9-tick pause), the start
bit `1` and the three mode bits with 5 ticks per half bit, the toggle bit `t` with 9 ticks
per half bit, then the bits `bits` with 5 ticks per half bit, followed by `dark` ticks of
darkness.  A 1 is a pulse followed by darkness. -/
def rc6_wave (mode : Nat) (t : Bool) (bits : List Bool) (dark : Nat) : List Bool :=
  List.replicate 27 false ++ List.replicate 9 true ++
  ([true] ++ msb_bits 3 mode).flatMap (manchester_bit 5 true) ++ manchester_bit 9 true t ++
  bits.flatMap (manchester_bit 5 true) ++ List.replicate dark true

/-- The decoder of `manchester_build` 126 ticks into `rc5_wave false 0x05 0x35 0` fed from
`initial`: four bits are stored (second start bit, toggle bit, two address bits), an
18-tick pulse and an 18-tick pause are counted and the next pulse is due. -/
def rc5_long_pulse : State :=
  ⟨4, ⟨7, 7, 11, 7, 11, 0, 0, 0, 0, 1, 7, 7, 13, 13, 0, 0, 1⟩, zero_param,
    0, 0, 0, 0, 0, 0, 0, 0, 0, 0, 0, [0, 0, 0, 0, 0, 0],
    0, 1, 1, 0, 18, 18, 65535, 65535, 0, 0, 0, 0, 18, 0⟩

/-- The decoder of `manchester_build` 144 ticks into the same frame: six bits are stored,
a 9-tick pulse and a 9-tick pause are counted after a pause of 18 ticks, `last_value` is 0
and the next pulse is due. -/
def rc5_short_pulse : State :=
  ⟨6, ⟨7, 7, 11, 7, 11, 0, 0, 0, 0, 1, 7, 7, 13, 13, 0, 0, 1⟩, zero_param,
    0, 0, 0, 0, 0, 0, 2, 0, 0, 0, 0, [0, 0, 0, 0, 0, 0],
    0, 1, 1, 0, 9, 9, 65535, 65535, 0, 0, 0, 0, 18, 0⟩

/-- The decoder of `manchester_build` 63 ticks into the same frame: two bits are stored, a
9-tick pulse and a 9-tick pause are counted after a pause of 9 ticks, `last_value` is 0
and the next pulse is due. -/
def rc5_short_pulse_early : State :=
  ⟨2, ⟨7, 7, 11, 7, 11, 0, 0, 0, 0, 1, 7, 7, 13, 13, 0, 0, 1⟩, zero_param,
    0, 0, 0, 0, 0, 0, 0, 0, 0, 0, 0, [0, 0, 0, 0, 0, 0],
    0, 1, 1, 0, 9, 9, 65535, 65535, 0, 0, 0, 0, 9, 0⟩

/-- The decoder of `manchester_build` 56 ticks into a RC6 frame of mode 6 fed from
`initial`: the start bit is stored, the pulse and the pause of the first mode bit (a 1)
are counted and the next pulse is due. -/
def rc6_mode_bit : State :=
  ⟨1, ⟨9, 3, 8, 3, 6, 0, 0, 0, 0, 5, 13, 13, 21, 21, 0, 0, 3⟩, zero_param,
    0, 0, 0, 0, 0, 0, 0, 0, 0, 0, 0, [0, 0, 0, 0, 0, 0],
    0, 1, 1, 0, 5, 5, 65535, 65535, 0, 0, 0, 0, 5, 1⟩

/-- The macros of `nec_keys` together with the frame geometry of NEC42: 13 address bits at
0..12, 13 bits of inverted address at 13..25 (kept in `irmp_tmp_address2`), 8 command bits
at 26..33, 42 bits. -/
def nec42_keys : Key → Int
  | .NEC42_ADDRESS_OFFSET => 0
  | .NEC42_ADDRESS_LEN => 13
  | .NEC42_COMMAND_OFFSET => 26
  | .NEC42_COMMAND_LEN => 8
  | .NEC42_COMPLETE_DATA_LEN => 42
  | k => nec_keys k

/-- The build with `IRMP_SUPPORT_NEC_PROTOCOL` and `IRMP_SUPPORT_NEC42_PROTOCOL` enabled,
sampled at 10 kHz. -/
def nec42_build : Config :=
  { nec_build with IRMP_SUPPORT_NEC42_PROTOCOL := true, K := nec42_keys }

/-- The decoder of `nec42_build` 866 ticks into `nec_wave 0xFB04 0x08 200` fed from
`initial`: the 32 data bits of the NEC frame are stored under the NEC42 descriptor (bits
0..12 in `irmp_tmp_address`, bits 13..25 in `irmp_tmp_address2`, bits 26..31 in
`irmp_tmp_command`), the stop pulse is counted and the pause has lasted 165 ticks. -/
def nec42_timeout : State :=
  ⟨32, ⟨28, 2, 9, 9, 25, 2, 9, 2, 9, 0, 13, 26, 34, 42, 1, 1, 0⟩, zero_param,
    0, 0, 0, 0, 0, 0, 6916, 61, 6215, 0, 0, [0, 0, 0, 0, 0, 0],
    0, 1, 1, 0, 6, 165, 65535, 65535, 0, 0, 0, 0, 0, 0⟩

/-! ## Loops, stages and conditions of the data section, builds and states of the last claims -/
/-- Lines 2536-2542: the SIRCS frame is closed after the pending bit; `s1` is the decoder
after `irmp_pause_time++`. -/
def sircs_close (c : Config) (s1 : State) : State :=
  { s1 with
      irmp_param := { s1.irmp_param with
                        complete_len := (s1.irmp_bit + 1) % 256,
                        command_end := (s1.irmp_param.command_offset + s1.irmp_bit + 1) % 256 }
      irmp_tmp_address :=
        (s1.irmp_tmp_address |||
          u16 (((s1.irmp_bit : Int) - c.K .SIRCS_MINIMUM_DATA_LEN + 1) * 256)) % 65536
      irmp_pause_time := pl c (c.K .SIRCS_PAUSE_LEN_MAX - 1) }

/-- Lines 3092-3108 and 3135-3144: the pulse distance decoder; a pair that matches
neither window ends the frame. -/
def got_light_pulse_distance (c : Config) (s : State) : State :=
  let p := s.irmp_param
  if p.pulse_1_len_min ≤ s.irmp_pulse_time ∧ s.irmp_pulse_time ≤ p.pulse_1_len_max ∧
      p.pause_1_len_min ≤ s.irmp_pause_time ∧ s.irmp_pause_time ≤ p.pause_1_len_max then
    { irmp_store_bit c s 1 with wait_for_space := 0 }
  else if p.pulse_0_len_min ≤ s.irmp_pulse_time ∧ s.irmp_pulse_time ≤ p.pulse_0_len_max ∧
      p.pause_0_len_min ≤ s.irmp_pause_time ∧ s.irmp_pause_time ≤ p.pause_0_len_max then
    { irmp_store_bit c s 0 with wait_for_space := 0 }
  else
    { s with irmp_start_bit_detected := 0, irmp_pause_time := 0 }

/-- The test of lines 3092-3093 and 3100-3101: the pair of pulse and pause is a data bit
of the pulse distance decoder. -/
def bit_accepted (s : State) : Prop :=
  (s.irmp_param.pulse_1_len_min ≤ s.irmp_pulse_time ∧
    s.irmp_pulse_time ≤ s.irmp_param.pulse_1_len_max ∧
    s.irmp_param.pause_1_len_min ≤ s.irmp_pause_time ∧
    s.irmp_pause_time ≤ s.irmp_param.pause_1_len_max) ∨
  (s.irmp_param.pulse_0_len_min ≤ s.irmp_pulse_time ∧
    s.irmp_pulse_time ≤ s.irmp_param.pulse_0_len_max ∧
    s.irmp_param.pause_0_len_min ≤ s.irmp_pause_time ∧
    s.irmp_pause_time ≤ s.irmp_param.pause_0_len_max)

instance (s : State) : Decidable (bit_accepted s) := by
  unfold bit_accepted; infer_instance

/-- The test of lines 1955-1960 on the decoder after `irmp_pause_time++`: the pause after
the start pulse has timed out. -/
def start_pause_timeout (c : Config) (s : State) : Prop :=
  if c.IRMP_SUPPORT_NIKON_PROTOCOL then
    (((s.irmp_pulse_time : Int) < c.K .NIKON_START_BIT_PULSE_LEN_MIN ∨
        (s.irmp_pulse_time : Int) > c.K .NIKON_START_BIT_PULSE_LEN_MAX) ∧
      (((s.irmp_pause_time + 1) % c.PAUSE_LEN_MOD : Nat) : Int) > c.K .IRMP_TIMEOUT_LEN) ∨
    (((s.irmp_pause_time + 1) % c.PAUSE_LEN_MOD : Nat) : Int) > c.K .IRMP_TIMEOUT_NIKON_LEN
  else (((s.irmp_pause_time + 1) % c.PAUSE_LEN_MOD : Nat) : Int) > c.K .IRMP_TIMEOUT_LEN

instance (c : Config) (s : State) : Decidable (start_pause_timeout c s) := by
  unfold start_pause_timeout; infer_instance

/-- The tests of lines 2532-2535, 2546-2549, 2557, 2597 and 2627-2628 on the decoder after
`irmp_pause_time++`: one of the branches that come before the timeout test of line 2636
takes the dark tick. -/
def before_timeout (c : Config) (s : State) : Prop :=
  (c.IRMP_SUPPORT_SIRCS_PROTOCOL ∧ s.irmp_param.protocol = IRMP_SIRCS_PROTOCOL ∧
    (((s.irmp_pause_time + 1) % c.PAUSE_LEN_MOD : Nat) : Int) > c.K .SIRCS_PAUSE_LEN_MAX ∧
    s.irmp_bit ≥ 12 - 1) ∨
  (c.IRMP_SUPPORT_SERIAL ∧ has_flag s.irmp_param IRMP_PARAM_FLAG_IS_SERIAL ∧
    s.irmp_param.protocol = IRMP_NETBOX_PROTOCOL ∧
    (((s.irmp_pause_time + 1) % c.PAUSE_LEN_MOD : Nat) : Int) ≥
      c.K .NETBOX_PULSE_LEN * (c.K .NETBOX_COMPLETE_DATA_LEN - (s.irmp_bit : Int))) ∨
  (c.IRMP_SUPPORT_GRUNDIG_NOKIA_IR60_PROTOCOL ∧ s.irmp_param.protocol = IRMP_GRUNDIG_PROTOCOL ∧
    s.irmp_param.stop_bit = 0) ∨
  (c.IRMP_SUPPORT_SIEMENS_OR_RUWIDO_PROTOCOL ∧ s.irmp_param.protocol = IRMP_RUWIDO_PROTOCOL ∧
    s.irmp_param.stop_bit = 0) ∨
  (c.IRMP_SUPPORT_MANCHESTER ∧ has_flag s.irmp_param IRMP_PARAM_FLAG_IS_MANCHESTER ∧
    (s.irmp_pause_time + 1) % c.PAUSE_LEN_MOD ≥ 2 * s.irmp_param.pause_1_len_max ∧
    (s.irmp_bit : Int) ≥ (s.irmp_param.complete_len : Int) - 2 ∧ s.irmp_param.stop_bit = 0)

instance (c : Config) (s : State) : Decidable (before_timeout c s) := by
  unfold before_timeout; infer_instance

/-- The tests of lines 2638, 2643, 2657 and 2672: at the timeout the frame is completed
(one bit short, no stop bit) or promoted to JVC or NEC instead of being dropped. -/
def timeout_keeps_frame (c : Config) (s : State) : Prop :=
  ((s.irmp_bit : Int) = (s.irmp_param.complete_len : Int) - 1 ∧ s.irmp_param.stop_bit = 0) ∨
  (c.IRMP_SUPPORT_JVC_PROTOCOL ∧ s.irmp_param.protocol = IRMP_NEC_PROTOCOL ∧
    (s.irmp_bit = 16 ∨ s.irmp_bit = 17)) ∨
  (c.IRMP_SUPPORT_NEC42_PROTOCOL ∧ c.IRMP_SUPPORT_NEC_PROTOCOL ∧
    s.irmp_param.protocol = IRMP_NEC42_PROTOCOL ∧ s.irmp_bit = 32) ∨
  (c.IRMP_SUPPORT_NEC42_PROTOCOL ∧ c.IRMP_SUPPORT_JVC_PROTOCOL ∧
    s.irmp_param.protocol = IRMP_NEC42_PROTOCOL ∧ s.irmp_bit = 16)

instance (c : Config) (s : State) : Decidable (timeout_keeps_frame c s) := by
  unfold timeout_keeps_frame; infer_instance

/-- The decoder of `nec42_build` 833 ticks into `nec_wave 0x1234 0x56 200` fed from
`initial`: the 32 data bits of the NEC frame are stored under the NEC42 descriptor, which
expects 42, the stop pulse is counted and the pause has lasted 165 ticks. -/
def nec42_pending : State :=
  ⟨32, ⟨28, 2, 9, 9, 25, 2, 9, 2, 9, 0, 13, 26, 34, 42, 1, 1, 0⟩, zero_param,
    0, 0, 0, 0, 0, 0, 4660, 42, 2736, 0, 0, [0, 0, 0, 0, 0, 0],
    0, 1, 1, 0, 6, 165, 65535, 65535, 0, 0, 0, 0, 0, 0⟩

/-- Samples of the NEC frame `(0x1234, 0x56)` cut off after 400 ticks (in the 18th data
bit), followed by 200 ticks of darkness. -/
def truncated_nec_wave : List Bool :=
  (nec_wave 0x1234 0x56 0).take 400 ++ List.replicate 200 true

/-- The decoder of `nec_build` 565 ticks into `truncated_nec_wave` fed from `initial`: 17
of the 32 bits are stored and the pause has lasted 165 ticks. -/
def nec_data_pause : State :=
  ⟨17, ⟨2, 2, 9, 9, 25, 2, 9, 2, 9, 0, 16, 16, 32, 32, 1, 1, 0⟩, zero_param,
    0, 0, 0, 0, 0, 0, 4660, 0, 0, 0, 0, [0, 0, 0, 0, 0, 0],
    0, 1, 1, 0, 6, 165, 65535, 65535, 0, 0, 0, 0, 0, 0⟩

/-- The decoder of `nec_build` after a 90-tick pulse and 165 ticks of darkness fed from
`initial`: the start pulse is counted and the start pause has lasted 165 ticks. -/
def nec_start_pause : State :=
  ⟨255, zero_param, zero_param,
    0, 0, 0, 0, 0, 0, 0, 0, 0, 0, 0, [0, 0, 0, 0, 0, 0],
    0, 1, 0, 1, 90, 165, 65535, 65535, 0, 0, 0, 0, 0, 0⟩

/-- The decoding phase: a start bit is detected and the start pause is consumed (the branch
of line 2495). -/
def decoding (s : State) : Prop :=
  s.irmp_start_bit_detected ≠ 0 ∧ s.wait_for_start_space = 0

instance (s : State) : Decidable (decoding s) := by
  unfold decoding; infer_instance

/-- The run pairs of the descriptor go to the serial decoder (lines 2900-2935) or to the
pulse distance decoder (lines 3092-3108), not to the Manchester decoder of lines 2710-2897
nor to the Manchester branches of lines 2557-2635; `stop_bit` is 0 or 1, `complete_len` is
a `uint8_t`, and unless the descriptor is serial both pause windows begin at 2 ticks or
more. -/
def distance_coded (c : Config) (p : IRMP_PARAMETER) : Prop :=
  ¬ (c.IRMP_SUPPORT_MANCHESTER ∧ has_flag p IRMP_PARAM_FLAG_IS_MANCHESTER) ∧
  p.stop_bit ≤ 1 ∧ p.complete_len < 256 ∧
  (¬ (c.IRMP_SUPPORT_SERIAL ∧ has_flag p IRMP_PARAM_FLAG_IS_SERIAL) →
    2 ≤ p.pause_1_len_min ∧ 2 ≤ p.pause_0_len_min) ∧
  (c.IRMP_SUPPORT_GRUNDIG_NOKIA_IR60_PROTOCOL → p.protocol ≠ IRMP_GRUNDIG_PROTOCOL) ∧
  (c.IRMP_SUPPORT_SIEMENS_OR_RUWIDO_PROTOCOL → p.protocol ≠ IRMP_RUWIDO_PROTOCOL)

instance (c : Config) (p : IRMP_PARAMETER) : Decidable (distance_coded c p) := by
  unfold distance_coded; infer_instance

/-- The frame geometry of the protocols with a branch of their own in the decoder is
consistent: a Samsung frame, and the SAMSUNG32 frame it may turn out to be, is longer than
the sync position 16 (lines 2940-2982), a NEC16 frame has 8 bits or more (lines 2985-3002),
a Bang & Olufsen frame has 20 bits or more and data pause windows beginning at 2 ticks or
more (lines 3007-3088), and a Kathrein frame is longer than the sync position 12 (lines
3110-3134). -/
def sync_geometry (c : Config) (p : IRMP_PARAMETER) : Prop :=
  (c.IRMP_SUPPORT_SAMSUNG_PROTOCOL → p.protocol = IRMP_SAMSUNG_PROTOCOL →
    17 ≤ p.complete_len ∧ 17 ≤ u8 (c.K .SAMSUNG32_COMPLETE_DATA_LEN)) ∧
  (c.IRMP_SUPPORT_NEC16_PROTOCOL →
    p.protocol = IRMP_NEC_PROTOCOL ∨ p.protocol = IRMP_NEC42_PROTOCOL →
    8 ≤ u8 (c.K .NEC16_COMPLETE_DATA_LEN)) ∧
  (c.IRMP_SUPPORT_BANG_OLUFSEN_PROTOCOL → p.protocol = IRMP_BANG_OLUFSEN_PROTOCOL →
    20 ≤ p.complete_len ∧ 2 ≤ c.K .BANG_OLUFSEN_1_PAUSE_LEN_MIN ∧
    2 ≤ c.K .BANG_OLUFSEN_0_PAUSE_LEN_MIN ∧ 2 ≤ c.K .BANG_OLUFSEN_R_PAUSE_LEN_MIN) ∧
  (c.IRMP_SUPPORT_KATHREIN_PROTOCOL → p.protocol = IRMP_KATHREIN_PROTOCOL →
    13 ≤ p.complete_len)

instance (c : Config) (p : IRMP_PARAMETER) : Decidable (sync_geometry c p) := by
  unfold sync_geometry; infer_instance

/-- Where a timeout can promote the frame to JVC or NEC (lines 2643-2690) the pause windows
of the NEC descriptors end at `IRMP_TIMEOUT_LEN` or before, and Denon and Thomson frames,
whose first bit is stored with the start pause (lines 2454-2486), have one bit or more. -/
def start_geometry (c : Config) (p : IRMP_PARAMETER) : Prop :=
  (c.IRMP_SUPPORT_JVC_PROTOCOL ∨ c.IRMP_SUPPORT_NEC42_PROTOCOL →
    p.protocol = IRMP_NEC_PROTOCOL ∨ p.protocol = IRMP_NEC42_PROTOCOL →
    (p.pause_1_len_max : Int) ≤ c.K .IRMP_TIMEOUT_LEN ∧
    (p.pause_0_len_max : Int) ≤ c.K .IRMP_TIMEOUT_LEN) ∧
  (c.IRMP_SUPPORT_DENON_PROTOCOL → p.protocol = IRMP_DENON_PROTOCOL → 1 ≤ p.complete_len) ∧
  (c.IRMP_SUPPORT_THOMSON_PROTOCOL → p.protocol = IRMP_THOMSON_PROTOCOL → 1 ≤ p.complete_len)

instance (c : Config) (p : IRMP_PARAMETER) : Decidable (start_geometry c p) := by
  unfold start_geometry; infer_instance

/-- A regular descriptor: pulse distance or serial coded with pause windows that begin at 2
ticks or more, and a consistent frame geometry. -/
def regular_descriptor (c : Config) (p : IRMP_PARAMETER) : Prop :=
  distance_coded c p ∧ sync_geometry c p ∧ start_geometry c p

instance (c : Config) (p : IRMP_PARAMETER) : Decidable (regular_descriptor c p) := by
  unfold regular_descriptor; infer_instance

/-- The descriptors the start-bit classifier of the build can load (lines 1981-2350), in
the order of its tests. -/
def descriptors (c : Config) : List IRMP_PARAMETER :=
  (if c.IRMP_SUPPORT_SIRCS_PROTOCOL then [sircs_param c] else []) ++
  (if c.IRMP_SUPPORT_JVC_PROTOCOL then [nec_param c] else []) ++
  (if c.IRMP_SUPPORT_NEC_PROTOCOL then
    [if c.IRMP_SUPPORT_NEC42_PROTOCOL then nec42_param c else nec_param c, nec_rep_param c]
   else []) ++
  (if c.IRMP_SUPPORT_NIKON_PROTOCOL then [nikon_param c] else []) ++
  (if c.IRMP_SUPPORT_SAMSUNG_PROTOCOL then [samsung_param c] else []) ++
  (if c.IRMP_SUPPORT_MATSUSHITA_PROTOCOL then [matsushita_param c] else []) ++
  (if c.IRMP_SUPPORT_KASEIKYO_PROTOCOL then [kaseikyo_param c] else []) ++
  (if c.IRMP_SUPPORT_RECS80_PROTOCOL then [recs80_param c] else []) ++
  (if c.IRMP_SUPPORT_RC5_PROTOCOL then [rc5_param c] else []) ++
  (if c.IRMP_SUPPORT_DENON_PROTOCOL then [denon_param c] else []) ++
  (if c.IRMP_SUPPORT_THOMSON_PROTOCOL then [thomson_param c] else []) ++
  (if c.IRMP_SUPPORT_RC6_PROTOCOL then [rc6_param c] else []) ++
  (if c.IRMP_SUPPORT_RECS80EXT_PROTOCOL then [recs80ext_param c] else []) ++
  (if c.IRMP_SUPPORT_NUBERT_PROTOCOL then [nubert_param c] else []) ++
  (if c.IRMP_SUPPORT_BANG_OLUFSEN_PROTOCOL then [bang_olufsen_param c] else []) ++
  (if c.IRMP_SUPPORT_GRUNDIG_NOKIA_IR60_PROTOCOL then [grundig_param c] else []) ++
  (if c.IRMP_SUPPORT_SIEMENS_OR_RUWIDO_PROTOCOL then [ruwido_param c] else []) ++
  (if c.IRMP_SUPPORT_FDC_PROTOCOL then [fdc_param c] else []) ++
  (if c.IRMP_SUPPORT_RCCAR_PROTOCOL then [rccar_param c] else []) ++
  (if c.IRMP_SUPPORT_KATHREIN_PROTOCOL then [kathrein_param c] else []) ++
  (if c.IRMP_SUPPORT_NETBOX_PROTOCOL then [netbox_param c] else []) ++
  (if c.IRMP_SUPPORT_LEGO_PROTOCOL then [lego_param c] else [])

/-- A regular build: every descriptor the start-bit classifier can load is regular. -/
def regular_build (c : Config) : Prop :=
  ∀ p ∈ descriptors c, regular_descriptor c p

instance (c : Config) : Decidable (regular_build c) := by
  unfold regular_build; infer_instance

/-- The pause that is being counted is no pause of a data bit: it has lasted one tick, or,
after the promotion of a timed-out frame to JVC or NEC (lines 2643-2690), longer than both
pause windows allow. -/
def stop_pause (s : State) : Prop :=
  s.irmp_pause_time = 1 ∨
  ((s.irmp_param.protocol = IRMP_NEC_PROTOCOL ∨ s.irmp_param.protocol = IRMP_JVC_PROTOCOL) ∧
    s.irmp_param.pause_1_len_max < s.irmp_pause_time ∧
    s.irmp_param.pause_0_len_max < s.irmp_pause_time)

instance (s : State) : Decidable (stop_pause s) := by
  unfold stop_pause; infer_instance

/-- Invariant of the decoder of a regular build while a start bit is detected: during the
start pause `wait_for_space` is 0; in the decoding phase the descriptor is regular,
`irmp_bit` is at most `complete_len`, and once `complete_len` bits are stored the pause
that is being counted is no pause of a data bit. -/
def decoder_inv (c : Config) (s : State) : Prop :=
  s.irmp_start_bit_detected ≠ 0 →
    (s.wait_for_start_space ≠ 0 → s.wait_for_space = 0) ∧
    (s.wait_for_start_space = 0 →
      regular_descriptor c s.irmp_param ∧
      s.irmp_bit ≤ s.irmp_param.complete_len ∧
      (s.wait_for_space ≠ 0 → s.irmp_bit = s.irmp_param.complete_len → stop_pause s))

/-- What `isr_got_light` leaves behind when it keeps the frame of `s`: the start pause
stays consumed, a pulse is being counted, the descriptor is regular and `irmp_bit` is at
most `complete_len`. -/
def bit_stored (c : Config) (s t : State) : Prop :=
  t.irmp_start_bit_detected ≠ 0 →
    t.wait_for_start_space = s.wait_for_start_space ∧ t.wait_for_space = 0 ∧
    regular_descriptor c t.irmp_param ∧ t.irmp_bit ≤ t.irmp_param.complete_len

/-- The build `remote_build` without Kaseikyo: SIRCS, NEC and Denon sampled at 10 kHz. -/
def distance_build : Config :=
  { remote_build with IRMP_SUPPORT_KASEIKYO_PROTOCOL := false }

/-- Tick windows of Kaseikyo at `F_INTERRUPTS = 15000` (lines 474-483 with the nominal
times 3380 us / 1690 us, 525 us, 1275 us, 425 us), the frame geometry of Kaseikyo and the
timeouts (`IRMP_TIMEOUT_LEN = 248`); every other macro is 0. -/
def kaseikyo_keys : Key → Int
  | .KASEIKYO_START_BIT_PULSE_LEN_MIN => 45
  | .KASEIKYO_START_BIT_PULSE_LEN_MAX => 57
  | .KASEIKYO_START_BIT_PAUSE_LEN_MIN => 22
  | .KASEIKYO_START_BIT_PAUSE_LEN_MAX => 29
  | .KASEIKYO_PULSE_LEN_MIN => 3
  | .KASEIKYO_PULSE_LEN_MAX => 13
  | .KASEIKYO_1_PAUSE_LEN_MIN => 12
  | .KASEIKYO_1_PAUSE_LEN_MAX => 26
  | .KASEIKYO_0_PAUSE_LEN_MIN => 2
  | .KASEIKYO_0_PAUSE_LEN_MAX => 11
  | .KASEIKYO_ADDRESS_OFFSET => 0
  | .KASEIKYO_ADDRESS_LEN => 16
  | .KASEIKYO_COMMAND_OFFSET => 28
  | .KASEIKYO_COMMAND_LEN => 12
  | .KASEIKYO_COMPLETE_DATA_LEN => 48
  | .KASEIKYO_STOP_BIT => 1
  | .KASEIKYO_LSB => 1
  | .KASEIKYO_FLAGS => 0
  | .IRMP_TIMEOUT_LEN => 248
  | .IRMP_KEY_REPETITION_LEN => 2250
  | .AUTO_FRAME_REPETITION_LEN => 750
  | _ => 0

/-- The build configuration with Kaseikyo as the only enabled protocol, sampled at 15 kHz,
and an 8-bit `PAUSE_LEN`. -/
def kaseikyo_build : Config :=
  { nec_build with
      IRMP_SUPPORT_NEC_PROTOCOL := false
      IRMP_SUPPORT_KASEIKYO_PROTOCOL := true
      K := kaseikyo_keys }

/-- Samples at 15 kHz of a Kaseikyo frame with the six bytes `bytes` (each LSB first):
start bit, 48 data bits, the stop pulse and `dark` ticks of darkness. -/
def kaseikyo_wave_15 (bytes : List Nat) (dark : Nat) : List Bool :=
  bit_wave 51 25 ++
  (bytes.flatMap (lsb_bits 8)).flatMap (fun b => bit_wave 8 (if b then 19 else 6)) ++
  bit_wave 8 dark

/-- Samples at 10 kHz of the Kaseikyo frame `02 20 90 31 42 E3` whose stop pulse is followed
by one tick of darkness, a pulse of 5 ticks, 4 ticks of darkness and a pulse of 5 ticks. -/
def kaseikyo_overlong_wave : List Bool :=
  kaseikyo_wave [0x02, 0x20, 0x90, 0x31, 0x42, 0xE3] 1 ++ bit_wave 5 4 ++ bit_wave 5 0

/-- Samples of the RC5 frame with toggle bit 0, address `0x05` and command `0x35` followed
by three further Manchester bits `0 1 1` (9 ticks per half bit) and 50 ticks of
darkness. -/
def rc5_overlong_wave : List Bool :=
  (([true, true, false] ++ msb_bits 5 0x05 ++ msb_bits 6 0x35 ++
      [false, true, true]).flatMap (manchester_bit 9 false)).drop 9 ++ List.replicate 50 true

/-- A decoder of `remote_build` at the first data bit of a Kaseikyo frame whose `xor_check`
still holds the six bytes of the previous frame. -/
def kaseikyo_residue : State :=
  { initial with
      irmp_param := kaseikyo_param remote_build
      irmp_start_bit_detected := 1
      xor_check := [0x02, 0x20, 0x90, 0x31, 0x42, 0xE3] }

/-- Tick windows and frame geometry of the Siemens and Ruwido protocols (lines 590-597)
for 5 ticks per half bit (275 us): start pulse 5 ticks, start pause 10 ticks; Ruwido has
nine address bits at 0..8 and eight command bits at 9..16, 17 bits; Siemens has eleven
address bits at 0..10 and eleven command bits at 11..21, 22 bits; MSB first, no stop bit,
Manchester coded.  The timeouts are those of `nec_keys`; every other macro is 0. -/
def ruwido_keys : Key → Int
  | .SIEMENS_OR_RUWIDO_START_BIT_PULSE_LEN_MIN => 3
  | .SIEMENS_OR_RUWIDO_START_BIT_PULSE_LEN_MAX => 7
  | .SIEMENS_OR_RUWIDO_START_BIT_PAUSE_LEN_MIN => 8
  | .SIEMENS_OR_RUWIDO_START_BIT_PAUSE_LEN_MAX => 12
  | .SIEMENS_OR_RUWIDO_BIT_PULSE_LEN_MIN => 3
  | .SIEMENS_OR_RUWIDO_BIT_PULSE_LEN_MAX => 7
  | .SIEMENS_OR_RUWIDO_BIT_PAUSE_LEN_MIN => 3
  | .SIEMENS_OR_RUWIDO_BIT_PAUSE_LEN_MAX => 7
  | .RUWIDO_ADDRESS_OFFSET => 0
  | .RUWIDO_ADDRESS_LEN => 9
  | .RUWIDO_COMMAND_OFFSET => 9
  | .RUWIDO_COMMAND_LEN => 8
  | .RUWIDO_COMPLETE_DATA_LEN => 17
  | .SIEMENS_ADDRESS_OFFSET => 0
  | .SIEMENS_ADDRESS_LEN => 11
  | .SIEMENS_COMMAND_OFFSET => 11
  | .SIEMENS_COMMAND_LEN => 11
  | .SIEMENS_COMPLETE_DATA_LEN => 22
  | .SIEMENS_OR_RUWIDO_STOP_BIT => 0
  | .SIEMENS_OR_RUWIDO_LSB => 0
  | .SIEMENS_OR_RUWIDO_FLAGS => 1
  | .IRMP_TIMEOUT_LEN => 165
  | .IRMP_KEY_REPETITION_LEN => 1500
  | .AUTO_FRAME_REPETITION_LEN => 500
  | _ => 0

/-- The build with `IRMP_SUPPORT_SIEMENS_PROTOCOL` and `IRMP_SUPPORT_RUWIDO_PROTOCOL` as the
only enabled protocols, with an 8-bit `PAUSE_LEN`. -/
def ruwido_build : Config :=
  { nec_build with
      IRMP_SUPPORT_NEC_PROTOCOL := false
      IRMP_SUPPORT_SIEMENS_PROTOCOL := true
      IRMP_SUPPORT_RUWIDO_PROTOCOL := true
      K := ruwido_keys }

/-- Samples of a Siemens or Ruwido frame, 5 ticks per half bit: the start pulse, 5 ticks of
darkness, then the bits `bits` (a 1 is darkness followed by a pulse), followed by `dark`
ticks of darkness. -/
def ruwido_wave (bits : List Bool) (dark : Nat) : List Bool :=
  List.replicate 5 false ++ List.replicate 5 true ++
  bits.flatMap (manchester_bit 5 false) ++ List.replicate dark true

/-- Samples of the 22-bit Siemens frame used below, followed by 200 ticks of darkness. -/
def siemens_frame : List Bool :=
  ruwido_wave ([true] ++ msb_bits 10 0x2A5 ++ msb_bits 10 0x1B6 ++ [true]) 200

/-- The decoder of `ruwido_build` 201 ticks into `siemens_frame` fed from `initial`: 18 bits
are stored under the Ruwido descriptor (`irmp_tmp_address = 0xA9`,
`irmp_tmp_command = 0x5B`, `last_value = 0`), one tick of the pause is counted and the
next tick is dark. -/
def ruwido_promotion : State :=
  ⟨18, ⟨23, 3, 7, 3, 7, 0, 0, 0, 0, 0, 9, 9, 17, 22, 0, 0, 1⟩, zero_param,
    0, 0, 0, 0, 0, 0, 169, 91, 0, 0, 0, [0, 0, 0, 0, 0, 0],
    0, 1, 1, 0, 5, 1, 65535, 65535, 0, 0, 0, 0, 10, 0⟩

/-- Line 2904: the condition of the first `while` of the serial decoder. -/
def serial_pulse_cond (s : State) : Prop :=
  s.irmp_bit < s.irmp_param.complete_len ∧ s.irmp_pulse_time > s.irmp_param.pulse_1_len_max

instance (s : State) : Decidable (serial_pulse_cond s) := by
  unfold serial_pulse_cond; infer_instance

/-- Lines 2906-2916: one pass through the body of the first `while`. -/
def serial_pulse_body (c : Config) (s : State) : State :=
  let s1 := irmp_store_bit c s 1
  if s1.irmp_pulse_time ≥ s1.irmp_param.pulse_1_len_min then
    { s1 with irmp_pulse_time := s1.irmp_pulse_time - s1.irmp_param.pulse_1_len_min }
  else
    { s1 with irmp_pulse_time := 0 }

/-- Line 2919: the condition of the second `while` of the serial decoder. -/
def serial_pause_cond (s : State) : Prop :=
  s.irmp_bit < s.irmp_param.complete_len ∧ s.irmp_pause_time > s.irmp_param.pause_1_len_max

instance (s : State) : Decidable (serial_pause_cond s) := by
  unfold serial_pause_cond; infer_instance

/-- Lines 2921-2931: one pass through the body of the second `while`. -/
def serial_pause_body (c : Config) (s : State) : State :=
  let s1 := irmp_store_bit c s 0
  if s1.irmp_pause_time ≥ s1.irmp_param.pause_1_len_min then
    { s1 with irmp_pause_time := s1.irmp_pause_time - s1.irmp_param.pause_1_len_min }
  else
    { s1 with irmp_pause_time := 0 }

/-- A serial descriptor whose `pulse_1_len_min` and `pause_1_len_min` are 0 (16 bits, bursts
longer than 3 ticks are split), with a 10-tick pulse and a 10-tick pause measured and no
bit stored. -/
def serial_zero_min : State :=
  { initial with
      irmp_param := ⟨IRMP_NETBOX_PROTOCOL, 0, 3, 0, 3, 0, 3, 0, 3, 0, 3, 3, 16, 16, 0, 1,
        IRMP_PARAM_FLAG_IS_SERIAL⟩
      irmp_start_bit_detected := 1
      wait_for_space := 1
      irmp_pulse_time := 10
      irmp_pause_time := 10 }

/-- Samples of a NEC-shaped frame whose 16 command bits are the raw value `R` (no inverted
copy of the command is formed): 90-tick start pulse, 45-tick pause, the 32 data bits LSB
first, the 6-tick stop pulse, and `dark` ticks of darkness. -/
def nec_raw_wave (A R : Nat) (dark : Nat) : List Bool :=
  List.replicate 90 false ++ List.replicate 45 true ++
  (lsb_bits 16 A ++ lsb_bits 16 R).flatMap nec_bit_wave ++
  List.replicate 6 false ++ List.replicate dark true

/-- A key whose frames fail the NEC inversion test (raw command `0x1256`) sent twice
400 ticks apart, followed by the valid frame of another key (address `0x1234`, command
`0x56`). -/
def rejected_twice_wave : List Bool :=
  nec_raw_wave 0x1234 0x1256 400 ++ nec_raw_wave 0x1234 0x1256 400 ++ nec_wave 0x1234 0x56 2

/-- The decoder of `nec_build` right after the call of `irmp_ISR` that latches the second
frame of `rejected_twice_wave` (tick 1693, with `irmp_get_data` polled after every earlier
tick): the frame (NEC, `0x1234`, raw command `0x1256`) is latched with the REPETITION
flag. -/
def nec_rejected_twice : State :=
  ⟨32, ⟨2, 2, 9, 9, 25, 2, 9, 2, 9, 0, 16, 16, 32, 32, 0, 1, 0⟩, zero_param,
    1, 2, 4660, 4694, 0, 1, 4660, 0, 0, 0, 0, [0, 0, 0, 0, 0, 0],
    0, 0, 1, 0, 0, 0, 4660, 4694, 0, 1, 0, 0, 0, 0⟩

/-- The raw RCCAR command rebuilt from a delivered address and command: V from bit 10,
D7..D0 from bits 7..0, A1 A0 from the address, C1 C0 from bits 9..8. -/
def rccar_raw (address command : Nat) : Nat :=
  (((command >>> 10) &&& 1) <<< 12) ||| ((command &&& 0xFF) <<< 4) ||| ((address &&& 3) <<< 2) |||
    ((command >>> 8) &&& 3)

/-- Lines 1632-1635: the address and the command that the RCCAR case computes from the raw
command `r`. -/
def rccar_fields (r : Nat) : Nat × Nat :=
  ((r &&& 0x000C) >>> 2,
   (((r &&& 0x1000) >>> 2) ||| ((r &&& 0x0003) <<< 8) ||| ((r &&& 0x0FF0) >>> 4)) % 65536)

/-! ## Theorems -/

/-! ## Runs without a latched frame -/

theorem Reach.append {c : Config} {Q : State → Prop} :
    ∀ (xs ys : List Bool) (s : State),
      Reach c (fun t => Reach c Q t ys) s xs → Reach c Q s (xs ++ ys)
  | [], _, _, h => h
  | _ :: xs, ys, _, h => ⟨h.1, Reach.append xs ys _ h.2⟩

theorem Reach.mono {c : Config} {Q Q' : State → Prop} (hQ : ∀ t, Q t → Q' t) :
    ∀ (xs : List Bool) (s : State), Reach c Q s xs → Reach c Q' s xs
  | [], _, h => hQ _ h
  | _ :: xs, _, h => ⟨h.1, Reach.mono hQ xs _ h.2⟩

/-- An invariant family `I j` advanced by every sample `x` carries through `n` samples. -/
theorem Reach.replicate {c : Config} (I : Nat → State → Prop) (x : Bool) (n : Nat)
    (step : ∀ j t, j < n → I j t →
      (isr_step c t x).irmp_ir_detected = 0 ∧ I (j + 1) (isr_step c t x)) :
    ∀ (m : Nat) (s : State), m ≤ n → I (n - m) s → Reach c (I n) s (List.replicate m x)
  | 0, s, _, h => by simpa using h
  | m + 1, s, hm, h => by
    have hs := step (n - (m + 1)) s (by omega) h
    refine ⟨hs.1, Reach.replicate I x n step m _ (by omega) ?_⟩
    have : n - (m + 1) + 1 = n - m := by omega
    rw [← this]; exact hs.2

theorem run_isr_append (c : Config) (s : State) (xs ys : List Bool) :
    run_isr c s (xs ++ ys) = run_isr c (run_isr c s xs) ys := by
  simp [run_isr, List.foldl_append]

/-- Without a latched frame `irmp_get_data` returns `FALSE` and changes nothing. -/
theorem irmp_get_data_unlatched (c : Config) (s : State) (d : IRMP_DATA)
    (h : s.irmp_ir_detected = 0) : irmp_get_data c s d = (false, s, d) := by
  simp [irmp_get_data, h]

theorem poll_step_unlatched (c : Config) (s : State) (out : List IRMP_DATA) (x : Bool)
    (h : (isr_step c s x).irmp_ir_detected = 0) :
    poll_step c (s, out) x = (isr_step c s x, out) := by
  simp [poll_step, irmp_ISR, irmp_get_data_unlatched c _ _ h]

/-- Along a run that never latches, polling delivers nothing and the decoder goes through
the same states as without polling. -/
theorem Reach.run {c : Config} {Q : State → Prop} :
    ∀ (xs : List Bool) (s : State) (out : List IRMP_DATA), Reach c Q s xs →
      xs.foldl (poll_step c) (s, out) = (run_isr c s xs, out) ∧ Q (run_isr c s xs)
  | [], s, out, h => ⟨rfl, h⟩
  | x :: xs, s, out, h => by
    have ih := Reach.run xs (isr_step c s x) out h.2
    simp only [List.foldl_cons, poll_step_unlatched c s out x h.1]
    exact ⟨ih.1, ih.2⟩

/-! ## Reception of a NEC frame, tick by tick -/

theorem nec_param_eq {c : Config} (h : NecBuild c) : nec_param c = nec_row := by
  simp [nec_param, nec_row, u8, IRMP_NEC_PROTOCOL, h.pulse_min, h.pulse_max, h.pause_1_min,
    h.pause_1_max, h.pause_0_min, h.pause_0_max, h.address_offset, h.address_len,
    h.command_offset, h.command_len, h.complete_len, h.stop_bit, h.lsb, h.flags]

theorem initial_idle : IdleSt initial 0 := by
  constructor <;> rfl

theorem idle_light {c : Config} {s : State} {pu : Nat} (h : IdleSt s pu) :
    IdleSt (isr_step c s false) ((pu + 1) % 256) := by
  have e : isr_step c s false = { s with irmp_pulse_time := (s.irmp_pulse_time + 1) % 256 } := by
    simp [isr_step, isr_idle, h.det, h.sbd]
  rw [e]
  constructor <;> simp [h.det, h.sbd, h.param, h.pulse, h.proto, h.flags, h.lcmd]

theorem idle_dark {c : Config} {s : State} {pu : Nat} (h : IdleSt s pu) (hpu : pu ≠ 0) :
    StartSt (isr_step c s true) pu 1 := by
  have e : isr_step c s true = isr_idle c s true := by
    simp [isr_step, h.det, h.sbd]
  rw [e]
  constructor <;>
    simp only [isr_idle, h.pulse, hpu, ne_eq, not_false_eq_true, if_true, Bool.true_eq_false,
      if_false] <;> split_ifs <;>
    simp [h.det, h.sbd, h.param, h.pulse, h.proto, h.flags, h.lcmd]

/-! Which branch of `irmp_ISR` a call takes. -/

theorem isr_step_latched (c : Config) (s : State) (x : Bool) (h : s.irmp_ir_detected ≠ 0) :
    isr_step c s x = s := by
  simp [isr_step, h]

theorem isr_step_idle (c : Config) (s : State) (x : Bool) (h1 : s.irmp_ir_detected = 0)
    (h2 : s.irmp_start_bit_detected = 0) : isr_step c s x = isr_idle c s x := by
  simp [isr_step, h1, h2]

theorem isr_step_start_dark (c : Config) (s : State) (h1 : s.irmp_ir_detected = 0)
    (h2 : s.irmp_start_bit_detected ≠ 0) (h3 : s.wait_for_start_space ≠ 0) :
    isr_step c s true = isr_frame_end c (isr_start_dark c s) := by
  simp [isr_step, h1, h2, h3]

theorem isr_step_start_light (c : Config) (s : State) (h1 : s.irmp_ir_detected = 0)
    (h2 : s.irmp_start_bit_detected ≠ 0) (h3 : s.wait_for_start_space ≠ 0) :
    isr_step c s false = isr_frame_end c (isr_start_light c s) := by
  simp [isr_step, h1, h2, h3]

theorem isr_step_space_dark (c : Config) (s : State) (h1 : s.irmp_ir_detected = 0)
    (h2 : s.irmp_start_bit_detected ≠ 0) (h3 : s.wait_for_start_space = 0)
    (h4 : s.wait_for_space ≠ 0) :
    isr_step c s true =
      isr_frame_end c (if (isr_space_dark c s).2 then isr_got_light c (isr_space_dark c s).1
                       else (isr_space_dark c s).1) := by
  simp [isr_step, h1, h2, h3, h4]

theorem isr_step_space_light (c : Config) (s : State) (h1 : s.irmp_ir_detected = 0)
    (h2 : s.irmp_start_bit_detected ≠ 0) (h3 : s.wait_for_start_space = 0)
    (h4 : s.wait_for_space ≠ 0) :
    isr_step c s false = isr_frame_end c (isr_got_light c s) := by
  simp [isr_step, h1, h2, h3, h4]

theorem isr_step_pulse (c : Config) (s : State) (x : Bool) (h1 : s.irmp_ir_detected = 0)
    (h2 : s.irmp_start_bit_detected ≠ 0) (h3 : s.wait_for_start_space = 0)
    (h4 : s.wait_for_space = 0) :
    isr_step c s x = isr_frame_end c (isr_pulse s x) := by
  simp [isr_step, h1, h2, h3, h4]

theorem isr_frame_end_skip (c : Config) (s : State)
    (h : ¬ (s.irmp_start_bit_detected ≠ 0 ∧ s.irmp_bit = s.irmp_param.complete_len ∧
            s.irmp_param.stop_bit = 0)) :
    isr_frame_end c s = s := by
  simp only [isr_frame_end, h, if_false]

theorem start_dark {c : Config} (hc : NecBuild c) {s : State} {pu pa : Nat}
    (h : StartSt s pu pa) (hpa : pa < 45) :
    StartSt (isr_step c s true) pu (pa + 1) := by
  have hm : (pa + 1) % c.PAUSE_LEN_MOD = pa + 1 :=
    Nat.mod_eq_of_lt (by have := hc.pause_len; omega)
  have e : isr_start_dark c s = { s with irmp_pause_time := pa + 1 } := by
    have hn := hc.timeout_nikon
    have h1 : ¬ ((pa : Int) + 1 > 165) := by omega
    cases hN : c.IRMP_SUPPORT_NIKON_PROTOCOL
    · simp [isr_start_dark, h.pause, hm, hc.timeout, hN, h1]
    · have h2 : ¬ (c.K .IRMP_TIMEOUT_NIKON_LEN < (pa : Int) + 1) := by
        have := hn hN; omega
      simp [isr_start_dark, h.pause, hm, hc.timeout, hN, h1, h2]
  rw [isr_step_start_dark c s h.det (by simp [h.sbd]) (by simp [h.wfss]), e,
    isr_frame_end_skip _ _ (by simp [h.bit, h.param, zero_param])]
  constructor <;>
    simp [h.det, h.sbd, h.wfss, h.wfs, h.param, h.bit, h.ta, h.tc, h.pulse, h.proto, h.flags, h.lcmd]

theorem reset_param2_start {c : Config} {s : State} {pu pa : Nat} (h : StartSt s pu pa) :
    StartSt (reset_param2 c s) pu pa := by
  unfold reset_param2
  split_ifs
  · constructor <;>
      simp [h.det, h.sbd, h.wfss, h.wfs, h.param, h.bit, h.ta, h.tc, h.pulse, h.pause, h.proto,
        h.flags, h.lcmd]
  · exact h

theorem classify_nec {c : Config} (hc : NecBuild c) {s : State} {pu : Nat}
    (h : StartSt s pu 45) (h53 : 53 ≤ pu) (h127 : pu ≤ 127) (hS : NotSircs c pu) :
    classify c s = (some nec_row, s) := by
  have hS' : ¬ (c.IRMP_SUPPORT_SIRCS_PROTOCOL = true ∧
      within pu (c.K .SIRCS_START_BIT_PULSE_LEN_MIN) (c.K .SIRCS_START_BIT_PULSE_LEN_MAX) ∧
      within 45 (c.K .SIRCS_START_BIT_PAUSE_LEN_MIN) (c.K .SIRCS_START_BIT_PAUSE_LEN_MAX)) :=
    fun hh => hS hh.1 hh.2
  have hw1 : within pu 53 127 := ⟨by omega, by omega⟩
  have hw2 : within 45 26 64 := by decide
  simp [classify, h.pulse, h.pause, h.proto, hS', IRMP_JVC_PROTOCOL, hc.nec, hc.nec42,
    hc.start_pulse_min, hc.start_pulse_max, hc.start_pause_min, hc.start_pause_max, hw1, hw2,
    nec_param_eq hc]

theorem start_light {c : Config} (hc : NecBuild c) {s : State} {pu : Nat}
    (h : StartSt s pu 45) (h53 : 53 ≤ pu) (h127 : pu ≤ 127) (hS : NotSircs c pu) :
    NecSt (isr_step c s false) 0 0 0 0 1 0 := by
  have h0 := reset_param2_start (c := c) h
  have e : isr_start_light c s =
      { reset_param2 c s with irmp_param := nec_row, irmp_bit := 0, irmp_pulse_time := 1,
                              irmp_pause_time := 0, wait_for_start_space := 0 } := by
    simp [isr_start_light, classify_nec hc h0 h53 h127 hS, load_param, h0.sbd, first_data_bit,
      nec_row, has_flag, IRMP_DENON_PROTOCOL, IRMP_THOMSON_PROTOCOL]
  rw [isr_step_start_light c s h.det (by simp [h.sbd]) (by simp [h.wfss]), e,
    isr_frame_end_skip _ _ (by simp [nec_row])]
  constructor <;>
    simp [h0.det, h0.sbd, h0.wfss, h0.wfs, h0.bit, h0.ta, h0.tc, h0.pulse, h0.proto, h0.flags, h0.lcmd]

theorem pulse_light {c : Config} {s : State} {k ta tc pu pa : Nat}
    (h : NecSt s k ta tc 0 pu pa) (hpu : pu < 255) :
    NecSt (isr_step c s false) k ta tc 0 (pu + 1) pa := by
  rw [isr_step_pulse c s false h.det (by simp [h.sbd]) h.wfss h.wfs,
    isr_frame_end_skip _ _ (by simp [isr_pulse, h.param, nec_row])]
  have hm : (pu + 1) % 256 = pu + 1 := Nat.mod_eq_of_lt (by omega)
  constructor <;>
    simp [isr_pulse, h.det, h.sbd, h.wfss, h.wfs, h.param, h.bit, h.ta, h.tc, h.pulse, h.pause,
      h.proto, h.flags, h.lcmd, hm]

theorem pulse_dark {c : Config} {s : State} {k ta tc pu pa : Nat}
    (h : NecSt s k ta tc 0 pu pa) :
    NecSt (isr_step c s true) k ta tc 1 pu 1 := by
  rw [isr_step_pulse c s true h.det (by simp [h.sbd]) h.wfss h.wfs,
    isr_frame_end_skip _ _ (by simp [isr_pulse, h.param, nec_row])]
  constructor <;>
    simp [isr_pulse, h.det, h.sbd, h.wfss, h.wfs, h.param, h.bit, h.ta, h.tc, h.pulse, h.pause,
      h.proto, h.flags, h.lcmd]

theorem space_dark {c : Config} (hc : NecBuild c) {s : State} {k ta tc pu pa : Nat}
    (h : NecSt s k ta tc 1 pu pa) (hk : k < 32) (hpa : pa < 165) :
    NecSt (isr_step c s true) k ta tc 1 pu (pa + 1) := by
  have hm : (pa + 1) % c.PAUSE_LEN_MOD = pa + 1 :=
    Nat.mod_eq_of_lt (by have := hc.pause_len; omega)
  have h1 : ¬ ((pa : Int) + 1 > 165) := by omega
  have e : isr_space_dark c s = ({ s with irmp_pause_time := pa + 1 }, false) := by
    simp [isr_space_dark, h.param, h.bit, h.pause, nec_row, hm, hc.timeout, h1, has_flag,
      Nat.ne_of_lt hk, IRMP_SIRCS_PROTOCOL, IRMP_GRUNDIG_PROTOCOL, IRMP_RUWIDO_PROTOCOL]
  rw [isr_step_space_dark c s h.det (by simp [h.sbd]) h.wfss (by simp [h.wfs]), e]
  simp only [Bool.false_eq_true, if_false]
  rw [isr_frame_end_skip _ _ (by simp [h.param, nec_row])]
  constructor <;>
    simp [h.det, h.sbd, h.wfss, h.wfs, h.param, h.bit, h.ta, h.tc, h.pulse, h.pause,
      h.proto, h.flags, h.lcmd]

theorem store_bit_nec {c : Config} {s : State} {k ta tc wfs pu pa : Nat}
    (h : NecSt s k ta tc wfs pu pa) (hk : k < 32) (v : Nat) :
    irmp_store_bit c s v =
      { s with irmp_tmp_address := (nec_store k ta tc v).1,
               irmp_tmp_command := (nec_store k ta tc v).2,
               irmp_bit := k + 1 } := by
  have hm : (k + 1) % 256 = k + 1 := Nat.mod_eq_of_lt (by omega)
  by_cases h16 : k < 16
  · simp [irmp_store_bit, h.param, h.bit, h.ta, h.tc, nec_row, nec_store, h16, hm,
      IRMP_GRUNDIG_PROTOCOL, IRMP_KASEIKYO_PROTOCOL]
  · have h16' : 16 ≤ k := by omega
    simp [irmp_store_bit, h.param, h.bit, h.ta, h.tc, nec_row, nec_store, h16, h16', hk, hm,
      IRMP_GRUNDIG_PROTOCOL, IRMP_KASEIKYO_PROTOCOL]

theorem space_light {c : Config} (hc : NecBuild c) {s : State} {k ta tc pu pa : Nat}
    (h : NecSt s k ta tc 1 pu pa) (hk : k < 32) (hpu : 2 ≤ pu ∧ pu ≤ 9)
    (hpa : 2 ≤ pa ∧ pa ≤ 25) :
    NecSt (isr_step c s false) (k + 1)
      (nec_store k ta tc (if 9 ≤ pa then 1 else 0)).1
      (nec_store k ta tc (if 9 ≤ pa then 1 else 0)).2 0 1 pa := by
  have hw : ¬ within pa 26 64 := by
    intro hh; have := hh.1; omega
  have e : isr_got_light c s =
      { irmp_store_bit c s (if 9 ≤ pa then 1 else 0) with
          wait_for_space := 0, irmp_pulse_time := 1 } := by
    by_cases h9 : 9 ≤ pa
    · simp [isr_got_light, h.param, h.bit, h.pulse, h.pause, nec_row, has_flag, hc.nec42,
        hc.start_pause_min, hc.start_pause_max, hw, hpu.1, hpu.2, hpa.2, h9,
        IRMP_SAMSUNG_PROTOCOL, IRMP_NEC_PROTOCOL, IRMP_BANG_OLUFSEN_PROTOCOL]
    · have h9' : pa ≤ 9 := by omega
      simp [isr_got_light, h.param, h.bit, h.pulse, h.pause, nec_row, has_flag, hc.nec42,
        hc.start_pause_min, hc.start_pause_max, hw, hpu.1, hpu.2, hpa.1, h9, h9',
        IRMP_SAMSUNG_PROTOCOL, IRMP_NEC_PROTOCOL, IRMP_BANG_OLUFSEN_PROTOCOL]
  rw [isr_step_space_light c s h.det (by simp [h.sbd]) h.wfss (by simp [h.wfs]), e,
    store_bit_nec h hk, isr_frame_end_skip _ _ (by simp [h.param, nec_row])]
  constructor <;>
    simp [h.det, h.sbd, h.wfss, h.wfs, h.param, h.bit, h.ta, h.tc, h.pulse, h.pause,
      h.proto, h.flags, h.lcmd]

theorem stop_dark {c : Config} (hc : NecBuild c) {s : State} {ta tc pu pa : Nat}
    (h : NecSt s 32 ta tc 1 pu pa) (hpu : 2 ≤ pu ∧ pu ≤ 9) (htc : tc ≠ 0xFFFF) :
    Latched (isr_step c s true) ta tc := by
  have e : isr_space_dark c s =
      ({ s with irmp_param := { s.irmp_param with stop_bit := 0 } }, false) := by
    simp [isr_space_dark, h.param, h.bit, h.pulse, nec_row, has_flag, hpu.1, hpu.2]
  rw [isr_step_space_dark c s h.det (by simp [h.sbd]) h.wfss (by simp [h.wfs]), e]
  simp only [Bool.false_eq_true, if_false]
  have htc' : ¬ (65535 = tc) := fun hh => htc hh.symm
  cases hS : c.IRMP_SUPPORT_SAMSUNG_PROTOCOL <;>
  constructor <;>
    simp [isr_frame_end, latch_frame, h.det, h.sbd, h.wfss, h.wfs, h.param, h.bit, h.ta, h.tc,
      h.pulse, h.pause, h.proto, h.flags, h.lcmd, nec_row, htc', TRUE, FALSE, hc.nec, hS,
      IRMP_SIRCS_PROTOCOL, IRMP_KASEIKYO_PROTOCOL, IRMP_SAMSUNG32_PROTOCOL, IRMP_NUBERT_PROTOCOL,
      IRMP_DENON_PROTOCOL, IRMP_GRUNDIG_PROTOCOL, IRMP_NOKIA_PROTOCOL, IRMP_NEC_PROTOCOL,
      IRMP_RC6_PROTOCOL, IRMP_FDC_PROTOCOL, IRMP_RC5_PROTOCOL, IRMP_JVC_PROTOCOL]

theorem idle_dark_step {c : Config} {s : State} (h : IdleDark s) :
    IdleDark (isr_step c s true) := by
  have e : isr_idle c s true =
      if s.repetition_len < 0xFFFF then { s with repetition_len := s.repetition_len + 1 }
      else s := by
    simp [isr_idle, h.pulse]
  rw [isr_step_idle c s true h.det h.sbd, e]
  constructor <;> split_ifs <;> simp [h.det, h.sbd, h.pulse]

theorem idle_dark_run {c : Config} (n : Nat) {s : State} (h : IdleDark s) :
    Reach c IdleDark s (List.replicate n true) :=
  Reach.replicate (fun _ t => IdleDark t) true n
    (fun _ _ _ ht => ⟨(idle_dark_step ht).det, idle_dark_step ht⟩) n s (Nat.le_refl n) h

set_option maxRecDepth 100000 in
theorem nec_raw_checks : ∀ C < 256,
    nec_raw C >>> 8 = (nec_raw C ^^^ 0xFFFF) &&& 0x00FF ∧ nec_raw C &&& 0xff = C ∧
      nec_raw C ≠ 0xFFFF := by
  decide

theorem get_data_latched {c : Config} (hc : NecBuild c) {s : State} {a C : Nat}
    (h : Latched s a (nec_raw C)) (hC : C < 256) (d : IRMP_DATA) :
    (irmp_get_data c s d).1 = true ∧ (irmp_get_data c s d).2.2 = ⟨IRMP_NEC_PROTOCOL, a, C, 0⟩ ∧
      IdleDark (irmp_get_data c s d).2.1 := by
  obtain ⟨h1, h2, _⟩ := nec_raw_checks C hC
  have e : get_data_switch c s = (true, { s with irmp_command := C }) := by
    simp [get_data_switch, h.proto, h.cmd, hc.nec, IRMP_NEC_PROTOCOL, IRMP_SAMSUNG_PROTOCOL]
    rw [if_pos h1, h2]
  refine ⟨?_, ?_, ?_⟩
  · simp [irmp_get_data, h.det, e]
  · simp [irmp_get_data, h.det, e, h.proto, h.addr, h.flags]
  · constructor <;> simp [irmp_get_data, h.det, e, h.sbd, h.pulse, FALSE]

/-! ## The accumulators after the 32 data bits -/

theorem nec_fold_append (xs ys : List Bool) (k ta tc : Nat) :
    nec_fold (xs ++ ys) k ta tc =
      nec_fold ys (nec_fold xs k ta tc).1 (nec_fold xs k ta tc).2.1 (nec_fold xs k ta tc).2.2 := by
  simp [nec_fold, List.foldl_append]

theorem or_shift_bit (x j : Nat) (b : Bool) (hx : x < 2 ^ j) (hj : j < 16) :
    (x ||| (b.toNat <<< j)) % 65536 = x + 2 ^ j * b.toNat := by
  have h1 : b.toNat ≤ 1 := Bool.toNat_le b
  have h2 : 2 ^ (j + 1) ≤ 2 ^ 16 := Nat.pow_le_pow_right (by decide) (by omega)
  have h3 : 2 ^ (j + 1) = 2 * 2 ^ j := by rw [Nat.pow_succ, Nat.mul_comm]
  have h4 : 2 ^ j * b.toNat ≤ 2 ^ j := by
    calc 2 ^ j * b.toNat ≤ 2 ^ j * 1 := Nat.mul_le_mul_left _ h1
      _ = 2 ^ j := Nat.mul_one _
  rw [Nat.shiftLeft_eq, Nat.mul_comm, Nat.lor_comm, ← Nat.mul_add_lt_is_or hx, Nat.add_comm]
  apply Nat.mod_eq_of_lt
  have : (2 : Nat) ^ 16 = 65536 := by decide
  omega

theorem mod_two_pow_succ_testBit (x n : Nat) :
    x % 2 ^ (n + 1) = x % 2 ^ n + 2 ^ n * (x.testBit n).toNat := by
  rw [Nat.mod_pow_succ, Nat.toNat_testBit]

/-- Storing bits `0 .. n-1` of `A` as the first `n` bits of the frame. -/
theorem nec_fold_address (A : Nat) : ∀ n, n ≤ 16 →
    nec_fold ((List.range n).map A.testBit) 0 0 0 = (n, A % 2 ^ n, 0)
  | 0, _ => by simp [nec_fold, Nat.mod_one]
  | n + 1, h => by
    have ih := nec_fold_address A n (by omega)
    rw [List.range_succ, List.map_append, nec_fold_append, ih]
    have hlt : A % 2 ^ n < 2 ^ n := Nat.mod_lt _ (Nat.pos_pow_of_pos n (by decide))
    simp [nec_fold, nec_store, show n < 16 by omega, or_shift_bit _ _ _ hlt (show n < 16 by omega),
      mod_two_pow_succ_testBit]

/-- Storing bits `0 .. n-1` of `X` as bits `m .. m+n-1` of the command field. -/
theorem nec_fold_command (X ta : Nat) (m : Nat) : ∀ n, m + n ≤ 16 →
    nec_fold ((List.range n).map (fun i => X.testBit (m + i))) (16 + m) ta (X % 2 ^ m) =
      (16 + m + n, ta, X % 2 ^ (m + n))
  | 0, _ => by simp [nec_fold]
  | n + 1, h => by
    have ih := nec_fold_command X ta m n (by omega)
    rw [List.range_succ, List.map_append, nec_fold_append, ih]
    have hlt : X % 2 ^ (m + n) < 2 ^ (m + n) := Nat.mod_lt _ (Nat.pos_pow_of_pos _ (by decide))
    have e : 16 + m + n - 16 = m + n := by omega
    simp [nec_fold, nec_store, show ¬ (16 + m + n < 16) by omega, e,
      or_shift_bit _ _ _ hlt (show m + n < 16 by omega), ← Nat.add_assoc,
      mod_two_pow_succ_testBit]

theorem nec_raw_testBit (C : Nat) (hC : C < 256) (i : Nat) (hi : i < 8) :
    (nec_raw C).testBit i = C.testBit i ∧ (nec_raw C).testBit (8 + i) = !C.testBit i := by
  have h := Nat.testBit_mul_pow_two_add (255 - C) (show C < 2 ^ 8 from hC)
  have e : 2 ^ 8 * (255 - C) + C = nec_raw C := by simp [nec_raw]; omega
  rw [e] at h
  constructor
  · rw [h i]; simp [hi]
  · rw [h (8 + i)]
    have h2 := Nat.testBit_two_pow_sub_succ (show C < 2 ^ 8 from hC) i
    have e2 : 2 ^ 8 - (C + 1) = 255 - C := by omega
    rw [e2] at h2
    simp [h2, hi]

theorem nec_bits_eq (A C : Nat) (hC : C < 256) :
    nec_bits A C = (List.range 16).map A.testBit ++
      ((List.range 8).map (fun i => (nec_raw C).testBit (0 + i)) ++
       (List.range 8).map (fun i => (nec_raw C).testBit (8 + i))) := by
  unfold nec_bits
  rw [List.append_assoc]
  congr 2
  · apply List.map_congr_left
    intro i hi
    simp only [Nat.zero_add]
    exact ((nec_raw_testBit C hC i (List.mem_range.mp hi)).1).symm
  · apply List.map_congr_left
    intro i hi
    exact ((nec_raw_testBit C hC i (List.mem_range.mp hi)).2).symm

/-- After the 32 data bits the accumulators hold the address and the raw command. -/
theorem nec_fold_bits (A C : Nat) (hA : A < 65536) (hC : C < 256) :
    nec_fold (nec_bits A C) 0 0 0 = (32, A, nec_raw C) := by
  have hr : nec_raw C < 65536 := by simp [nec_raw]; omega
  rw [nec_bits_eq A C hC, nec_fold_append, nec_fold_address A 16 (Nat.le_refl _), nec_fold_append]
  have h1 := nec_fold_command (nec_raw C) (A % 2 ^ 16) 0 8 (by decide)
  simp only [Nat.pow_zero, Nat.mod_one, Nat.add_zero] at h1
  rw [h1]
  have h2 := nec_fold_command (nec_raw C) (A % 2 ^ 16) 8 8 (by decide)
  simp only [Nat.zero_add] at h2 ⊢
  rw [h2]
  have e1 : A % 2 ^ 16 = A := Nat.mod_eq_of_lt hA
  have e2 : nec_raw C % 2 ^ (8 + 8) = nec_raw C := Nat.mod_eq_of_lt hr
  rw [e1, e2]

/-! ## The frame as a run of the decoder -/

theorem Reach.seq {c : Config} {P Q : State → Prop} {s : State} {xs ys : List Bool}
    (h1 : Reach c P s xs) (h2 : ∀ t, P t → Reach c Q t ys) : Reach c Q s (xs ++ ys) :=
  Reach.append _ _ _ (Reach.mono h2 _ _ h1)

theorem flatMap_bit_wave (bs : List Bool) :
    bs.flatMap nec_bit_wave ++ List.replicate 6 false =
      false :: (bs.flatMap nec_bit_ticks ++ List.replicate 5 false) := by
  induction bs with
  | nil => rfl
  | cons b bs ih =>
    simp only [List.flatMap_cons, List.append_assoc, ih]
    simp [nec_bit_wave, nec_bit_ticks, List.replicate_succ]

theorem pulse_run {c : Config} {s : State} {k ta tc pa : Nat} (n : Nat)
    (h : NecSt s k ta tc 0 1 pa) (hn : n ≤ 200) :
    Reach c (fun t => NecSt t k ta tc 0 (1 + n) pa) s (List.replicate n false) :=
  Reach.replicate (fun j t => NecSt t k ta tc 0 (1 + j) pa) false n
    (fun j t hj ht =>
      have hl := @pulse_light c t k ta tc (1 + j) pa ht (by omega)
      ⟨hl.det, hl⟩)
    n s (Nat.le_refl n) (by simpa using h)

theorem pause_run {c : Config} (hc : NecBuild c) {s : State} {k ta tc pu : Nat} (n : Nat)
    (h : NecSt s k ta tc 1 pu 1) (hk : k < 32) (hn : n ≤ 100) :
    Reach c (fun t => NecSt t k ta tc 1 pu (1 + n)) s (List.replicate n true) :=
  Reach.replicate (fun j t => NecSt t k ta tc 1 pu (1 + j)) true n
    (fun j t hj ht =>
      have hl := @space_dark c hc t k ta tc pu (1 + j) ht hk (by omega)
      ⟨hl.det, hl⟩)
    n s (Nat.le_refl n) (by simpa using h)

/-- One data bit: from the first tick of its pulse to the first tick of the next pulse. -/
theorem bit_run {c : Config} (hc : NecBuild c) {s : State} {k ta tc pa : Nat} (b : Bool)
    (h : NecSt s k ta tc 0 1 pa) (hk : k < 32) :
    Reach c (fun t => ∃ pa', NecSt t (k + 1) (nec_store k ta tc b.toNat).1
      (nec_store k ta tc b.toNat).2 0 1 pa') s (nec_bit_ticks b) := by
  unfold nec_bit_ticks
  refine Reach.seq (pulse_run 5 h (by decide)) ?_
  intro t ht
  have hp : ∃ p, (if b then 17 else 6) = p + 1 ∧ 2 ≤ 1 + p ∧ 1 + p ≤ 25 ∧
      (if 9 ≤ 1 + p then 1 else 0) = b.toNat := by
    cases b
    · exact ⟨5, by decide, by decide, by decide, by decide⟩
    · exact ⟨16, by decide, by decide, by decide, by decide⟩
  obtain ⟨p, hp1, hp2, hp3, hp4⟩ := hp
  rw [hp1, List.replicate_succ]
  have hd := pulse_dark (c := c) ht
  refine ⟨hd.det, ?_⟩
  refine Reach.seq (pause_run hc p hd hk (by omega)) ?_
  intro u hu
  have hl := space_light hc hu hk (by decide) ⟨hp2, hp3⟩
  rw [hp4] at hl
  exact ⟨hl.det, _, hl⟩

/-- The data bits `bs`, from the first tick of the first pulse to the first tick of the
pulse that follows the last bit. -/
theorem bits_run {c : Config} (hc : NecBuild c) :
    ∀ (bs : List Bool) (s : State) (k ta tc pa : Nat), NecSt s k ta tc 0 1 pa →
      k + bs.length ≤ 32 →
      Reach c (fun t => ∃ pa', NecSt t (nec_fold bs k ta tc).1 (nec_fold bs k ta tc).2.1
        (nec_fold bs k ta tc).2.2 0 1 pa') s (bs.flatMap nec_bit_ticks)
  | [], s, k, ta, tc, pa, h, _ => ⟨pa, h⟩
  | b :: bs, s, k, ta, tc, pa, h, hk => by
    simp only [List.length_cons] at hk
    rw [List.flatMap_cons]
    refine Reach.seq (bit_run hc b h (by omega)) ?_
    rintro t ⟨pa', ht⟩
    exact bits_run hc bs t _ _ _ pa' ht (by omega)

theorem nec_bits_length (A C : Nat) : (nec_bits A C).length = 32 := by
  simp [nec_bits]

/-- The frame without its last two ticks of darkness, regrouped at the ticks where the
decoder changes phase. -/
theorem nec_wave_from_split (start A C d : Nat) :
    nec_wave_from start A C (d + 2) =
      (List.replicate start false ++ (true :: (List.replicate 44 true ++
        (false :: ((nec_bits A C).flatMap nec_bit_ticks ++
          (List.replicate 5 false ++ [true])))))) ++ (true :: List.replicate d true) := by
  unfold nec_wave_from
  have h := flatMap_bit_wave (nec_bits A C)
  simp only [List.append_assoc] at h ⊢
  rw [← List.append_assoc ((nec_bits A C).flatMap nec_bit_wave), h]
  simp [List.replicate_succ]

/-- From program start through the frame up to the first dark tick after the stop pulse:
nothing is latched on the way, and the 32 bits are in the accumulators. -/
theorem frame_run {c : Config} (hc : NecBuild c) (start : Nat)
    (h53 : 53 ≤ start % 256) (h127 : start % 256 ≤ 127) (hS : NotSircs c (start % 256))
    (A C : Nat) (hA : A < 65536) (hC : C < 256) :
    Reach c (fun t => NecSt t 32 A (nec_raw C) 1 6 1) initial
      (List.replicate start false ++ (true :: (List.replicate 44 true ++
        (false :: ((nec_bits A C).flatMap nec_bit_ticks ++
          (List.replicate 5 false ++ [true])))))) := by
  -- the start pulse
  have h1 : Reach c (fun t => IdleSt t (start % 256)) initial (List.replicate start false) :=
    Reach.replicate (fun j t => IdleSt t (j % 256)) false start
      (fun j t _ ht => by
        have hl := idle_light (c := c) ht
        have e : (j % 256 + 1) % 256 = (j + 1) % 256 := by omega
        rw [e] at hl
        exact ⟨hl.det, hl⟩)
      start initial (Nat.le_refl _) (by simpa using initial_idle)
  refine Reach.seq h1 ?_
  intro t1 ht1
  -- the start pause
  have hd := idle_dark (c := c) ht1 (by omega)
  refine ⟨hd.det, ?_⟩
  have h2 : Reach c (fun t => StartSt t (start % 256) (1 + 44)) (isr_step c t1 true)
      (List.replicate 44 true) :=
    Reach.replicate (fun j t => StartSt t (start % 256) (1 + j)) true 44
      (fun j t hj ht => by
        have hl := @start_dark c hc t (start % 256) (1 + j) ht (by omega)
        exact ⟨hl.det, hl⟩)
      44 _ (Nat.le_refl _) (by simpa using hd)
  refine Reach.seq h2 ?_
  intro t2 ht2
  -- the first tick of the first data pulse classifies the start pair
  have hl := start_light hc ht2 h53 h127 hS
  refine ⟨hl.det, ?_⟩
  -- the data bits
  have h3 := bits_run hc (nec_bits A C) _ 0 0 0 0 hl (by simp [nec_bits_length])
  rw [nec_fold_bits A C hA hC] at h3
  refine Reach.seq h3 ?_
  rintro t3 ⟨pa, ht3⟩
  -- the stop pulse and the first dark tick after it
  refine Reach.seq (pulse_run 5 ht3 (by decide)) ?_
  intro t4 ht4
  have hd4 := pulse_dark (c := c) ht4
  exact ⟨hd4.det, hd4⟩

/-- The decoder state and the frames delivered to a polling consumer for a NEC frame whose
start pulse lasts `start` ticks, `start` taken modulo 256 lying in the NEC window. -/
theorem nec_frame_poll {c : Config} (hc : NecBuild c) (start : Nat)
    (h53 : 53 ≤ start % 256) (h127 : start % 256 ≤ 127) (hS : NotSircs c (start % 256))
    (A C : Nat) (hA : A < 65536) (hC : C < 256) (d : Nat) :
    (run_poll c initial (nec_wave_from start A C (d + 2))).2 = [⟨IRMP_NEC_PROTOCOL, A, C, 0⟩] := by
  obtain ⟨e1, hN⟩ := Reach.run _ initial [] (frame_run hc start h53 h127 hS A C hA hC)
  have hL := stop_dark hc hN (by decide) (nec_raw_checks C hC).2.2
  obtain ⟨g1, g2, g3⟩ := get_data_latched hc hL hC ⟨0, 0, 0, 0⟩
  obtain ⟨e2, _⟩ := Reach.run _ _ [⟨IRMP_NEC_PROTOCOL, A, C, 0⟩] (idle_dark_run (c := c) d g3)
  rw [nec_wave_from_split, run_poll, List.foldl_append, e1, List.foldl_cons]
  have e3 : poll_step c (run_isr c initial
      (List.replicate start false ++ (true :: (List.replicate 44 true ++
        (false :: ((nec_bits A C).flatMap nec_bit_ticks ++
          (List.replicate 5 false ++ [true])))))), []) true =
      ((irmp_get_data c (isr_step c (run_isr c initial
      (List.replicate start false ++ (true :: (List.replicate 44 true ++
        (false :: ((nec_bits A C).flatMap nec_bit_ticks ++
          (List.replicate 5 false ++ [true]))))))) true) ⟨0, 0, 0, 0⟩).2.1,
        [⟨IRMP_NEC_PROTOCOL, A, C, 0⟩]) := by
    simp only [poll_step, irmp_ISR, g1, g2, if_true, List.nil_append]
  rw [e3, e2]

/-- The decoder state after the same frame when nobody polls: the frame stays latched. -/
theorem nec_frame_isr {c : Config} (hc : NecBuild c) (start : Nat)
    (h53 : 53 ≤ start % 256) (h127 : start % 256 ≤ 127) (hS : NotSircs c (start % 256))
    (A C : Nat) (hA : A < 65536) (hC : C < 256) (d : Nat) :
    Latched (run_isr c initial (nec_wave_from start A C (d + 2))) A (nec_raw C) := by
  obtain ⟨_, hN⟩ := Reach.run _ initial [] (frame_run hc start h53 h127 hS A C hA hC)
  have hL := stop_dark hc hN (by decide) (nec_raw_checks C hC).2.2
  have hstay : ∀ (xs : List Bool) (s : State), s.irmp_ir_detected ≠ 0 → run_isr c s xs = s := by
    intro xs
    induction xs with
    | nil => intro s _; rfl
    | cons x xs ih =>
      intro s hs
      have : run_isr c s (x :: xs) = run_isr c (isr_step c s x) xs := rfl
      rw [this, isr_step_latched c s x hs, ih s hs]
  rw [nec_wave_from_split, run_isr_append]
  have : run_isr c (run_isr c initial
      (List.replicate start false ++ (true :: (List.replicate 44 true ++
        (false :: ((nec_bits A C).flatMap nec_bit_ticks ++
          (List.replicate 5 false ++ [true]))))))) (true :: List.replicate d true) =
      run_isr c (isr_step c (run_isr c initial
      (List.replicate start false ++ (true :: (List.replicate 44 true ++
        (false :: ((nec_bits A C).flatMap nec_bit_ticks ++
          (List.replicate 5 false ++ [true]))))))) true) (List.replicate d true) := rfl
  rw [this, hstay _ _ (by rw [hL.det]; decide)]
  exact hL

/-! ## Bit-level facts used by the retrieval -/

theorem lnot_low_bits (x n : Nat) (hn : n ≤ 16) :
    (x ^^^ (2 ^ 16 - 1)) &&& (2 ^ n - 1) = 2 ^ n - (x % 2 ^ n + 1) := by
  apply Nat.eq_of_testBit_eq
  intro i
  rw [Nat.testBit_two_pow_sub_succ (Nat.mod_lt _ (Nat.pos_pow_of_pos n (by decide)))]
  simp only [Nat.testBit_and, Nat.testBit_xor, Nat.testBit_two_pow_sub_one,
    Nat.testBit_mod_two_pow]
  by_cases h8 : i < n
  · have h16 : i < 16 := by omega
    simp [h8, h16]
  · simp [h8]

/-- The expression `~x & 0x00FF` of `irmp_get_data` is the complement of the low byte. -/
theorem lnot_low_byte (x : Nat) : (x ^^^ 0xFFFF) &&& 0x00FF = 255 - x % 256 := by
  have h := lnot_low_bits x 8 (by decide)
  have e : (2 : Nat) ^ 8 = 256 := by decide
  have e2 : (2 : Nat) ^ 16 - 1 = 0xFFFF := by decide
  rw [e, e2] at h
  rw [show (0x00FF : Nat) = 256 - 1 by decide, h]
  omega

theorem and_low_byte (x : Nat) : x &&& 0xff = x % 256 := by
  have h2 : (0xff : Nat) = 2 ^ 8 - 1 := by decide
  rw [h2, Nat.and_pow_two_sub_one_eq_mod]

theorem lor_shift_byte (lo hi : Nat) (h : lo < 256) : (lo ||| (hi <<< 8)) = 256 * hi + lo := by
  rw [Nat.shiftLeft_eq, Nat.mul_comm, Nat.lor_comm]
  exact (Nat.mul_add_lt_is_or (show lo < 2 ^ 8 from h) hi).symm

/-- The inverted-command test of lines 1570 and 1580, in arithmetic. -/
theorem inversion_test (r : Nat) :
    (r >>> 8 = (r ^^^ 0xFFFF) &&& 0x00FF) ↔ r / 256 = 255 - r % 256 := by
  rw [lnot_low_byte, Nat.shiftRight_eq_div_pow]

theorem get_data_second_call (c : Config) (s : State) (d d2 : IRMP_DATA) :
    (irmp_get_data c (irmp_get_data c s d).2.1 d2).1 = false := by
  have h : (irmp_get_data c s d).2.1.irmp_ir_detected = 0 := by
    by_cases h1 : s.irmp_ir_detected = 0
    · simp [irmp_get_data, h1]
    · cases h2 : (get_data_switch c s).1 <;> simp [irmp_get_data, h1, h2, FALSE]
  rw [irmp_get_data_unlatched c _ d2 h]

/-- The NEC case of the switch (lines 1579-1593). -/
theorem get_data_switch_nec {c : Config} {s : State} (hc : c.IRMP_SUPPORT_NEC_PROTOCOL = true)
    (hp : s.irmp_protocol = IRMP_NEC_PROTOCOL) :
    get_data_switch c s =
      if s.irmp_command / 256 = 255 - s.irmp_command % 256 then
        (true, { s with irmp_command := s.irmp_command % 256 })
      else if s.irmp_address = 0x87EE then
        (true, { s with irmp_protocol := IRMP_APPLE_PROTOCOL
                        irmp_address := (s.irmp_command &&& 0xFF00) >>> 8
                        irmp_command := s.irmp_command % 256 })
      else (false, s) := by
  have e := inversion_test s.irmp_command
  have e2 := and_low_byte s.irmp_command
  simp [get_data_switch, hp, hc, IRMP_NEC_PROTOCOL, IRMP_SAMSUNG_PROTOCOL, e, e2]

/-- The Samsung case of the switch (lines 1569-1576). -/
theorem get_data_switch_samsung {c : Config} {s : State}
    (hc : c.IRMP_SUPPORT_SAMSUNG_PROTOCOL = true)
    (hp : s.irmp_protocol = IRMP_SAMSUNG_PROTOCOL) :
    get_data_switch c s =
      if s.irmp_command / 256 = 255 - s.irmp_command % 256 then
        (true, { s with irmp_command :=
                  ((s.irmp_command &&& 0xff) ||| (s.irmp_id <<< 8)) % 65536 })
      else (false, s) := by
  have e := inversion_test s.irmp_command
  simp only [get_data_switch, hp, hc, e, true_and, if_true]

/-- The `default` case of the switch (lines 1685-1686). -/
theorem get_data_switch_default {c : Config} {s : State}
    (hp : s.irmp_protocol ∉ [IRMP_SAMSUNG_PROTOCOL, IRMP_NEC_PROTOCOL, IRMP_SIEMENS_PROTOCOL,
      IRMP_RUWIDO_PROTOCOL, IRMP_KATHREIN_PROTOCOL, IRMP_RC5_PROTOCOL, IRMP_IR60_PROTOCOL,
      IRMP_RCCAR_PROTOCOL, IRMP_NETBOX_PROTOCOL, IRMP_LEGO_PROTOCOL]) :
    get_data_switch c s = (true, s) := by
  simp only [List.mem_cons, List.mem_singleton, not_or, List.mem_nil_iff, or_false] at hp
  obtain ⟨h1, h2, h3, h4, h5, h6, h7, h8, h9, h10⟩ := hp
  simp [get_data_switch, h1, h2, h3, h4, h5, h6, h7, h8, h9, h10]

/-! ## The NEC build -/

theorem nec_build_ok : NecBuild nec_build := by
  constructor <;> first | rfl | decide

theorem nec_build_not_sircs (pu : Nat) : NotSircs nec_build pu := by
  intro h; exact absurd h (by decide)

set_option maxRecDepth 100000 in
theorem wrapped_wave_pairs :
    ∀ p ∈ run_pairs (nec_wave_from 346 0x1234 0x56 2), ¬ is_start_pair nec_build p.1 p.2 := by
  decide

theorem run_isr_latched (c : Config) :
    ∀ (xs : List Bool) (s : State), s.irmp_ir_detected ≠ 0 → run_isr c s xs = s
  | [], _, _ => rfl
  | x :: xs, s, hs => by
    have e : run_isr c s (x :: xs) = run_isr c (isr_step c s x) xs := rfl
    rw [e, isr_step_latched c s x hs, run_isr_latched c xs s hs]

theorem high_byte_mask (r : Nat) : (r &&& 0xFF00) >>> 8 = (r >>> 8) &&& 0xFF := by
  apply Nat.eq_of_testBit_eq
  intro i
  have e : (0xFF00 : Nat) = 0xFF <<< 8 := by decide
  simp only [Nat.testBit_shiftRight, Nat.testBit_and, e, Nat.testBit_shiftLeft]
  have h : 8 + i - 8 = i := by omega
  simp [h]

set_option maxRecDepth 100000 in
theorem nec_inverted_raw : ∀ cmd < 256,
    (cmd ||| (((cmd ^^^ 0xFF) &&& 0xFF) <<< 8)) / 256 =
        255 - (cmd ||| (((cmd ^^^ 0xFF) &&& 0xFF) <<< 8)) % 256 ∧
      (cmd ||| (((cmd ^^^ 0xFF) &&& 0xFF) <<< 8)) &&& 0xFF = cmd := by
  decide

/-! ## The claims -/

/-- C1: for every 16-bit address `A` and every 8-bit command `C`, the canonical NEC
waveform (90-tick pulse, 45-tick pause, the 32 bits of address low, address high, command
and inverted command LSB first as 6-tick pulses followed by a 6-tick or a 17-tick pause, a
6-tick stop pulse, then darkness), fed to `irmp_ISR` from the initial state of a 10 kHz NEC
build with `irmp_get_data` polled after every tick, delivers exactly one frame, and that
frame is `(NEC, A, C, flags = 0)`. -/
theorem C1_nec_frame_delivered (c : Config) (hc : NecBuild c) (hS : NotSircs c 90)
    (A C dark : Nat) (hA : A < 65536) (hC : C < 256) (hd : 2 ≤ dark) :
    (run_poll c initial (nec_wave A C dark)).2 = [⟨IRMP_NEC_PROTOCOL, A, C, 0⟩] := by
  obtain ⟨d, rfl⟩ : ∃ d, dark = d + 2 := ⟨dark - 2, by omega⟩
  exact nec_frame_poll hc 90 (by decide) (by decide) hS A C hA hC d

/-- Witness of C1: address `0x1234`, command `0x56` on the NEC-only build. -/
theorem C1_nec_frame_delivered_witness :
    NecBuild nec_build ∧ NotSircs nec_build 90 ∧ 0x1234 < 65536 ∧ 0x56 < 256 ∧ 2 ≤ 2 ∧
      (run_poll nec_build initial (nec_wave 0x1234 0x56 2)).2 =
        [⟨IRMP_NEC_PROTOCOL, 0x1234, 0x56, 0⟩] :=
  ⟨nec_build_ok, nec_build_not_sircs 90, by decide, by decide, by decide,
    C1_nec_frame_delivered nec_build nec_build_ok (nec_build_not_sircs 90) 0x1234 0x56 2
      (by decide) (by decide) (by decide)⟩

/-- C2 fails on the code: in the NEC-only build, the stream with a start pulse of 346 ticks
(then the 45-tick pause and the data of the frame `0x1234`, `0x56`) has no run pair, in
true tick counts, that the start-bit classifier accepts; yet `irmp_ISR` sets the latch and
`irmp_get_data` returns `TRUE`, delivering `(NEC, 0x1234, 0x56)`: the 8-bit pulse counter
wrapped from 346 to 90. -/
theorem C2_wrapped_start_pulse_latches :
    (∀ p ∈ run_pairs (nec_wave_from 346 0x1234 0x56 2), ¬ is_start_pair nec_build p.1 p.2) ∧
      (run_isr nec_build initial (nec_wave_from 346 0x1234 0x56 2)).irmp_ir_detected = 1 ∧
      (run_poll nec_build initial (nec_wave_from 346 0x1234 0x56 2)).2 =
        [⟨IRMP_NEC_PROTOCOL, 0x1234, 0x56, 0⟩] :=
  ⟨wrapped_wave_pairs,
    (nec_frame_isr nec_build_ok 346 (by decide) (by decide) (nec_build_not_sircs _) 0x1234 0x56
      (by decide) (by decide) 0).det,
    nec_frame_poll nec_build_ok 346 (by decide) (by decide) (nec_build_not_sircs _) 0x1234 0x56
      (by decide) (by decide) 0⟩

/-- C3: in every decoder state in which no frame is latched, `irmp_get_data` returns
`FALSE` and changes neither the caller's structure nor any decoder variable. -/
theorem C3_get_data_without_frame (c : Config) (s : State) (d : IRMP_DATA)
    (h : s.irmp_ir_detected = 0) : irmp_get_data c s d = (false, s, d) :=
  irmp_get_data_unlatched c s d h

/-- Witness of C3: the initial state. -/
theorem C3_get_data_without_frame_witness :
    initial.irmp_ir_detected = 0 ∧
      irmp_get_data nec_build initial ⟨7, 7, 7, 7⟩ = (false, initial, ⟨7, 7, 7, 7⟩) :=
  ⟨rfl, C3_get_data_without_frame nec_build initial ⟨7, 7, 7, 7⟩ rfl⟩

/-- C4: of two consecutive `irmp_get_data` calls with no `irmp_ISR` call in between the
second returns `FALSE`, in every decoder state; and when a frame is latched that passes the
validation of its protocol (the switch of lines 1566-1687 sets `rtc`), the first returns
`TRUE`, so the pair yields `(TRUE, FALSE)`. -/
theorem C4_get_data_twice (c : Config) (s : State) (d d2 : IRMP_DATA) :
    (irmp_get_data c (irmp_get_data c s d).2.1 d2).1 = false ∧
      (s.irmp_ir_detected ≠ 0 → (get_data_switch c s).1 = true →
        (irmp_get_data c s d).1 = true ∧
          (irmp_get_data c (irmp_get_data c s d).2.1 d2).1 = false) := by
  refine ⟨get_data_second_call c s d d2, fun h1 h2 => ⟨?_, get_data_second_call c s d d2⟩⟩
  simp [irmp_get_data, h1, h2]

/-- Witness of C4: a latched NEC frame with command `0x56` and its complement. -/
theorem C4_get_data_twice_witness :
    (latched_frame IRMP_NEC_PROTOCOL 0x1234 0xA956).irmp_ir_detected ≠ 0 ∧
      (get_data_switch nec_build (latched_frame IRMP_NEC_PROTOCOL 0x1234 0xA956)).1 = true ∧
      (irmp_get_data nec_build (latched_frame IRMP_NEC_PROTOCOL 0x1234 0xA956) ⟨0, 0, 0, 0⟩).1
        = true ∧
      (irmp_get_data nec_build
        (irmp_get_data nec_build (latched_frame IRMP_NEC_PROTOCOL 0x1234 0xA956)
          ⟨0, 0, 0, 0⟩).2.1 ⟨0, 0, 0, 0⟩).1 = false :=
  ⟨by decide, by decide,
    (C4_get_data_twice nec_build (latched_frame IRMP_NEC_PROTOCOL 0x1234 0xA956)
      ⟨0, 0, 0, 0⟩ ⟨0, 0, 0, 0⟩).2 (by decide) (by decide)⟩

/-- C5 as stated fails: on the NEC-only build a second complete NEC frame `(0x4321, 0x65)`
fed while the frame `(0x1234, 0x56)` is latched and unretrieved does not overwrite it; the
next `irmp_get_data` delivers the first frame, although the second waveform alone is
decoded as `(0x4321, 0x65)`. -/
theorem C5_second_frame_ignored :
    (run_poll nec_build initial (nec_wave 0x4321 0x65 2)).2 =
        [⟨IRMP_NEC_PROTOCOL, 0x4321, 0x65, 0⟩] ∧
      (irmp_get_data nec_build
        (run_isr nec_build initial (nec_wave 0x1234 0x56 2 ++ nec_wave 0x4321 0x65 2))
        ⟨0, 0, 0, 0⟩).2.2 = ⟨IRMP_NEC_PROTOCOL, 0x1234, 0x56, 0⟩ ∧
      (irmp_get_data nec_build
        (run_isr nec_build initial (nec_wave 0x1234 0x56 2 ++ nec_wave 0x4321 0x65 2))
        ⟨0, 0, 0, 0⟩).2.2 ≠ ⟨IRMP_NEC_PROTOCOL, 0x4321, 0x65, 0⟩ := by
  have hL := nec_frame_isr nec_build_ok 90 (by decide) (by decide) (nec_build_not_sircs _)
    0x1234 0x56 (by decide) (by decide) 0
  have e : run_isr nec_build initial (nec_wave 0x1234 0x56 2 ++ nec_wave 0x4321 0x65 2) =
      run_isr nec_build initial (nec_wave_from 90 0x1234 0x56 (0 + 2)) := by
    rw [run_isr_append]
    have hne : (run_isr nec_build initial (nec_wave_from 90 0x1234 0x56 (0 + 2))).irmp_ir_detected
        ≠ 0 := by
      rw [hL.det]; decide
    exact run_isr_latched nec_build _ _ hne
  have hg := (get_data_latched nec_build_ok hL (by decide) ⟨0, 0, 0, 0⟩).2.1
  refine ⟨nec_frame_poll nec_build_ok 90 (by decide) (by decide) (nec_build_not_sircs _)
    0x4321 0x65 (by decide) (by decide) 0, ?_, ?_⟩
  · rw [e, hg]
  · rw [e, hg]; decide

/-- C5 amended: while a frame is latched and not yet retrieved, `irmp_ISR` ignores its
input, whatever samples arrive (a second complete frame included): no decoder variable
changes, and the next `irmp_get_data` delivers what it would have delivered before, the
first frame (first-writer-wins). -/
theorem C5_latched_frame_kept (c : Config) (s : State) (xs : List Bool) (d : IRMP_DATA)
    (h : s.irmp_ir_detected ≠ 0) :
    run_isr c s xs = s ∧ irmp_get_data c (run_isr c s xs) d = irmp_get_data c s d := by
  rw [run_isr_latched c xs s h]
  exact ⟨rfl, rfl⟩

/-- Witness of C5 amended: a latched NEC frame and a complete NEC waveform. -/
theorem C5_latched_frame_kept_witness :
    (latched_frame IRMP_NEC_PROTOCOL 0x1234 0xA956).irmp_ir_detected ≠ 0 ∧
      run_isr nec_build (latched_frame IRMP_NEC_PROTOCOL 0x1234 0xA956)
          (nec_wave 0x4321 0x65 2) = latched_frame IRMP_NEC_PROTOCOL 0x1234 0xA956 ∧
      irmp_get_data nec_build
          (run_isr nec_build (latched_frame IRMP_NEC_PROTOCOL 0x1234 0xA956)
            (nec_wave 0x4321 0x65 2)) ⟨0, 0, 0, 0⟩ =
        irmp_get_data nec_build (latched_frame IRMP_NEC_PROTOCOL 0x1234 0xA956) ⟨0, 0, 0, 0⟩ :=
  ⟨by decide,
    C5_latched_frame_kept nec_build (latched_frame IRMP_NEC_PROTOCOL 0x1234 0xA956)
      (nec_wave 0x4321 0x65 2) ⟨0, 0, 0, 0⟩ (by decide)⟩

/-- C6: for every decoder state and input level the value returned by `irmp_ISR` is the
latch flag `irmp_ir_detected` after the sample has been processed; and on every call made
while a frame is latched and unretrieved, whatever the input level, no decoder variable
changes and the returned value is the (set) flag. -/
theorem C6_isr_returns_latch (c : Config) (s : State) (x : Bool) :
    (irmp_ISR c s x).2 = (irmp_ISR c s x).1.irmp_ir_detected ∧
      (s.irmp_ir_detected ≠ 0 →
        (irmp_ISR c s x).1 = s ∧ (irmp_ISR c s x).2 = s.irmp_ir_detected ∧
          (irmp_ISR c s x).2 ≠ 0) := by
  refine ⟨rfl, fun h => ?_⟩
  have e : (irmp_ISR c s x).1 = s := isr_step_latched c s x h
  have e2 : (irmp_ISR c s x).2 = (irmp_ISR c s x).1.irmp_ir_detected := rfl
  rw [e2, e]
  exact ⟨rfl, rfl, h⟩

/-- Witness of C6: with a NEC frame latched, a call of `irmp_ISR` at input level low
returns the set flag and leaves the decoder unchanged. -/
theorem C6_isr_returns_latch_witness :
    (latched_frame IRMP_NEC_PROTOCOL 0x1234 0xA956).irmp_ir_detected ≠ 0 ∧
      (irmp_ISR nec_build (latched_frame IRMP_NEC_PROTOCOL 0x1234 0xA956) false).1 =
        latched_frame IRMP_NEC_PROTOCOL 0x1234 0xA956 ∧
      (irmp_ISR nec_build (latched_frame IRMP_NEC_PROTOCOL 0x1234 0xA956) false).2 =
        (latched_frame IRMP_NEC_PROTOCOL 0x1234 0xA956).irmp_ir_detected ∧
      (irmp_ISR nec_build (latched_frame IRMP_NEC_PROTOCOL 0x1234 0xA956) false).2 ≠ 0 :=
  ⟨by decide,
    (C6_isr_returns_latch nec_build (latched_frame IRMP_NEC_PROTOCOL 0x1234 0xA956) false).2
      (by decide)⟩

/-- C7: for a latched frame whose protocol has no `case` in the switch of `irmp_get_data`
(the `default` branch, among them SIRCS, Kaseikyo, Denon, RC6, JVC and NEC16),
`irmp_get_data` returns `TRUE`, the output structure is exactly the latched
`(irmp_protocol, irmp_address, irmp_command, irmp_flags)`, and afterwards `irmp_address`,
`irmp_command` and `irmp_flags` are 0 and the latch is clear. -/
theorem C7_get_data_default (c : Config) (s : State) (d : IRMP_DATA)
    (hl : s.irmp_ir_detected ≠ 0)
    (hp : s.irmp_protocol ∉ [IRMP_SAMSUNG_PROTOCOL, IRMP_NEC_PROTOCOL, IRMP_SIEMENS_PROTOCOL,
      IRMP_RUWIDO_PROTOCOL, IRMP_KATHREIN_PROTOCOL, IRMP_RC5_PROTOCOL, IRMP_IR60_PROTOCOL,
      IRMP_RCCAR_PROTOCOL, IRMP_NETBOX_PROTOCOL, IRMP_LEGO_PROTOCOL]) :
    irmp_get_data c s d =
      (true,
       { s with irmp_command := 0, irmp_address := 0, irmp_flags := 0, irmp_ir_detected := 0 },
       ⟨s.irmp_protocol, s.irmp_address, s.irmp_command, s.irmp_flags⟩) ∧
    [IRMP_SIRCS_PROTOCOL, IRMP_KASEIKYO_PROTOCOL, IRMP_DENON_PROTOCOL, IRMP_RC6_PROTOCOL,
      IRMP_JVC_PROTOCOL, IRMP_NEC16_PROTOCOL].all (fun p =>
        decide (p ∉ [IRMP_SAMSUNG_PROTOCOL, IRMP_NEC_PROTOCOL, IRMP_SIEMENS_PROTOCOL,
          IRMP_RUWIDO_PROTOCOL, IRMP_KATHREIN_PROTOCOL, IRMP_RC5_PROTOCOL, IRMP_IR60_PROTOCOL,
          IRMP_RCCAR_PROTOCOL, IRMP_NETBOX_PROTOCOL, IRMP_LEGO_PROTOCOL])) = true := by
  refine ⟨?_, by decide⟩
  simp [irmp_get_data, hl, get_data_switch_default hp, FALSE]

/-- Witness of C7: a latched SIRCS frame with the repetition flag. -/
theorem C7_get_data_default_witness :
    ({ latched_frame IRMP_SIRCS_PROTOCOL 0x0011 0x0015 with irmp_flags := 1 } : State).irmp_ir_detected
        ≠ 0 ∧
      (irmp_get_data nec_build
          { latched_frame IRMP_SIRCS_PROTOCOL 0x0011 0x0015 with irmp_flags := 1 } ⟨0, 0, 0, 0⟩).1
        = true ∧
      (irmp_get_data nec_build
          { latched_frame IRMP_SIRCS_PROTOCOL 0x0011 0x0015 with irmp_flags := 1 } ⟨0, 0, 0, 0⟩).2.2
        = ⟨IRMP_SIRCS_PROTOCOL, 0x0011, 0x0015, 1⟩ := by
  have h := (C7_get_data_default nec_build
    { latched_frame IRMP_SIRCS_PROTOCOL 0x0011 0x0015 with irmp_flags := 1 } ⟨0, 0, 0, 0⟩
    (by decide) (by decide)).1
  refine ⟨by decide, ?_, ?_⟩
  · rw [h]
  · rw [h]; rfl

/-- C8: for a latched NEC frame with address `a` and raw 16-bit command `r`: if the high
byte of `r` is the bitwise complement of its low byte, `irmp_get_data` returns `TRUE` and
delivers `(NEC, a, r & 0xFF)`; if it is not and `a` is not `0x87EE`, `irmp_get_data` returns
`FALSE` and delivers nothing.  In particular, for every 8-bit `cmd` the raw command
`cmd | ((~cmd & 0xFF) << 8)` is accepted and delivered as `cmd`. -/
theorem C8_get_data_nec (c : Config) (s : State) (d : IRMP_DATA)
    (hc : c.IRMP_SUPPORT_NEC_PROTOCOL = true) (hl : s.irmp_ir_detected ≠ 0)
    (hp : s.irmp_protocol = IRMP_NEC_PROTOCOL) :
    (s.irmp_command / 256 = 255 - s.irmp_command % 256 →
      (irmp_get_data c s d).1 = true ∧
      (irmp_get_data c s d).2.2 =
        ⟨IRMP_NEC_PROTOCOL, s.irmp_address, s.irmp_command &&& 0xFF, s.irmp_flags⟩) ∧
    (s.irmp_command / 256 ≠ 255 - s.irmp_command % 256 → s.irmp_address ≠ 0x87EE →
      (irmp_get_data c s d).1 = false ∧ (irmp_get_data c s d).2.2 = d) ∧
    (∀ cmd, cmd < 256 → s.irmp_command = cmd ||| (((cmd ^^^ 0xFF) &&& 0xFF) <<< 8) →
      (irmp_get_data c s d).1 = true ∧
      (irmp_get_data c s d).2.2 = ⟨IRMP_NEC_PROTOCOL, s.irmp_address, cmd, s.irmp_flags⟩) := by
  have e := get_data_switch_nec hc hp
  have key : s.irmp_command / 256 = 255 - s.irmp_command % 256 →
      (irmp_get_data c s d).1 = true ∧
      (irmp_get_data c s d).2.2 =
        ⟨IRMP_NEC_PROTOCOL, s.irmp_address, s.irmp_command &&& 0xFF, s.irmp_flags⟩ := by
    intro h
    rw [if_pos h] at e
    simp [irmp_get_data, hl, e, hp, and_low_byte]
  refine ⟨key, ?_, ?_⟩
  · intro h ha
    rw [if_neg h, if_neg ha] at e
    simp [irmp_get_data, hl, e]
  · intro cmd hcmd hr
    obtain ⟨h1, h2⟩ := nec_inverted_raw cmd hcmd
    rw [← hr] at h1 h2
    have := key h1
    rw [h2] at this
    exact this

/-- Witness of C8: the latched NEC frame `a = 0x1234`, `r = 0xA956`. -/
theorem C8_get_data_nec_witness :
    nec_build.IRMP_SUPPORT_NEC_PROTOCOL = true ∧
      (latched_frame IRMP_NEC_PROTOCOL 0x1234 0xA956).irmp_ir_detected ≠ 0 ∧
      (latched_frame IRMP_NEC_PROTOCOL 0x1234 0xA956).irmp_protocol = IRMP_NEC_PROTOCOL ∧
      (irmp_get_data nec_build (latched_frame IRMP_NEC_PROTOCOL 0x1234 0xA956) ⟨0, 0, 0, 0⟩).1
        = true ∧
      (irmp_get_data nec_build (latched_frame IRMP_NEC_PROTOCOL 0x1234 0xA956)
        ⟨0, 0, 0, 0⟩).2.2 = ⟨IRMP_NEC_PROTOCOL, 0x1234, 0x56, 0⟩ :=
  ⟨rfl, by decide, rfl,
    (C8_get_data_nec nec_build (latched_frame IRMP_NEC_PROTOCOL 0x1234 0xA956) ⟨0, 0, 0, 0⟩
      rfl (by decide) rfl).2.2 0x56 (by decide) (by decide)⟩

/-- C9 as stated fails: the latched NEC frame with address `0x87EE` and raw command
`0xA956`, whose high byte is the complement of its low byte, is not delivered as
`(APPLE, 0xA9, 0x56)`; it is delivered as `(NEC, 0x87EE, 0x56)`. -/
theorem C9_inverted_command_stays_nec :
    (irmp_get_data nec_build (latched_frame IRMP_NEC_PROTOCOL 0x87EE 0xA956) ⟨0, 0, 0, 0⟩).2.2 ≠
        ⟨IRMP_APPLE_PROTOCOL, (0xA956 >>> 8) &&& 0xFF, 0xA956 &&& 0xFF, 0⟩ ∧
      (irmp_get_data nec_build (latched_frame IRMP_NEC_PROTOCOL 0x87EE 0xA956) ⟨0, 0, 0, 0⟩).2.2 =
        ⟨IRMP_NEC_PROTOCOL, 0x87EE, 0x56, 0⟩ := by
  decide

/-- C9 amended: for every raw command `r` whose high byte is not the complement of its low
byte, a latched NEC frame whose address is `0x87EE` is delivered by `irmp_get_data` as
`(APPLE, address = (r >> 8) & 0xFF, command = r & 0xFF)`; when the high byte is the
complement of the low byte the frame is delivered as `(NEC, 0x87EE, r & 0xFF)`. -/
theorem C9_get_data_apple (c : Config) (s : State) (d : IRMP_DATA)
    (hc : c.IRMP_SUPPORT_NEC_PROTOCOL = true) (hl : s.irmp_ir_detected ≠ 0)
    (hp : s.irmp_protocol = IRMP_NEC_PROTOCOL) (ha : s.irmp_address = 0x87EE) :
    (s.irmp_command / 256 ≠ 255 - s.irmp_command % 256 →
      (irmp_get_data c s d).1 = true ∧
      (irmp_get_data c s d).2.2 =
        ⟨IRMP_APPLE_PROTOCOL, (s.irmp_command >>> 8) &&& 0xFF, s.irmp_command &&& 0xFF,
          s.irmp_flags⟩) ∧
    (s.irmp_command / 256 = 255 - s.irmp_command % 256 →
      (irmp_get_data c s d).1 = true ∧
      (irmp_get_data c s d).2.2 =
        ⟨IRMP_NEC_PROTOCOL, 0x87EE, s.irmp_command &&& 0xFF, s.irmp_flags⟩) := by
  have e := get_data_switch_nec hc hp
  constructor
  · intro h
    rw [if_neg h, if_pos ha] at e
    simp [irmp_get_data, hl, e, and_low_byte, high_byte_mask]
  · intro h
    rw [if_pos h] at e
    simp [irmp_get_data, hl, e, hp, ha, and_low_byte]

/-- Witness of C9 amended: address `0x87EE`, raw command `0x0203`. -/
theorem C9_get_data_apple_witness :
    nec_build.IRMP_SUPPORT_NEC_PROTOCOL = true ∧
      (latched_frame IRMP_NEC_PROTOCOL 0x87EE 0x0203).irmp_ir_detected ≠ 0 ∧
      (latched_frame IRMP_NEC_PROTOCOL 0x87EE 0x0203).irmp_protocol = IRMP_NEC_PROTOCOL ∧
      (latched_frame IRMP_NEC_PROTOCOL 0x87EE 0x0203).irmp_address = 0x87EE ∧
      (0x0203 / 256 ≠ 255 - 0x0203 % 256) ∧
      (irmp_get_data nec_build (latched_frame IRMP_NEC_PROTOCOL 0x87EE 0x0203) ⟨0, 0, 0, 0⟩).1
        = true ∧
      (irmp_get_data nec_build (latched_frame IRMP_NEC_PROTOCOL 0x87EE 0x0203)
        ⟨0, 0, 0, 0⟩).2.2 = ⟨IRMP_APPLE_PROTOCOL, (0x0203 >>> 8) &&& 0xFF, 0x0203 &&& 0xFF, 0⟩ :=
  ⟨rfl, by decide, rfl, rfl, by decide,
    (C9_get_data_apple nec_build (latched_frame IRMP_NEC_PROTOCOL 0x87EE 0x0203) ⟨0, 0, 0, 0⟩
      rfl (by decide) rfl rfl).1 (by decide)⟩

/-- C10: for a latched Samsung frame with raw command `r` and stored id `irmp_id`,
`irmp_get_data` returns `TRUE` if and only if the high byte of `r` is the complement of its
low byte, and then the delivered command is `((irmp_id << 8) | (r & 0xFF)) mod 2^16`, whose
low byte is `r & 0xFF` and whose high byte is the low byte of `irmp_id`, with the address
unchanged. -/
theorem C10_get_data_samsung (c : Config) (s : State) (d : IRMP_DATA)
    (hc : c.IRMP_SUPPORT_SAMSUNG_PROTOCOL = true) (hl : s.irmp_ir_detected ≠ 0)
    (hp : s.irmp_protocol = IRMP_SAMSUNG_PROTOCOL) :
    ((irmp_get_data c s d).1 = true ↔ s.irmp_command / 256 = 255 - s.irmp_command % 256) ∧
    (s.irmp_command / 256 = 255 - s.irmp_command % 256 →
      (irmp_get_data c s d).2.2 =
        ⟨IRMP_SAMSUNG_PROTOCOL, s.irmp_address,
          ((s.irmp_id <<< 8) ||| (s.irmp_command &&& 0xFF)) % 65536, s.irmp_flags⟩ ∧
      (irmp_get_data c s d).2.2.command % 256 = s.irmp_command % 256 ∧
      (irmp_get_data c s d).2.2.command / 256 = s.irmp_id % 256) := by
  have e := get_data_switch_samsung hc hp
  have hb : ((s.irmp_command &&& 0xff) ||| (s.irmp_id <<< 8)) % 65536 =
      256 * (s.irmp_id % 256) + s.irmp_command % 256 := by
    rw [and_low_byte, lor_shift_byte _ _ (Nat.mod_lt _ (by decide))]
    omega
  by_cases h : s.irmp_command / 256 = 255 - s.irmp_command % 256
  · rw [if_pos h] at e
    have e1 : (irmp_get_data c s d).1 = true := by simp [irmp_get_data, hl, e]
    have e2 : (irmp_get_data c s d).2.2 =
        ⟨IRMP_SAMSUNG_PROTOCOL, s.irmp_address,
          ((s.irmp_command &&& 0xff) ||| (s.irmp_id <<< 8)) % 65536, s.irmp_flags⟩ := by
      simp [irmp_get_data, hl, e, hp]
    refine ⟨⟨fun _ => h, fun _ => e1⟩, fun _ => ⟨?_, ?_, ?_⟩⟩
    · rw [e2, Nat.lor_comm]
    · rw [e2]
      show ((s.irmp_command &&& 0xff) ||| (s.irmp_id <<< 8)) % 65536 % 256 = _
      rw [hb]; omega
    · rw [e2]
      show ((s.irmp_command &&& 0xff) ||| (s.irmp_id <<< 8)) % 65536 / 256 = _
      rw [hb]; omega
  · rw [if_neg h] at e
    have e1 : (irmp_get_data c s d).1 = false := by simp [irmp_get_data, hl, e]
    exact ⟨⟨fun h1 => by rw [e1] at h1; exact absurd h1 (by decide), fun h1 => absurd h1 h⟩,
      fun h1 => absurd h1 h⟩

/-- Witness of C10: raw command `0xA956`, id `0x0B17`, address `0x0707`. -/
theorem C10_get_data_samsung_witness :
    nec_samsung_build.IRMP_SUPPORT_SAMSUNG_PROTOCOL = true ∧
      ({ latched_frame IRMP_SAMSUNG_PROTOCOL 0x0707 0xA956 with irmp_id := 0x0B17 } :
        State).irmp_ir_detected ≠ 0 ∧
      ((irmp_get_data nec_samsung_build
          { latched_frame IRMP_SAMSUNG_PROTOCOL 0x0707 0xA956 with irmp_id := 0x0B17 }
          ⟨0, 0, 0, 0⟩).1 = true ↔ 0xA956 / 256 = 255 - 0xA956 % 256) ∧
      (irmp_get_data nec_samsung_build
          { latched_frame IRMP_SAMSUNG_PROTOCOL 0x0707 0xA956 with irmp_id := 0x0B17 }
          ⟨0, 0, 0, 0⟩).2.2 = ⟨IRMP_SAMSUNG_PROTOCOL, 0x0707, 0x1756, 0⟩ := by
  have h := C10_get_data_samsung nec_samsung_build
    { latched_frame IRMP_SAMSUNG_PROTOCOL 0x0707 0xA956 with irmp_id := 0x0B17 } ⟨0, 0, 0, 0⟩
    rfl (by decide) rfl
  exact ⟨rfl, by decide, h.1, (h.2 (by decide)).1⟩

/-! ## The end of a frame (lines 3160-3382) -/

theorem isr_step_body (c : Config) (s : State) (x : Bool) (h1 : s.irmp_ir_detected = 0)
    (h2 : s.irmp_start_bit_detected ≠ 0) :
    isr_step c s x = isr_frame_end c (isr_body c s x) := by
  simp [isr_step, isr_body, h1, h2]

theorem det_ite (p : Prop) [Decidable p] (a b : State) :
    (if p then a else b).irmp_ir_detected =
      if p then a.irmp_ir_detected else b.irmp_ir_detected :=
  apply_ite State.irmp_ir_detected p a b

theorem snd_ite {α β : Type} (p : Prop) [Decidable p] (a b : α × β) :
    (if p then a else b).2 = if p then a.2 else b.2 :=
  apply_ite Prod.snd p a b

theorem fst_ite {α β : Type} (p : Prop) [Decidable p] (a b : α × β) :
    (if p then a else b).1 = if p then a.1 else b.1 :=
  apply_ite Prod.fst p a b

theorem store_xor_check_det (s : State) (v : Nat) :
    (store_xor_check s v).irmp_ir_detected = s.irmp_ir_detected := by
  simp only [store_xor_check, det_ite, ite_self]

theorem irmp_store_bit_det (c : Config) (s : State) (v : Nat) :
    (irmp_store_bit c s v).irmp_ir_detected = s.irmp_ir_detected := by
  simp only [irmp_store_bit, det_ite, store_xor_check_det, ite_self]

theorem irmp_store_bit2_det (s : State) (v : Nat) :
    (irmp_store_bit2 s v).irmp_ir_detected = s.irmp_ir_detected := by
  simp only [irmp_store_bit2, det_ite, ite_self]

theorem isr_pulse_det (s : State) (x : Bool) :
    (isr_pulse s x).irmp_ir_detected = s.irmp_ir_detected := by
  simp only [isr_pulse, det_ite, ite_self]

theorem isr_start_dark_det (c : Config) (s : State) :
    (isr_start_dark c s).irmp_ir_detected = s.irmp_ir_detected := by
  simp only [isr_start_dark, det_ite, ite_self]

theorem classify_det (c : Config) (s : State) :
    (classify c s).2.irmp_ir_detected = s.irmp_ir_detected := by
  simp only [classify, snd_ite, det_ite, ite_self]

theorem reset_param2_det (c : Config) (s : State) :
    (reset_param2 c s).irmp_ir_detected = s.irmp_ir_detected := by
  simp only [reset_param2, det_ite, ite_self]

theorem load_param_det (r : Option IRMP_PARAMETER × State) :
    (load_param r).irmp_ir_detected = r.2.irmp_ir_detected := by
  unfold load_param
  cases r.1 <;> simp only [det_ite, ite_self]

theorem first_data_bit_det (c : Config) (s : State) :
    (first_data_bit c s).irmp_ir_detected = s.irmp_ir_detected := by
  simp only [first_data_bit, det_ite, irmp_store_bit_det, ite_self]

theorem isr_start_light_det (c : Config) (s : State) :
    (isr_start_light c s).irmp_ir_detected = s.irmp_ir_detected := by
  simp only [isr_start_light, first_data_bit_det, load_param_det, classify_det, reset_param2_det]

theorem data_timeout_det (c : Config) (s : State) :
    (data_timeout c s).irmp_ir_detected = s.irmp_ir_detected := by
  simp only [data_timeout, det_ite, ite_self]

theorem isr_space_dark_det (c : Config) (s : State) :
    (isr_space_dark c s).1.irmp_ir_detected = s.irmp_ir_detected := by
  simp only [isr_space_dark, fst_ite, det_ite, data_timeout_det, ite_self]

theorem got_light_manchester_det (c : Config) (s : State) :
    (got_light_manchester c s).irmp_ir_detected = s.irmp_ir_detected := by
  simp only [got_light_manchester, det_ite, irmp_store_bit_det, irmp_store_bit2_det, ite_self]

theorem serial_pulse_loop_det (c : Config) (n : Nat) (s : State) :
    (serial_pulse_loop c n s).irmp_ir_detected = s.irmp_ir_detected := by
  induction n generalizing s with
  | zero => rfl
  | succ n ih => simp only [serial_pulse_loop, det_ite, ih, irmp_store_bit_det, ite_self]

theorem serial_pause_loop_det (c : Config) (n : Nat) (s : State) :
    (serial_pause_loop c n s).irmp_ir_detected = s.irmp_ir_detected := by
  induction n generalizing s with
  | zero => rfl
  | succ n ih => simp only [serial_pause_loop, det_ite, ih, irmp_store_bit_det, ite_self]

theorem got_light_serial_det (c : Config) (s : State) :
    (got_light_serial c s).irmp_ir_detected = s.irmp_ir_detected := by
  simp only [got_light_serial, serial_pause_loop_det, serial_pulse_loop_det]

theorem got_light_samsung_det (c : Config) (s : State) :
    (got_light_samsung c s).irmp_ir_detected = s.irmp_ir_detected := by
  simp only [got_light_samsung, det_ite, irmp_store_bit_det, ite_self]

theorem got_light_bang_olufsen_det (c : Config) (s : State) :
    (got_light_bang_olufsen c s).irmp_ir_detected = s.irmp_ir_detected := by
  simp only [got_light_bang_olufsen, det_ite, irmp_store_bit_det, ite_self]

theorem isr_got_light_det (c : Config) (s : State) :
    (isr_got_light c s).irmp_ir_detected = s.irmp_ir_detected := by
  simp only [isr_got_light, det_ite, irmp_store_bit_det, got_light_manchester_det,
    got_light_serial_det, got_light_samsung_det, got_light_bang_olufsen_det, ite_self]

/-- The body of `irmp_ISR` before line 3160 does not write `irmp_ir_detected`. -/
theorem isr_body_det (c : Config) (s : State) (x : Bool) :
    (isr_body c s x).irmp_ir_detected = s.irmp_ir_detected := by
  cases x <;>
    simp only [isr_body, det_ite, isr_start_dark_det, isr_start_light_det, isr_pulse_det,
      isr_got_light_det, isr_space_dark_det, ite_self, Bool.false_eq_true, if_false, if_true]

theorem latch_frame_number (c : Config) (s : State) :
    (latch_frame c s).repetition_frame_number = s.repetition_frame_number := by
  simp only [latch_frame, apply_ite State.repetition_frame_number, ite_self]

/-- Lines 3162-3169 are the only lines of the frame end that write
`repetition_frame_number`. -/
theorem frame_end_number (c : Config) (m : State) (hcomp : frame_complete m) :
    (isr_frame_end c m).repetition_frame_number = next_frame_number c m := by
  have h : m.irmp_start_bit_detected ≠ 0 ∧ m.irmp_bit = m.irmp_param.complete_len ∧
      m.irmp_param.stop_bit = 0 := hcomp
  simp only [isr_frame_end, if_pos h, apply_ite State.repetition_frame_number,
    latch_frame_number, ite_self, next_frame_number]

theorem skip_chain {α : Type} (a b d e : Prop) [Decidable a] [Decidable b] [Decidable d]
    [Decidable e] (x y : α) :
    (if a then x else if b then x else if d then x else if e then x else y) =
      if a ∨ b ∨ d ∨ e then x else y := by
  by_cases ha : a <;> by_cases hb : b <;> by_cases hd : d <;> by_cases he : e <;>
    simp [ha, hb, hd, he]

/-- The frame end of lines 3160-3382 for a complete frame, in its four stages: the frame
counter, the skip of generated repetitions or the latch, the key repetition test and the
reset of the decoder. -/
theorem isr_frame_end_complete (c : Config) (m : State) (hcomp : frame_complete m) :
    isr_frame_end c m =
      frame_reset c (key_repetition c
        (if auto_repeat_skip c m (next_frame_number c m) then
          { m with repetition_frame_number := next_frame_number c m, repetition_len := 0 }
        else latch_frame c { m with repetition_frame_number := next_frame_number c m })) := by
  have h : m.irmp_start_bit_detected ≠ 0 ∧ m.irmp_bit = m.irmp_param.complete_len ∧
      m.irmp_param.stop_bit = 0 := hcomp
  unfold auto_repeat_skip
  rw [← skip_chain]
  unfold isr_frame_end
  rw [if_pos h]
  by_cases hcount : m.last_irmp_command = m.irmp_tmp_command ∧
      (m.repetition_len : Int) < c.K .AUTO_FRAME_REPETITION_LEN
  · have hn : next_frame_number c m = (m.repetition_frame_number + 1) % 256 := by
      simp only [next_frame_number, if_pos hcount]
    rw [hn, if_pos hcount]
    rfl
  · have hn : next_frame_number c m = 0 := by
      simp only [next_frame_number, if_neg hcount]
    rw [hn, if_neg hcount]
    rfl

/-- The latch of lines 3217-3349 in stages: the Denon pairing, the Grundig and Nokia start
frames, the checks of NEC repetition and Kaseikyo frames, the copy to the output. -/
theorem latch_frame_stages (c : Config) (s : State) :
    latch_frame c s =
      if c.IRMP_SUPPORT_DENON_PROTOCOL ∧ s.irmp_param.protocol = IRMP_DENON_PROTOCOL then
        if (s.irmp_tmp_command ^^^ 0xFFFF) &&& 0x3FF = s.last_irmp_denon_command then
          { s with irmp_ir_detected := TRUE
                   irmp_tmp_command := s.last_irmp_denon_command
                   irmp_protocol := s.irmp_param.protocol
                   irmp_address := s.irmp_tmp_address
                   irmp_command := s.last_irmp_denon_command }
        else
          { s with irmp_ir_detected := FALSE, last_irmp_denon_command := s.irmp_tmp_command }
      else if c.IRMP_SUPPORT_GRUNDIG_PROTOCOL ∧ s.irmp_param.protocol = IRMP_GRUNDIG_PROTOCOL ∧
          s.irmp_tmp_command = 0x01ff then
        { s with irmp_ir_detected := FALSE }
      else if c.IRMP_SUPPORT_NOKIA_PROTOCOL ∧ s.irmp_param.protocol = IRMP_NOKIA_PROTOCOL ∧
          s.irmp_tmp_address = 0x00ff ∧ s.irmp_tmp_command = 0x00fe then
        { s with irmp_ir_detected := FALSE }
      else
        frame_store c s.irmp_param
          (frame_checks c s.irmp_param { s with irmp_ir_detected := TRUE }) := by
  rfl

theorem frame_store_det (c : Config) (p : IRMP_PARAMETER) (s : State) :
    (frame_store c p s).irmp_ir_detected = s.irmp_ir_detected := by
  simp only [frame_store, det_ite, ite_self]

theorem frame_store_address (c : Config) (p : IRMP_PARAMETER) (s : State) :
    (frame_store c p s).irmp_address = (frame_store c p s).irmp_tmp_address := by
  simp only [frame_store, apply_ite State.irmp_address, apply_ite State.irmp_tmp_address,
    ite_self]

theorem frame_store_command (c : Config) (p : IRMP_PARAMETER) (s : State) :
    (frame_store c p s).irmp_command = (frame_store c p s).irmp_tmp_command := by
  simp only [frame_store, apply_ite State.irmp_command, apply_ite State.irmp_tmp_command,
    ite_self]

theorem frame_store_last_command (c : Config) (p : IRMP_PARAMETER) (s : State) :
    (frame_store c p s).last_irmp_command = s.last_irmp_command := by
  simp only [frame_store, apply_ite State.last_irmp_command, ite_self]

theorem frame_store_last_address (c : Config) (p : IRMP_PARAMETER) (s : State) :
    (frame_store c p s).last_irmp_address = s.last_irmp_address ∨
      (frame_store c p s).last_irmp_address = (frame_store c p s).irmp_tmp_address := by
  by_cases h : c.IRMP_SUPPORT_NEC_PROTOCOL = true ∧ p.protocol = IRMP_NEC_PROTOCOL
  · right
    simp only [frame_store, if_pos h, apply_ite State.last_irmp_address,
      apply_ite State.irmp_tmp_address, ite_self]
  · left
    simp only [frame_store, if_neg h, apply_ite State.last_irmp_address, ite_self]

theorem frame_store_flags (c : Config) (p : IRMP_PARAMETER) (s : State) :
    (frame_store c p s).irmp_flags = s.irmp_flags := by
  simp only [frame_store, apply_ite State.irmp_flags, ite_self]

theorem frame_store_repetition_len (c : Config) (p : IRMP_PARAMETER) (s : State) :
    (frame_store c p s).repetition_len = s.repetition_len := by
  simp only [frame_store, apply_ite State.repetition_len, ite_self]

theorem frame_checks_last_command (c : Config) (p : IRMP_PARAMETER) (s : State) :
    (frame_checks c p s).last_irmp_command = s.last_irmp_command := by
  simp only [frame_checks, apply_ite State.last_irmp_command, ite_self]

theorem frame_checks_last_address (c : Config) (p : IRMP_PARAMETER) (s : State) :
    (frame_checks c p s).last_irmp_address = s.last_irmp_address := by
  simp only [frame_checks, apply_ite State.last_irmp_address, ite_self]

theorem frame_checks_flags (c : Config) (p : IRMP_PARAMETER) (s : State) :
    ((frame_checks c p s).irmp_flags = s.irmp_flags ∧
        (frame_checks c p s).repetition_len = s.repetition_len) ∨
      (frame_checks c p s).irmp_flags = (s.irmp_flags ||| IRMP_FLAG_REPETITION) % 256 := by
  by_cases h : c.IRMP_SUPPORT_NEC_PROTOCOL = true ∧ p.protocol = IRMP_NEC_PROTOCOL ∧
      s.irmp_bit = 0
  · by_cases h2 : (s.repetition_len : Int) < c.K .NEC_FRAME_REPEAT_PAUSE_LEN_MAX
    · right
      simp only [frame_checks, if_pos h, if_pos h2, apply_ite State.irmp_flags, ite_self]
    · left
      simp only [frame_checks, if_pos h, if_neg h2, apply_ite State.irmp_flags,
        apply_ite State.repetition_len, ite_self, and_self]
  · left
    simp only [frame_checks, if_neg h, apply_ite State.irmp_flags,
      apply_ite State.repetition_len, ite_self, and_self]

/-- What a frame that `latch_frame` leaves latched looks like. -/
theorem latch_frame_latched (c : Config) (s : State)
    (h : (latch_frame c s).irmp_ir_detected ≠ 0) :
    (latch_frame c s).irmp_address = (latch_frame c s).irmp_tmp_address ∧
    (latch_frame c s).irmp_command = (latch_frame c s).irmp_tmp_command ∧
    (latch_frame c s).last_irmp_command = s.last_irmp_command ∧
    ((latch_frame c s).last_irmp_address = s.last_irmp_address ∨
      (latch_frame c s).last_irmp_address = (latch_frame c s).irmp_tmp_address) ∧
    (((latch_frame c s).irmp_flags = s.irmp_flags ∧
        (latch_frame c s).repetition_len = s.repetition_len) ∨
      (latch_frame c s).irmp_flags = (s.irmp_flags ||| IRMP_FLAG_REPETITION) % 256) := by
  rw [latch_frame_stages] at h ⊢
  split_ifs at h ⊢ with h1 h2 h3 h4
  · exact ⟨rfl, rfl, rfl, Or.inl rfl, Or.inl ⟨rfl, rfl⟩⟩
  · exact absurd rfl h
  · exact absurd rfl h
  · exact absurd rfl h
  · refine ⟨frame_store_address _ _ _, frame_store_command _ _ _, ?_, ?_, ?_⟩
    · rw [frame_store_last_command, frame_checks_last_command]
    · rcases frame_store_last_address c s.irmp_param
        (frame_checks c s.irmp_param { s with irmp_ir_detected := TRUE }) with e | e
      · left; rw [e, frame_checks_last_address]
      · right; exact e
    · rw [frame_store_flags, frame_store_repetition_len]
      exact frame_checks_flags c s.irmp_param { s with irmp_ir_detected := TRUE }

theorem key_repetition_det (c : Config) (s : State) :
    (key_repetition c s).irmp_ir_detected = s.irmp_ir_detected := by
  simp only [key_repetition, det_ite, ite_self]

theorem frame_reset_det (c : Config) (s : State) :
    (frame_reset c s).irmp_ir_detected = s.irmp_ir_detected := by
  simp only [frame_reset, det_ite, ite_self]

theorem flag_set (f : Nat) : ((f ||| IRMP_FLAG_REPETITION) % 256) &&& IRMP_FLAG_REPETITION ≠ 0 := by
  have h : ((f ||| 1) % 256).testBit 0 = true := by
    rw [show (256 : Nat) = 2 ^ 8 by decide, Nat.testBit_mod_two_pow]
    simp
  intro e
  have h2 : (((f ||| 1) % 256) &&& 1).testBit 0 = true := by
    rw [Nat.testBit_and, h]; rfl
  rw [show IRMP_FLAG_REPETITION = 1 from rfl] at e
  rw [e] at h2
  simp at h2

theorem key_repetition_latched (c : Config) (s : State) (h : s.irmp_ir_detected ≠ 0) :
    key_repetition c s =
      { s with
          irmp_flags :=
            if s.last_irmp_command = s.irmp_tmp_command ∧
                s.last_irmp_address = s.irmp_tmp_address ∧
                (s.repetition_len : Int) < c.K .IRMP_KEY_REPETITION_LEN then
              (s.irmp_flags ||| IRMP_FLAG_REPETITION) % 256
            else s.irmp_flags
          last_irmp_address := s.irmp_tmp_address
          last_irmp_command := s.irmp_tmp_command
          repetition_len := 0 } := by
  unfold key_repetition
  rw [if_pos h]
  split_ifs <;> rfl

theorem key_repetition_unlatched (c : Config) (s : State) (h : s.irmp_ir_detected = 0) :
    key_repetition c s = s := by
  unfold key_repetition
  rw [if_neg (by simpa using h)]

theorem frame_reset_fields (c : Config) (s : State) :
    (frame_reset c s).irmp_protocol = s.irmp_protocol ∧
    (frame_reset c s).irmp_address = s.irmp_address ∧
    (frame_reset c s).irmp_command = s.irmp_command ∧
    (frame_reset c s).irmp_flags = s.irmp_flags ∧
    (frame_reset c s).last_irmp_address = s.last_irmp_address ∧
    (frame_reset c s).last_irmp_command = s.last_irmp_command ∧
    (frame_reset c s).repetition_len = s.repetition_len ∧
    (frame_reset c s).last_irmp_denon_command = s.last_irmp_denon_command := by
  unfold frame_reset
  dsimp only
  split_ifs <;> exact ⟨rfl, rfl, rfl, rfl, rfl, rfl, rfl, rfl⟩

/-- A complete frame that ends latched went through `latch_frame`. -/
theorem frame_end_latched (c : Config) (m : State) (hd : m.irmp_ir_detected = 0)
    (hcomp : frame_complete m) (hl : (isr_frame_end c m).irmp_ir_detected ≠ 0) :
    ¬ auto_repeat_skip c m (next_frame_number c m) ∧
    (latch_frame c { m with repetition_frame_number := next_frame_number c m }).irmp_ir_detected
      ≠ 0 ∧
    isr_frame_end c m = frame_reset c (key_repetition c
      (latch_frame c { m with repetition_frame_number := next_frame_number c m })) := by
  rw [isr_frame_end_complete c m hcomp, frame_reset_det, key_repetition_det] at hl
  rw [isr_frame_end_complete c m hcomp]
  by_cases hs : auto_repeat_skip c m (next_frame_number c m)
  · rw [if_pos hs] at hl
    exact absurd hd hl
  · rw [if_neg hs] at hl ⊢
    exact ⟨hs, hl, rfl⟩

/-- Lines 3351-3364 on a latched frame: the key repetition flag, the remembered frame and
the reset of `repetition_len`. -/
theorem frame_end_key_repetition (c : Config) (m : State) (hd : m.irmp_ir_detected = 0)
    (hcomp : frame_complete m) (hl : (isr_frame_end c m).irmp_ir_detected ≠ 0) :
    ((isr_frame_end c m).irmp_address = m.last_irmp_address →
      (isr_frame_end c m).irmp_command = m.last_irmp_command →
      (m.repetition_len : Int) < c.K .IRMP_KEY_REPETITION_LEN →
      (isr_frame_end c m).irmp_flags &&& IRMP_FLAG_REPETITION ≠ 0) ∧
    (isr_frame_end c m).last_irmp_address = (isr_frame_end c m).irmp_address ∧
    (isr_frame_end c m).last_irmp_command = (isr_frame_end c m).irmp_command ∧
    (isr_frame_end c m).repetition_len = 0 := by
  obtain ⟨_, hL, e⟩ := frame_end_latched c m hd hcomp hl
  obtain ⟨ha, hc, hlc, hla, hf⟩ := latch_frame_latched c _ hL
  obtain ⟨_, r2, r3, r4, r5, r6, r7, _⟩ := frame_reset_fields c (key_repetition c
    (latch_frame c { m with repetition_frame_number := next_frame_number c m }))
  rw [e, r2, r3, r4, r5, r6, r7, key_repetition_latched c _ hL]
  dsimp only
  refine ⟨fun e1 e2 e3 => ?_, ha.symm, hc.symm, rfl⟩
  rw [ha] at e1
  rw [hc] at e2
  have k1 : (latch_frame c { m with repetition_frame_number := next_frame_number c m }).last_irmp_command
      = (latch_frame c { m with repetition_frame_number := next_frame_number c m }).irmp_tmp_command := by
    rw [hlc, e2]
  have k2 : (latch_frame c { m with repetition_frame_number := next_frame_number c m }).last_irmp_address
      = (latch_frame c { m with repetition_frame_number := next_frame_number c m }).irmp_tmp_address := by
    rcases hla with h | h
    · rw [h, e1]
    · exact h
  rcases hf with ⟨_, h⟩ | h
  · have k3 : ((latch_frame c { m with repetition_frame_number := next_frame_number c m }).repetition_len : Int)
        < c.K .IRMP_KEY_REPETITION_LEN := by
      rw [h]; exact e3
    rw [if_pos ⟨k1, k2, k3⟩]
    exact flag_set _
  · split_ifs
    · exact flag_set _
    · rw [h]; exact flag_set _

theorem frame_end_skipped (c : Config) (m : State) (hd : m.irmp_ir_detected = 0)
    (hcomp : frame_complete m) (hs : auto_repeat_skip c m (next_frame_number c m)) :
    isr_frame_end c m =
      frame_reset c
        { m with repetition_frame_number := next_frame_number c m, repetition_len := 0 } := by
  rw [isr_frame_end_complete c m hcomp, if_pos hs,
    key_repetition_unlatched c
      { m with repetition_frame_number := next_frame_number c m, repetition_len := 0 } hd]

theorem frame_end_not_skipped (c : Config) (m : State) (hcomp : frame_complete m)
    (hs : ¬ auto_repeat_skip c m (next_frame_number c m)) :
    isr_frame_end c m =
      frame_reset c (key_repetition c
        (latch_frame c { m with repetition_frame_number := next_frame_number c m })) := by
  rw [isr_frame_end_complete c m hcomp, if_neg hs]

/-- Protocols without a check of their own at the latch: the frame stays latched. -/
theorem latch_frame_plain (c : Config) (s : State)
    (hp : s.irmp_param.protocol ∉ [IRMP_DENON_PROTOCOL, IRMP_GRUNDIG_PROTOCOL,
      IRMP_NOKIA_PROTOCOL, IRMP_NEC_PROTOCOL, IRMP_KASEIKYO_PROTOCOL]) :
    (latch_frame c s).irmp_ir_detected = TRUE := by
  simp only [List.mem_cons, List.mem_singleton, List.not_mem_nil, or_false, not_or] at hp
  obtain ⟨h1, h2, h3, h4, h5⟩ := hp
  rw [latch_frame_stages]
  simp only [h1, h2, h3, h4, h5, and_false, false_and, if_false, frame_store_det, frame_checks]

theorem irmp_ISR_body (c : Config) (s : State) (x : Bool) (h1 : s.irmp_ir_detected = 0)
    (h2 : s.irmp_start_bit_detected ≠ 0) :
    irmp_ISR c s x = (isr_frame_end c (isr_body c s x),
      (isr_frame_end c (isr_body c s x)).irmp_ir_detected) := by
  simp only [irmp_ISR, isr_step_body c s x h1 h2]

theorem frame_end_auto_repeat (c : Config) (m : State) (hd : m.irmp_ir_detected = 0)
    (hcomp : frame_complete m) :
    (isr_frame_end c m).repetition_frame_number = next_frame_number c m ∧
    (((c.IRMP_SUPPORT_SIRCS_PROTOCOL = true ∧ m.irmp_param.protocol = IRMP_SIRCS_PROTOCOL ∧
          (next_frame_number c m = 1 ∨ next_frame_number c m = 2)) ∨
        (c.IRMP_SUPPORT_KASEIKYO_PROTOCOL = true ∧
          m.irmp_param.protocol = IRMP_KASEIKYO_PROTOCOL ∧ next_frame_number c m = 1) ∨
        (c.IRMP_SUPPORT_SAMSUNG_PROTOCOL = true ∧
          m.irmp_param.protocol = IRMP_SAMSUNG32_PROTOCOL ∧ next_frame_number c m % 2 = 1) ∨
        (c.IRMP_SUPPORT_NUBERT_PROTOCOL = true ∧
          m.irmp_param.protocol = IRMP_NUBERT_PROTOCOL ∧ next_frame_number c m % 2 = 1)) →
      (isr_frame_end c m).irmp_ir_detected = 0 ∧ (isr_frame_end c m).repetition_len = 0 ∧
      (isr_frame_end c m).irmp_protocol = m.irmp_protocol ∧
      (isr_frame_end c m).irmp_address = m.irmp_address ∧
      (isr_frame_end c m).irmp_command = m.irmp_command ∧
      (isr_frame_end c m).irmp_flags = m.irmp_flags) ∧
    (m.irmp_param.protocol = IRMP_SIRCS_PROTOCOL → next_frame_number c m ≠ 1 →
      next_frame_number c m ≠ 2 → (isr_frame_end c m).irmp_ir_detected = TRUE) := by
  refine ⟨frame_end_number c m hcomp, fun h => ?_, fun hp n1 n2 => ?_⟩
  · have hs : auto_repeat_skip c m (next_frame_number c m) := by
      unfold auto_repeat_skip
      simp only [Nat.and_one_is_mod]
      rcases h with h | h | h | h
      · exact Or.inl h
      · exact Or.inr (Or.inl h)
      · exact Or.inr (Or.inr (Or.inl ⟨h.1, h.2.1, by rw [h.2.2]; decide⟩))
      · exact Or.inr (Or.inr (Or.inr ⟨h.1, h.2.1, by rw [h.2.2]; decide⟩))
    rw [frame_end_skipped c m hd hcomp hs]
    obtain ⟨r1, r2, r3, r4, _, _, r7, _⟩ := frame_reset_fields c
      { m with repetition_frame_number := next_frame_number c m, repetition_len := 0 }
    rw [frame_reset_det, r1, r2, r3, r4, r7]
    exact ⟨hd, rfl, rfl, rfl, rfl, rfl⟩
  · have hs : ¬ auto_repeat_skip c m (next_frame_number c m) := by
      unfold auto_repeat_skip
      simp [hp, n1, n2, IRMP_SIRCS_PROTOCOL, IRMP_KASEIKYO_PROTOCOL, IRMP_SAMSUNG32_PROTOCOL,
        IRMP_NUBERT_PROTOCOL]
    rw [frame_end_not_skipped c m hcomp hs, frame_reset_det, key_repetition_det]
    apply latch_frame_plain
    show m.irmp_param.protocol ∉ _
    rw [hp]
    decide

/-- Lines 3278-3301 for a Kaseikyo frame: the latch survives exactly when both parity
tests of the code pass. -/
theorem frame_end_kaseikyo (c : Config) (m : State)
    (hK : c.IRMP_SUPPORT_KASEIKYO_PROTOCOL = true)
    (hcomp : frame_complete m) (hp : m.irmp_param.protocol = IRMP_KASEIKYO_PROTOCOL)
    (hn : next_frame_number c m ≠ 1) :
    (isr_frame_end c m).irmp_ir_detected ≠ 0 ↔
      (((m.xor_check.getD 0 0 &&& 0x0F) ^^^ ((m.xor_check.getD 0 0 &&& 0xF0) >>> 4) ^^^
          (m.xor_check.getD 1 0 &&& 0x0F) ^^^ ((m.xor_check.getD 1 0 &&& 0xF0) >>> 4)) % 256 =
            m.xor_check.getD 2 0 &&& 0x0F ∧
        (m.xor_check.getD 2 0 ^^^ m.xor_check.getD 3 0 ^^^ m.xor_check.getD 4 0) % 256 =
          m.xor_check.getD 5 0) := by
  have hs : ¬ auto_repeat_skip c m (next_frame_number c m) := by
    unfold auto_repeat_skip
    simp [hp, hn, IRMP_SIRCS_PROTOCOL, IRMP_KASEIKYO_PROTOCOL, IRMP_SAMSUNG32_PROTOCOL,
      IRMP_NUBERT_PROTOCOL]
  rw [frame_end_not_skipped c m hcomp hs, frame_reset_det, key_repetition_det,
    latch_frame_stages]
  by_cases p1 : ((m.xor_check.getD 0 0 &&& 0x0F) ^^^ ((m.xor_check.getD 0 0 &&& 0xF0) >>> 4) ^^^
          (m.xor_check.getD 1 0 &&& 0x0F) ^^^ ((m.xor_check.getD 1 0 &&& 0xF0) >>> 4)) % 256 =
            m.xor_check.getD 2 0 &&& 0x0F <;>
  by_cases p2 : (m.xor_check.getD 2 0 ^^^ m.xor_check.getD 3 0 ^^^ m.xor_check.getD 4 0) % 256 =
          m.xor_check.getD 5 0 <;>
  simp [-List.getD_eq_getElem?_getD, hp, IRMP_KASEIKYO_PROTOCOL, IRMP_DENON_PROTOCOL, IRMP_GRUNDIG_PROTOCOL,
    IRMP_NOKIA_PROTOCOL, IRMP_NEC_PROTOCOL, frame_store_det, frame_checks, hK, p1, p2,
    TRUE, FALSE]

set_option maxRecDepth 100000 in
theorem high_nibble : ∀ x, x < 256 → (x &&& 0xF0) >>> 4 = x / 16 := by
  decide

theorem low_nibble (x : Nat) : x &&& 0x0F = x % 16 := by
  rw [show (0x0F : Nat) = 2 ^ 4 - 1 by decide, Nat.and_pow_two_sub_one_eq_mod]

/-- The two parity tests of lines 3285-3299 on bytes, in nibbles. -/
theorem kaseikyo_parity_bytes (x0 x1 x2 x3 x4 x5 : Nat) (h0 : x0 < 256) (h1 : x1 < 256)
    (h2 : x2 < 256) (h3 : x3 < 256) (h4 : x4 < 256) :
    (((x0 &&& 0x0F) ^^^ ((x0 &&& 0xF0) >>> 4) ^^^ (x1 &&& 0x0F) ^^^ ((x1 &&& 0xF0) >>> 4)) % 256
        = x2 &&& 0x0F ∧ (x2 ^^^ x3 ^^^ x4) % 256 = x5) ↔
      (x0 % 16 ^^^ x0 / 16 ^^^ x1 % 16 ^^^ x1 / 16 = x2 % 16 ∧ x2 ^^^ x3 ^^^ x4 = x5) := by
  rw [low_nibble, low_nibble, low_nibble, high_nibble x0 h0, high_nibble x1 h1]
  have a0 : x0 % 16 < 2 ^ 4 := Nat.mod_lt _ (by decide)
  have a1 : x0 / 16 < 2 ^ 4 := by omega
  have a2 : x1 % 16 < 2 ^ 4 := Nat.mod_lt _ (by decide)
  have a3 : x1 / 16 < 2 ^ 4 := by omega
  have b : x0 % 16 ^^^ x0 / 16 ^^^ x1 % 16 ^^^ x1 / 16 < 2 ^ 4 :=
    Nat.xor_lt_two_pow (Nat.xor_lt_two_pow (Nat.xor_lt_two_pow a0 a1) a2) a3
  have d : x2 ^^^ x3 ^^^ x4 < 2 ^ 8 :=
    Nat.xor_lt_two_pow (Nat.xor_lt_two_pow (show x2 < 2 ^ 8 from h2) (show x3 < 2 ^ 8 from h3))
      (show x4 < 2 ^ 8 from h4)
  rw [Nat.mod_eq_of_lt (show _ < 256 by omega), Nat.mod_eq_of_lt (show _ < 256 from d)]

/-- Lines 3219-3238 for a Denon frame: the pairing with the half-frame held in
`last_irmp_denon_command`. -/
theorem frame_end_denon (c : Config) (m : State)
    (hD : c.IRMP_SUPPORT_DENON_PROTOCOL = true) (hcomp : frame_complete m)
    (hp : m.irmp_param.protocol = IRMP_DENON_PROTOCOL) :
    isr_frame_end c m =
      frame_reset c (key_repetition c
        (if (m.irmp_tmp_command ^^^ 0xFFFF) &&& 0x3FF = m.last_irmp_denon_command then
          { m with repetition_frame_number := next_frame_number c m
                   irmp_ir_detected := TRUE
                   irmp_tmp_command := m.last_irmp_denon_command
                   irmp_protocol := IRMP_DENON_PROTOCOL
                   irmp_address := m.irmp_tmp_address
                   irmp_command := m.last_irmp_denon_command }
        else
          { m with repetition_frame_number := next_frame_number c m
                   irmp_ir_detected := FALSE
                   last_irmp_denon_command := m.irmp_tmp_command })) := by
  have hs : ¬ auto_repeat_skip c m (next_frame_number c m) := by
    unfold auto_repeat_skip
    simp [hp, IRMP_SIRCS_PROTOCOL, IRMP_KASEIKYO_PROTOCOL, IRMP_SAMSUNG32_PROTOCOL,
      IRMP_NUBERT_PROTOCOL, IRMP_DENON_PROTOCOL]
  rw [frame_end_not_skipped c m hcomp hs, latch_frame_stages]
  have e : (c.IRMP_SUPPORT_DENON_PROTOCOL = true ∧
      ({ m with repetition_frame_number := next_frame_number c m } : State).irmp_param.protocol
        = IRMP_DENON_PROTOCOL) := ⟨hD, hp⟩
  rw [if_pos e]
  have e2 : ({ m with repetition_frame_number := next_frame_number c m } :
      State).irmp_param.protocol = IRMP_DENON_PROTOCOL := hp
  rw [e2]

/-- The outcome of a complete Denon frame. -/
theorem frame_end_denon_fields (c : Config) (m : State)
    (hD : c.IRMP_SUPPORT_DENON_PROTOCOL = true)
    (hcomp : frame_complete m) (hp : m.irmp_param.protocol = IRMP_DENON_PROTOCOL) :
    ((m.irmp_tmp_command ^^^ 0xFFFF) &&& 0x3FF = m.last_irmp_denon_command →
      (isr_frame_end c m).irmp_ir_detected = TRUE ∧
      (isr_frame_end c m).irmp_protocol = IRMP_DENON_PROTOCOL ∧
      (isr_frame_end c m).irmp_address = m.irmp_tmp_address ∧
      (isr_frame_end c m).irmp_command = m.last_irmp_denon_command ∧
      (isr_frame_end c m).last_irmp_denon_command = m.last_irmp_denon_command) ∧
    ((m.irmp_tmp_command ^^^ 0xFFFF) &&& 0x3FF ≠ m.last_irmp_denon_command →
      (isr_frame_end c m).irmp_ir_detected = 0 ∧
      (isr_frame_end c m).last_irmp_denon_command = m.irmp_tmp_command ∧
      (isr_frame_end c m).irmp_protocol = m.irmp_protocol ∧
      (isr_frame_end c m).irmp_address = m.irmp_address ∧
      (isr_frame_end c m).irmp_command = m.irmp_command) := by
  rw [frame_end_denon c m hD hcomp hp]
  constructor
  · intro h
    rw [if_pos h]
    obtain ⟨r1, r2, r3, _, _, _, _, r8⟩ := frame_reset_fields c (key_repetition c
      { m with repetition_frame_number := next_frame_number c m
               irmp_ir_detected := TRUE
               irmp_tmp_command := m.last_irmp_denon_command
               irmp_protocol := IRMP_DENON_PROTOCOL
               irmp_address := m.irmp_tmp_address
               irmp_command := m.last_irmp_denon_command })
    rw [frame_reset_det, key_repetition_det, r1, r2, r3, r8,
      key_repetition_latched c _ (show (1 : Nat) ≠ 0 by decide)]
    exact ⟨rfl, rfl, rfl, rfl, rfl⟩
  · intro h
    rw [if_neg h]
    rw [key_repetition_unlatched c _ (show (0 : Nat) = 0 from rfl)]
    obtain ⟨r1, r2, r3, _, _, _, _, r8⟩ := frame_reset_fields c
      { m with repetition_frame_number := next_frame_number c m
               irmp_ir_detected := FALSE
               last_irmp_denon_command := m.irmp_tmp_command }
    rw [frame_reset_det, r1, r2, r3, r8]
    exact ⟨rfl, rfl, rfl, rfl, rfl⟩

theorem frame_checks_nec_repeat (c : Config) (s : State)
    (hN : c.IRMP_SUPPORT_NEC_PROTOCOL = true)
    (hp : s.irmp_param.protocol = IRMP_NEC_PROTOCOL) (hb : s.irmp_bit = 0) :
    frame_checks c s.irmp_param s =
      if (s.repetition_len : Int) < c.K .NEC_FRAME_REPEAT_PAUSE_LEN_MAX then
        { s with irmp_tmp_address := s.last_irmp_address
                 irmp_tmp_command := s.last_irmp_command
                 irmp_flags := (s.irmp_flags ||| IRMP_FLAG_REPETITION) % 256
                 repetition_len := 0 }
      else { s with irmp_ir_detected := FALSE } := by
  unfold frame_checks
  simp only [hN, hp, hb, true_and, and_self, if_true, IRMP_NEC_PROTOCOL, IRMP_KASEIKYO_PROTOCOL]
  simp

theorem frame_store_nec (c : Config) (s : State) (p : IRMP_PARAMETER)
    (hN : c.IRMP_SUPPORT_NEC_PROTOCOL = true) (hp : p.protocol = IRMP_NEC_PROTOCOL) :
    (frame_store c p s).irmp_protocol = IRMP_NEC_PROTOCOL ∧
    (frame_store c p s).irmp_address = s.irmp_tmp_address ∧
    (frame_store c p s).irmp_command = s.irmp_tmp_command ∧
    (frame_store c p s).irmp_tmp_address = s.irmp_tmp_address ∧
    (frame_store c p s).irmp_tmp_command = s.irmp_tmp_command ∧
    (frame_store c p s).last_irmp_address = s.irmp_tmp_address := by
  cases hS : c.IRMP_SUPPORT_SAMSUNG_PROTOCOL <;>
    simp [frame_store, hN, hp, hS, IRMP_NEC_PROTOCOL, IRMP_RC6_PROTOCOL, IRMP_FDC_PROTOCOL,
      IRMP_RC5_PROTOCOL]

theorem latch_frame_nec_repeat (c : Config) (s : State)
    (hN : c.IRMP_SUPPORT_NEC_PROTOCOL = true)
    (hp : s.irmp_param.protocol = IRMP_NEC_PROTOCOL) (hb : s.irmp_bit = 0) :
    latch_frame c s =
      frame_store c s.irmp_param
        (if (s.repetition_len : Int) < c.K .NEC_FRAME_REPEAT_PAUSE_LEN_MAX then
          { s with irmp_ir_detected := TRUE
                   irmp_tmp_address := s.last_irmp_address
                   irmp_tmp_command := s.last_irmp_command
                   irmp_flags := (s.irmp_flags ||| IRMP_FLAG_REPETITION) % 256
                   repetition_len := 0 }
        else { s with irmp_ir_detected := FALSE }) := by
  rw [latch_frame_stages]
  simp only [hp, IRMP_NEC_PROTOCOL, IRMP_DENON_PROTOCOL, IRMP_GRUNDIG_PROTOCOL,
    IRMP_NOKIA_PROTOCOL, Nat.reduceEqDiff, and_false, false_and, if_false]
  have h := frame_checks_nec_repeat c { s with irmp_ir_detected := TRUE } hN hp hb
  rw [show ({ s with irmp_ir_detected := TRUE } : State).irmp_param = s.irmp_param from rfl] at h
  rw [h]

/-- Lines 3258-3276 for a NEC repetition frame. -/
theorem frame_end_nec_repeat (c : Config) (m : State)
    (hN : c.IRMP_SUPPORT_NEC_PROTOCOL = true) (hcomp : frame_complete m)
    (hp : m.irmp_param.protocol = IRMP_NEC_PROTOCOL) (hb : m.irmp_bit = 0) :
    ((m.repetition_len : Int) < c.K .NEC_FRAME_REPEAT_PAUSE_LEN_MAX →
      (isr_frame_end c m).irmp_ir_detected = TRUE ∧
      (isr_frame_end c m).irmp_protocol = IRMP_NEC_PROTOCOL ∧
      (isr_frame_end c m).irmp_address = m.last_irmp_address ∧
      (isr_frame_end c m).irmp_command = m.last_irmp_command ∧
      (isr_frame_end c m).irmp_flags &&& IRMP_FLAG_REPETITION ≠ 0) ∧
    (¬ (m.repetition_len : Int) < c.K .NEC_FRAME_REPEAT_PAUSE_LEN_MAX →
      (isr_frame_end c m).irmp_ir_detected = 0) := by
  have hs : ¬ auto_repeat_skip c m (next_frame_number c m) := by
    unfold auto_repeat_skip
    simp [hp, IRMP_SIRCS_PROTOCOL, IRMP_KASEIKYO_PROTOCOL, IRMP_SAMSUNG32_PROTOCOL,
      IRMP_NUBERT_PROTOCOL, IRMP_NEC_PROTOCOL]
  rw [frame_end_not_skipped c m hcomp hs,
    latch_frame_nec_repeat c { m with repetition_frame_number := next_frame_number c m } hN hp hb]
  constructor
  · intro h
    have h' : (({ m with repetition_frame_number := next_frame_number c m } :
        State).repetition_len : Int) < c.K .NEC_FRAME_REPEAT_PAUSE_LEN_MAX := h
    rw [if_pos h']
    generalize hF : ({ m with repetition_frame_number := next_frame_number c m
                              irmp_ir_detected := TRUE
                              irmp_tmp_address := m.last_irmp_address
                              irmp_tmp_command := m.last_irmp_command
                              irmp_flags := (m.irmp_flags ||| IRMP_FLAG_REPETITION) % 256
                              repetition_len := 0 } : State) = F
    have hFa : F.irmp_tmp_address = m.last_irmp_address := by rw [← hF]
    have hFc : F.irmp_tmp_command = m.last_irmp_command := by rw [← hF]
    have hFf : F.irmp_flags = (m.irmp_flags ||| IRMP_FLAG_REPETITION) % 256 := by rw [← hF]
    have hFd : F.irmp_ir_detected = TRUE := by rw [← hF]
    have hFp : F.irmp_param = m.irmp_param := by rw [← hF]
    have hFp' : ({ m with repetition_frame_number := next_frame_number c m } :
        State).irmp_param = m.irmp_param := rfl
    rw [hFp']
    obtain ⟨s1, s2, s3, -, -, -⟩ := frame_store_nec c F m.irmp_param hN hp
    have hLd : (frame_store c m.irmp_param F).irmp_ir_detected ≠ 0 := by
      rw [frame_store_det, hFd]; decide
    obtain ⟨r1, r2, r3, r4, -, -, -, -⟩ := frame_reset_fields c
      (key_repetition c (frame_store c m.irmp_param F))
    rw [frame_reset_det, key_repetition_det, r1, r2, r3, r4, key_repetition_latched c _ hLd]
    dsimp only
    rw [frame_store_det, s1, s2, s3, hFd, hFa, hFc, frame_store_flags, hFf]
    refine ⟨rfl, rfl, rfl, rfl, ?_⟩
    split_ifs
    · exact flag_set _
    · exact flag_set _
  · intro h
    have h' : ¬ (({ m with repetition_frame_number := next_frame_number c m } :
        State).repetition_len : Int) < c.K .NEC_FRAME_REPEAT_PAUSE_LEN_MAX := h
    rw [if_neg h', frame_reset_det, key_repetition_det, frame_store_det]
    rfl

/-! ## More cases of the switch of `irmp_get_data` -/

theorem mask_shift (r m k : Nat) : (r &&& (m <<< k)) >>> k = (r >>> k) &&& m := by
  apply Nat.eq_of_testBit_eq
  intro i
  simp only [Nat.testBit_shiftRight, Nat.testBit_and, Nat.testBit_shiftLeft]
  have h : k + i - k = i := by omega
  simp [h]

theorem bit12_shift (r : Nat) : (r &&& 0x1000) >>> 2 = ((r >>> 12) &&& 1) <<< 10 := by
  apply Nat.eq_of_testBit_eq
  intro i
  rw [show (0x1000 : Nat) = 2 ^ 12 by decide, show (1 : Nat) = 2 ^ 0 by decide]
  simp only [Nat.testBit_shiftRight, Nat.testBit_and, Nat.testBit_shiftLeft,
    Nat.testBit_two_pow]
  by_cases h : i = 10
  · subst h; simp
  · have h1 : ¬ (12 = 2 + i) := by omega
    have h2 : ¬ (0 = i - 10 ∧ 10 ≤ i) := by omega
    by_cases h3 : 10 ≤ i
    · have h4 : ¬ (0 = i - 10) := by omega
      simp [h1, h3, h4]
    · simp [h1, h3]

theorem complement_bit0 (r : Nat) : (r ^^^ 0xFFFF) &&& 0x0001 = 1 - r % 2 := by
  have h := lnot_low_bits r 1 (by decide)
  rw [show (2 : Nat) ^ 16 - 1 = 0xFFFF by decide, show (2 : Nat) ^ 1 - 1 = 0x0001 by decide] at h
  rw [h]
  have : r % 2 ^ 1 = r % 2 := by rw [pow_one]
  omega

/-- The test of line 1598: bit 1 of the command is the complement of bit 0. -/
theorem repeat_bit_test (r : Nat) :
    ((r >>> 1) &&& 0x0001 = (r ^^^ 0xFFFF) &&& 0x0001) ↔ r.testBit 1 = !r.testBit 0 := by
  rw [complement_bit0, Nat.and_one_is_mod, Nat.shiftRight_eq_div_pow, pow_one,
    Nat.testBit_succ, Nat.testBit_zero, Nat.testBit_zero]
  have h1 : r / 2 % 2 = 0 ∨ r / 2 % 2 = 1 := by omega
  have h2 : r % 2 = 0 ∨ r % 2 = 1 := by omega
  rcases h1 with h1 | h1 <;> rcases h2 with h2 | h2 <;> simp [h1, h2]

/-- The Siemens and Ruwido case of the switch (lines 1595-1604). -/
theorem get_data_switch_siemens {c : Config} {s : State}
    (hc : c.IRMP_SUPPORT_SIEMENS_OR_RUWIDO_PROTOCOL = true)
    (hp : s.irmp_protocol = IRMP_SIEMENS_PROTOCOL ∨ s.irmp_protocol = IRMP_RUWIDO_PROTOCOL) :
    get_data_switch c s =
      if s.irmp_command.testBit 1 = !s.irmp_command.testBit 0 then
        (true, { s with irmp_command := s.irmp_command >>> 1 })
      else (false, s) := by
  have a : get_data_switch c s =
      if (s.irmp_command >>> 1) &&& 0x0001 = (s.irmp_command ^^^ 0xFFFF) &&& 0x0001 then
        (true, { s with irmp_command := s.irmp_command >>> 1 })
      else (false, s) := by
    rcases hp with hp | hp <;>
      simp [get_data_switch, hp, hc, IRMP_NEC_PROTOCOL, IRMP_SAMSUNG_PROTOCOL,
        IRMP_SIEMENS_PROTOCOL, IRMP_RUWIDO_PROTOCOL]
  rw [a]
  exact if_congr (repeat_bit_test s.irmp_command) rfl rfl

/-- The RCCAR case of the switch (lines 1627-1638). -/
theorem get_data_switch_rccar {c : Config} {s : State}
    (hc : c.IRMP_SUPPORT_RCCAR_PROTOCOL = true) (hp : s.irmp_protocol = IRMP_RCCAR_PROTOCOL) :
    get_data_switch c s =
      (true, { s with irmp_address := (s.irmp_command &&& 0x000C) >>> 2
                      irmp_command := (((s.irmp_command &&& 0x1000) >>> 2) |||
                                       ((s.irmp_command &&& 0x0003) <<< 8) |||
                                       ((s.irmp_command &&& 0x0FF0) >>> 4)) % 65536 }) := by
  simp [get_data_switch, hp, hc, IRMP_NEC_PROTOCOL, IRMP_SAMSUNG_PROTOCOL,
    IRMP_SIEMENS_PROTOCOL, IRMP_RUWIDO_PROTOCOL, IRMP_KATHREIN_PROTOCOL, IRMP_RC5_PROTOCOL,
    IRMP_IR60_PROTOCOL, IRMP_RCCAR_PROTOCOL]

/-- The Netbox case of the switch (lines 1640-1666). -/
theorem get_data_switch_netbox {c : Config} {s : State}
    (hc : c.IRMP_SUPPORT_NETBOX_PROTOCOL = true) (hp : s.irmp_protocol = IRMP_NETBOX_PROTOCOL) :
    get_data_switch c s =
      if s.irmp_command &&& 0x1000 ≠ 0 then
        if s.irmp_command &&& 0x1f = 0x15 then
          (true, { s with irmp_command := (s.irmp_command >>> 5) &&& 0x7F })
        else if s.irmp_command &&& 0x1f = 0x10 then
          (true, { s with irmp_command := (s.irmp_command >>> 5) ||| 0x80 })
        else (false, s)
      else (false, s) := by
  simp [get_data_switch, hp, hc, IRMP_NEC_PROTOCOL, IRMP_SAMSUNG_PROTOCOL,
    IRMP_SIEMENS_PROTOCOL, IRMP_RUWIDO_PROTOCOL, IRMP_KATHREIN_PROTOCOL, IRMP_RC5_PROTOCOL,
    IRMP_IR60_PROTOCOL, IRMP_RCCAR_PROTOCOL, IRMP_NETBOX_PROTOCOL]

/-! ## Evaluation of long runs -/

theorem forceNat_eq {α : Type} (n : Nat) (k : Nat → α) : forceNat n k = k n := by
  cases n <;> rfl

theorem forceList_eq {α : Type} (l : List Nat) (k : List Nat → α) : forceList l k = k l := by
  induction l generalizing k with
  | nil => rfl
  | cons v vs ih => simp only [forceList, forceNat_eq, ih]

theorem forceParam_eq {α : Type} (p : IRMP_PARAMETER) (k : IRMP_PARAMETER → α) :
    forceParam p k = k p := by
  simp only [forceParam, forceList_eq]

theorem forceState_eq {α : Type} (s : State) (k : State → α) : forceState s k = k s := by
  simp only [forceState, forceParam_eq, forceList_eq]

theorem forceFrames_eq {α : Type} (l : List IRMP_DATA) (k : List IRMP_DATA → α) :
    forceFrames l k = k l := by
  induction l generalizing k with
  | nil => rfl
  | cons d ds ih => simp only [forceFrames, forceList_eq, ih]

theorem run_poll_blocks_eq (c : Config) (n : Nat) (xs : List Bool)
    (st : State × List IRMP_DATA) :
    run_poll_blocks c n xs st = xs.foldl (poll_step c) st := by
  induction n generalizing xs st with
  | zero => rfl
  | succ n ih =>
    simp only [run_poll_blocks, forceState_eq, forceFrames_eq, ih]
    rw [← List.foldl_append, List.take_append_drop]

/-- Long runs are evaluated block by block. -/
theorem run_poll_eval (c : Config) (n : Nat) (xs : List Bool) :
    run_poll c initial xs = run_poll_blocks c n xs (initial, []) := by
  rw [run_poll_blocks_eq]
  rfl

theorem kaseikyo_stop_reached :
    run_poll remote_build initial
        ((kaseikyo_wave [0x02, 0x20, 0x90, 0x31, 0x42, 0xE3] 2).take 615) =
      (kaseikyo_stop, []) := by
  rw [run_poll_eval remote_build 10]
  decide!

theorem denon_second_stop_reached :
    run_poll remote_build initial
        ((denon_wave 8 0x155 640 ++ denon_wave 8 0x2AA 2).take 1079) =
      (denon_second_stop, []) := by
  rw [run_poll_eval remote_build 17]
  decide!

theorem nec_repeat_stop_reached :
    run_poll remote_build initial
        ((nec_wave 0x1234 0x56 400 ++ bit_wave 90 22 ++ bit_wave 6 2).take 1187) =
      (nec_repeat_stop, [⟨IRMP_NEC_PROTOCOL, 0x1234, 0x56, 0⟩]) := by
  rw [run_poll_eval remote_build 19]
  decide!

theorem sircs_second_reached (a : Nat) (ha : a = 1 ∨ a = 2) :
    run_poll remote_build initial ((sircs_frame 1 ++ sircs_frame a).take 752) =
      (sircs_last_pause a 0, [⟨IRMP_SIRCS_PROTOCOL, 0x0801, 0x95, 0⟩]) := by
  rw [run_poll_eval remote_build 12]
  rcases ha with rfl | rfl <;> decide!

theorem sircs_fourth_reached :
    run_poll remote_build initial
        ((sircs_frame 1 ++ sircs_frame 1 ++ sircs_frame 1 ++ sircs_frame 1).take 1652) =
      (sircs_last_pause 1 2, [⟨IRMP_SIRCS_PROTOCOL, 0x0801, 0x95, 0⟩]) := by
  rw [run_poll_eval remote_build 26]
  decide!

theorem complement_10 (x : Nat) : (x ^^^ 0xFFFF) &&& 0x3FF = 1023 - x % 1024 := by
  have h := lnot_low_bits x 10 (by decide)
  rw [show (2 : Nat) ^ 16 - 1 = 0xFFFF by decide, show (2 : Nat) ^ 10 - 1 = 0x3FF by decide,
    show (2 : Nat) ^ 10 = 1024 by decide] at h
  rw [h]
  omega

theorem get_data_default (c : Config) (s : State) (d : IRMP_DATA)
    (hl : s.irmp_ir_detected ≠ 0)
    (hp : s.irmp_protocol ∉ [IRMP_SAMSUNG_PROTOCOL, IRMP_NEC_PROTOCOL, IRMP_SIEMENS_PROTOCOL,
      IRMP_RUWIDO_PROTOCOL, IRMP_KATHREIN_PROTOCOL, IRMP_RC5_PROTOCOL, IRMP_IR60_PROTOCOL,
      IRMP_RCCAR_PROTOCOL, IRMP_NETBOX_PROTOCOL, IRMP_LEGO_PROTOCOL]) :
    (irmp_get_data c s d).1 = true ∧
      (irmp_get_data c s d).2.2 =
        ⟨s.irmp_protocol, s.irmp_address, s.irmp_command, s.irmp_flags⟩ := by
  simp [irmp_get_data, hl, get_data_switch_default hp]

theorem getD_lt_of_forall (l : List Nat) (h : ∀ v ∈ l, v < 256) (i : Nat) :
    l.getD i 0 < 256 := by
  rw [List.getD_eq_getElem?_getD]
  cases hi : l[i]? with
  | none => simp
  | some v => simpa using h v (List.getElem?_mem hi)

/-! ## The claims about the end of a frame -/

/-- C11: when a Kaseikyo frame completes in `irmp_ISR` and is not skipped as generated
repetition frame number 2, it is latched if and only if both parity checks hold on the six
received bytes `xor_check[0..5]`: the XOR of the low and high nibbles of `xor_check[0]` and
`xor_check[1]` equals the low nibble of `xor_check[2]`, and
`xor_check[2] ^ xor_check[3] ^ xor_check[4]` equals `xor_check[5]`.  Consequently, when the
frame is latched, the same frame with any other value in `xor_check[5]` is not latched.
Here `m` is the decoder state at line 3160 of the call. -/
theorem C11_kaseikyo_parity (c : Config) (s : State) (x : Bool) (m : State)
    (hK : c.IRMP_SUPPORT_KASEIKYO_PROTOCOL = true)
    (h1 : s.irmp_ir_detected = 0) (h2 : s.irmp_start_bit_detected ≠ 0)
    (hm : isr_body c s x = m) (hcomp : frame_complete m)
    (hp : m.irmp_param.protocol = IRMP_KASEIKYO_PROTOCOL)
    (hn : next_frame_number c m ≠ 1)
    (hb : ∀ i, m.xor_check.getD i 0 < 256) :
    ((irmp_ISR c s x).2 ≠ 0 ↔
      (m.xor_check.getD 0 0 % 16 ^^^ m.xor_check.getD 0 0 / 16 ^^^
          m.xor_check.getD 1 0 % 16 ^^^ m.xor_check.getD 1 0 / 16 =
            m.xor_check.getD 2 0 % 16 ∧
        m.xor_check.getD 2 0 ^^^ m.xor_check.getD 3 0 ^^^ m.xor_check.getD 4 0 =
          m.xor_check.getD 5 0)) ∧
    (∀ xs : List Nat, (∀ i, i < 5 → xs.getD i 0 = m.xor_check.getD i 0) →
      xs.getD 5 0 ≠ m.xor_check.getD 5 0 → (irmp_ISR c s x).2 ≠ 0 →
      (isr_frame_end c { m with xor_check := xs }).irmp_ir_detected = 0) := by
  subst hm
  rw [irmp_ISR_body c s x h1 h2]
  have key := (frame_end_kaseikyo c (isr_body c s x) hK hcomp hp hn).trans
    (kaseikyo_parity_bytes _ _ _ _ _ _ (hb 0) (hb 1) (hb 2) (hb 3) (hb 4))
  refine ⟨key, fun xs hx h5 hl => ?_⟩
  have hpar := key.mp hl
  have k2 := frame_end_kaseikyo c { isr_body c s x with xor_check := xs } hK hcomp hp hn
  by_contra hne
  have e : (xs.getD 2 0 ^^^ xs.getD 3 0 ^^^ xs.getD 4 0) % 256 = xs.getD 5 0 := (k2.mp hne).2
  rw [hx 2 (by decide), hx 3 (by decide), hx 4 (by decide)] at e
  have d : (isr_body c s x).xor_check.getD 2 0 ^^^ (isr_body c s x).xor_check.getD 3 0 ^^^
      (isr_body c s x).xor_check.getD 4 0 < 256 :=
    Nat.xor_lt_two_pow (n := 8) (Nat.xor_lt_two_pow (n := 8) (hb 2) (hb 3)) (hb 4)
  rw [Nat.mod_eq_of_lt d, hpar.2] at e
  exact h5 e.symm

/-- Witness of C11: the first dark tick after the stop pulse of the Kaseikyo frame with the
bytes `02 20 90 31 42 E3` latches the frame; from program start the whole waveform is
delivered as `(KASEIKYO, 0x2002, 0x9423)`, and with the last byte changed to `E2` nothing
is delivered. -/
theorem C11_kaseikyo_parity_witness :
    remote_build.IRMP_SUPPORT_KASEIKYO_PROTOCOL = true ∧ kaseikyo_stop.irmp_ir_detected = 0 ∧
      kaseikyo_stop.irmp_start_bit_detected ≠ 0 ∧
      frame_complete (isr_body remote_build kaseikyo_stop true) ∧
      (isr_body remote_build kaseikyo_stop true).xor_check = [0x02, 0x20, 0x90, 0x31, 0x42, 0xE3] ∧
      (irmp_ISR remote_build kaseikyo_stop true).2 ≠ 0 ∧
      (run_poll remote_build initial
        (kaseikyo_wave [0x02, 0x20, 0x90, 0x31, 0x42, 0xE3] 2)).2 =
          [⟨IRMP_KASEIKYO_PROTOCOL, 0x2002, 0x9423, 0⟩] ∧
      (run_poll remote_build initial
        (kaseikyo_wave [0x02, 0x20, 0x90, 0x31, 0x42, 0xE2] 2)).2 = [] :=
  ⟨rfl, rfl, by decide, by decide, by decide,
    (C11_kaseikyo_parity remote_build kaseikyo_stop true (isr_body remote_build kaseikyo_stop true)
      rfl rfl (by decide) rfl (by decide) (by decide) (by decide)
      (getD_lt_of_forall _ (by decide))).1.mpr (by decide),
    by rw [run_poll_eval remote_build 10]; decide!,
    by rw [run_poll_eval remote_build 10]; decide!⟩

/-- C12 fails on the code.  For a Denon frame with a 10-bit command that completes while
`last_irmp_denon_command` has its initial value 0, the frame is latched exactly when its
command is `0x3FF`; and on the 10 kHz build the first waveform after start-up, a single
Denon frame with address 8 and command `0x3FF`, is delivered by `irmp_get_data` as
`(DENON, 8, 0)`, a command that was never sent. -/
theorem C12_denon_first_frame_latched :
    (∀ (c : Config) (m : State), c.IRMP_SUPPORT_DENON_PROTOCOL = true → frame_complete m →
        m.irmp_param.protocol = IRMP_DENON_PROTOCOL →
        m.last_irmp_denon_command = initial.last_irmp_denon_command →
        m.irmp_tmp_command < 1024 →
        ((isr_frame_end c m).irmp_ir_detected ≠ 0 ↔ m.irmp_tmp_command = 0x3FF)) ∧
      initial.last_irmp_denon_command = 0 ∧
      (run_poll remote_build initial (denon_wave 8 0x3FF 2)).2 =
        [⟨IRMP_DENON_PROTOCOL, 8, 0, 0⟩] := by
  refine ⟨fun c m hD hcomp hp h0 hlt => ?_, rfl, ?_⟩
  · obtain ⟨a, b⟩ := frame_end_denon_fields c m hD hcomp hp
    have e := complement_10 m.irmp_tmp_command
    have h0' : m.last_irmp_denon_command = 0 := h0
    constructor
    · intro hl
      by_contra hne
      have hc : (m.irmp_tmp_command ^^^ 0xFFFF) &&& 0x3FF ≠ m.last_irmp_denon_command := by
        rw [e, h0']; omega
      exact hl (b hc).1
    · intro h3
      have hc : (m.irmp_tmp_command ^^^ 0xFFFF) &&& 0x3FF = m.last_irmp_denon_command := by
        rw [e, h0', h3]
      rw [(a hc).1]
      decide
  · rw [run_poll_eval remote_build 5]
    decide!

/-- C13: when a Denon frame with the 10-bit command `c2 = m.irmp_tmp_command` completes
while the held half-frame command is the 10-bit `c1 = m.last_irmp_denon_command`, the frame
is latched if and only if `(~c1 & 0x3FF) == c2`; when it is latched the published command
is `c1` with the address of the second frame, and when it is not latched `c2` becomes the
held command and nothing is published.  Here `m` is the decoder state at line 3160. -/
theorem C13_denon_pairing (c : Config) (s : State) (x : Bool) (m : State)
    (hD : c.IRMP_SUPPORT_DENON_PROTOCOL = true)
    (h1 : s.irmp_ir_detected = 0) (h2 : s.irmp_start_bit_detected ≠ 0)
    (hm : isr_body c s x = m) (hcomp : frame_complete m)
    (hp : m.irmp_param.protocol = IRMP_DENON_PROTOCOL)
    (hc1 : m.last_irmp_denon_command < 1024) (hc2 : m.irmp_tmp_command < 1024) :
    ((irmp_ISR c s x).2 ≠ 0 ↔
      (m.last_irmp_denon_command ^^^ 0xFFFF) &&& 0x3FF = m.irmp_tmp_command) ∧
    ((irmp_ISR c s x).2 ≠ 0 →
      (irmp_ISR c s x).1.irmp_protocol = IRMP_DENON_PROTOCOL ∧
      (irmp_ISR c s x).1.irmp_address = m.irmp_tmp_address ∧
      (irmp_ISR c s x).1.irmp_command = m.last_irmp_denon_command ∧
      ∀ d, (irmp_get_data c (irmp_ISR c s x).1 d).1 = true ∧
        (irmp_get_data c (irmp_ISR c s x).1 d).2.2 =
          ⟨IRMP_DENON_PROTOCOL, m.irmp_tmp_address, m.last_irmp_denon_command,
            (irmp_ISR c s x).1.irmp_flags⟩) ∧
    ((irmp_ISR c s x).2 = 0 →
      (irmp_ISR c s x).1.last_irmp_denon_command = m.irmp_tmp_command ∧
      ∀ d, irmp_get_data c (irmp_ISR c s x).1 d = (false, (irmp_ISR c s x).1, d)) := by
  subst hm
  rw [irmp_ISR_body c s x h1 h2]
  obtain ⟨a, b⟩ := frame_end_denon_fields c (isr_body c s x) hD hcomp hp
  have e1 := complement_10 (isr_body c s x).irmp_tmp_command
  have e2 := complement_10 (isr_body c s x).last_irmp_denon_command
  have hiff : ((isr_body c s x).irmp_tmp_command ^^^ 0xFFFF) &&& 0x3FF =
      (isr_body c s x).last_irmp_denon_command ↔
      ((isr_body c s x).last_irmp_denon_command ^^^ 0xFFFF) &&& 0x3FF =
        (isr_body c s x).irmp_tmp_command := by
    rw [e1, e2]; omega
  by_cases hc : ((isr_body c s x).irmp_tmp_command ^^^ 0xFFFF) &&& 0x3FF =
      (isr_body c s x).last_irmp_denon_command
  · obtain ⟨a1, a2, a3, a4, -⟩ := a hc
    have hl : (isr_frame_end c (isr_body c s x)).irmp_ir_detected ≠ 0 := by rw [a1]; decide
    refine ⟨⟨fun _ => hiff.mp hc, fun _ => hl⟩, fun _ => ⟨a2, a3, a4, fun d => ?_⟩,
      fun h0 => absurd h0 hl⟩
    have g := get_data_default c (isr_frame_end c (isr_body c s x)) d hl
      (by rw [a2]; decide)
    rw [a2, a3, a4] at g
    exact g
  · obtain ⟨b1, b2, -⟩ := b hc
    refine ⟨⟨fun h => absurd b1 h, fun h => absurd (hiff.mpr h) hc⟩, fun h => absurd b1 h,
      fun _ => ⟨b2, fun d => irmp_get_data_unlatched c _ d b1⟩⟩

/-- Witness of C13: the held half-frame is `0x155`, the completing frame is `0x2AA` with
address 8; the call latches the frame and `(DENON, 8, 0x155)` is delivered.  From program
start the two half-frames sent 65 ms apart deliver exactly this one frame. -/
theorem C13_denon_pairing_witness :
    remote_build.IRMP_SUPPORT_DENON_PROTOCOL = true ∧ denon_second_stop.irmp_ir_detected = 0 ∧
      frame_complete (isr_body remote_build denon_second_stop true) ∧
      (isr_body remote_build denon_second_stop true).last_irmp_denon_command = 0x155 ∧
      (isr_body remote_build denon_second_stop true).irmp_tmp_command = 0x2AA ∧
      (irmp_ISR remote_build denon_second_stop true).2 ≠ 0 ∧
      (irmp_get_data remote_build (irmp_ISR remote_build denon_second_stop true).1
        ⟨0, 0, 0, 0⟩).2.2 = ⟨IRMP_DENON_PROTOCOL, 8, 0x155, 0⟩ ∧
      (run_poll remote_build initial (denon_wave 8 0x155 640 ++ denon_wave 8 0x2AA 2)).2 =
        [⟨IRMP_DENON_PROTOCOL, 8, 0x155, 0⟩] := by
  have h := C13_denon_pairing remote_build denon_second_stop true
    (isr_body remote_build denon_second_stop true) rfl rfl (by decide) rfl (by decide)
    (by decide) (by decide) (by decide)
  have hl := h.1.mpr (by decide)
  refine ⟨rfl, rfl, by decide, by decide, by decide, hl, ?_, ?_⟩
  · rw [((h.2.1 hl).2.2.2 ⟨0, 0, 0, 0⟩).2]
    decide
  · rw [run_poll_eval remote_build 17]
    decide!

/-- C14: when a NEC repetition frame (NEC descriptor, zero data bits) completes in
`irmp_ISR`: if `repetition_len < NEC_FRAME_REPEAT_PAUSE_LEN_MAX` it is latched with address
and command equal to `last_irmp_address` and `last_irmp_command`, those of the previously
latched frame, and with the REPETITION flag set; otherwise it is not latched.  Here `m` is
the decoder state at line 3160. -/
theorem C14_nec_repetition_frame (c : Config) (s : State) (x : Bool) (m : State)
    (hN : c.IRMP_SUPPORT_NEC_PROTOCOL = true)
    (h1 : s.irmp_ir_detected = 0) (h2 : s.irmp_start_bit_detected ≠ 0)
    (hm : isr_body c s x = m) (hcomp : frame_complete m)
    (hp : m.irmp_param.protocol = IRMP_NEC_PROTOCOL) (hb : m.irmp_bit = 0) :
    ((m.repetition_len : Int) < c.K .NEC_FRAME_REPEAT_PAUSE_LEN_MAX →
      (irmp_ISR c s x).2 = TRUE ∧
      (irmp_ISR c s x).1.irmp_protocol = IRMP_NEC_PROTOCOL ∧
      (irmp_ISR c s x).1.irmp_address = m.last_irmp_address ∧
      (irmp_ISR c s x).1.irmp_command = m.last_irmp_command ∧
      (irmp_ISR c s x).1.irmp_flags &&& IRMP_FLAG_REPETITION ≠ 0) ∧
    (¬ (m.repetition_len : Int) < c.K .NEC_FRAME_REPEAT_PAUSE_LEN_MAX →
      (irmp_ISR c s x).2 = 0) := by
  subst hm
  rw [irmp_ISR_body c s x h1 h2]
  exact frame_end_nec_repeat c (isr_body c s x) hN hcomp hp hb

/-- Witness of C14: a NEC repetition frame 398 idle ticks after the frame `(0x1234, 0x56)`
is latched as `(NEC, 0x1234, raw command 0xA956)` with the REPETITION flag.  From program
start the frame and a repetition frame 40 ms later deliver `(NEC, 0x1234, 0x56)` twice,
the second time with the flag; a repetition frame 130 ms later is not delivered. -/
theorem C14_nec_repetition_frame_witness :
    remote_build.IRMP_SUPPORT_NEC_PROTOCOL = true ∧ nec_repeat_stop.irmp_ir_detected = 0 ∧
      frame_complete (isr_body remote_build nec_repeat_stop true) ∧
      (isr_body remote_build nec_repeat_stop true).irmp_bit = 0 ∧
      ((isr_body remote_build nec_repeat_stop true).repetition_len : Int) <
        remote_build.K .NEC_FRAME_REPEAT_PAUSE_LEN_MAX ∧
      ((irmp_ISR remote_build nec_repeat_stop true).2 = TRUE ∧
        (irmp_ISR remote_build nec_repeat_stop true).1.irmp_protocol = IRMP_NEC_PROTOCOL ∧
        (irmp_ISR remote_build nec_repeat_stop true).1.irmp_address = 0x1234 ∧
        (irmp_ISR remote_build nec_repeat_stop true).1.irmp_command = 0xA956 ∧
        (irmp_ISR remote_build nec_repeat_stop true).1.irmp_flags &&& IRMP_FLAG_REPETITION
          ≠ 0) ∧
      (run_poll remote_build initial
        (nec_wave 0x1234 0x56 400 ++ bit_wave 90 22 ++ bit_wave 6 2)).2 =
          [⟨IRMP_NEC_PROTOCOL, 0x1234, 0x56, 0⟩, ⟨IRMP_NEC_PROTOCOL, 0x1234, 0x56, 1⟩] ∧
      (run_poll remote_build initial
        (nec_wave 0x1234 0x56 1300 ++ bit_wave 90 22 ++ bit_wave 6 2)).2 =
          [⟨IRMP_NEC_PROTOCOL, 0x1234, 0x56, 0⟩] :=
  ⟨rfl, rfl, by decide, by decide, by decide,
    (C14_nec_repetition_frame remote_build nec_repeat_stop true
      (isr_body remote_build nec_repeat_stop true) rfl rfl (by decide) rfl (by decide)
      (by decide) (by decide)).1 (by decide),
    by rw [run_poll_eval remote_build 19]; decide!,
    by rw [run_poll_eval remote_build 33]; decide!⟩

/-- C15: whenever `irmp_ISR` latches a frame whose decoded address and command equal those
of the previously latched frame (`last_irmp_address`, `last_irmp_command`) and
`repetition_len < IRMP_KEY_REPETITION_LEN`, the REPETITION bit is set in the latched
flags; and on every latch the remembered last address and last command become the values
of this frame and `repetition_len` is reset to 0.  Here `m` is the decoder state at line
3160. -/
theorem C15_key_repetition (c : Config) (s : State) (x : Bool) (m : State)
    (h1 : s.irmp_ir_detected = 0) (h2 : s.irmp_start_bit_detected ≠ 0)
    (hm : isr_body c s x = m) (hcomp : frame_complete m)
    (hl : (irmp_ISR c s x).2 ≠ 0) :
    ((irmp_ISR c s x).1.irmp_address = m.last_irmp_address →
      (irmp_ISR c s x).1.irmp_command = m.last_irmp_command →
      (m.repetition_len : Int) < c.K .IRMP_KEY_REPETITION_LEN →
      (irmp_ISR c s x).1.irmp_flags &&& IRMP_FLAG_REPETITION ≠ 0) ∧
    (irmp_ISR c s x).1.last_irmp_address = (irmp_ISR c s x).1.irmp_address ∧
    (irmp_ISR c s x).1.last_irmp_command = (irmp_ISR c s x).1.irmp_command ∧
    (irmp_ISR c s x).1.repetition_len = 0 := by
  subst hm
  rw [irmp_ISR_body c s x h1 h2] at hl ⊢
  exact frame_end_key_repetition c (isr_body c s x) (by rw [isr_body_det]; exact h1) hcomp hl

/-- Witness of C15: the fourth of four identical SIRCS frames sent 45 ms apart is latched,
147 idle ticks after the first one was delivered, with the REPETITION flag. -/
theorem C15_key_repetition_witness :
    (sircs_last_pause 1 2).irmp_ir_detected = 0 ∧
      frame_complete (isr_body remote_build (sircs_last_pause 1 2) true) ∧
      (irmp_ISR remote_build (sircs_last_pause 1 2) true).2 ≠ 0 ∧
      (irmp_ISR remote_build (sircs_last_pause 1 2) true).1.irmp_address = 0x0801 ∧
      (irmp_ISR remote_build (sircs_last_pause 1 2) true).1.irmp_command = 0x95 ∧
      (irmp_ISR remote_build (sircs_last_pause 1 2) true).1.irmp_flags &&& IRMP_FLAG_REPETITION
        ≠ 0 ∧
      (irmp_ISR remote_build (sircs_last_pause 1 2) true).1.last_irmp_address = 0x0801 ∧
      (irmp_ISR remote_build (sircs_last_pause 1 2) true).1.repetition_len = 0 := by
  have h := C15_key_repetition remote_build (sircs_last_pause 1 2) true
    (isr_body remote_build (sircs_last_pause 1 2) true) rfl (by decide) rfl (by decide)
    (by decide)
  exact ⟨rfl, by decide, by decide, by decide, by decide,
    h.1 (by decide) (by decide) (by decide), by decide, h.2.2.2⟩

/-- C16: at frame completion in `irmp_ISR`, with `n` the updated
`repetition_frame_number`, the frame is dropped (the latch is not set, nothing is
published, `repetition_len` is reset to 0) in each of these cases: protocol SIRCS and `n`
is 1 or 2; protocol Kaseikyo and `n` is 1; protocol Samsung32 and `n` is odd; protocol
Nubert and `n` is odd.  A SIRCS frame with `n = 0` or `n >= 3` is not dropped: it is
latched.  Here `m` is the decoder state at line 3160. -/
theorem C16_auto_repeat_dropped (c : Config) (s : State) (x : Bool) (m : State)
    (h1 : s.irmp_ir_detected = 0) (h2 : s.irmp_start_bit_detected ≠ 0)
    (hm : isr_body c s x = m) (hcomp : frame_complete m) :
    (irmp_ISR c s x).1.repetition_frame_number = next_frame_number c m ∧
    (((c.IRMP_SUPPORT_SIRCS_PROTOCOL = true ∧ m.irmp_param.protocol = IRMP_SIRCS_PROTOCOL ∧
          (next_frame_number c m = 1 ∨ next_frame_number c m = 2)) ∨
        (c.IRMP_SUPPORT_KASEIKYO_PROTOCOL = true ∧
          m.irmp_param.protocol = IRMP_KASEIKYO_PROTOCOL ∧ next_frame_number c m = 1) ∨
        (c.IRMP_SUPPORT_SAMSUNG_PROTOCOL = true ∧
          m.irmp_param.protocol = IRMP_SAMSUNG32_PROTOCOL ∧ next_frame_number c m % 2 = 1) ∨
        (c.IRMP_SUPPORT_NUBERT_PROTOCOL = true ∧
          m.irmp_param.protocol = IRMP_NUBERT_PROTOCOL ∧ next_frame_number c m % 2 = 1)) →
      (irmp_ISR c s x).2 = 0 ∧ (irmp_ISR c s x).1.repetition_len = 0 ∧
      (irmp_ISR c s x).1.irmp_protocol = m.irmp_protocol ∧
      (irmp_ISR c s x).1.irmp_address = m.irmp_address ∧
      (irmp_ISR c s x).1.irmp_command = m.irmp_command ∧
      (irmp_ISR c s x).1.irmp_flags = m.irmp_flags ∧
      ∀ d, irmp_get_data c (irmp_ISR c s x).1 d = (false, (irmp_ISR c s x).1, d)) ∧
    (m.irmp_param.protocol = IRMP_SIRCS_PROTOCOL → next_frame_number c m ≠ 1 →
      next_frame_number c m ≠ 2 → (irmp_ISR c s x).2 = TRUE) := by
  subst hm
  rw [irmp_ISR_body c s x h1 h2]
  obtain ⟨a, b, d⟩ := frame_end_auto_repeat c (isr_body c s x)
    (by rw [isr_body_det]; exact h1) hcomp
  refine ⟨a, fun h => ?_, d⟩
  obtain ⟨b1, b2, b3, b4, b5, b6⟩ := b h
  exact ⟨b1, b2, b3, b4, b5, b6, fun e => irmp_get_data_unlatched c _ e b1⟩

/-- Witness of C16: the second of two identical SIRCS frames sent 45 ms apart is dropped
with `n = 1`.  From program start, of four such frames the first and the fourth are
delivered, the fourth with the REPETITION flag. -/
theorem C16_auto_repeat_dropped_witness :
    (sircs_last_pause 1 0).irmp_ir_detected = 0 ∧
      frame_complete (isr_body remote_build (sircs_last_pause 1 0) true) ∧
      remote_build.IRMP_SUPPORT_SIRCS_PROTOCOL = true ∧
      (isr_body remote_build (sircs_last_pause 1 0) true).irmp_param.protocol =
        IRMP_SIRCS_PROTOCOL ∧
      (irmp_ISR remote_build (sircs_last_pause 1 0) true).1.repetition_frame_number = 1 ∧
      (irmp_ISR remote_build (sircs_last_pause 1 0) true).2 = 0 ∧
      (irmp_ISR remote_build (sircs_last_pause 1 0) true).1.repetition_len = 0 ∧
      (run_poll remote_build initial
        (sircs_frame 1 ++ sircs_frame 1 ++ sircs_frame 1 ++ sircs_frame 1)).2 =
          [⟨IRMP_SIRCS_PROTOCOL, 0x0801, 0x95, 0⟩, ⟨IRMP_SIRCS_PROTOCOL, 0x0801, 0x95, 1⟩] := by
  have h := C16_auto_repeat_dropped remote_build (sircs_last_pause 1 0) true
    (isr_body remote_build (sircs_last_pause 1 0) true) rfl (by decide) rfl (by decide)
  have g := h.2.1 (Or.inl ⟨rfl, by decide, Or.inl (by decide)⟩)
  refine ⟨rfl, by decide, rfl, by decide, by decide, g.1, g.2.1, ?_⟩
  rw [run_poll_eval remote_build 29]
  decide!

/-- C17 fails on the code: at frame completion `repetition_frame_number` is incremented
when the command alone equals `last_irmp_command` and
`repetition_len < AUTO_FRAME_REPETITION_LEN`, whatever the address.  On the 10 kHz build
the SIRCS frame `(0x0802, 0x95)` sent 45 ms after the frame `(0x0801, 0x95)` is dropped as
a generated repetition, although alone it is delivered with its own address. -/
theorem C17_frame_number_ignores_address :
    (∀ (c : Config) (m : State), frame_complete m →
        (isr_frame_end c m).repetition_frame_number =
          if m.last_irmp_command = m.irmp_tmp_command ∧
              (m.repetition_len : Int) < c.K .AUTO_FRAME_REPETITION_LEN then
            (m.repetition_frame_number + 1) % 256
          else 0) ∧
      (run_poll remote_build initial (sircs_frame 2)).2 =
        [⟨IRMP_SIRCS_PROTOCOL, 0x0802, 0x95, 0⟩] ∧
      (run_poll remote_build initial (sircs_frame 1 ++ sircs_frame 2)).2 =
        [⟨IRMP_SIRCS_PROTOCOL, 0x0801, 0x95, 0⟩] ∧
      (run_poll remote_build initial ((sircs_frame 1 ++ sircs_frame 2).take 752)).1 =
        sircs_last_pause 2 0 ∧
      (isr_body remote_build (sircs_last_pause 2 0) true).irmp_tmp_address = 0x0802 ∧
      (isr_body remote_build (sircs_last_pause 2 0) true).last_irmp_address = 0x0801 ∧
      (irmp_ISR remote_build (sircs_last_pause 2 0) true).1.repetition_frame_number = 1 ∧
      (irmp_ISR remote_build (sircs_last_pause 2 0) true).2 = 0 := by
  refine ⟨fun c m hcomp => frame_end_number c m hcomp, ?_, ?_, ?_, by decide, by decide,
    by decide, by decide⟩
  · rw [run_poll_eval remote_build 8]
    decide!
  · rw [run_poll_eval remote_build 15]
    decide!
  · rw [sircs_second_reached 2 (Or.inr rfl)]

theorem and_two_pow_ne_zero (r n : Nat) : r &&& 2 ^ n ≠ 0 ↔ r.testBit n = true := by
  constructor
  · intro h
    by_contra hb
    apply h
    apply Nat.eq_of_testBit_eq
    intro i
    simp only [Nat.testBit_and, Nat.testBit_two_pow, Nat.zero_testBit]
    by_cases e : n = i
    · subst e; simp [hb]
    · simp [e]
  · intro h e
    have h2 : (r &&& 2 ^ n).testBit n = true := by
      rw [Nat.testBit_and, h, Nat.testBit_two_pow_self]; rfl
    rw [e] at h2
    simp at h2

set_option maxRecDepth 100000 in
theorem or_bit7 : ∀ q, q < 256 → q ||| 0x80 = (q &&& 0x7F) ||| 0x80 := by
  decide

/-- C18: for a latched Siemens or Ruwido frame with raw command `r`, `irmp_get_data`
returns `TRUE` if and only if bit 1 of `r` equals the complement of bit 0 of `r`, and then
the delivered command is `r >> 1` with protocol and address unchanged; otherwise it
returns `FALSE` and delivers nothing. -/
theorem C18_get_data_siemens_ruwido (c : Config) (s : State) (d : IRMP_DATA)
    (hc : c.IRMP_SUPPORT_SIEMENS_OR_RUWIDO_PROTOCOL = true) (hl : s.irmp_ir_detected ≠ 0)
    (hp : s.irmp_protocol = IRMP_SIEMENS_PROTOCOL ∨ s.irmp_protocol = IRMP_RUWIDO_PROTOCOL) :
    ((irmp_get_data c s d).1 = true ↔
      s.irmp_command.testBit 1 = !s.irmp_command.testBit 0) ∧
    (s.irmp_command.testBit 1 = (!s.irmp_command.testBit 0) →
      (irmp_get_data c s d).2.2 =
        ⟨s.irmp_protocol, s.irmp_address, s.irmp_command >>> 1, s.irmp_flags⟩) ∧
    (¬ s.irmp_command.testBit 1 = (!s.irmp_command.testBit 0) →
      (irmp_get_data c s d).1 = false ∧ (irmp_get_data c s d).2.2 = d) := by
  have e := get_data_switch_siemens hc hp
  by_cases h : s.irmp_command.testBit 1 = !s.irmp_command.testBit 0
  · rw [if_pos h] at e
    have e1 : (irmp_get_data c s d).1 = true := by simp [irmp_get_data, hl, e]
    have e2 : (irmp_get_data c s d).2.2 =
        ⟨s.irmp_protocol, s.irmp_address, s.irmp_command >>> 1, s.irmp_flags⟩ := by
      simp [irmp_get_data, hl, e]
    exact ⟨⟨fun _ => h, fun _ => e1⟩, fun _ => e2, fun h' => absurd h h'⟩
  · rw [if_neg h] at e
    have e1 : (irmp_get_data c s d).1 = false := by simp [irmp_get_data, hl, e]
    have e2 : (irmp_get_data c s d).2.2 = d := by simp [irmp_get_data, hl, e]
    exact ⟨⟨fun h1 => by rw [e1] at h1; exact absurd h1 (by decide), fun h' => absurd h' h⟩,
      fun h' => absurd h' h, fun _ => ⟨e1, e2⟩⟩

/-- Witness of C18: a latched Ruwido frame with raw command `0x00AD` (bit 1 clear, bit 0
set) is delivered with command `0x56`. -/
theorem C18_get_data_siemens_ruwido_witness :
    switch_build.IRMP_SUPPORT_SIEMENS_OR_RUWIDO_PROTOCOL = true ∧
      (latched_frame IRMP_RUWIDO_PROTOCOL 0x12 0x00AD).irmp_ir_detected ≠ 0 ∧
      (irmp_get_data switch_build (latched_frame IRMP_RUWIDO_PROTOCOL 0x12 0x00AD)
        ⟨0, 0, 0, 0⟩).1 = true ∧
      (irmp_get_data switch_build (latched_frame IRMP_RUWIDO_PROTOCOL 0x12 0x00AD)
        ⟨0, 0, 0, 0⟩).2.2 = ⟨IRMP_RUWIDO_PROTOCOL, 0x12, 0x56, 0⟩ := by
  have h := C18_get_data_siemens_ruwido switch_build
    (latched_frame IRMP_RUWIDO_PROTOCOL 0x12 0x00AD) ⟨0, 0, 0, 0⟩ rfl (by decide)
    (Or.inr rfl)
  exact ⟨rfl, by decide, h.1.mpr (by decide), h.2.1 (by decide)⟩

/-- C19: for a latched RCCAR frame with raw command `r` (bit 12 is V, bits 11..4 are
D7..D0, bits 3..2 are A1 A0, bits 1..0 are C1 C0), `irmp_get_data` always returns `TRUE`
and delivers address `(r >> 2) & 3` and command `(V << 10) | (C1C0 << 8) | D7..D0`, so the
delivered address is below 4 and the delivered command is below `2^11`. -/
theorem C19_get_data_rccar (c : Config) (s : State) (d : IRMP_DATA)
    (hc : c.IRMP_SUPPORT_RCCAR_PROTOCOL = true) (hl : s.irmp_ir_detected ≠ 0)
    (hp : s.irmp_protocol = IRMP_RCCAR_PROTOCOL) :
    (irmp_get_data c s d).1 = true ∧
    (irmp_get_data c s d).2.2 =
      ⟨IRMP_RCCAR_PROTOCOL, (s.irmp_command >>> 2) &&& 3,
        ((((s.irmp_command >>> 12) &&& 1) <<< 10) ||| ((s.irmp_command &&& 3) <<< 8) |||
          ((s.irmp_command >>> 4) &&& 0xFF)),
        s.irmp_flags⟩ ∧
    (irmp_get_data c s d).2.2.address < 4 ∧ (irmp_get_data c s d).2.2.command < 2 ^ 11 := by
  have e := get_data_switch_rccar hc hp
  have a1 : (s.irmp_command &&& 0x000C) >>> 2 = (s.irmp_command >>> 2) &&& 3 :=
    mask_shift s.irmp_command 3 2
  have a2 : (s.irmp_command &&& 0x0FF0) >>> 4 = (s.irmp_command >>> 4) &&& 0xFF :=
    mask_shift s.irmp_command 0xFF 4
  have a3 := bit12_shift s.irmp_command
  have b1 : ((s.irmp_command >>> 12) &&& 1) <<< 10 < 2 ^ 11 := by
    have : (s.irmp_command >>> 12) &&& 1 < 2 ^ 1 := Nat.and_lt_two_pow _ (by decide)
    rw [Nat.shiftLeft_eq]
    calc (s.irmp_command >>> 12 &&& 1) * 2 ^ 10 < 2 ^ 1 * 2 ^ 10 :=
          Nat.mul_lt_mul_of_pos_right this (by decide)
      _ = 2 ^ 11 := by decide
  have b2 : (s.irmp_command &&& 3) <<< 8 < 2 ^ 11 := by
    have : s.irmp_command &&& 3 < 2 ^ 2 := Nat.and_lt_two_pow _ (by decide)
    rw [Nat.shiftLeft_eq]
    calc (s.irmp_command &&& 3) * 2 ^ 8 < 2 ^ 2 * 2 ^ 8 :=
          Nat.mul_lt_mul_of_pos_right this (by decide)
      _ ≤ 2 ^ 11 := by decide
  have b3 : (s.irmp_command >>> 4) &&& 0xFF < 2 ^ 11 :=
    Nat.lt_of_lt_of_le (Nat.and_lt_two_pow (n := 8) _ (by decide)) (by decide)
  have b : ((((s.irmp_command >>> 12) &&& 1) <<< 10) ||| ((s.irmp_command &&& 3) <<< 8) |||
      ((s.irmp_command >>> 4) &&& 0xFF)) < 2 ^ 11 :=
    Nat.or_lt_two_pow (Nat.or_lt_two_pow b1 b2) b3
  have e2 : (irmp_get_data c s d).2.2 =
      ⟨IRMP_RCCAR_PROTOCOL, (s.irmp_command >>> 2) &&& 3,
        ((((s.irmp_command >>> 12) &&& 1) <<< 10) ||| ((s.irmp_command &&& 3) <<< 8) |||
          ((s.irmp_command >>> 4) &&& 0xFF)),
        s.irmp_flags⟩ := by
    have hm : ((((s.irmp_command >>> 12) &&& 1) <<< 10) ||| ((s.irmp_command &&& 3) <<< 8) |||
        ((s.irmp_command >>> 4) &&& 0xFF)) % 65536 =
        ((((s.irmp_command >>> 12) &&& 1) <<< 10) ||| ((s.irmp_command &&& 3) <<< 8) |||
          ((s.irmp_command >>> 4) &&& 0xFF)) :=
      Nat.mod_eq_of_lt (Nat.lt_of_lt_of_le b (by decide))
    rw [a1, a2, a3, hm] at e
    simp only [irmp_get_data, if_pos hl, e, hp]
    rfl
  refine ⟨by simp [irmp_get_data, hl, e], e2, ?_, ?_⟩
  · rw [e2]
    exact Nat.and_lt_two_pow (n := 2) _ (by decide)
  · rw [e2]
    exact b

/-- Witness of C19: raw command `0x1ABD` (V = 1, D = 0xAB, A = 3, C = 1). -/
theorem C19_get_data_rccar_witness :
    switch_build.IRMP_SUPPORT_RCCAR_PROTOCOL = true ∧
      (latched_frame IRMP_RCCAR_PROTOCOL 0 0x1ABD).irmp_ir_detected ≠ 0 ∧
      (irmp_get_data switch_build (latched_frame IRMP_RCCAR_PROTOCOL 0 0x1ABD)
        ⟨0, 0, 0, 0⟩).1 = true ∧
      (irmp_get_data switch_build (latched_frame IRMP_RCCAR_PROTOCOL 0 0x1ABD)
        ⟨0, 0, 0, 0⟩).2.2 = ⟨IRMP_RCCAR_PROTOCOL, 3, 0x5AB, 0⟩ := by
  have h := C19_get_data_rccar switch_build (latched_frame IRMP_RCCAR_PROTOCOL 0 0x1ABD)
    ⟨0, 0, 0, 0⟩ rfl (by decide) rfl
  exact ⟨rfl, by decide, h.1, h.2.1.trans (by decide)⟩

/-- Lines 1652-1653 shift and set bit 7 without the mask `0x7F` of the press branch: on a
value with bits above bit 12, which the 13-bit command of a Netbox frame does not have
(bit 12 is its last bit, line 1642), the bits 13..15 would reach the bits 8..10 of the
delivered command, as `0xF010` shows. -/
theorem netbox_release_beyond_field :
    (irmp_get_data switch_build (latched_frame IRMP_NETBOX_PROTOCOL 0 0xF010) ⟨0, 0, 0, 0⟩).1
        = true ∧
      (irmp_get_data switch_build (latched_frame IRMP_NETBOX_PROTOCOL 0 0xF010)
        ⟨0, 0, 0, 0⟩).2.2.command = 0x0780 ∧
      (irmp_get_data switch_build (latched_frame IRMP_NETBOX_PROTOCOL 0 0xF010)
        ⟨0, 0, 0, 0⟩).2.2.command ≠ ((0xF010 >>> 5) &&& 0x7F) ||| 0x80 ∧
      ¬ (irmp_get_data switch_build (latched_frame IRMP_NETBOX_PROTOCOL 0 0xF010)
        ⟨0, 0, 0, 0⟩).2.2.command < 256 := by
  decide

/-- C20: for a latched Netbox frame with raw command `r`, `irmp_get_data` returns `TRUE`
if and only if bit 12 of `r` is set and the low 5 bits of `r` are `0x15` (press) or `0x10`
(release); for a press the delivered command is `(r >> 5) & 0x7F`; for a release it is
`((r >> 5) & 0x7F) | 0x80`; and no bit above bit 7 is set in the delivered command, bit 7
being set exactly in the release case.  The release value and the bound are stated for the
values a Netbox command takes, `r < 2^13`: the command has 13 bits, bit 12 being its last
bit (line 1642). -/
theorem C20_get_data_netbox (c : Config) (s : State) (d : IRMP_DATA)
    (hc : c.IRMP_SUPPORT_NETBOX_PROTOCOL = true) (hl : s.irmp_ir_detected ≠ 0)
    (hp : s.irmp_protocol = IRMP_NETBOX_PROTOCOL) :
    ((irmp_get_data c s d).1 = true ↔
      (s.irmp_command.testBit 12 = true ∧
        (s.irmp_command % 32 = 0x15 ∨ s.irmp_command % 32 = 0x10))) ∧
    (s.irmp_command.testBit 12 = true → s.irmp_command % 32 = 0x15 →
      (irmp_get_data c s d).2.2 =
        ⟨IRMP_NETBOX_PROTOCOL, s.irmp_address, (s.irmp_command >>> 5) &&& 0x7F,
          s.irmp_flags⟩) ∧
    (s.irmp_command < 2 ^ 13 → s.irmp_command.testBit 12 = true →
      s.irmp_command % 32 = 0x10 →
      (irmp_get_data c s d).2.2 =
        ⟨IRMP_NETBOX_PROTOCOL, s.irmp_address, ((s.irmp_command >>> 5) &&& 0x7F) ||| 0x80,
          s.irmp_flags⟩) ∧
    (s.irmp_command < 2 ^ 13 → (irmp_get_data c s d).1 = true →
      (irmp_get_data c s d).2.2.command < 256 ∧
      ((irmp_get_data c s d).2.2.command.testBit 7 = true ↔ s.irmp_command % 32 = 0x10)) := by
  have e := get_data_switch_netbox hc hp
  have t12 : s.irmp_command &&& 0x1000 ≠ 0 ↔ s.irmp_command.testBit 12 = true :=
    and_two_pow_ne_zero s.irmp_command 12
  have m5 : s.irmp_command &&& 0x1f = s.irmp_command % 32 := by
    rw [show (0x1f : Nat) = 2 ^ 5 - 1 by decide, Nat.and_pow_two_sub_one_eq_mod]
  rw [m5] at e
  have press : s.irmp_command.testBit 12 = true → s.irmp_command % 32 = 0x15 →
      (irmp_get_data c s d).1 = true ∧ (irmp_get_data c s d).2.2 =
        ⟨IRMP_NETBOX_PROTOCOL, s.irmp_address, (s.irmp_command >>> 5) &&& 0x7F,
          s.irmp_flags⟩ := by
    intro hb h15
    rw [if_pos (t12.mpr hb), if_pos h15] at e
    exact ⟨by simp [irmp_get_data, hl, e], by simp [irmp_get_data, hl, e, hp]⟩
  have release : s.irmp_command.testBit 12 = true → s.irmp_command % 32 = 0x10 →
      (irmp_get_data c s d).1 = true ∧ (irmp_get_data c s d).2.2 =
        ⟨IRMP_NETBOX_PROTOCOL, s.irmp_address, (s.irmp_command >>> 5) ||| 0x80,
          s.irmp_flags⟩ := by
    intro hb h10
    have n15 : ¬ s.irmp_command % 32 = 0x15 := by rw [h10]; decide
    rw [if_pos (t12.mpr hb), if_neg n15, if_pos h10] at e
    exact ⟨by simp [irmp_get_data, hl, e], by simp [irmp_get_data, hl, e, hp]⟩
  have masked : s.irmp_command < 2 ^ 13 →
      (s.irmp_command >>> 5) ||| 0x80 = ((s.irmp_command >>> 5) &&& 0x7F) ||| 0x80 := by
    intro hr
    apply or_bit7
    rw [Nat.shiftRight_eq_div_pow]
    have : s.irmp_command < 8192 := hr
    omega
  have iff1 : (irmp_get_data c s d).1 = true ↔
      (s.irmp_command.testBit 12 = true ∧
        (s.irmp_command % 32 = 0x15 ∨ s.irmp_command % 32 = 0x10)) := by
    constructor
    · intro h
      by_contra hn
      have hf : (irmp_get_data c s d).1 = false := by
        by_cases hb : s.irmp_command.testBit 12 = true
        · have n15 : ¬ s.irmp_command % 32 = 0x15 := fun h' => hn ⟨hb, Or.inl h'⟩
          have n10 : ¬ s.irmp_command % 32 = 0x10 := fun h' => hn ⟨hb, Or.inr h'⟩
          rw [if_pos (t12.mpr hb), if_neg n15, if_neg n10] at e
          simp [irmp_get_data, hl, e]
        · rw [if_neg (fun h' => hb (t12.mp h'))] at e
          simp [irmp_get_data, hl, e]
      rw [hf] at h
      exact absurd h (by decide)
    · rintro ⟨hb, h15 | h10⟩
      · exact (press hb h15).1
      · exact (release hb h10).1
  refine ⟨iff1, fun hb h15 => (press hb h15).2, fun hr hb h10 => ?_, fun hr ht => ?_⟩
  · rw [(release hb h10).2, masked hr]
  · obtain ⟨hb, h15 | h10⟩ := iff1.mp ht
    · rw [(press hb h15).2]
      have lt : (s.irmp_command >>> 5) &&& 0x7F < 2 ^ 7 := Nat.and_lt_two_pow _ (by decide)
      refine ⟨Nat.lt_of_lt_of_le lt (by decide), ?_⟩
      show ((s.irmp_command >>> 5) &&& 0x7F).testBit 7 = true ↔ _
      rw [Nat.testBit_lt_two_pow lt, h15]
      decide
    · rw [(release hb h10).2, masked hr]
      have lt : (s.irmp_command >>> 5) &&& 0x7F < 2 ^ 8 :=
        Nat.lt_of_lt_of_le (Nat.and_lt_two_pow (n := 7) _ (by decide)) (by decide)
      refine ⟨Nat.or_lt_two_pow lt (by decide), ?_⟩
      show (((s.irmp_command >>> 5) &&& 0x7F) ||| 0x80).testBit 7 = true ↔ _
      rw [Nat.testBit_or, h10]
      have : (0x80 : Nat).testBit 7 = true := by decide
      simp [this]

/-- Witness of C20: raw command `0x1550` (bit 12 set, low five bits `0x10`, a release) is
delivered as `0xAA`. -/
theorem C20_get_data_netbox_witness :
    switch_build.IRMP_SUPPORT_NETBOX_PROTOCOL = true ∧
      (latched_frame IRMP_NETBOX_PROTOCOL 0 0x1550).irmp_ir_detected ≠ 0 ∧
      (irmp_get_data switch_build (latched_frame IRMP_NETBOX_PROTOCOL 0 0x1550)
        ⟨0, 0, 0, 0⟩).1 = true ∧
      (irmp_get_data switch_build (latched_frame IRMP_NETBOX_PROTOCOL 0 0x1550)
        ⟨0, 0, 0, 0⟩).2.2 = ⟨IRMP_NETBOX_PROTOCOL, 0, 0xAA, 0⟩ := by
  have h := C20_get_data_netbox switch_build (latched_frame IRMP_NETBOX_PROTOCOL 0 0x1550)
    ⟨0, 0, 0, 0⟩ rfl (by decide) rfl
  exact ⟨rfl, by decide, h.1.mpr (by decide),
    (h.2.2.1 (by decide) (by decide) (by decide)).trans (by decide)⟩

/-! ## More cases of the switch of `irmp_get_data`: LEGO and RC5 -/

theorem get_data_switch_lego {c : Config} {s : State}
    (hc : c.IRMP_SUPPORT_LEGO_PROTOCOL = true) (hp : s.irmp_protocol = IRMP_LEGO_PROTOCOL) :
    get_data_switch c s =
      if s.irmp_command &&& 0x000F = lego_crc s.irmp_command then
        (true, { s with irmp_command := s.irmp_command >>> 4 })
      else (true, s) := by
  simp [get_data_switch, lego_crc, hp, hc, IRMP_NEC_PROTOCOL, IRMP_SAMSUNG_PROTOCOL,
    IRMP_SIEMENS_PROTOCOL, IRMP_RUWIDO_PROTOCOL, IRMP_KATHREIN_PROTOCOL, IRMP_RC5_PROTOCOL,
    IRMP_IR60_PROTOCOL, IRMP_RCCAR_PROTOCOL, IRMP_NETBOX_PROTOCOL, IRMP_LEGO_PROTOCOL]

theorem get_data_switch_rc5 {c : Config} {s : State}
    (hc : c.IRMP_SUPPORT_RC5_PROTOCOL = true) (hp : s.irmp_protocol = IRMP_RC5_PROTOCOL) :
    get_data_switch c s = (true, { s with irmp_address := s.irmp_address &&& 0xFFDF }) := by
  simp [get_data_switch, hp, hc, IRMP_NEC_PROTOCOL, IRMP_SAMSUNG_PROTOCOL,
    IRMP_SIEMENS_PROTOCOL, IRMP_RUWIDO_PROTOCOL, IRMP_KATHREIN_PROTOCOL, IRMP_RC5_PROTOCOL]

theorem lego_crc_nibbles (r : Nat) :
    lego_crc r = 0xF ^^^ ((r >>> 12) &&& 0xF) ^^^ ((r >>> 8) &&& 0xF) ^^^ ((r >>> 4) &&& 0xF) := by
  have a1 : (r &&& 0xF000) >>> 12 = (r >>> 12) &&& 0xF := mask_shift r 0xF 12
  have a2 : (r &&& 0x0F00) >>> 8 = (r >>> 8) &&& 0xF := mask_shift r 0xF 8
  have a3 : (r &&& 0x00F0) >>> 4 = (r >>> 4) &&& 0xF := mask_shift r 0xF 4
  have b1 : (r >>> 12) &&& 0xF < 2 ^ 4 := Nat.and_lt_two_pow _ (by decide)
  have b2 : (r >>> 8) &&& 0xF < 2 ^ 4 := Nat.and_lt_two_pow _ (by decide)
  have b3 : (r >>> 4) &&& 0xF < 2 ^ 4 := Nat.and_lt_two_pow _ (by decide)
  have b : 0xF ^^^ ((r >>> 12) &&& 0xF) ^^^ ((r >>> 8) &&& 0xF) ^^^ ((r >>> 4) &&& 0xF) < 2 ^ 4 :=
    Nat.xor_lt_two_pow (Nat.xor_lt_two_pow (Nat.xor_lt_two_pow (by decide) b1) b2) b3
  unfold lego_crc
  rw [a1, a2, a3]
  exact Nat.mod_eq_of_lt (Nat.lt_of_lt_of_le b (by decide))

/-! ## Bits stored by `irmp_store_bit` -/

theorem store_xor_check_fields (s : State) (v : Nat) :
    (store_xor_check s v).irmp_tmp_address = s.irmp_tmp_address ∧
    (store_xor_check s v).irmp_tmp_command = s.irmp_tmp_command ∧
    (store_xor_check s v).irmp_param = s.irmp_param ∧
    (store_xor_check s v).last_value = s.last_value ∧
    (store_xor_check s v).irmp_pause_time = s.irmp_pause_time ∧
    (store_xor_check s v).irmp_pulse_time = s.irmp_pulse_time ∧
    (store_xor_check s v).irmp_param2 = s.irmp_param2 := by
  unfold store_xor_check
  split_ifs <;> exact ⟨rfl, rfl, rfl, rfl, rfl, rfl, rfl⟩

theorem store_bit_param (c : Config) (s : State) (v : Nat) :
    (irmp_store_bit c s v).irmp_param = s.irmp_param := by
  simp only [irmp_store_bit, apply_ite State.irmp_param, (store_xor_check_fields _ _).2.2.1,
    ite_self]

theorem store_bit_index (c : Config) (s : State) (v : Nat) :
    (irmp_store_bit c s v).irmp_bit = (s.irmp_bit + 1) % 256 := by
  simp only [irmp_store_bit]

theorem store_bit_last_value (c : Config) (s : State) (v : Nat) :
    (irmp_store_bit c s v).last_value = s.last_value := by
  simp only [irmp_store_bit, apply_ite State.last_value, (store_xor_check_fields _ _).2.2.2.1,
    ite_self]

theorem store_bit_pause_time (c : Config) (s : State) (v : Nat) :
    (irmp_store_bit c s v).irmp_pause_time = s.irmp_pause_time := by
  simp only [irmp_store_bit, apply_ite State.irmp_pause_time,
    (store_xor_check_fields _ _).2.2.2.2.1, ite_self]

theorem store_bit_pulse_time (c : Config) (s : State) (v : Nat) :
    (irmp_store_bit c s v).irmp_pulse_time = s.irmp_pulse_time := by
  simp only [irmp_store_bit, apply_ite State.irmp_pulse_time,
    (store_xor_check_fields _ _).2.2.2.2.2.1, ite_self]

theorem store_bit_param2 (c : Config) (s : State) (v : Nat) :
    (irmp_store_bit c s v).irmp_param2 = s.irmp_param2 := by
  simp only [irmp_store_bit, apply_ite State.irmp_param2,
    (store_xor_check_fields _ _).2.2.2.2.2.2, ite_self]

/-- A bit stored inside the address range (lines 1756-1767). -/
theorem store_bit_address (c : Config) (s : State) (v : Nat)
    (hg : s.irmp_param.protocol = IRMP_GRUNDIG_PROTOCOL → s.irmp_bit ≠ 0)
    (h1 : s.irmp_param.address_offset ≤ s.irmp_bit)
    (h2 : s.irmp_bit < s.irmp_param.address_end) :
    (irmp_store_bit c s v).irmp_tmp_address =
      (if s.irmp_param.lsb_first ≠ 0 then
        (s.irmp_tmp_address ||| (v <<< (s.irmp_bit - s.irmp_param.address_offset))) % 65536
      else (((s.irmp_tmp_address <<< 1) % 65536) ||| v) % 65536) ∧
    (irmp_store_bit c s v).irmp_tmp_command = s.irmp_tmp_command := by
  have g : ¬ (c.IRMP_SUPPORT_GRUNDIG_NOKIA_IR60_PROTOCOL = true ∧ s.irmp_bit = 0 ∧
      s.irmp_param.protocol = IRMP_GRUNDIG_PROTOCOL) := fun h => hg h.2.2 h.2.1
  constructor
  · simp only [irmp_store_bit, apply_ite State.irmp_tmp_address,
      (store_xor_check_fields _ _).1, ite_self, if_neg g, h1, h2, and_self, if_true]
  · simp only [irmp_store_bit, apply_ite State.irmp_tmp_command,
      (store_xor_check_fields _ _).2.1, ite_self, if_neg g, h1, h2, and_self, if_true]

/-- A bit stored inside the command range and outside the address range (lines
1768-1779). -/
theorem store_bit_command (c : Config) (s : State) (v : Nat)
    (hg : s.irmp_param.protocol = IRMP_GRUNDIG_PROTOCOL → s.irmp_bit ≠ 0)
    (ha : ¬ (s.irmp_param.address_offset ≤ s.irmp_bit ∧ s.irmp_bit < s.irmp_param.address_end))
    (h1 : s.irmp_param.command_offset ≤ s.irmp_bit)
    (h2 : s.irmp_bit < s.irmp_param.command_end) :
    (irmp_store_bit c s v).irmp_tmp_command =
      (if s.irmp_param.lsb_first ≠ 0 then
        (s.irmp_tmp_command ||| (v <<< (s.irmp_bit - s.irmp_param.command_offset))) % 65536
      else (((s.irmp_tmp_command <<< 1) % 65536) ||| v) % 65536) ∧
    (irmp_store_bit c s v).irmp_tmp_address = s.irmp_tmp_address := by
  have g : ¬ (c.IRMP_SUPPORT_GRUNDIG_NOKIA_IR60_PROTOCOL = true ∧ s.irmp_bit = 0 ∧
      s.irmp_param.protocol = IRMP_GRUNDIG_PROTOCOL) := fun h => hg h.2.2 h.2.1
  constructor
  · simp only [irmp_store_bit, apply_ite State.irmp_tmp_command,
      (store_xor_check_fields _ _).2.1, ite_self, if_neg g, if_neg ha, h1, h2, and_self, if_true]
  · simp only [irmp_store_bit, apply_ite State.irmp_tmp_address,
      (store_xor_check_fields _ _).1, ite_self, if_neg g, if_neg ha, h1, h2, and_self, if_true]

/-- A bit stored outside the address and command ranges (lines 1781-1799), for a
protocol other than NEC42, Samsung and Kaseikyo. -/
theorem store_bit_outside (c : Config) (s : State) (v : Nat)
    (ha : ¬ (s.irmp_param.address_offset ≤ s.irmp_bit ∧ s.irmp_bit < s.irmp_param.address_end))
    (hc : ¬ (s.irmp_param.command_offset ≤ s.irmp_bit ∧ s.irmp_bit < s.irmp_param.command_end))
    (h42 : s.irmp_param.protocol ≠ IRMP_NEC42_PROTOCOL)
    (hsa : s.irmp_param.protocol ≠ IRMP_SAMSUNG_PROTOCOL)
    (hka : s.irmp_param.protocol ≠ IRMP_KASEIKYO_PROTOCOL) :
    (irmp_store_bit c s v).irmp_tmp_address = s.irmp_tmp_address ∧
    (irmp_store_bit c s v).irmp_tmp_command = s.irmp_tmp_command := by
  constructor
  · simp only [irmp_store_bit, apply_ite State.irmp_tmp_address,
      (store_xor_check_fields _ _).1, ite_self, if_neg ha, if_neg hc, h42, hsa, hka,
      false_and, and_false, if_false]
  · simp only [irmp_store_bit, apply_ite State.irmp_tmp_command,
      (store_xor_check_fields _ _).2.1, ite_self, if_neg ha, if_neg hc, h42, hsa, hka,
      false_and, and_false, if_false]

theorem store_bits_append (c : Config) (s : State) (l : List Bool) (b : Bool) :
    store_bits c s (l ++ [b]) = irmp_store_bit c (store_bits c s l) (if b then 1 else 0) := by
  simp [store_bits, List.foldl_append]

theorem store_bits_param (c : Config) (s : State) (bs : List Bool) :
    (store_bits c s bs).irmp_param = s.irmp_param := by
  induction bs using List.reverseRecOn with
  | nil => rfl
  | append_singleton l b ih => rw [store_bits_append, store_bit_param, ih]

theorem getD_append_left (l : List Bool) (b : Bool) (k : Nat) (h : k < l.length) :
    (l ++ [b]).getD k false = l.getD k false := by
  simp [List.getD, List.getElem?_append_left h]

theorem getD_append_last (l : List Bool) (b : Bool) :
    (l ++ [b]).getD l.length false = b := by
  simp [List.getD]

theorem lsb_sum_append (l : List Bool) (b : Bool) :
    lsb_sum (l ++ [b]) = lsb_sum l + (if b then 1 else 0) * 2 ^ l.length := by
  unfold lsb_sum
  rw [List.length_append, List.length_singleton, Finset.sum_range_succ, getD_append_last]
  congr 1
  apply Finset.sum_congr rfl
  intro k hk
  rw [getD_append_left l b k (Finset.mem_range.mp hk)]

theorem msb_sum_append (l : List Bool) (b : Bool) :
    msb_sum (l ++ [b]) = 2 * msb_sum l + (if b then 1 else 0) := by
  unfold msb_sum
  rw [List.length_append, List.length_singleton, Finset.sum_range_succ, getD_append_last,
    Finset.mul_sum]
  have e0 : l.length + 1 - 1 - l.length = 0 := by omega
  rw [e0, pow_zero, mul_one]
  congr 1
  apply Finset.sum_congr rfl
  intro k hk
  have hk' : k < l.length := Finset.mem_range.mp hk
  rw [getD_append_left l b k hk']
  have e1 : l.length + 1 - 1 - k = (l.length - 1 - k) + 1 := by omega
  rw [e1, pow_succ]
  ring

theorem lsb_sum_lt (l : List Bool) : lsb_sum l < 2 ^ l.length := by
  induction l using List.reverseRecOn with
  | nil => simp [lsb_sum]
  | append_singleton l b ih =>
    rw [lsb_sum_append, List.length_append, List.length_singleton, pow_succ]
    cases b <;> simp <;> omega

theorem msb_sum_lt (l : List Bool) : msb_sum l < 2 ^ l.length := by
  induction l using List.reverseRecOn with
  | nil => simp [msb_sum]
  | append_singleton l b ih =>
    rw [msb_sum_append, List.length_append, List.length_singleton, pow_succ]
    cases b <;> simp <;> omega

/-- Storing the next bit LSB first: `acc | (v << n)` is `acc + v * 2^n` without overflow. -/
theorem lsb_step (l : List Bool) (b : Bool) (h : l.length + 1 ≤ 16) :
    (lsb_sum l ||| ((if b then 1 else 0) <<< l.length)) % 65536 = lsb_sum (l ++ [b]) := by
  have h1 := lsb_sum_lt l
  have h2 := Nat.mul_add_lt_is_or h1 (if b then 1 else 0)
  have h3 := lsb_sum_lt (l ++ [b])
  rw [Nat.or_comm, Nat.shiftLeft_eq, Nat.mul_comm _ (2 ^ l.length), ← h2, lsb_sum_append,
    Nat.mul_comm (2 ^ l.length), Nat.add_comm]
  apply Nat.mod_eq_of_lt
  rw [lsb_sum_append, List.length_append, List.length_singleton] at h3
  calc _ < 2 ^ (l.length + 1) := h3
    _ ≤ 2 ^ 16 := Nat.pow_le_pow_right (by decide) h

/-- Storing the next bit MSB first: `(acc << 1) | v` is `2 * acc + v` without overflow. -/
theorem msb_step (l : List Bool) (b : Bool) (h : l.length + 1 ≤ 16) :
    (((msb_sum l <<< 1) % 65536) ||| (if b then 1 else 0)) % 65536 = msb_sum (l ++ [b]) := by
  have h1 := msb_sum_lt l
  have h3 := msb_sum_lt (l ++ [b])
  rw [List.length_append, List.length_singleton] at h3
  have h4 : (2 : Nat) ^ (l.length + 1) ≤ 2 ^ 16 := Nat.pow_le_pow_right (by decide) h
  have hv : (if b then 1 else 0) < 2 ^ 1 := by cases b <;> simp
  have h2 := Nat.mul_add_lt_is_or hv (msb_sum l)
  have h5 : (2 : Nat) ^ 16 = 65536 := by decide
  have h6 : msb_sum l <<< 1 = 2 ^ 1 * msb_sum l := by rw [Nat.shiftLeft_eq, Nat.mul_comm]
  have h7 : 2 ^ 1 * msb_sum l < 65536 := by
    rw [msb_sum_append] at h3
    omega
  rw [h6, Nat.mod_eq_of_lt h7, ← h2, msb_sum_append]
  apply Nat.mod_eq_of_lt
  rw [msb_sum_append] at h3
  omega

/-- Bits stored LSB first over the address range. -/
theorem store_bits_lsb_address (c : Config) (s : State) (bs : List Bool)
    (hl : s.irmp_param.lsb_first ≠ 0)
    (hg : s.irmp_param.protocol = IRMP_GRUNDIG_PROTOCOL → s.irmp_bit ≠ 0)
    (hn : bs.length ≤ 16) (h8 : s.irmp_param.address_end < 256)
    (h0 : s.irmp_tmp_address = 0) (hb : s.irmp_bit = s.irmp_param.address_offset)
    (hin : s.irmp_bit + bs.length ≤ s.irmp_param.address_end) :
    (store_bits c s bs).irmp_tmp_address = lsb_sum bs ∧
    (store_bits c s bs).irmp_tmp_command = s.irmp_tmp_command ∧
    (store_bits c s bs).irmp_bit = s.irmp_bit + bs.length := by
  induction bs using List.reverseRecOn with
  | nil => simp [store_bits, lsb_sum, h0]
  | append_singleton l b ih =>
    rw [List.length_append, List.length_singleton] at hn hin
    obtain ⟨i1, i2, i3⟩ := ih (by omega) (by omega)
    have hp := store_bits_param c s l
    have g : (store_bits c s l).irmp_param.protocol = IRMP_GRUNDIG_PROTOCOL →
        (store_bits c s l).irmp_bit ≠ 0 := by
      rw [hp, i3]
      intro hG
      have := hg hG
      omega
    have a := store_bit_address c (store_bits c s l) (if b then 1 else 0) g
      (by rw [hp, i3]; omega) (by rw [hp, i3]; omega)
    rw [hp, if_pos hl, i1, i2, i3,
      show s.irmp_bit + l.length - s.irmp_param.address_offset = l.length by omega,
      lsb_step l b hn] at a
    rw [store_bits_append, List.length_append, List.length_singleton]
    refine ⟨a.1, a.2, ?_⟩
    rw [store_bit_index, i3]
    exact Nat.mod_eq_of_lt (by omega)

/-- Bits stored over the command range, outside the address range: LSB first and MSB
first. -/
theorem store_bits_command (c : Config) (s : State) (bs : List Bool)
    (hg : s.irmp_param.protocol = IRMP_GRUNDIG_PROTOCOL → s.irmp_bit ≠ 0)
    (hn : bs.length ≤ 16) (h8 : s.irmp_param.command_end < 256)
    (h0 : s.irmp_tmp_command = 0) (hb : s.irmp_bit = s.irmp_param.command_offset)
    (hin : s.irmp_bit + bs.length ≤ s.irmp_param.command_end)
    (hd : s.irmp_param.address_end ≤ s.irmp_param.command_offset ∨
      s.irmp_param.command_end ≤ s.irmp_param.address_offset) :
    (store_bits c s bs).irmp_tmp_command =
      (if s.irmp_param.lsb_first ≠ 0 then lsb_sum bs else msb_sum bs) ∧
    (store_bits c s bs).irmp_tmp_address = s.irmp_tmp_address ∧
    (store_bits c s bs).irmp_bit = s.irmp_bit + bs.length := by
  induction bs using List.reverseRecOn with
  | nil => simp [store_bits, lsb_sum, msb_sum, h0]
  | append_singleton l b ih =>
    rw [List.length_append, List.length_singleton] at hn hin
    obtain ⟨i1, i2, i3⟩ := ih (by omega) (by omega)
    have hp := store_bits_param c s l
    have g : (store_bits c s l).irmp_param.protocol = IRMP_GRUNDIG_PROTOCOL →
        (store_bits c s l).irmp_bit ≠ 0 := by
      rw [hp, i3]
      intro hG
      have := hg hG
      omega
    have a := store_bit_command c (store_bits c s l) (if b then 1 else 0) g
      (by rw [hp, i3]; omega) (by rw [hp, i3]; omega) (by rw [hp, i3]; omega)
    rw [hp, i1, i2, i3,
      show s.irmp_bit + l.length - s.irmp_param.command_offset = l.length by omega] at a
    rw [store_bits_append, List.length_append, List.length_singleton]
    refine ⟨?_, a.2, ?_⟩
    · rw [a.1]
      by_cases hl : s.irmp_param.lsb_first ≠ 0
      · rw [if_pos hl, if_pos hl, if_pos hl, lsb_step l b hn]
      · rw [if_neg hl, if_neg hl, if_neg hl, msb_step l b hn]
    · rw [store_bit_index, i3]
      exact Nat.mod_eq_of_lt (by omega)

/-! ## The Manchester decoder (lines 2710-2897) -/

/-- The Manchester decoder of lines 2710-2897 in two stages. -/
theorem got_light_manchester_stages (c : Config) (s : State) :
    got_light_manchester c s = manchester_shadow c (manchester_store c s) :=
  rfl

theorem store_bit2_fields (s : State) (v : Nat) :
    (irmp_store_bit2 s v).irmp_bit = s.irmp_bit ∧
    (irmp_store_bit2 s v).last_value = s.last_value ∧
    (irmp_store_bit2 s v).irmp_pause_time = s.irmp_pause_time ∧
    (irmp_store_bit2 s v).irmp_pulse_time = s.irmp_pulse_time ∧
    (irmp_store_bit2 s v).irmp_param = s.irmp_param ∧
    (irmp_store_bit2 s v).irmp_param2 = s.irmp_param2 ∧
    (irmp_store_bit2 s v).irmp_tmp_address = s.irmp_tmp_address ∧
    (irmp_store_bit2 s v).irmp_tmp_command = s.irmp_tmp_command := by
  refine ⟨?_, ?_, ?_, ?_, ?_, ?_, ?_, ?_⟩
  · simp only [irmp_store_bit2, apply_ite State.irmp_bit, ite_self]
  · simp only [irmp_store_bit2, apply_ite State.last_value, ite_self]
  · simp only [irmp_store_bit2, apply_ite State.irmp_pause_time, ite_self]
  · simp only [irmp_store_bit2, apply_ite State.irmp_pulse_time, ite_self]
  · simp only [irmp_store_bit2, apply_ite State.irmp_param, ite_self]
  · simp only [irmp_store_bit2, apply_ite State.irmp_param2, ite_self]
  · simp only [irmp_store_bit2, apply_ite State.irmp_tmp_address, ite_self]
  · simp only [irmp_store_bit2, apply_ite State.irmp_tmp_command, ite_self]

theorem adopt_param2_fields (t : State) :
    (adopt_param2 t).irmp_bit = t.irmp_bit ∧
    (adopt_param2 t).last_value = t.last_value ∧
    (adopt_param2 t).irmp_pause_time = t.irmp_pause_time ∧
    (adopt_param2 t).irmp_pulse_time = t.irmp_pulse_time := by
  unfold adopt_param2
  split_ifs <;> exact ⟨rfl, rfl, rfl, rfl⟩

theorem adopt_param2_id (t : State) (h : t.irmp_param.protocol ≠ 0) : adopt_param2 t = t := by
  unfold adopt_param2
  rw [if_neg h]

/-- The FDC candidate changes neither the bit index, nor `last_value`, nor the run lengths;
while the working descriptor is in use it changes neither that descriptor nor the
accumulators. -/
theorem shadow_fdc_fields (c : Config) (s : State) :
    (shadow_fdc c s).irmp_bit = s.irmp_bit ∧
    (shadow_fdc c s).last_value = s.last_value ∧
    (shadow_fdc c s).irmp_pause_time = s.irmp_pause_time ∧
    (shadow_fdc c s).irmp_pulse_time = s.irmp_pulse_time ∧
    (s.irmp_param.protocol ≠ 0 →
      (shadow_fdc c s).irmp_param = s.irmp_param ∧
      (shadow_fdc c s).irmp_tmp_address = s.irmp_tmp_address ∧
      (shadow_fdc c s).irmp_tmp_command = s.irmp_tmp_command) := by
  unfold shadow_fdc
  split_ifs
  · refine ⟨?_, ?_, ?_, ?_, fun h => ?_⟩
    · rw [(adopt_param2_fields _).1, (store_bit2_fields _ _).1]
    · rw [(adopt_param2_fields _).2.1, (store_bit2_fields _ _).2.1]
    · rw [(adopt_param2_fields _).2.2.1, (store_bit2_fields _ _).2.2.1]
    · rw [(adopt_param2_fields _).2.2.2, (store_bit2_fields _ _).2.2.2.1]
    · rw [adopt_param2_id _ (by rw [(store_bit2_fields _ _).2.2.2.2.1]; exact h)]
      exact ⟨(store_bit2_fields _ _).2.2.2.2.1, (store_bit2_fields _ _).2.2.2.2.2.2.1,
        (store_bit2_fields _ _).2.2.2.2.2.2.2⟩
  · refine ⟨?_, ?_, ?_, ?_, fun h => ?_⟩
    · rw [(adopt_param2_fields _).1, (store_bit2_fields _ _).1]
    · rw [(adopt_param2_fields _).2.1, (store_bit2_fields _ _).2.1]
    · rw [(adopt_param2_fields _).2.2.1, (store_bit2_fields _ _).2.2.1]
    · rw [(adopt_param2_fields _).2.2.2, (store_bit2_fields _ _).2.2.2.1]
    · rw [adopt_param2_id _ (by rw [(store_bit2_fields _ _).2.2.2.2.1]; exact h)]
      exact ⟨(store_bit2_fields _ _).2.2.2.2.1, (store_bit2_fields _ _).2.2.2.2.2.2.1,
        (store_bit2_fields _ _).2.2.2.2.2.2.2⟩
  · refine ⟨?_, ?_, ?_, ?_, fun h => ?_⟩
    · rw [(adopt_param2_fields _).1]
    · rw [(adopt_param2_fields _).2.1]
    · rw [(adopt_param2_fields _).2.2.1]
    · rw [(adopt_param2_fields _).2.2.2]
    · rw [adopt_param2_id _ h]
      exact ⟨rfl, rfl, rfl⟩
  · exact ⟨rfl, rfl, rfl, rfl, fun _ => ⟨rfl, rfl, rfl⟩⟩

/-- The same facts for the RCCAR candidate. -/
theorem shadow_rccar_fields (c : Config) (s : State) :
    (shadow_rccar c s).irmp_bit = s.irmp_bit ∧
    (shadow_rccar c s).last_value = s.last_value ∧
    (shadow_rccar c s).irmp_pause_time = s.irmp_pause_time ∧
    (shadow_rccar c s).irmp_pulse_time = s.irmp_pulse_time ∧
    (s.irmp_param.protocol ≠ 0 →
      (shadow_rccar c s).irmp_param = s.irmp_param ∧
      (shadow_rccar c s).irmp_tmp_address = s.irmp_tmp_address ∧
      (shadow_rccar c s).irmp_tmp_command = s.irmp_tmp_command) := by
  unfold shadow_rccar
  split_ifs
  · refine ⟨?_, ?_, ?_, ?_, fun h => ?_⟩
    · rw [(adopt_param2_fields _).1, (store_bit2_fields _ _).1]
    · rw [(adopt_param2_fields _).2.1, (store_bit2_fields _ _).2.1]
    · rw [(adopt_param2_fields _).2.2.1, (store_bit2_fields _ _).2.2.1]
    · rw [(adopt_param2_fields _).2.2.2, (store_bit2_fields _ _).2.2.2.1]
    · rw [adopt_param2_id _ (by rw [(store_bit2_fields _ _).2.2.2.2.1]; exact h)]
      exact ⟨(store_bit2_fields _ _).2.2.2.2.1, (store_bit2_fields _ _).2.2.2.2.2.2.1,
        (store_bit2_fields _ _).2.2.2.2.2.2.2⟩
  · refine ⟨?_, ?_, ?_, ?_, fun h => ?_⟩
    · rw [(adopt_param2_fields _).1, (store_bit2_fields _ _).1]
    · rw [(adopt_param2_fields _).2.1, (store_bit2_fields _ _).2.1]
    · rw [(adopt_param2_fields _).2.2.1, (store_bit2_fields _ _).2.2.1]
    · rw [(adopt_param2_fields _).2.2.2, (store_bit2_fields _ _).2.2.2.1]
    · rw [adopt_param2_id _ (by rw [(store_bit2_fields _ _).2.2.2.2.1]; exact h)]
      exact ⟨(store_bit2_fields _ _).2.2.2.2.1, (store_bit2_fields _ _).2.2.2.2.2.2.1,
        (store_bit2_fields _ _).2.2.2.2.2.2.2⟩
  · refine ⟨?_, ?_, ?_, ?_, fun h => ?_⟩
    · rw [(adopt_param2_fields _).1]
    · rw [(adopt_param2_fields _).2.1]
    · rw [(adopt_param2_fields _).2.2.1]
    · rw [(adopt_param2_fields _).2.2.2]
    · rw [adopt_param2_id _ h]
      exact ⟨rfl, rfl, rfl⟩
  · exact ⟨rfl, rfl, rfl, rfl, fun _ => ⟨rfl, rfl, rfl⟩⟩

/-- What lines 2846-2897 leave of the state `sa` after the bits were stored. -/
theorem manchester_shadow_fields (c : Config) (sa : State) :
    (manchester_shadow c sa).irmp_bit = sa.irmp_bit ∧
    (manchester_shadow c sa).last_value = sa.last_value ∧
    (manchester_shadow c sa).last_pause = sa.irmp_pause_time ∧
    (manchester_shadow c sa).wait_for_space = 0 ∧
    (sa.irmp_param.protocol ≠ 0 →
      (manchester_shadow c sa).irmp_param = sa.irmp_param ∧
      (manchester_shadow c sa).irmp_tmp_address = sa.irmp_tmp_address ∧
      (manchester_shadow c sa).irmp_tmp_command = sa.irmp_tmp_command) := by
  obtain ⟨f1, f2, f3, -, f5⟩ := shadow_fdc_fields c sa
  obtain ⟨g1, g2, g3, -, g5⟩ := shadow_rccar_fields c (shadow_fdc c sa)
  refine ⟨?_, ?_, ?_, rfl, fun h => ?_⟩
  · show (shadow_rccar c (shadow_fdc c sa)).irmp_bit = _
    rw [g1, f1]
  · show (shadow_rccar c (shadow_fdc c sa)).last_value = _
    rw [g2, f2]
  · show (shadow_rccar c (shadow_fdc c sa)).irmp_pause_time = _
    rw [g3, f3]
  · obtain ⟨a1, a2, a3⟩ := f5 h
    obtain ⟨b1, b2, b3⟩ := g5 (by rw [a1]; exact h)
    refine ⟨?_, ?_, ?_⟩
    · show (shadow_rccar c (shadow_fdc c sa)).irmp_param = _
      rw [b1, a1]
    · show (shadow_rccar c (shadow_fdc c sa)).irmp_tmp_address = _
      rw [b2, a2]
    · show (shadow_rccar c (shadow_fdc c sa)).irmp_tmp_command = _
      rw [b3, a3]

/-- Lines 2737-2769: a long pulse away from the RC6 toggle bit stores two bits. -/
theorem manchester_store_long (c : Config) (s : State)
    (hlong : s.irmp_pulse_time > s.irmp_param.pulse_1_len_max)
    (h1 : ¬ rc6_toggle c s)
    (h2 : ¬ rc6_toggle c { s with irmp_bit := (s.irmp_bit + 1) % 256 }) :
    manchester_store c s =
      { irmp_store_bit c
          (irmp_store_bit c s
            (if has_flag s.irmp_param IRMP_PARAM_FLAG_1ST_PULSE_IS_1 then 0 else 1))
          (if has_flag s.irmp_param IRMP_PARAM_FLAG_1ST_PULSE_IS_1 then 1 else 0) with
        last_value := if has_flag s.irmp_param IRMP_PARAM_FLAG_1ST_PULSE_IS_1 then 1 else 0 } := by
  have h3 : ¬ rc6_toggle c (irmp_store_bit c s
      (if has_flag s.irmp_param IRMP_PARAM_FLAG_1ST_PULSE_IS_1 then 0 else 1)) := by
    intro h
    apply h2
    unfold rc6_toggle at h ⊢
    rw [store_bit_param, store_bit_index, store_bit_pulse_time] at h
    exact h
  unfold manchester_store
  simp only [if_pos hlong, if_neg h1, if_neg h3]

/-- Lines 2772-2810: a short pulse stores the bit `manchester_value`. -/
theorem manchester_store_short (c : Config) (s : State)
    (hmin : s.irmp_param.pulse_1_len_min ≤ s.irmp_pulse_time)
    (hmax : s.irmp_pulse_time ≤ s.irmp_param.pulse_1_len_max) :
    manchester_store c s =
      irmp_store_bit c (rc6a_switch c { s with last_value := manchester_value s }
        (manchester_value s)) (manchester_value s) := by
  have e : (if long_pause s then { s with last_value := manchester_value s } else s) =
      { s with last_value := manchester_value s } := by
    by_cases h : long_pause s
    · rw [if_pos h]
    · rw [if_neg h]
      have : manchester_value s = s.last_value := by
        unfold manchester_value
        rw [if_neg h]
      rw [this]
  unfold manchester_store
  simp only [if_neg (Nat.not_lt.mpr hmax), hmin, hmax, and_self, if_true, e]

theorem rc6a_switch_fields (c : Config) (s : State) (v : Nat) :
    (rc6a_switch c s v).irmp_bit = s.irmp_bit ∧
    (rc6a_switch c s v).last_value = s.last_value ∧
    (rc6a_switch c s v).irmp_pause_time = s.irmp_pause_time ∧
    (rc6a_switch c s v).irmp_param.protocol = s.irmp_param.protocol := by
  unfold rc6a_switch
  split_ifs <;> exact ⟨rfl, rfl, rfl, rfl⟩

/-- The fields of the state after the two bits of a long pulse. -/
theorem manchester_store_long_fields (c : Config) (s : State)
    (hlong : s.irmp_pulse_time > s.irmp_param.pulse_1_len_max)
    (h1 : ¬ rc6_toggle c s)
    (h2 : ¬ rc6_toggle c { s with irmp_bit := (s.irmp_bit + 1) % 256 }) :
    (manchester_store c s).irmp_tmp_address =
      (irmp_store_bit c
        (irmp_store_bit c s
          (if has_flag s.irmp_param IRMP_PARAM_FLAG_1ST_PULSE_IS_1 then 0 else 1))
        (if has_flag s.irmp_param IRMP_PARAM_FLAG_1ST_PULSE_IS_1 then 1 else 0)).irmp_tmp_address ∧
    (manchester_store c s).irmp_tmp_command =
      (irmp_store_bit c
        (irmp_store_bit c s
          (if has_flag s.irmp_param IRMP_PARAM_FLAG_1ST_PULSE_IS_1 then 0 else 1))
        (if has_flag s.irmp_param IRMP_PARAM_FLAG_1ST_PULSE_IS_1 then 1 else 0)).irmp_tmp_command ∧
    (manchester_store c s).irmp_bit = ((s.irmp_bit + 1) % 256 + 1) % 256 ∧
    (manchester_store c s).last_value =
      (if has_flag s.irmp_param IRMP_PARAM_FLAG_1ST_PULSE_IS_1 then 1 else 0) ∧
    (manchester_store c s).irmp_pause_time = s.irmp_pause_time ∧
    (manchester_store c s).irmp_param = s.irmp_param := by
  have k1 : ∀ a b w : Nat,
      ({ irmp_store_bit c (irmp_store_bit c s a) b with last_value := w } : State).irmp_bit =
        ((s.irmp_bit + 1) % 256 + 1) % 256 := fun a b w => by
    show (irmp_store_bit c (irmp_store_bit c s a) b).irmp_bit = _
    rw [store_bit_index, store_bit_index]
  have k2 : ∀ a b w : Nat,
      ({ irmp_store_bit c (irmp_store_bit c s a) b with last_value := w } : State).irmp_pause_time
        = s.irmp_pause_time := fun a b w => by
    show (irmp_store_bit c (irmp_store_bit c s a) b).irmp_pause_time = _
    rw [store_bit_pause_time, store_bit_pause_time]
  have k3 : ∀ a b w : Nat,
      ({ irmp_store_bit c (irmp_store_bit c s a) b with last_value := w } : State).irmp_param
        = s.irmp_param := fun a b w => by
    show (irmp_store_bit c (irmp_store_bit c s a) b).irmp_param = _
    rw [store_bit_param, store_bit_param]
  rw [manchester_store_long c s hlong h1 h2]
  exact ⟨rfl, rfl, k1 _ _ _, rfl, k2 _ _ _, k3 _ _ _⟩

theorem rc5_long_pulse_reached :
    run_poll manchester_build initial ((rc5_wave false 0x05 0x35 0).take 126) =
      (rc5_long_pulse, []) := by
  rw [run_poll_eval manchester_build 2]
  decide!

theorem rc5_short_pulse_reached :
    run_poll manchester_build initial ((rc5_wave false 0x05 0x35 0).take 144) =
      (rc5_short_pulse, []) := by
  rw [run_poll_eval manchester_build 3]
  decide!

theorem rc5_short_pulse_early_reached :
    run_poll manchester_build initial ((rc5_wave false 0x05 0x35 0).take 63) =
      (rc5_short_pulse_early, []) := by
  rw [run_poll_eval manchester_build 1]
  decide!

theorem rc6_mode_bit_reached :
    run_poll manchester_build initial ((rc6_wave 6 false [] 0).take 56) =
      (rc6_mode_bit, []) := by
  rw [run_poll_eval manchester_build 1]
  decide!

/-- The frame of scenario 3, `(RC5, 0x05, 0x35)`, is decoded from its waveform, with the
toggle bit clear and with the toggle bit set. -/
theorem rc5_frame_delivered :
    (run_poll manchester_build initial (rc5_wave false 0x05 0x35 40)).2 =
      [⟨IRMP_RC5_PROTOCOL, 0x05, 0x35, 0⟩] ∧
    (run_poll manchester_build initial (rc5_wave true 0x05 0x35 40)).2 =
      [⟨IRMP_RC5_PROTOCOL, 0x05, 0x35, 0⟩] := by
  constructor
  · rw [run_poll_eval manchester_build 5]
    decide!
  · rw [run_poll_eval manchester_build 5]
    decide!

/-! ## The promotion of NEC42 to NEC -/

/-- The promotion with a shift by 13, on the accumulators that the NEC42 descriptor fills
from the 32 bits `w` of a NEC frame (bit `k` of `w` is received as bit `k`), gives the
direct NEC decode: address `w mod 2^16` and command `w >> 16`. -/
theorem promotion_by_13 (w : Nat) (hw : w < 2 ^ 32) :
    (w % 2 ^ 13) ||| ((((w >>> 13) % 2 ^ 13) &&& 0x0007) <<< 13) = w % 2 ^ 16 ∧
    ((((w >>> 13) % 2 ^ 13) >>> 3) ||| ((w >>> 26) <<< 10)) % 65536 = w >>> 16 := by
  have m : ∀ y : Nat, y &&& 0x0007 = y % 8 := fun y => Nat.and_pow_two_sub_one_eq_mod y 3
  have a1 : w % 2 ^ 13 < 2 ^ 13 := Nat.mod_lt _ (by decide)
  have a2 : ((w >>> 13) % 2 ^ 13) >>> 3 < 2 ^ 10 := by
    rw [Nat.shiftRight_eq_div_pow, Nat.shiftRight_eq_div_pow]
    have : w / 2 ^ 13 % 2 ^ 13 < 2 ^ 13 := Nat.mod_lt _ (by decide)
    norm_num at this ⊢
    omega
  have o1 := Nat.mul_add_lt_is_or a1 (((w >>> 13) % 2 ^ 13) &&& 0x0007)
  have o2 := Nat.mul_add_lt_is_or a2 (w >>> 26)
  constructor
  · rw [Nat.or_comm, Nat.shiftLeft_eq, Nat.mul_comm _ (2 ^ 13), ← o1, m,
      Nat.shiftRight_eq_div_pow]
    norm_num
    omega
  · rw [Nat.or_comm, Nat.shiftLeft_eq, Nat.mul_comm _ (2 ^ 10), ← o2,
      Nat.shiftRight_eq_div_pow, Nat.shiftRight_eq_div_pow, Nat.shiftRight_eq_div_pow,
      Nat.shiftRight_eq_div_pow]
    norm_num at hw ⊢
    omega

/-- A call of `irmp_ISR` in the data section that sees a pulse begin runs the Manchester
decoder of lines 2710-2897 when the descriptor has the Manchester flag. -/
theorem isr_body_manchester (c : Config) (s : State)
    (h1 : s.wait_for_start_space = 0) (h2 : s.wait_for_space ≠ 0)
    (hm : c.IRMP_SUPPORT_MANCHESTER = true)
    (hf : has_flag s.irmp_param IRMP_PARAM_FLAG_IS_MANCHESTER) :
    isr_body c s false = { got_light_manchester c s with irmp_pulse_time := 1 } := by
  unfold isr_body isr_got_light
  simp [h1, h2, hm, hf]

/-! ## The claims about retrieval, initialisation, bit storage and the Manchester decoder -/

theorem lego_raw_split (p x : Nat) (hx : x < 16) :
    (p <<< 4) ||| x = p * 16 + x ∧
    ((p <<< 4) ||| x) &&& 0x000F = x ∧ ((p <<< 4) ||| x) >>> 4 = p ∧
    lego_crc ((p <<< 4) ||| x) =
      0xF ^^^ ((p >>> 8) &&& 0xF) ^^^ ((p >>> 4) &&& 0xF) ^^^ (p &&& 0xF) := by
  have e : (p <<< 4) ||| x = p * 16 + x := by
    have h := Nat.mul_add_lt_is_or (i := 4) (by simpa using hx) p
    rw [Nat.shiftLeft_eq, Nat.mul_comm p (2 ^ 4), ← h]
  have m : ∀ y : Nat, y &&& 0xF = y % 16 := fun y => Nat.and_pow_two_sub_one_eq_mod y 4
  have d12 : (p * 16 + x) >>> 12 = p >>> 8 := by
    rw [Nat.shiftRight_eq_div_pow, Nat.shiftRight_eq_div_pow]
    norm_num
    omega
  have d8 : (p * 16 + x) >>> 8 = p >>> 4 := by
    rw [Nat.shiftRight_eq_div_pow, Nat.shiftRight_eq_div_pow]
    norm_num
    omega
  have d4 : (p * 16 + x) >>> 4 = p := by
    rw [Nat.shiftRight_eq_div_pow]
    norm_num
    omega
  refine ⟨e, ?_, ?_, ?_⟩
  · rw [e, m]
    omega
  · rw [e, d4]
  · rw [lego_crc_nibbles, e, d12, d8, d4]

/-- C21 as stated fails: the latched LEGO frame with raw command `0x1230`, whose low nibble
`0` is not the CRC `0xF ^ 1 ^ 2 ^ 3 = 0xF`, is delivered by `irmp_get_data` with command
`0x1230`, the raw command, and not with `0x1230 >> 4 = 0x123`. -/
theorem C21_crc_failure_unstripped :
    (irmp_get_data lego_rc5_build (latched_frame IRMP_LEGO_PROTOCOL 0 0x1230) ⟨0, 0, 0, 0⟩).1
      = true ∧
    (irmp_get_data lego_rc5_build (latched_frame IRMP_LEGO_PROTOCOL 0 0x1230)
      ⟨0, 0, 0, 0⟩).2.2 = ⟨IRMP_LEGO_PROTOCOL, 0, 0x1230, 0⟩ ∧
    (irmp_get_data lego_rc5_build (latched_frame IRMP_LEGO_PROTOCOL 0 0x1230)
      ⟨0, 0, 0, 0⟩).2.2.command ≠ 0x1230 >>> 4 := by
  decide

/-- C21, amended: for every latched LEGO frame with raw command `r`, `irmp_get_data`
returns `TRUE`; it delivers command `r >> 4` when the low nibble of `r` equals the CRC
`0xF ^ nibble3 ^ nibble2 ^ nibble1`, and the raw command `r` itself when it does not;
protocol, address and flags are delivered unchanged in both cases. -/
theorem C21_get_data_lego (c : Config) (s : State) (d : IRMP_DATA)
    (hc : c.IRMP_SUPPORT_LEGO_PROTOCOL = true) (hl : s.irmp_ir_detected ≠ 0)
    (hp : s.irmp_protocol = IRMP_LEGO_PROTOCOL) :
    (irmp_get_data c s d).1 = true ∧
    (s.irmp_command &&& 0xF =
        0xF ^^^ ((s.irmp_command >>> 12) &&& 0xF) ^^^ ((s.irmp_command >>> 8) &&& 0xF) ^^^
          ((s.irmp_command >>> 4) &&& 0xF) →
      (irmp_get_data c s d).2.2 =
        ⟨IRMP_LEGO_PROTOCOL, s.irmp_address, s.irmp_command >>> 4, s.irmp_flags⟩) ∧
    (s.irmp_command &&& 0xF ≠
        0xF ^^^ ((s.irmp_command >>> 12) &&& 0xF) ^^^ ((s.irmp_command >>> 8) &&& 0xF) ^^^
          ((s.irmp_command >>> 4) &&& 0xF) →
      (irmp_get_data c s d).2.2 =
        ⟨IRMP_LEGO_PROTOCOL, s.irmp_address, s.irmp_command, s.irmp_flags⟩) := by
  have e := get_data_switch_lego hc hp
  rw [lego_crc_nibbles] at e
  refine ⟨?_, ?_, ?_⟩
  · by_cases h : s.irmp_command &&& 0xF =
        0xF ^^^ ((s.irmp_command >>> 12) &&& 0xF) ^^^ ((s.irmp_command >>> 8) &&& 0xF) ^^^
          ((s.irmp_command >>> 4) &&& 0xF)
    · rw [if_pos h] at e
      simp [irmp_get_data, hl, e]
    · rw [if_neg h] at e
      simp [irmp_get_data, hl, e]
  · intro h
    rw [if_pos h] at e
    simp only [irmp_get_data, if_pos hl, e, hp]
    rfl
  · intro h
    rw [if_neg h] at e
    simp only [irmp_get_data, if_pos hl, e, hp]
    rfl

/-- Witness of C21: the raw command `0x123F` carries the right CRC and is delivered as
`0x123`; the raw command `0x1230` does not and is delivered as `0x1230`. -/
theorem C21_get_data_lego_witness :
    lego_rc5_build.IRMP_SUPPORT_LEGO_PROTOCOL = true ∧
      (latched_frame IRMP_LEGO_PROTOCOL 0 0x123F).irmp_ir_detected ≠ 0 ∧
      (irmp_get_data lego_rc5_build (latched_frame IRMP_LEGO_PROTOCOL 0 0x123F)
        ⟨0, 0, 0, 0⟩).2.2 = ⟨IRMP_LEGO_PROTOCOL, 0, 0x123, 0⟩ ∧
      (irmp_get_data lego_rc5_build (latched_frame IRMP_LEGO_PROTOCOL 0 0x1230)
        ⟨0, 0, 0, 0⟩).2.2 = ⟨IRMP_LEGO_PROTOCOL, 0, 0x1230, 0⟩ :=
  ⟨rfl, by decide,
    (C21_get_data_lego lego_rc5_build (latched_frame IRMP_LEGO_PROTOCOL 0 0x123F) ⟨0, 0, 0, 0⟩
      rfl (by decide) rfl).2.1 (by decide),
    (C21_get_data_lego lego_rc5_build (latched_frame IRMP_LEGO_PROTOCOL 0 0x1230) ⟨0, 0, 0, 0⟩
      rfl (by decide) rfl).2.2 (by decide)⟩

/-- C22: LEGO CRC round trip.  For every 12-bit payload `p` with nibbles `n3`, `n2`, `n1`,
a latched LEGO frame whose raw command is `(p << 4) | (0xF ^ n3 ^ n2 ^ n1)` passes the
check of `irmp_get_data`, which returns `TRUE` and delivers command `p`; this raw command
is a 16-bit value. -/
theorem C22_lego_round_trip (c : Config) (s : State) (d : IRMP_DATA) (p : Nat)
    (hc : c.IRMP_SUPPORT_LEGO_PROTOCOL = true) (hl : s.irmp_ir_detected ≠ 0)
    (hp : s.irmp_protocol = IRMP_LEGO_PROTOCOL) (h12 : p < 2 ^ 12)
    (hr : s.irmp_command =
      (p <<< 4) ||| (0xF ^^^ ((p >>> 8) &&& 0xF) ^^^ ((p >>> 4) &&& 0xF) ^^^ (p &&& 0xF))) :
    s.irmp_command < 2 ^ 16 ∧ s.irmp_command &&& 0x000F = lego_crc s.irmp_command ∧
    (irmp_get_data c s d).1 = true ∧
    (irmp_get_data c s d).2.2 = ⟨IRMP_LEGO_PROTOCOL, s.irmp_address, p, s.irmp_flags⟩ := by
  have b1 : (p >>> 8) &&& 0xF < 2 ^ 4 := Nat.and_lt_two_pow _ (by decide)
  have b2 : (p >>> 4) &&& 0xF < 2 ^ 4 := Nat.and_lt_two_pow _ (by decide)
  have b3 : p &&& 0xF < 2 ^ 4 := Nat.and_lt_two_pow _ (by decide)
  have b : 0xF ^^^ ((p >>> 8) &&& 0xF) ^^^ ((p >>> 4) &&& 0xF) ^^^ (p &&& 0xF) < 16 :=
    Nat.xor_lt_two_pow (n := 4)
      (Nat.xor_lt_two_pow (Nat.xor_lt_two_pow (by decide) b1) b2) b3
  obtain ⟨k0, k1, k2, k3⟩ := lego_raw_split p _ b
  rw [← hr] at k0 k1 k2 k3
  have lt : s.irmp_command < 2 ^ 16 := by
    rw [k0]
    have : (2 : Nat) ^ 12 = 4096 := by decide
    have : (2 : Nat) ^ 16 = 65536 := by decide
    omega
  have ok : s.irmp_command &&& 0x000F = lego_crc s.irmp_command := by rw [k1, k3]
  have e := get_data_switch_lego hc hp
  rw [if_pos ok, k2] at e
  refine ⟨lt, ok, by simp [irmp_get_data, hl, e], ?_⟩
  simp only [irmp_get_data, if_pos hl, e, hp]
  rfl

/-- Witness of C22: the payload `0x123` has the CRC `0xF ^ 1 ^ 2 ^ 3 = 0xF`; the latched
raw command `0x123F` is delivered as `0x123`. -/
theorem C22_lego_round_trip_witness :
    lego_rc5_build.IRMP_SUPPORT_LEGO_PROTOCOL = true ∧ (0x123 : Nat) < 2 ^ 12 ∧
      (latched_frame IRMP_LEGO_PROTOCOL 0 0x123F).irmp_command =
        (0x123 <<< 4) |||
          (0xF ^^^ ((0x123 >>> 8) &&& 0xF) ^^^ ((0x123 >>> 4) &&& 0xF) ^^^ (0x123 &&& 0xF)) ∧
      (irmp_get_data lego_rc5_build (latched_frame IRMP_LEGO_PROTOCOL 0 0x123F)
        ⟨0, 0, 0, 0⟩).1 = true ∧
      (irmp_get_data lego_rc5_build (latched_frame IRMP_LEGO_PROTOCOL 0 0x123F)
        ⟨0, 0, 0, 0⟩).2.2 = ⟨IRMP_LEGO_PROTOCOL, 0, 0x123, 0⟩ := by
  have h := C22_lego_round_trip lego_rc5_build (latched_frame IRMP_LEGO_PROTOCOL 0 0x123F)
    ⟨0, 0, 0, 0⟩ 0x123 rfl (by decide) rfl (by decide) (by decide)
  exact ⟨rfl, by decide, by decide, h.2.2.1, h.2.2.2⟩

set_option maxRecDepth 100000 in
theorem toggle_mask_bits : ∀ i, i < 16 → i ≠ 5 → Nat.testBit 0xFFDF i = true := by
  decide

/-- C23: for every latched RC5 frame, `irmp_get_data` returns `TRUE` and delivers the
address with bit 5 (the toggle bit) cleared and every other bit of the 16-bit address,
the command and the flags unchanged. -/
theorem C23_get_data_rc5 (c : Config) (s : State) (d : IRMP_DATA)
    (hc : c.IRMP_SUPPORT_RC5_PROTOCOL = true) (hl : s.irmp_ir_detected ≠ 0)
    (hp : s.irmp_protocol = IRMP_RC5_PROTOCOL) :
    (irmp_get_data c s d).1 = true ∧
    (irmp_get_data c s d).2.2 =
      ⟨IRMP_RC5_PROTOCOL, s.irmp_address &&& 0xFFDF, s.irmp_command, s.irmp_flags⟩ ∧
    (irmp_get_data c s d).2.2.address.testBit 5 = false ∧
    (∀ i, i < 16 → i ≠ 5 →
      (irmp_get_data c s d).2.2.address.testBit i = s.irmp_address.testBit i) := by
  have e := get_data_switch_rc5 hc hp
  have e2 : (irmp_get_data c s d).2.2 =
      ⟨IRMP_RC5_PROTOCOL, s.irmp_address &&& 0xFFDF, s.irmp_command, s.irmp_flags⟩ := by
    simp only [irmp_get_data, if_pos hl, e, hp]
    rfl
  refine ⟨by simp [irmp_get_data, hl, e], e2, ?_, ?_⟩
  · rw [e2]
    show (s.irmp_address &&& 0xFFDF).testBit 5 = false
    rw [Nat.testBit_and, show Nat.testBit 0xFFDF 5 = false by decide, Bool.and_false]
  · intro i hi h5
    rw [e2]
    show (s.irmp_address &&& 0xFFDF).testBit i = s.irmp_address.testBit i
    rw [Nat.testBit_and, toggle_mask_bits i hi h5, Bool.and_true]

/-- Witness of C23: the latched RC5 frame with address `0x25` (toggle bit set, device 5)
and command `0x35` is delivered as `(RC5, 0x05, 0x35)`; so is the waveform of this frame,
received from program start. -/
theorem C23_get_data_rc5_witness :
    lego_rc5_build.IRMP_SUPPORT_RC5_PROTOCOL = true ∧
      (latched_frame IRMP_RC5_PROTOCOL 0x25 0x35).irmp_ir_detected ≠ 0 ∧
      (irmp_get_data lego_rc5_build (latched_frame IRMP_RC5_PROTOCOL 0x25 0x35)
        ⟨0, 0, 0, 0⟩).1 = true ∧
      (irmp_get_data lego_rc5_build (latched_frame IRMP_RC5_PROTOCOL 0x25 0x35)
        ⟨0, 0, 0, 0⟩).2.2 = ⟨IRMP_RC5_PROTOCOL, 0x05, 0x35, 0⟩ ∧
      (run_poll manchester_build initial (rc5_wave true 0x05 0x35 40)).2 =
        [⟨IRMP_RC5_PROTOCOL, 0x05, 0x35, 0⟩] := by
  have h := C23_get_data_rc5 lego_rc5_build (latched_frame IRMP_RC5_PROTOCOL 0x25 0x35)
    ⟨0, 0, 0, 0⟩ rfl (by decide) rfl
  exact ⟨rfl, by decide, h.1, h.2.1.trans (by decide), rc5_frame_delivered.2⟩

theorem and_mask_mod (x m : Nat) :
    (((x &&& m) % 256) &&& m) % 256 = (x &&& m) % 256 := by
  apply Nat.eq_of_testBit_eq
  intro i
  rw [show (256 : Nat) = 2 ^ 8 by decide]
  simp only [Nat.testBit_mod_two_pow, Nat.testBit_and]
  cases decide (i < 8) <;> cases x.testBit i <;> cases m.testBit i <;> rfl

theorem irmp_init_machine_state (b : Nat) (r : Port) (s : State) :
    (irmp_init_machine b (r, s)).2 = s :=
  rfl

/-- C24 as stated fails: `irmp_init` leaves a latched frame latched, and a decoder in the
middle of a NEC frame (start bit detected, ten data bits stored) in the middle of that
frame; neither state is the initial Idle state after the call. -/
theorem C24_init_keeps_decoder_state :
    (irmp_init_machine 2 (⟨0xFF, 0xFF⟩, latched_frame IRMP_NEC_PROTOCOL 0x1234 0xA956)).2 =
      latched_frame IRMP_NEC_PROTOCOL 0x1234 0xA956 ∧
    (latched_frame IRMP_NEC_PROTOCOL 0x1234 0xA956).irmp_ir_detected = 1 ∧
    (irmp_init_machine 2 (⟨0xFF, 0xFF⟩, latched_frame IRMP_NEC_PROTOCOL 0x1234 0xA956)).2
      ≠ initial ∧
    (irmp_init_machine 2 (⟨0xFF, 0xFF⟩, nec_mid_frame)).2 = nec_mid_frame ∧
    nec_mid_frame.irmp_start_bit_detected = 1 ∧ nec_mid_frame.irmp_bit = 10 ∧
    (irmp_init_machine 2 (⟨0xFF, 0xFF⟩, nec_mid_frame)).2 ≠ initial := by
  have h1 : nec_mid_frame.irmp_start_bit_detected = 1 := by
    unfold nec_mid_frame
    rw [run_poll_eval nec_build 5]
    decide!
  have h2 : nec_mid_frame.irmp_bit = 10 := by
    unfold nec_mid_frame
    rw [run_poll_eval nec_build 5]
    decide!
  have h3 : (latched_frame IRMP_NEC_PROTOCOL 0x1234 0xA956).irmp_ir_detected ≠
      initial.irmp_ir_detected := by
    show (1 : Nat) ≠ 0
    decide
  refine ⟨rfl, rfl, fun e => h3 (congrArg State.irmp_ir_detected e),
    irmp_init_machine_state 2 _ _, h1, h2, ?_⟩
  intro e
  have e2 : nec_mid_frame = initial := (irmp_init_machine_state 2 _ _).symm.trans e
  rw [e2] at h2
  exact absurd h2 (by decide)

/-- C24, amended: `irmp_init` writes no decoder variable.  It clears the bit of the input
pin in the two port registers, and the decoder state after the call is the state before
it; called at program start, where the decoder variables have their initial values, it
leaves the decoder in its initial Idle state with no frame latched; a second call changes
nothing. -/
theorem C24_init_leaves_decoder (b : Nat) (r : Port) (s : State) :
    (irmp_init_machine b (r, s)).2 = s ∧
    (irmp_init_machine b (r, initial)).2 = initial ∧
    initial.irmp_start_bit_detected = 0 ∧ initial.irmp_ir_detected = 0 ∧
    irmp_init_machine b (irmp_init_machine b (r, s)) = irmp_init_machine b (r, s) := by
  refine ⟨rfl, rfl, rfl, rfl, ?_⟩
  simp only [irmp_init_machine, irmp_init_port, irmp_init, and_mask_mod]

/-- C25: LSB-first storage.  For a descriptor with `lsb_first` set (other than Grundig at
bit 0), starting with `irmp_tmp_address = 0` and `irmp_bit = address_offset`, the calls
`irmp_store_bit (b_0)`, ..., `irmp_store_bit (b_(n-1))` with `n <= 16`, all inside
`[address_offset, address_end)`, give `irmp_tmp_address = sum of b_k * 2^k`, leave
`irmp_tmp_command` unchanged and advance `irmp_bit` by `n`; the same holds for
`irmp_tmp_command` over a command range `[command_offset, command_end)` that does not
overlap the address range.  The descriptor fields are `uint8_t` values. -/
theorem C25_lsb_first_storage (c : Config) (s : State) (bs : List Bool)
    (hl : s.irmp_param.lsb_first ≠ 0)
    (hg : s.irmp_param.protocol = IRMP_GRUNDIG_PROTOCOL → s.irmp_bit ≠ 0)
    (hn : bs.length ≤ 16)
    (h8 : s.irmp_param.address_end < 256 ∧ s.irmp_param.command_end < 256) :
    (s.irmp_tmp_address = 0 → s.irmp_bit = s.irmp_param.address_offset →
      s.irmp_bit + bs.length ≤ s.irmp_param.address_end →
      (store_bits c s bs).irmp_tmp_address = lsb_sum bs ∧
      (store_bits c s bs).irmp_tmp_command = s.irmp_tmp_command ∧
      (store_bits c s bs).irmp_bit = s.irmp_bit + bs.length) ∧
    (s.irmp_tmp_command = 0 → s.irmp_bit = s.irmp_param.command_offset →
      s.irmp_bit + bs.length ≤ s.irmp_param.command_end →
      (s.irmp_param.address_end ≤ s.irmp_param.command_offset ∨
        s.irmp_param.command_end ≤ s.irmp_param.address_offset) →
      (store_bits c s bs).irmp_tmp_command = lsb_sum bs ∧
      (store_bits c s bs).irmp_tmp_address = s.irmp_tmp_address ∧
      (store_bits c s bs).irmp_bit = s.irmp_bit + bs.length) := by
  constructor
  · intro h0 hb hin
    exact store_bits_lsb_address c s bs hl hg hn h8.1 h0 hb hin
  · intro h0 hb hin hd
    have h := store_bits_command c s bs hg hn h8.2 h0 hb hin hd
    rw [if_pos hl] at h
    exact h

/-- Witness of C25: with the NEC descriptor, the 16 bits of `0x1234` stored LSB first from
bit 0 give `irmp_tmp_address = 0x1234`, and the 16 bits of `0xA956` stored from bit 16 give
`irmp_tmp_command = 0xA956`. -/
theorem C25_lsb_first_storage_witness :
    nec_data_start.irmp_param.lsb_first ≠ 0 ∧ (lsb_bits 16 0x1234).length ≤ 16 ∧
      nec_data_start.irmp_tmp_address = 0 ∧
      nec_data_start.irmp_bit = nec_data_start.irmp_param.address_offset ∧
      lsb_sum (lsb_bits 16 0x1234) = 0x1234 ∧
      ((store_bits nec_build nec_data_start (lsb_bits 16 0x1234)).irmp_tmp_address = 0x1234 ∧
        (store_bits nec_build nec_data_start (lsb_bits 16 0x1234)).irmp_tmp_command = 0 ∧
        (store_bits nec_build nec_data_start (lsb_bits 16 0x1234)).irmp_bit = 16) ∧
      ((store_bits nec_build { nec_data_start with irmp_bit := 16 }
          (lsb_bits 16 0xA956)).irmp_tmp_command = 0xA956 ∧
        (store_bits nec_build { nec_data_start with irmp_bit := 16 }
          (lsb_bits 16 0xA956)).irmp_tmp_address = 0 ∧
        (store_bits nec_build { nec_data_start with irmp_bit := 16 }
          (lsb_bits 16 0xA956)).irmp_bit = 32) := by
  have e1 : lsb_sum (lsb_bits 16 0x1234) = 0x1234 := by decide
  have e2 : lsb_sum (lsb_bits 16 0xA956) = 0xA956 := by decide
  have h1 := (C25_lsb_first_storage nec_build nec_data_start (lsb_bits 16 0x1234)
    (by decide) (by decide) (by decide) (by decide)).1 rfl (by decide) (by decide)
  have h2 := (C25_lsb_first_storage nec_build { nec_data_start with irmp_bit := 16 }
    (lsb_bits 16 0xA956) (by decide) (by decide) (by decide) (by decide)).2 rfl (by decide)
    (by decide) (by decide)
  rw [e1] at h1
  rw [e2] at h2
  exact ⟨by decide, by decide, rfl, by decide, e1, h1, h2⟩

/-- C26: MSB-first storage.  For a descriptor with `lsb_first = 0` (other than Grundig at
bit 0), starting with `irmp_tmp_command = 0` and `irmp_bit = command_offset`, the calls
`irmp_store_bit (b_0)`, ..., `irmp_store_bit (b_(n-1))` with `n <= 16`, all inside a
command range `[command_offset, command_end)` that does not overlap the address range,
give `irmp_tmp_command = sum of b_k * 2^(n-1-k)` and advance `irmp_bit` by `n`.  A bit
stored at an index outside both ranges, for a protocol other than NEC42, Samsung and
Kaseikyo, changes neither accumulator and advances the 8-bit `irmp_bit` by one. -/
theorem C26_msb_first_storage (c : Config) (s : State) (bs : List Bool) (v : Nat) :
    (s.irmp_param.lsb_first = 0 →
      (s.irmp_param.protocol = IRMP_GRUNDIG_PROTOCOL → s.irmp_bit ≠ 0) →
      bs.length ≤ 16 → s.irmp_param.command_end < 256 →
      s.irmp_tmp_command = 0 → s.irmp_bit = s.irmp_param.command_offset →
      s.irmp_bit + bs.length ≤ s.irmp_param.command_end →
      (s.irmp_param.address_end ≤ s.irmp_param.command_offset ∨
        s.irmp_param.command_end ≤ s.irmp_param.address_offset) →
      (store_bits c s bs).irmp_tmp_command = msb_sum bs ∧
      (store_bits c s bs).irmp_tmp_address = s.irmp_tmp_address ∧
      (store_bits c s bs).irmp_bit = s.irmp_bit + bs.length) ∧
    (¬ (s.irmp_param.address_offset ≤ s.irmp_bit ∧ s.irmp_bit < s.irmp_param.address_end) →
      ¬ (s.irmp_param.command_offset ≤ s.irmp_bit ∧ s.irmp_bit < s.irmp_param.command_end) →
      s.irmp_param.protocol ≠ IRMP_NEC42_PROTOCOL →
      s.irmp_param.protocol ≠ IRMP_SAMSUNG_PROTOCOL →
      s.irmp_param.protocol ≠ IRMP_KASEIKYO_PROTOCOL →
      (irmp_store_bit c s v).irmp_tmp_address = s.irmp_tmp_address ∧
      (irmp_store_bit c s v).irmp_tmp_command = s.irmp_tmp_command ∧
      (irmp_store_bit c s v).irmp_bit = (s.irmp_bit + 1) % 256 ∧
      (s.irmp_bit < 255 → (irmp_store_bit c s v).irmp_bit = s.irmp_bit + 1)) := by
  constructor
  · intro hl hg hn h8 h0 hb hin hd
    have h := store_bits_command c s bs hg hn h8 h0 hb hin hd
    rw [if_neg (fun h => h hl)] at h
    exact h
  · intro ha hc h42 hsa hka
    obtain ⟨a1, a2⟩ := store_bit_outside c s v ha hc h42 hsa hka
    refine ⟨a1, a2, store_bit_index c s v, fun hlt => ?_⟩
    rw [store_bit_index]
    exact Nat.mod_eq_of_lt (by omega)

/-- Witness of C26: with the Denon descriptor, the ten bits of `0x155` stored MSB first
from bit 5 give `irmp_tmp_command = 0x155`; a bit stored at index 15, outside the address
bits 0..4 and the command bits 5..14, changes neither accumulator and gives
`irmp_bit = 16`. -/
theorem C26_msb_first_storage_witness :
    (denon_data_at 5).irmp_param.lsb_first = 0 ∧ (msb_bits 10 0x155).length ≤ 16 ∧
      (denon_data_at 5).irmp_bit = (denon_data_at 5).irmp_param.command_offset ∧
      msb_sum (msb_bits 10 0x155) = 0x155 ∧
      ((store_bits remote_build (denon_data_at 5) (msb_bits 10 0x155)).irmp_tmp_command
          = 0x155 ∧
        (store_bits remote_build (denon_data_at 5) (msb_bits 10 0x155)).irmp_tmp_address = 0 ∧
        (store_bits remote_build (denon_data_at 5) (msb_bits 10 0x155)).irmp_bit = 15) ∧
      ((irmp_store_bit remote_build (denon_data_at 15) 1).irmp_tmp_address = 0 ∧
        (irmp_store_bit remote_build (denon_data_at 15) 1).irmp_tmp_command = 0 ∧
        (irmp_store_bit remote_build (denon_data_at 15) 1).irmp_bit = 16) := by
  have e1 : msb_sum (msb_bits 10 0x155) = 0x155 := by decide
  have h1 := (C26_msb_first_storage remote_build (denon_data_at 5) (msb_bits 10 0x155) 1).1
    (by decide) (by decide) (by decide) (by decide) rfl (by decide) (by decide) (by decide)
  have h2 := (C26_msb_first_storage remote_build (denon_data_at 15) [] 1).2
    (by decide) (by decide) (by decide) (by decide) (by decide)
  rw [e1] at h1
  exact ⟨by decide, by decide, by decide, e1, h1, h2.1, h2.2.1, h2.2.2.2 (by decide)⟩

/-- C27 as stated fails: in the RC5 frame of `(0x05, 0x35)` the decoder has stored four
bits when a run pair with an 18-tick pulse (above `pulse_1_len_max = 11`) arrives; the
protocol is not RC6.  The call stores two bits, `1` and then `0`: `irmp_bit` goes from 4
to 6, `irmp_tmp_address` from `0` to binary `10`, and `last_value` is 0, the value of the
first-pulse-is-one flag of RC5, not its negation. -/
theorem C27_long_pulse_stores_two_bits :
    rc5_long_pulse.irmp_pulse_time > rc5_long_pulse.irmp_param.pulse_1_len_max ∧
    ¬ rc6_toggle manchester_build rc5_long_pulse ∧
    ¬ has_flag rc5_long_pulse.irmp_param IRMP_PARAM_FLAG_1ST_PULSE_IS_1 ∧
    rc5_long_pulse.irmp_bit = 4 ∧ rc5_long_pulse.irmp_tmp_address = 0 ∧
    (got_light_manchester manchester_build rc5_long_pulse).irmp_bit = 6 ∧
    (got_light_manchester manchester_build rc5_long_pulse).irmp_tmp_address = 2 ∧
    (got_light_manchester manchester_build rc5_long_pulse).last_value = 0 ∧
    (irmp_ISR manchester_build rc5_long_pulse false).1.irmp_bit = 6 ∧
    (irmp_ISR manchester_build rc5_long_pulse false).1.irmp_tmp_address = 2 ∧
    (irmp_ISR manchester_build rc5_long_pulse false).1.last_value = 0 := by
  decide

/-- C27, amended: in the Manchester data decoder, when a run pair arrives with
`pulse > pulse_1_len_max` and neither the current nor the next bit position is the RC6
toggle bit, two bits are stored by two calls of `irmp_store_bit`: first the negation of
the first-pulse-is-one flag, then the flag itself; `irmp_bit` advances by two, and
`last_value` is set to the flag, the second stored bit.  The working descriptor is in use
(`irmp_param.protocol` is not 0). -/
theorem C27_long_pulse (c : Config) (s : State)
    (hlong : s.irmp_pulse_time > s.irmp_param.pulse_1_len_max)
    (h1 : ¬ rc6_toggle c s)
    (h2 : ¬ rc6_toggle c { s with irmp_bit := (s.irmp_bit + 1) % 256 })
    (hp : s.irmp_param.protocol ≠ 0) :
    (got_light_manchester c s).irmp_tmp_address =
      (irmp_store_bit c
        (irmp_store_bit c s
          (if has_flag s.irmp_param IRMP_PARAM_FLAG_1ST_PULSE_IS_1 then 0 else 1))
        (if has_flag s.irmp_param IRMP_PARAM_FLAG_1ST_PULSE_IS_1 then 1 else 0)).irmp_tmp_address ∧
    (got_light_manchester c s).irmp_tmp_command =
      (irmp_store_bit c
        (irmp_store_bit c s
          (if has_flag s.irmp_param IRMP_PARAM_FLAG_1ST_PULSE_IS_1 then 0 else 1))
        (if has_flag s.irmp_param IRMP_PARAM_FLAG_1ST_PULSE_IS_1 then 1 else 0)).irmp_tmp_command ∧
    (got_light_manchester c s).irmp_bit = ((s.irmp_bit + 1) % 256 + 1) % 256 ∧
    (s.irmp_bit < 254 → (got_light_manchester c s).irmp_bit = s.irmp_bit + 2) ∧
    (got_light_manchester c s).last_value =
      (if has_flag s.irmp_param IRMP_PARAM_FLAG_1ST_PULSE_IS_1 then 1 else 0) ∧
    (got_light_manchester c s).last_pause = s.irmp_pause_time := by
  obtain ⟨e1, e2, e3, e4, e5, e6⟩ := manchester_store_long_fields c s hlong h1 h2
  obtain ⟨f1, f2, f3, -, f5⟩ := manchester_shadow_fields c (manchester_store c s)
  obtain ⟨-, g2, g3⟩ := f5 (by rw [e6]; exact hp)
  rw [got_light_manchester_stages]
  refine ⟨?_, ?_, ?_, ?_, ?_, ?_⟩
  · rw [g2, e1]
  · rw [g3, e2]
  · rw [f1, e3]
  · intro hlt
    rw [f1, e3]
    omega
  · rw [f2, e4]
  · rw [f3, e5]

/-- Witness of C27: the 18-tick pulse in the RC5 frame of `(0x05, 0x35)`: the bits `1`
and `0` are stored, `irmp_bit` goes from 4 to 6 and `last_value` is 0. -/
theorem C27_long_pulse_witness :
    rc5_long_pulse.irmp_pulse_time > rc5_long_pulse.irmp_param.pulse_1_len_max ∧
      ¬ rc6_toggle manchester_build rc5_long_pulse ∧
      rc5_long_pulse.irmp_param.protocol ≠ 0 ∧
      (got_light_manchester manchester_build rc5_long_pulse).irmp_tmp_address =
        (irmp_store_bit manchester_build
          (irmp_store_bit manchester_build rc5_long_pulse 1) 0).irmp_tmp_address ∧
      (got_light_manchester manchester_build rc5_long_pulse).irmp_bit = 6 ∧
      (got_light_manchester manchester_build rc5_long_pulse).last_value = 0 := by
  have h := C27_long_pulse manchester_build rc5_long_pulse (by decide) (by decide)
    (by decide) (by decide)
  exact ⟨by decide, by decide, by decide, h.1, h.2.2.2.1 (by decide), h.2.2.2.2.1⟩

/-- The fields of the state after the bit of a short pulse. -/
theorem manchester_store_short_fields (c : Config) (s : State)
    (hmin : s.irmp_param.pulse_1_len_min ≤ s.irmp_pulse_time)
    (hmax : s.irmp_pulse_time ≤ s.irmp_param.pulse_1_len_max) :
    (manchester_store c s).irmp_bit = (s.irmp_bit + 1) % 256 ∧
    (manchester_store c s).last_value = manchester_value s ∧
    (manchester_store c s).irmp_pause_time = s.irmp_pause_time ∧
    (manchester_store c s).irmp_param.protocol = s.irmp_param.protocol := by
  rw [manchester_store_short c s hmin hmax]
  refine ⟨?_, ?_, ?_, ?_⟩
  · rw [store_bit_index, (rc6a_switch_fields _ _ _).1]
  · rw [store_bit_last_value, (rc6a_switch_fields _ _ _).2.1]
  · rw [store_bit_pause_time, (rc6a_switch_fields _ _ _).2.2.1]
  · rw [store_bit_param, (rc6a_switch_fields _ _ _).2.2.2]

/-- C28: in the Manchester data decoder, when a run pair arrives with
`pulse_1_len_min <= pulse <= pulse_1_len_max`, exactly one bit is stored, by one call of
`irmp_store_bit`: it equals `last_value` if the previous pause was short (not in
`(pause_1_len_max, 2 * pause_1_len_max]`) and the negation of `last_value` if the previous
pause was long; afterwards `last_value` equals the stored bit and `last_pause` is the
pause of this pair.  The accumulators are those of the one call while the working
descriptor is in use (`irmp_param.protocol` is not 0). -/
theorem C28_short_pulse (c : Config) (s : State)
    (hmin : s.irmp_param.pulse_1_len_min ≤ s.irmp_pulse_time)
    (hmax : s.irmp_pulse_time ≤ s.irmp_param.pulse_1_len_max) :
    manchester_value s =
      (if s.last_pause > s.irmp_param.pause_1_len_max ∧
          s.last_pause ≤ 2 * s.irmp_param.pause_1_len_max then
        (if s.last_value ≠ 0 then 0 else 1)
      else s.last_value) ∧
    manchester_store c s =
      irmp_store_bit c (rc6a_switch c { s with last_value := manchester_value s }
        (manchester_value s)) (manchester_value s) ∧
    (got_light_manchester c s).irmp_bit = (s.irmp_bit + 1) % 256 ∧
    (got_light_manchester c s).last_value = manchester_value s ∧
    (got_light_manchester c s).last_pause = s.irmp_pause_time ∧
    (s.irmp_param.protocol ≠ 0 →
      (got_light_manchester c s).irmp_tmp_address =
        (irmp_store_bit c (rc6a_switch c { s with last_value := manchester_value s }
          (manchester_value s)) (manchester_value s)).irmp_tmp_address ∧
      (got_light_manchester c s).irmp_tmp_command =
        (irmp_store_bit c (rc6a_switch c { s with last_value := manchester_value s }
          (manchester_value s)) (manchester_value s)).irmp_tmp_command) := by
  have e := manchester_store_short c s hmin hmax
  obtain ⟨e1, e2, e3, e4⟩ := manchester_store_short_fields c s hmin hmax
  obtain ⟨f1, f2, f3, -, f5⟩ := manchester_shadow_fields c (manchester_store c s)
  rw [got_light_manchester_stages]
  refine ⟨rfl, e, ?_, ?_, ?_, fun hp => ?_⟩
  · rw [f1, e1]
  · rw [f2, e2]
  · rw [f3, e3]
  · obtain ⟨-, g2, g3⟩ := f5 (by rw [e4]; exact hp)
    rw [g2, g3, e]
    exact ⟨rfl, rfl⟩

/-- Witness of C28, in the RC5 frame of `(0x05, 0x35)`: a 9-tick pulse after an 18-tick
pause with `last_value = 0` stores a 1 (`irmp_tmp_address` goes from binary `10` to `101`,
`irmp_bit` from 6 to 7), after which `last_value = 1` and `last_pause = 9`, also as the
result of the call of `irmp_ISR` that sees the next pulse begin; a 9-tick pulse after a
9-tick pause with `last_value = 0` stores a 0 and leaves `last_value = 0`. -/
theorem C28_short_pulse_witness :
    (rc5_short_pulse.irmp_param.pulse_1_len_min ≤ rc5_short_pulse.irmp_pulse_time ∧
      rc5_short_pulse.irmp_pulse_time ≤ rc5_short_pulse.irmp_param.pulse_1_len_max) ∧
      long_pause rc5_short_pulse ∧ rc5_short_pulse.last_value = 0 ∧
      manchester_value rc5_short_pulse = 1 ∧
      (got_light_manchester manchester_build rc5_short_pulse).irmp_bit = 7 ∧
      (got_light_manchester manchester_build rc5_short_pulse).last_value = 1 ∧
      (got_light_manchester manchester_build rc5_short_pulse).last_pause = 9 ∧
      (got_light_manchester manchester_build rc5_short_pulse).irmp_tmp_address = 5 ∧
      ((irmp_ISR manchester_build rc5_short_pulse false).1.irmp_bit = 7 ∧
        (irmp_ISR manchester_build rc5_short_pulse false).1.last_value = 1 ∧
        (irmp_ISR manchester_build rc5_short_pulse false).1.last_pause = 9 ∧
        (irmp_ISR manchester_build rc5_short_pulse false).1.irmp_tmp_address = 5) ∧
      ¬ long_pause rc5_short_pulse_early ∧ rc5_short_pulse_early.last_value = 0 ∧
      (got_light_manchester manchester_build rc5_short_pulse_early).irmp_bit = 3 ∧
      (got_light_manchester manchester_build rc5_short_pulse_early).last_value = 0 := by
  have h := C28_short_pulse manchester_build rc5_short_pulse (by decide) (by decide)
  have g := C28_short_pulse manchester_build rc5_short_pulse_early (by decide) (by decide)
  exact ⟨by decide, by decide, rfl, by decide, h.2.2.1.trans (by decide),
    h.2.2.2.1.trans (by decide), h.2.2.2.2.1.trans (by decide),
    (h.2.2.2.2.2 (by decide)).1.trans (by decide), by decide, by decide, rfl,
    g.2.2.1.trans (by decide), g.2.2.2.1.trans (by decide)⟩

theorem nec42_timeout_reached :
    run_poll nec42_build initial ((nec_wave 0xFB04 0x08 200).take 866) =
      (nec42_timeout, []) := by
  rw [run_poll_eval nec42_build 14]
  decide!

/-- Lines 2657-2669: the promotion of a NEC42 frame that ends after 32 bits. -/
theorem data_timeout_nec42 (c : Config) (s : State)
    (h42 : c.IRMP_SUPPORT_NEC42_PROTOCOL = true) (hn : c.IRMP_SUPPORT_NEC_PROTOCOL = true)
    (hp : s.irmp_param.protocol = IRMP_NEC42_PROTOCOL) (hb : s.irmp_bit = 32)
    (hs : s.irmp_param.stop_bit ≠ 0) :
    data_timeout c s =
      { s with irmp_param := { s.irmp_param with stop_bit := TRUE, protocol := IRMP_NEC_PROTOCOL,
                                                 complete_len := s.irmp_bit }
               irmp_tmp_address :=
                 (s.irmp_tmp_address ||| ((s.irmp_tmp_address2 &&& 0x0007) <<< 12)) % 65536
               irmp_tmp_command :=
                 ((s.irmp_tmp_address2 >>> 3) ||| (s.irmp_tmp_command <<< 10)) % 65536 } := by
  have n1 : ¬ ((s.irmp_bit : Int) = (s.irmp_param.complete_len : Int) - 1 ∧
      s.irmp_param.stop_bit = 0) := fun h => hs h.2
  have n2 : ¬ (c.IRMP_SUPPORT_JVC_PROTOCOL = true ∧ s.irmp_param.protocol = IRMP_NEC_PROTOCOL ∧
      (s.irmp_bit = 16 ∨ s.irmp_bit = 17)) := by
    rw [hp]
    exact fun h => absurd h.2.1 (by decide)
  unfold data_timeout
  simp only [if_neg n1, if_neg n2, if_pos (⟨h42, hn, hp, hb⟩ :
    c.IRMP_SUPPORT_NEC42_PROTOCOL = true ∧ c.IRMP_SUPPORT_NEC_PROTOCOL = true ∧
      s.irmp_param.protocol = IRMP_NEC42_PROTOCOL ∧ s.irmp_bit = 32)]

/-- C29 fails on the code: the promotion of lines 2667-2668 shifts the three low bits of
`irmp_tmp_address2` by 12, not by 13.  In the build with NEC and NEC42 enabled, the NEC
frame `(0xFB04, 0x08)` reaches the timeout with `irmp_tmp_address = 0x1B04` (bits 0..12),
`irmp_tmp_address2 = 0x1847` (bits 13..25) and `irmp_tmp_command = 0x3D` (bits 26..31);
the promoted command is `0xF708`, as a direct NEC decode gives, but the promoted address
is `0x7B04`, while `tmp_address | ((tmp_address2 & 7) << 13)` and the direct NEC decode
give `0xFB04`.  The frame is delivered as `(NEC, 0x7B04, 0x08)`; the build with NEC alone
delivers `(NEC, 0xFB04, 0x08)`.  For every 32-bit sequence `w` the formulas of the claim,
with the shift by 13, give the direct NEC decode. -/
theorem C29_promotion_shifts_by_12 :
    (∀ (c : Config) (s : State), c.IRMP_SUPPORT_NEC42_PROTOCOL = true →
      c.IRMP_SUPPORT_NEC_PROTOCOL = true → s.irmp_param.protocol = IRMP_NEC42_PROTOCOL →
      s.irmp_bit = 32 → s.irmp_param.stop_bit ≠ 0 →
      (data_timeout c s).irmp_param.protocol = IRMP_NEC_PROTOCOL ∧
      (data_timeout c s).irmp_tmp_address =
        (s.irmp_tmp_address ||| ((s.irmp_tmp_address2 &&& 0x0007) <<< 12)) % 65536 ∧
      (data_timeout c s).irmp_tmp_command =
        ((s.irmp_tmp_address2 >>> 3) ||| (s.irmp_tmp_command <<< 10)) % 65536) ∧
    (∀ w : Nat, w < 2 ^ 32 →
      (w % 2 ^ 13) ||| ((((w >>> 13) % 2 ^ 13) &&& 0x0007) <<< 13) = w % 2 ^ 16 ∧
      ((((w >>> 13) % 2 ^ 13) >>> 3) ||| ((w >>> 26) <<< 10)) % 65536 = w >>> 16) ∧
    (run_poll nec42_build initial ((nec_wave 0xFB04 0x08 200).take 866)).1 = nec42_timeout ∧
    (irmp_ISR nec42_build nec42_timeout true).1.irmp_param.protocol = IRMP_NEC_PROTOCOL ∧
    (irmp_ISR nec42_build nec42_timeout true).1.irmp_tmp_command = 0xF708 ∧
    (irmp_ISR nec42_build nec42_timeout true).1.irmp_tmp_address = 0x7B04 ∧
    nec42_timeout.irmp_tmp_address ||| ((nec42_timeout.irmp_tmp_address2 &&& 0x0007) <<< 13)
      = 0xFB04 ∧
    (run_poll nec42_build initial (nec_wave 0xFB04 0x08 200)).2 =
      [⟨IRMP_NEC_PROTOCOL, 0x7B04, 0x08, 0⟩] ∧
    (run_poll nec_build initial (nec_wave 0xFB04 0x08 200)).2 =
      [⟨IRMP_NEC_PROTOCOL, 0xFB04, 0x08, 0⟩] := by
  refine ⟨fun c s h42 hn hp hb hs => ?_, promotion_by_13, ?_, by decide, by decide,
    by decide, by decide, ?_, ?_⟩
  · rw [data_timeout_nec42 c s h42 hn hp hb hs]
    exact ⟨rfl, rfl, rfl⟩
  · rw [nec42_timeout_reached]
  · rw [run_poll_eval nec42_build 15]
    decide!
  · rw [run_poll_eval nec_build 15]
    decide!

/-- C30 as stated fails: in a RC6 frame of mode 6 the decoder, with the start bit stored,
decodes a 1 at bit index 1 and switches to the RC6A geometry; the command range is then
`[21, 36)`, so `command_end - command_offset` is 15, not 16. -/
theorem C30_rc6a_command_range :
    rc6_mode_bit.irmp_param.protocol = IRMP_RC6_PROTOCOL ∧ rc6_mode_bit.irmp_bit = 1 ∧
    manchester_value rc6_mode_bit = 1 ∧
    (irmp_ISR manchester_build rc6_mode_bit false).1.irmp_param.command_offset = 21 ∧
    (irmp_ISR manchester_build rc6_mode_bit false).1.irmp_param.command_end = 36 ∧
    (irmp_ISR manchester_build rc6_mode_bit false).1.irmp_param.command_end -
      (irmp_ISR manchester_build rc6_mode_bit false).1.irmp_param.command_offset ≠ 16 := by
  decide

/-- C30, amended: when the RC6 decoder sees a decoded bit 1 at bit index 1 (a short
pulse), it switches the working descriptor to the RC6A geometry:
`complete_len = RC6_COMPLETE_DATA_LEN_LONG`, address range `[5, 20)` (15 bits), a 1-bit
gap, and a command range `[21, 36)` that starts at bit 21 and is 15 bits long
(`command_end = command_offset + 16 - 1`); `irmp_tmp_address` is cleared; every other field
of the descriptor is kept, and the bit itself goes to neither accumulator. -/
theorem C30_rc6a_geometry (c : Config) (s : State)
    (hc : c.IRMP_SUPPORT_RC6_PROTOCOL = true)
    (hp : s.irmp_param.protocol = IRMP_RC6_PROTOCOL) (hb : s.irmp_bit = 1)
    (hmin : s.irmp_param.pulse_1_len_min ≤ s.irmp_pulse_time)
    (hmax : s.irmp_pulse_time ≤ s.irmp_param.pulse_1_len_max)
    (hv : manchester_value s = 1) :
    (got_light_manchester c s).irmp_param =
      { s.irmp_param with
          complete_len := u8 (c.K .RC6_COMPLETE_DATA_LEN_LONG)
          address_offset := 5
          address_end := 20
          command_offset := 21
          command_end := 36 } ∧
    (got_light_manchester c s).irmp_param.address_end -
      (got_light_manchester c s).irmp_param.address_offset = 15 ∧
    (got_light_manchester c s).irmp_param.command_offset -
      (got_light_manchester c s).irmp_param.address_end = 1 ∧
    (got_light_manchester c s).irmp_param.command_end -
      (got_light_manchester c s).irmp_param.command_offset = 15 ∧
    (got_light_manchester c s).irmp_tmp_address = 0 ∧
    (got_light_manchester c s).irmp_tmp_command = s.irmp_tmp_command ∧
    (got_light_manchester c s).irmp_bit = 2 := by
  have e := manchester_store_short c s hmin hmax
  have sw : rc6a_switch c { s with last_value := manchester_value s } (manchester_value s) =
      { s with
          last_value := 1
          irmp_param := { s.irmp_param with
                            complete_len := u8 (c.K .RC6_COMPLETE_DATA_LEN_LONG)
                            address_offset := 5
                            address_end := 20
                            command_offset := 21
                            command_end := 36 }
          irmp_tmp_address := 0 } := by
    rw [hv]
    unfold rc6a_switch
    rw [if_pos ⟨hc, hp, hb, rfl⟩]
  rw [sw, hv] at e
  have ho := store_bit_outside c
    { s with
        last_value := 1
        irmp_param := { s.irmp_param with
                          complete_len := u8 (c.K .RC6_COMPLETE_DATA_LEN_LONG)
                          address_offset := 5
                          address_end := 20
                          command_offset := 21
                          command_end := 36 }
        irmp_tmp_address := 0 } 1
    (by show ¬ (5 ≤ s.irmp_bit ∧ s.irmp_bit < 20); omega)
    (by show ¬ (21 ≤ s.irmp_bit ∧ s.irmp_bit < 36); omega)
    (by show s.irmp_param.protocol ≠ IRMP_NEC42_PROTOCOL; rw [hp]; decide)
    (by show s.irmp_param.protocol ≠ IRMP_SAMSUNG_PROTOCOL; rw [hp]; decide)
    (by show s.irmp_param.protocol ≠ IRMP_KASEIKYO_PROTOCOL; rw [hp]; decide)
  rw [← e] at ho
  have hpar : (manchester_store c s).irmp_param =
      { s.irmp_param with
          complete_len := u8 (c.K .RC6_COMPLETE_DATA_LEN_LONG)
          address_offset := 5
          address_end := 20
          command_offset := 21
          command_end := 36 } := by
    rw [e, store_bit_param]
  have hbit : (manchester_store c s).irmp_bit = 2 := by
    rw [e, store_bit_index]
    show (s.irmp_bit + 1) % 256 = 2
    rw [hb]
  obtain ⟨f1, -, -, -, f5⟩ := manchester_shadow_fields c (manchester_store c s)
  obtain ⟨g1, g2, g3⟩ := f5 (by rw [hpar]; show s.irmp_param.protocol ≠ 0; rw [hp]; decide)
  rw [got_light_manchester_stages, g1, g2, g3, f1, hpar, ho.1, ho.2, hbit]
  exact ⟨rfl, rfl, rfl, rfl, rfl, rfl, rfl⟩

/-- Witness of C30: the first mode bit of a RC6 frame of mode 6, decoded in the call of
`irmp_ISR` that sees the next pulse begin. -/
theorem C30_rc6a_geometry_witness :
    manchester_build.IRMP_SUPPORT_RC6_PROTOCOL = true ∧
      rc6_mode_bit.irmp_param.protocol = IRMP_RC6_PROTOCOL ∧ rc6_mode_bit.irmp_bit = 1 ∧
      manchester_value rc6_mode_bit = 1 ∧
      (got_light_manchester manchester_build rc6_mode_bit).irmp_param =
        ⟨IRMP_RC6_PROTOCOL, 3, 8, 3, 6, 0, 0, 0, 0, 5, 20, 21, 36, 36, 0, 0, 3⟩ ∧
      (got_light_manchester manchester_build rc6_mode_bit).irmp_tmp_address = 0 ∧
      (got_light_manchester manchester_build rc6_mode_bit).irmp_bit = 2 ∧
      (irmp_ISR manchester_build rc6_mode_bit false).1.irmp_param =
        ⟨IRMP_RC6_PROTOCOL, 3, 8, 3, 6, 0, 0, 0, 0, 5, 20, 21, 36, 36, 0, 0, 3⟩ := by
  have h := C30_rc6a_geometry manchester_build rc6_mode_bit rfl rfl rfl (by decide)
    (by decide) (by decide)
  exact ⟨rfl, rfl, rfl, by decide, h.1.trans (by decide), h.2.2.2.2.1, h.2.2.2.2.2.2,
    by decide⟩

/-! ## Branches of the data section: stop bit, pause counting, pulse distance decoder -/

/-- Line 3160 and lines 3371-3374: a complete frame leaves the start bit flag cleared. -/
theorem isr_frame_end_start_bit (c : Config) (m : State) (h : frame_complete m) :
    (isr_frame_end c m).irmp_start_bit_detected = 0 := by
  rw [isr_frame_end_complete c m h]
  unfold frame_reset
  dsimp only
  split_ifs <;> rfl

theorem isr_frame_end_incomplete (c : Config) (m : State) (h : ¬ frame_complete m) :
    isr_frame_end c m = m := by
  unfold isr_frame_end
  exact if_neg h

/-- Lines 2499-2525: the stop bit is due. -/
theorem isr_space_dark_stop (c : Config) (s : State)
    (h : s.irmp_bit = s.irmp_param.complete_len ∧ s.irmp_param.stop_bit = 1) :
    isr_space_dark c s =
      (if (c.IRMP_SUPPORT_MANCHESTER ∧ has_flag s.irmp_param IRMP_PARAM_FLAG_IS_MANCHESTER) ∨
          (c.IRMP_SUPPORT_SERIAL ∧ has_flag s.irmp_param IRMP_PARAM_FLAG_IS_SERIAL) ∨
          (s.irmp_param.pulse_0_len_min ≤ s.irmp_pulse_time ∧
            s.irmp_pulse_time ≤ s.irmp_param.pulse_0_len_max) then
        { s with irmp_param := { s.irmp_param with stop_bit := 0 } }
      else
        { s with irmp_start_bit_detected := 0, irmp_pulse_time := 0, irmp_pause_time := 0 },
       false) := by
  unfold isr_space_dark
  dsimp only
  rw [if_pos h]
  split_ifs <;> rfl

/-- Lines 2527-2699 when no branch before the timeout test takes the dark tick. -/
theorem isr_space_dark_counting (c : Config) (s : State)
    (h0 : ¬ (s.irmp_bit = s.irmp_param.complete_len ∧ s.irmp_param.stop_bit = 1))
    (hb : ¬ before_timeout c s) :
    isr_space_dark c s =
      (if (((s.irmp_pause_time + 1) % c.PAUSE_LEN_MOD : Nat) : Int) > c.K .IRMP_TIMEOUT_LEN then
        data_timeout c { s with irmp_pause_time := (s.irmp_pause_time + 1) % c.PAUSE_LEN_MOD }
       else { s with irmp_pause_time := (s.irmp_pause_time + 1) % c.PAUSE_LEN_MOD },
       false) := by
  unfold before_timeout at hb
  have e1 := fun h => hb (Or.inl h)
  have e2 := fun h => hb (Or.inr (Or.inl h))
  have e3 := fun h => hb (Or.inr (Or.inr (Or.inl h)))
  have e4 := fun h => hb (Or.inr (Or.inr (Or.inr (Or.inl h))))
  have e5 := fun h => hb (Or.inr (Or.inr (Or.inr (Or.inr h))))
  unfold isr_space_dark
  dsimp only
  rw [if_neg h0, if_neg e1, if_neg e2, if_neg e3, if_neg e4, if_neg e5]
  split_ifs <;> rfl

/-- For a descriptor without flags and a protocol without a decoder of its own,
`isr_got_light` is the pulse distance decoder. -/
theorem got_light_plain (c : Config) (t : State) (hf : t.irmp_param.flags = 0)
    (h1 : t.irmp_param.protocol ≠ IRMP_SAMSUNG_PROTOCOL)
    (h2 : c.IRMP_SUPPORT_NEC16_PROTOCOL = true →
      t.irmp_param.protocol ≠ IRMP_NEC42_PROTOCOL ∧ t.irmp_param.protocol ≠ IRMP_NEC_PROTOCOL)
    (h3 : t.irmp_param.protocol ≠ IRMP_BANG_OLUFSEN_PROTOCOL)
    (h4 : t.irmp_param.protocol ≠ IRMP_KATHREIN_PROTOCOL) :
    isr_got_light c t = { got_light_pulse_distance c t with irmp_pulse_time := 1 } := by
  have f1 : ¬ has_flag t.irmp_param IRMP_PARAM_FLAG_IS_MANCHESTER := by
    unfold has_flag; rw [hf]; decide
  have f2 : ¬ has_flag t.irmp_param IRMP_PARAM_FLAG_IS_SERIAL := by
    unfold has_flag; rw [hf]; decide
  have e1 : ¬ (c.IRMP_SUPPORT_MANCHESTER = true ∧
      has_flag t.irmp_param IRMP_PARAM_FLAG_IS_MANCHESTER) := fun h => f1 h.2
  have e2 : ¬ (c.IRMP_SUPPORT_SERIAL = true ∧
      has_flag t.irmp_param IRMP_PARAM_FLAG_IS_SERIAL) := fun h => f2 h.2
  have e3 : ¬ (c.IRMP_SUPPORT_SAMSUNG_PROTOCOL = true ∧
      t.irmp_param.protocol = IRMP_SAMSUNG_PROTOCOL ∧ t.irmp_bit = 16) :=
    fun h => h1 h.2.1
  have e4 : ¬ (c.IRMP_SUPPORT_NEC16_PROTOCOL = true ∧
      t.irmp_param.protocol = (if c.IRMP_SUPPORT_NEC42_PROTOCOL = true then IRMP_NEC42_PROTOCOL
                    else IRMP_NEC_PROTOCOL) ∧
      t.irmp_bit = 8 ∧
      within t.irmp_pause_time (c.K .NEC_START_BIT_PAUSE_LEN_MIN)
        (c.K .NEC_START_BIT_PAUSE_LEN_MAX)) := by
    intro h
    have g := h2 h.1
    have h5 := h.2.1
    split_ifs at h5
    · exact g.1 h5
    · exact g.2 h5
  have e5 : ¬ (c.IRMP_SUPPORT_BANG_OLUFSEN_PROTOCOL = true ∧
      t.irmp_param.protocol = IRMP_BANG_OLUFSEN_PROTOCOL) := fun h => h3 h.2
  have e6 : ∀ q : Prop, ¬ (c.IRMP_SUPPORT_KATHREIN_PROTOCOL = true ∧
      t.irmp_param.protocol = IRMP_KATHREIN_PROTOCOL ∧ q) := fun q h => h4 h.2.1
  unfold isr_got_light got_light_pulse_distance
  dsimp only
  rw [if_neg e1, if_neg e2, if_neg e3, if_neg e4, if_neg e5]
  by_cases w1 : t.irmp_param.pulse_1_len_min ≤ t.irmp_pulse_time ∧
      t.irmp_pulse_time ≤ t.irmp_param.pulse_1_len_max ∧
      t.irmp_param.pause_1_len_min ≤ t.irmp_pause_time ∧
      t.irmp_pause_time ≤ t.irmp_param.pause_1_len_max
  · rw [if_pos w1, if_pos w1]
  · rw [if_neg w1, if_neg w1]
    by_cases w0 : t.irmp_param.pulse_0_len_min ≤ t.irmp_pulse_time ∧
        t.irmp_pulse_time ≤ t.irmp_param.pulse_0_len_max ∧
        t.irmp_param.pause_0_len_min ≤ t.irmp_pause_time ∧
        t.irmp_pause_time ≤ t.irmp_param.pause_0_len_max
    · rw [if_pos w0, if_pos w0]
    · rw [if_neg w0, if_neg w0, if_neg (e6 _)]


/-! ## The SIRCS long-pause rule (lines 2532-2543) -/

/-- Lines 2532-2543: the branch of `isr_space_dark` that closes a SIRCS frame. -/
theorem sircs_long_pause_step (c : Config) (s : State)
    (hS : c.IRMP_SUPPORT_SIRCS_PROTOCOL = true)
    (hp : s.irmp_param.protocol = IRMP_SIRCS_PROTOCOL)
    (hnot : ¬ (s.irmp_bit = s.irmp_param.complete_len ∧ s.irmp_param.stop_bit = 1))
    (hpa : (((s.irmp_pause_time + 1) % c.PAUSE_LEN_MOD : Nat) : Int) > c.K .SIRCS_PAUSE_LEN_MAX)
    (hb : 11 ≤ s.irmp_bit) :
    isr_space_dark c s =
      (sircs_close c { s with irmp_pause_time := (s.irmp_pause_time + 1) % c.PAUSE_LEN_MOD },
        true) := by
  have e : c.IRMP_SUPPORT_SIRCS_PROTOCOL = true ∧
      s.irmp_param.protocol = IRMP_SIRCS_PROTOCOL ∧
      (((s.irmp_pause_time + 1) % c.PAUSE_LEN_MOD : Nat) : Int) > c.K .SIRCS_PAUSE_LEN_MAX ∧
      s.irmp_bit ≥ 12 - 1 := ⟨hS, hp, hpa, hb⟩
  unfold isr_space_dark
  dsimp only
  rw [if_neg hnot, if_pos e]
  rfl

theorem upper_byte_or (x y : Nat) (hy : y < 256) : (x ||| y) >>> 8 = x >>> 8 := by
  apply Nat.eq_of_testBit_eq
  intro j
  have h : y.testBit (8 + j) = false := by
    apply Nat.testBit_lt_two_pow
    calc y < 2 ^ 8 := hy
      _ ≤ 2 ^ (8 + j) := Nat.pow_le_pow_right (by decide) (by omega)
  rw [Nat.testBit_shiftRight, Nat.testBit_shiftRight, Nat.testBit_or, h, Bool.or_false]

/-- `irmp_store_bit` changes `irmp_tmp_address` only inside the address range (no Grundig
first bit). -/
theorem store_bit_lsb_address (c : Config) (s : State) (v : Nat)
    (hp : s.irmp_param.protocol = IRMP_SIRCS_PROTOCOL) (hl : s.irmp_param.lsb_first ≠ 0) :
    (irmp_store_bit c s v).irmp_tmp_address =
      if s.irmp_param.address_offset ≤ s.irmp_bit ∧ s.irmp_bit < s.irmp_param.address_end then
        (s.irmp_tmp_address ||| (v <<< (s.irmp_bit - s.irmp_param.address_offset))) % 65536
      else s.irmp_tmp_address := by
  have g : ¬ (c.IRMP_SUPPORT_GRUNDIG_NOKIA_IR60_PROTOCOL = true ∧ s.irmp_bit = 0 ∧
      s.irmp_param.protocol = IRMP_GRUNDIG_PROTOCOL) := by
    rw [hp]; exact fun h => absurd h.2.2 (by decide)
  simp only [irmp_store_bit, apply_ite State.irmp_tmp_address,
    (store_xor_check_fields _ _).1, ite_self, if_neg g, if_pos hl]

/-- The upper byte of `irmp_tmp_address` survives a bit stored LSB first into an address
field of at most eight bits. -/
theorem store_bit_upper_byte (c : Config) (s : State) (v : Nat) (hv : v ≤ 1)
    (hp : s.irmp_param.protocol = IRMP_SIRCS_PROTOCOL) (hl : s.irmp_param.lsb_first ≠ 0)
    (haw : s.irmp_param.address_end ≤ s.irmp_param.address_offset + 8)
    (hta : s.irmp_tmp_address < 65536) :
    (irmp_store_bit c s v).irmp_tmp_address >>> 8 = s.irmp_tmp_address >>> 8 := by
  rw [store_bit_lsb_address c s v hp hl]
  split_ifs with h
  · have hk : s.irmp_bit - s.irmp_param.address_offset < 8 := by omega
    have hy : v <<< (s.irmp_bit - s.irmp_param.address_offset) < 256 := by
      rw [Nat.shiftLeft_eq]
      calc v * 2 ^ (s.irmp_bit - s.irmp_param.address_offset)
          ≤ 1 * 2 ^ (s.irmp_bit - s.irmp_param.address_offset) := Nat.mul_le_mul_right _ hv
        _ = 2 ^ (s.irmp_bit - s.irmp_param.address_offset) := Nat.one_mul _
        _ < 2 ^ 8 := Nat.pow_lt_pow_right (by decide) hk
    have hlt : s.irmp_tmp_address ||| v <<< (s.irmp_bit - s.irmp_param.address_offset) <
        65536 := Nat.or_lt_two_pow (n := 16) hta (lt_trans hy (by decide))
    rw [Nat.mod_eq_of_lt hlt]
    exact upper_byte_or _ _ hy
  · rfl

/-- The value written by line 2540 for `SIRCS_MINIMUM_DATA_LEN = 12`. -/
theorem sircs_extra_bits (b : Nat) (h1 : 11 ≤ b) (h2 : b < 256) :
    u16 (((b : Int) - 12 + 1) * 256) = (b - 11) * 256 := by
  unfold u16
  omega

theorem sircs_close_address (c : Config) (s1 : State)
    (hmin : c.K .SIRCS_MINIMUM_DATA_LEN = 12) (hb : 11 ≤ s1.irmp_bit) (h8 : s1.irmp_bit < 255)
    (hta : s1.irmp_tmp_address < 256) :
    (sircs_close c s1).irmp_tmp_address < 65536 ∧
    (sircs_close c s1).irmp_tmp_address >>> 8 = s1.irmp_bit + 1 - 12 := by
  have e : (sircs_close c s1).irmp_tmp_address =
      (s1.irmp_tmp_address ||| (s1.irmp_bit - 11) * 256) % 65536 := by
    show (s1.irmp_tmp_address |||
      u16 (((s1.irmp_bit : Int) - c.K .SIRCS_MINIMUM_DATA_LEN + 1) * 256)) % 65536 = _
    rw [hmin, sircs_extra_bits _ hb (by omega)]
  have hq : (s1.irmp_bit - 11) * 256 < 2 ^ 16 := by
    have : (2 : Nat) ^ 16 = 65536 := by decide
    omega
  have hlt : s1.irmp_tmp_address ||| (s1.irmp_bit - 11) * 256 < 65536 :=
    Nat.or_lt_two_pow (n := 16) (lt_trans hta (by decide)) hq
  rw [e, Nat.mod_eq_of_lt hlt]
  refine ⟨hlt, ?_⟩
  rw [Nat.or_comm, upper_byte_or _ _ hta, Nat.shiftRight_eq_div_pow]
  have : (2 : Nat) ^ 8 = 256 := by decide
  rw [this, Nat.mul_div_cancel _ (by decide)]
  omega

/-- C31: on the dark tick on which a SIRCS frame is closed by the long-pause rule (lines
2532-2543: the pause exceeds `SIRCS_PAUSE_LEN_MAX` with `irmp_bit >= 11` bits stored) and
the pending bit is accepted by the pulse distance decoder, `n = irmp_bit + 1 >= 12` bits are
stored at line 3160 of the call, `complete_len = n`,
`command_end = command_offset + n`, and the upper byte of `irmp_tmp_address` is `n - 12`;
with `SIRCS_MINIMUM_DATA_LEN = 12`, an address field of at most eight bits filled LSB
first, the address so far in the low byte, and `command_offset + n` within a `uint8_t`.
The frame is complete in this call when the descriptor has no stop bit. -/
theorem C31_sircs_long_pause (c : Config) (s : State)
    (hS : c.IRMP_SUPPORT_SIRCS_PROTOCOL = true)
    (hp : s.irmp_param.protocol = IRMP_SIRCS_PROTOCOL)
    (hmin : c.K .SIRCS_MINIMUM_DATA_LEN = 12)
    (hf : s.irmp_param.flags = 0) (hl : s.irmp_param.lsb_first ≠ 0)
    (haw : s.irmp_param.address_end ≤ s.irmp_param.address_offset + 8)
    (hnot : ¬ (s.irmp_bit = s.irmp_param.complete_len ∧ s.irmp_param.stop_bit = 1))
    (hpa : (((s.irmp_pause_time + 1) % c.PAUSE_LEN_MOD : Nat) : Int) > c.K .SIRCS_PAUSE_LEN_MAX)
    (hb : 11 ≤ s.irmp_bit) (h8 : s.irmp_param.command_offset + s.irmp_bit + 1 < 256)
    (hta : s.irmp_tmp_address < 256)
    (h1 : s.wait_for_start_space = 0) (h2 : s.wait_for_space ≠ 0)
    (hacc : bit_accepted
      (sircs_close c { s with irmp_pause_time := (s.irmp_pause_time + 1) % c.PAUSE_LEN_MOD })) :
    12 ≤ s.irmp_bit + 1 ∧
    (isr_body c s true).irmp_bit = s.irmp_bit + 1 ∧
    (isr_body c s true).irmp_param.complete_len = s.irmp_bit + 1 ∧
    (isr_body c s true).irmp_param.command_offset = s.irmp_param.command_offset ∧
    (isr_body c s true).irmp_param.command_end =
      s.irmp_param.command_offset + (s.irmp_bit + 1) ∧
    (isr_body c s true).irmp_tmp_address >>> 8 = s.irmp_bit + 1 - 12 ∧
    (isr_body c s true).irmp_start_bit_detected = s.irmp_start_bit_detected ∧
    (s.irmp_start_bit_detected ≠ 0 → s.irmp_param.stop_bit = 0 →
      frame_complete (isr_body c s true)) := by
  generalize ht : sircs_close c
    { s with irmp_pause_time := (s.irmp_pause_time + 1) % c.PAUSE_LEN_MOD } = t at hacc
  have tp : t.irmp_param.protocol = IRMP_SIRCS_PROTOCOL := by rw [← ht]; exact hp
  have tf : t.irmp_param.flags = 0 := by rw [← ht]; exact hf
  have tl : t.irmp_param.lsb_first ≠ 0 := by rw [← ht]; exact hl
  have tb : t.irmp_bit = s.irmp_bit := by rw [← ht]; rfl
  have tw : t.irmp_param.address_end ≤ t.irmp_param.address_offset + 8 := by
    rw [← ht]; exact haw
  have tcl : t.irmp_param.complete_len = s.irmp_bit + 1 := by
    rw [← ht]
    show (s.irmp_bit + 1) % 256 = _
    exact Nat.mod_eq_of_lt (by omega)
  have tco : t.irmp_param.command_offset = s.irmp_param.command_offset := by rw [← ht]; rfl
  have tce : t.irmp_param.command_end = s.irmp_param.command_offset + (s.irmp_bit + 1) := by
    rw [← ht]
    show (s.irmp_param.command_offset + s.irmp_bit + 1) % 256 = _
    rw [Nat.mod_eq_of_lt h8, Nat.add_assoc]
  have tsb : t.irmp_start_bit_detected = s.irmp_start_bit_detected := by rw [← ht]; rfl
  have tst : t.irmp_param.stop_bit = s.irmp_param.stop_bit := by rw [← ht]; rfl
  have hb255 : s.irmp_bit < 255 := by omega
  have ta := sircs_close_address c
    { s with irmp_pause_time := (s.irmp_pause_time + 1) % c.PAUSE_LEN_MOD } hmin hb
    hb255 hta
  rw [ht] at ta
  have eb : isr_body c s true = { got_light_pulse_distance c t with irmp_pulse_time := 1 } := by
    unfold isr_body
    rw [if_neg (fun h => h h1), if_pos h2]
    dsimp only
    rw [if_pos rfl, sircs_long_pause_step c s hS hp hnot hpa hb, ht]
    dsimp only
    rw [if_pos rfl, got_light_plain c t tf (by rw [tp]; decide)
      (fun _ => by rw [tp]; exact ⟨by decide, by decide⟩) (by rw [tp]; decide)
      (by rw [tp]; decide)]
  have key : ∀ v : Nat, v ≤ 1 →
      ({ irmp_store_bit c t v with wait_for_space := 0 } : State).irmp_bit = s.irmp_bit + 1 ∧
      ({ irmp_store_bit c t v with wait_for_space := 0 } : State).irmp_param = t.irmp_param ∧
      ({ irmp_store_bit c t v with wait_for_space := 0 } : State).irmp_tmp_address >>> 8 =
        s.irmp_bit + 1 - 12 ∧
      ({ irmp_store_bit c t v with wait_for_space := 0 } : State).irmp_start_bit_detected =
        s.irmp_start_bit_detected := by
    intro v hv
    refine ⟨?_, store_bit_param c t v, ?_, ?_⟩
    · show (irmp_store_bit c t v).irmp_bit = _
      rw [store_bit_index, tb]
      exact Nat.mod_eq_of_lt (by omega)
    · show (irmp_store_bit c t v).irmp_tmp_address >>> 8 = _
      rw [store_bit_upper_byte c t v hv tp tl tw ta.1]
      exact ta.2
    · show (irmp_store_bit c t v).irmp_start_bit_detected = _
      rw [← tsb]
      simp only [irmp_store_bit, apply_ite State.irmp_start_bit_detected, store_xor_check,
        ite_self]
  have fin : ∃ v : Nat, v ≤ 1 ∧
      got_light_pulse_distance c t = { irmp_store_bit c t v with wait_for_space := 0 } := by
    unfold got_light_pulse_distance
    dsimp only
    unfold bit_accepted at hacc
    by_cases w1 : t.irmp_param.pulse_1_len_min ≤ t.irmp_pulse_time ∧
        t.irmp_pulse_time ≤ t.irmp_param.pulse_1_len_max ∧
        t.irmp_param.pause_1_len_min ≤ t.irmp_pause_time ∧
        t.irmp_pause_time ≤ t.irmp_param.pause_1_len_max
    · exact ⟨1, le_refl 1, by rw [if_pos w1]⟩
    · have w0 := hacc.resolve_left w1
      exact ⟨0, Nat.zero_le 1, by rw [if_neg w1, if_pos w0]⟩
  obtain ⟨v, hv, ev⟩ := fin
  obtain ⟨k1, k2, k3, k4⟩ := key v hv
  rw [eb, ev]
  refine ⟨by omega, k1, ?_, ?_, ?_, k3, k4, fun hs0 hst => ?_⟩
  · show ({ irmp_store_bit c t v with wait_for_space := 0 } : State).irmp_param.complete_len = _
    rw [k2, tcl]
  · show ({ irmp_store_bit c t v with wait_for_space := 0 } : State).irmp_param.command_offset = _
    rw [k2, tco]
  · show ({ irmp_store_bit c t v with wait_for_space := 0 } : State).irmp_param.command_end = _
    rw [k2, tce]
  · refine ⟨?_, ?_, ?_⟩
    · show ({ irmp_store_bit c t v with wait_for_space := 0 } : State).irmp_start_bit_detected
        ≠ 0
      rw [k4]; exact hs0
    · show ({ irmp_store_bit c t v with wait_for_space := 0 } : State).irmp_bit =
        ({ irmp_store_bit c t v with wait_for_space := 0 } : State).irmp_param.complete_len
      rw [k1, k2, tcl]
    · show ({ irmp_store_bit c t v with wait_for_space := 0 } : State).irmp_param.stop_bit = 0
      rw [k2, tst]; exact hst

/-- Witness of C31: the last pause of a 20-bit SIRCS frame in `remote_build`: 19 bits are
stored, the pause reaches 9 ticks, the pending bit is accepted, and `n = 20` gives
`complete_len = 20`, `command_end = 20` and the upper address byte `8`; frames of 20, 15
and 12 bits received from program start are delivered with the upper address byte 8, 3
and 0. -/
theorem C31_sircs_long_pause_witness :
    (sircs_last_pause 1 0).irmp_param.protocol = IRMP_SIRCS_PROTOCOL ∧
    (sircs_last_pause 1 0).irmp_bit = 19 ∧
    ((((sircs_last_pause 1 0).irmp_pause_time + 1) % remote_build.PAUSE_LEN_MOD : Nat) : Int) >
      remote_build.K .SIRCS_PAUSE_LEN_MAX ∧
    (isr_body remote_build (sircs_last_pause 1 0) true).irmp_bit = 20 ∧
    (isr_body remote_build (sircs_last_pause 1 0) true).irmp_param.complete_len = 20 ∧
    (isr_body remote_build (sircs_last_pause 1 0) true).irmp_param.command_end = 20 ∧
    (isr_body remote_build (sircs_last_pause 1 0) true).irmp_tmp_address >>> 8 = 20 - 12 ∧
    frame_complete (isr_body remote_build (sircs_last_pause 1 0) true) ∧
    (isr_body remote_build (sircs_last_pause 1 0) true).irmp_tmp_address = 0x0801 ∧
    (run_poll remote_build initial (sircs_wave (lsb_bits 15 0x0095 ++ lsb_bits 5 1) 150)).2 =
      [⟨IRMP_SIRCS_PROTOCOL, 0x0801, 0x0095, 0⟩] ∧
    (run_poll remote_build initial (sircs_wave (lsb_bits 15 0x4A95) 150)).2 =
      [⟨IRMP_SIRCS_PROTOCOL, 0x0300, 0x4A95, 0⟩] ∧
    (run_poll remote_build initial (sircs_wave (lsb_bits 12 0x0A95) 150)).2 =
      [⟨IRMP_SIRCS_PROTOCOL, 0x0000, 0x0A95, 0⟩] := by
  have h := C31_sircs_long_pause remote_build (sircs_last_pause 1 0) (by decide) (by decide)
    (by decide) (by decide) (by decide) (by decide) (by decide) (by decide) (by decide)
    (by decide) (by decide) (by decide) (by decide) (by decide)
  refine ⟨by decide, by decide, by decide, h.2.1, h.2.2.1, h.2.2.2.2.1, h.2.2.2.2.2.1,
    h.2.2.2.2.2.2.2 (by decide) (by decide), by decide, ?_, ?_, ?_⟩
  · rw [run_poll_eval remote_build 9]
    decide!
  · rw [run_poll_eval remote_build 7]
    decide!
  · rw [run_poll_eval remote_build 6]
    decide!


/-! ## Timeouts (lines 1949-1978 and 2636-2697) -/

theorem nec42_pending_reached :
    run_poll nec42_build initial ((nec_wave 0x1234 0x56 200).take 833) =
      (nec42_pending, []) := by
  rw [run_poll_eval nec42_build 14]
  decide!

theorem nec_data_pause_reached :
    run_poll nec_build initial (truncated_nec_wave.take 565) = (nec_data_pause, []) := by
  rw [run_poll_eval nec_build 9]
  decide!

theorem nec_start_pause_reached :
    run_poll nec_build initial (List.replicate 90 false ++ List.replicate 165 true) =
      (nec_start_pause, []) := by
  rw [run_poll_eval nec_build 4]
  decide!

/-- A call that leaves the start bit flag cleared does nothing at line 3160. -/
theorem isr_frame_end_idle (c : Config) (m : State) (h : m.irmp_start_bit_detected = 0) :
    isr_frame_end c m = m :=
  isr_frame_end_incomplete c m (fun hc => hc.1 h)

/-- Lines 1951-1978 when the start pause has timed out. -/
theorem isr_start_dark_timeout (c : Config) (s : State) (h : start_pause_timeout c s) :
    isr_start_dark c s =
      { s with irmp_start_bit_detected := 0, irmp_pulse_time := 0, irmp_pause_time := 0 } := by
  unfold isr_start_dark
  dsimp only
  unfold start_pause_timeout at h
  rw [if_pos h]

/-- Lines 2497-2699 when the timeout test of line 2636 is reached and succeeds. -/
theorem isr_space_dark_timeout (c : Config) (s : State)
    (hlt : s.irmp_bit < s.irmp_param.complete_len) (hb : ¬ before_timeout c s)
    (ht : (((s.irmp_pause_time + 1) % c.PAUSE_LEN_MOD : Nat) : Int) > c.K .IRMP_TIMEOUT_LEN) :
    isr_space_dark c s =
      (data_timeout c { s with irmp_pause_time := (s.irmp_pause_time + 1) % c.PAUSE_LEN_MOD },
        false) := by
  rw [isr_space_dark_counting c s (fun h => absurd h.1 (Nat.ne_of_lt hlt)) hb, if_pos ht]

/-- Lines 2636-2697 when none of the exceptions applies: the frame is dropped. -/
theorem data_timeout_drops (c : Config) (s : State) (h : ¬ timeout_keeps_frame c s) :
    data_timeout c s =
      { s with irmp_start_bit_detected := 0, irmp_pulse_time := 0, irmp_pause_time := 0 } := by
  unfold timeout_keeps_frame at h
  have e1 := fun g => h (Or.inl g)
  have e2 := fun g => h (Or.inr (Or.inl g))
  have e3 := fun g => h (Or.inr (Or.inr (Or.inl g)))
  have e4 := fun g => h (Or.inr (Or.inr (Or.inr g)))
  unfold data_timeout
  dsimp only
  rw [if_neg e1, if_neg e2, if_neg e3, if_neg e4]

/-- Lines 2636-2697 when one of the exceptions applies: the decoder keeps the frame. -/
theorem data_timeout_keeps (c : Config) (s : State) (hs : s.irmp_start_bit_detected ≠ 0)
    (h : timeout_keeps_frame c s) : (data_timeout c s).irmp_start_bit_detected ≠ 0 := by
  unfold timeout_keeps_frame at h
  unfold data_timeout
  dsimp only
  split_ifs
  · exact hs
  · exact Nat.one_ne_zero
  · exact hs
  · exact hs
  · rename_i n1 n2 n3 n4
    rcases h with g | g | g | g
    · exact absurd g n1
    · exact absurd g n2
    · exact absurd g n3
    · exact absurd g n4

/-- C32 fails on the code: the timeout branch of lines 2636-2697 does not always drop the
frame.  In the build with NEC and NEC42 enabled, the NEC frame `(0x1234, 0x56)` is decoded
under the NEC42 descriptor, which expects 42 bits; 833 ticks into the frame 32 bits are
stored and the pause has lasted 165 ticks.  On the next dark tick the pause exceeds
`IRMP_TIMEOUT_LEN = 165` with fewer than `complete_len` bits stored and the timeout test is
reached, but the decoder stays in the data section (lines 2657-2669 turn the descriptor
into NEC with `complete_len = 32`), the call after it latches the frame from the 32 bits,
and `irmp_get_data` delivers `(NEC, 0x1234, 0x56)`. -/
theorem C32_timeout_keeps_promoted_frame :
    (run_poll nec42_build initial ((nec_wave 0x1234 0x56 200).take 833)).1 = nec42_pending ∧
    nec42_pending.irmp_ir_detected = 0 ∧ nec42_pending.irmp_start_bit_detected ≠ 0 ∧
    nec42_pending.wait_for_start_space = 0 ∧ nec42_pending.wait_for_space ≠ 0 ∧
    nec42_pending.irmp_bit = 32 ∧ nec42_pending.irmp_param.complete_len = 42 ∧
    ¬ before_timeout nec42_build nec42_pending ∧
    (((nec42_pending.irmp_pause_time + 1) % nec42_build.PAUSE_LEN_MOD : Nat) : Int) >
      nec42_build.K .IRMP_TIMEOUT_LEN ∧
    (irmp_ISR nec42_build nec42_pending true).1.irmp_start_bit_detected = 1 ∧
    (irmp_ISR nec42_build nec42_pending true).1.irmp_pause_time = 166 ∧
    (irmp_ISR nec42_build nec42_pending true).1.irmp_param.protocol = IRMP_NEC_PROTOCOL ∧
    (irmp_ISR nec42_build nec42_pending true).1.irmp_param.complete_len = 32 ∧
    (irmp_ISR nec42_build (irmp_ISR nec42_build nec42_pending true).1 true).2 = 1 ∧
    (irmp_ISR nec42_build (irmp_ISR nec42_build nec42_pending true).1 true).1.irmp_address =
      0x1234 ∧
    (irmp_ISR nec42_build (irmp_ISR nec42_build nec42_pending true).1 true).1.irmp_command =
      0xA956 ∧
    (run_poll nec42_build initial (nec_wave 0x1234 0x56 200)).2 =
      [⟨IRMP_NEC_PROTOCOL, 0x1234, 0x56, 0⟩] := by
  refine ⟨by rw [nec42_pending_reached], by decide, by decide, by decide, by decide,
    by decide, by decide, by decide, by decide, by decide, by decide, by decide, by decide,
    by decide, by decide, by decide, ?_⟩
  rw [run_poll_eval nec42_build 14]
  decide!

/-- C32, amended: in a call of `irmp_ISR` with dark input, no frame latched and a start bit
detected, (1) while the start pause is counted and the test of lines 1955-1960 succeeds
(the pause exceeds `IRMP_TIMEOUT_LEN`; with Nikon support the start pulse is not Nikon's or
the pause exceeds `IRMP_TIMEOUT_NIKON_LEN`), the call only clears the start bit flag and
both counters and returns 0; (2) in the data section with fewer than `complete_len` bits
stored, when the timeout test of line 2636 is reached (no earlier branch takes the tick)
and the pause exceeds `IRMP_TIMEOUT_LEN`: if none of the exceptions of lines 2638-2684
applies, the call only clears the start bit flag and both counters and returns 0, so
nothing is latched and the next call starts from Idle; if one of them applies, the start
bit flag is still set at line 3160. -/
theorem C32_timeout_discards (c : Config) (s : State) (hd : s.irmp_ir_detected = 0)
    (hs : s.irmp_start_bit_detected ≠ 0) :
    (s.wait_for_start_space ≠ 0 → start_pause_timeout c s →
      (irmp_ISR c s true).1 =
        { s with irmp_start_bit_detected := 0, irmp_pulse_time := 0, irmp_pause_time := 0 } ∧
      (irmp_ISR c s true).2 = 0) ∧
    (s.wait_for_start_space = 0 → s.wait_for_space ≠ 0 →
      s.irmp_bit < s.irmp_param.complete_len → ¬ before_timeout c s →
      (((s.irmp_pause_time + 1) % c.PAUSE_LEN_MOD : Nat) : Int) > c.K .IRMP_TIMEOUT_LEN →
      (¬ timeout_keeps_frame c s →
        (irmp_ISR c s true).1 =
          { s with irmp_start_bit_detected := 0, irmp_pulse_time := 0, irmp_pause_time := 0 } ∧
        (irmp_ISR c s true).2 = 0) ∧
      (timeout_keeps_frame c s → (isr_body c s true).irmp_start_bit_detected ≠ 0)) := by
  constructor
  · intro h3 ht
    have e : isr_step c s true =
        { s with irmp_start_bit_detected := 0, irmp_pulse_time := 0, irmp_pause_time := 0 } := by
      rw [isr_step_start_dark c s hd hs h3, isr_start_dark_timeout c s ht,
        isr_frame_end_idle c _ rfl]
    unfold irmp_ISR
    dsimp only
    rw [e]
    exact ⟨rfl, hd⟩
  · intro h3 h4 hlt hb ht
    have es := isr_space_dark_timeout c s hlt hb ht
    constructor
    · intro hk
      have ed := data_timeout_drops c
        { s with irmp_pause_time := (s.irmp_pause_time + 1) % c.PAUSE_LEN_MOD } hk
      have e : isr_step c s true =
          { s with irmp_start_bit_detected := 0, irmp_pulse_time := 0,
                   irmp_pause_time := 0 } := by
        rw [isr_step_space_dark c s hd hs h3 h4, es]
        dsimp only
        rw [if_neg Bool.false_ne_true, ed, isr_frame_end_idle c _ rfl]
      unfold irmp_ISR
      dsimp only
      rw [e]
      exact ⟨rfl, hd⟩
    · intro hk
      have e : isr_body c s true =
          data_timeout c
            { s with irmp_pause_time := (s.irmp_pause_time + 1) % c.PAUSE_LEN_MOD } := by
        unfold isr_body
        rw [if_neg (fun h => h h3), if_pos h4]
        dsimp only
        rw [if_pos rfl, es]
        dsimp only
        rw [if_neg Bool.false_ne_true]
      rw [e]
      exact data_timeout_keeps c _ hs hk

/-- Witness of C32 amended, in the NEC build: after a 90-tick pulse and 165 ticks of
darkness the next dark tick returns the decoder to Idle; 565 ticks into a NEC frame cut
off in its 18th bit the next dark tick drops the 17 bits stored, and the whole stream
delivers nothing; the NEC42 decoder of the counterexample meets one of the exceptions. -/
theorem C32_timeout_discards_witness :
    (nec_start_pause.irmp_ir_detected = 0 ∧ nec_start_pause.irmp_start_bit_detected ≠ 0 ∧
      nec_start_pause.wait_for_start_space ≠ 0 ∧ start_pause_timeout nec_build nec_start_pause ∧
      (irmp_ISR nec_build nec_start_pause true).1 =
        { nec_start_pause with irmp_start_bit_detected := 0, irmp_pulse_time := 0,
                               irmp_pause_time := 0 } ∧
      (irmp_ISR nec_build nec_start_pause true).2 = 0) ∧
    (nec_data_pause.irmp_ir_detected = 0 ∧ nec_data_pause.irmp_start_bit_detected ≠ 0 ∧
      nec_data_pause.irmp_bit = 17 ∧ nec_data_pause.irmp_param.complete_len = 32 ∧
      ¬ before_timeout nec_build nec_data_pause ∧
      ¬ timeout_keeps_frame nec_build nec_data_pause ∧
      (irmp_ISR nec_build nec_data_pause true).1 =
        { nec_data_pause with irmp_start_bit_detected := 0, irmp_pulse_time := 0,
                              irmp_pause_time := 0 } ∧
      (irmp_ISR nec_build nec_data_pause true).2 = 0) ∧
    (timeout_keeps_frame nec42_build nec42_pending ∧
      (isr_body nec42_build nec42_pending true).irmp_start_bit_detected ≠ 0) ∧
    (run_poll nec_build initial truncated_nec_wave).1.irmp_start_bit_detected = 0 ∧
    (run_poll nec_build initial truncated_nec_wave).2 = [] := by
  have h1 := (C32_timeout_discards nec_build nec_start_pause (by decide) (by decide)).1
    (by decide) (by decide)
  have h2 := ((C32_timeout_discards nec_build nec_data_pause (by decide) (by decide)).2
    (by decide) (by decide) (by decide) (by decide) (by decide)).1 (by decide)
  have h3 := ((C32_timeout_discards nec42_build nec42_pending (by decide) (by decide)).2
    (by decide) (by decide) (by decide) (by decide) (by decide)).2 (by decide)
  refine ⟨⟨by decide, by decide, by decide, by decide, h1.1, h1.2⟩,
    ⟨by decide, by decide, by decide, by decide, by decide, by decide, h2.1, h2.2⟩,
    ⟨by decide, h3⟩, ?_, ?_⟩
  · rw [run_poll_eval nec_build 10]
    decide!
  · rw [run_poll_eval nec_build 10]
    decide!


/-! ## The Kaseikyo parity bytes (lines 1795-1816) -/

/-- Lines 1803-1810: the byte written by the parity bookkeeping of `irmp_store_bit`. -/
theorem store_xor_check_list (t : State) (v : Nat) :
    (store_xor_check t v).xor_check =
      t.xor_check.set (t.irmp_bit / 8)
        (if v ≠ 0 then (t.xor_check.getD (t.irmp_bit / 8) 0 ||| (1 <<< (t.irmp_bit % 8))) % 256
         else (t.xor_check.getD (t.irmp_bit / 8) 0 &&&
           (0xFF ^^^ (1 <<< (t.irmp_bit % 8)))) % 256) := by
  unfold store_xor_check
  dsimp only
  split_ifs <;> rfl

theorem store_bit_xor_check (c : Config) (s : State) (v : Nat)
    (hK : c.IRMP_SUPPORT_KASEIKYO_PROTOCOL = true)
    (hp : s.irmp_param.protocol = IRMP_KASEIKYO_PROTOCOL)
    (hlt : (s.irmp_bit : Int) < c.K .KASEIKYO_COMPLETE_DATA_LEN) :
    (irmp_store_bit c s v).xor_check =
      s.xor_check.set (s.irmp_bit / 8)
        (if v ≠ 0 then (s.xor_check.getD (s.irmp_bit / 8) 0 ||| (1 <<< (s.irmp_bit % 8))) % 256
         else (s.xor_check.getD (s.irmp_bit / 8) 0 &&&
           (0xFF ^^^ (1 <<< (s.irmp_bit % 8)))) % 256) := by
  have hcond : c.IRMP_SUPPORT_KASEIKYO_PROTOCOL = true ∧
      s.irmp_param.protocol = IRMP_KASEIKYO_PROTOCOL ∧
      (s.irmp_bit : Int) < c.K .KASEIKYO_COMPLETE_DATA_LEN := ⟨hK, hp, hlt⟩
  simp only [irmp_store_bit, if_pos hcond, store_xor_check_list, apply_ite State.xor_check,
    apply_ite State.irmp_bit, ite_self]

theorem set_bit_testBit (x p j : Nat) (hj : j < 8) :
    ((x ||| (1 <<< p)) % 256).testBit j = (x.testBit j || decide (p = j)) := by
  rw [show (256 : Nat) = 2 ^ 8 from rfl, Nat.testBit_mod_two_pow, Nat.testBit_or,
    Nat.one_shiftLeft, Nat.testBit_two_pow]
  simp [hj]

theorem clear_bit_testBit (x p j : Nat) (hj : j < 8) :
    ((x &&& (0xFF ^^^ (1 <<< p))) % 256).testBit j = (x.testBit j && !decide (p = j)) := by
  rw [show (256 : Nat) = 2 ^ 8 from rfl, Nat.testBit_mod_two_pow, Nat.testBit_and,
    Nat.testBit_xor, Nat.one_shiftLeft, Nat.testBit_two_pow,
    show (0xFF : Nat) = 2 ^ 8 - 1 from rfl, Nat.testBit_two_pow_sub_one]
  simp [hj]

/-- The byte written for the bit `b` at bit position `p`: bit `p` is `b`, the other bits
are kept. -/
theorem written_byte_testBit (x p j : Nat) (b : Bool) (hj : j < 8) :
    (if (if b then 1 else 0) ≠ 0 then (x ||| (1 <<< p)) % 256
      else (x &&& (0xFF ^^^ (1 <<< p))) % 256).testBit j =
      if p = j then b else x.testBit j := by
  cases b
  · rw [if_neg (by simp), clear_bit_testBit x p j hj]
    by_cases h : p = j <;> simp [h]
  · rw [if_pos (by simp), set_bit_testBit x p j hj]
    by_cases h : p = j <;> simp [h]

theorem written_byte_lt (x p : Nat) (b : Bool) :
    (if (if b then 1 else 0) ≠ 0 then (x ||| (1 <<< p)) % 256
      else (x &&& (0xFF ^^^ (1 <<< p))) % 256) < 256 := by
  split_ifs <;> exact Nat.mod_lt _ (by decide)

theorem getD_set_nat (l : List Nat) (a k w : Nat) :
    (l.set a w).getD k 0 = if a = k ∧ a < l.length then w else l.getD k 0 := by
  rw [List.getD_eq_getElem?_getD, List.getD_eq_getElem?_getD, List.getElem?_set]
  by_cases h : a = k
  · subst h
    by_cases h2 : a < l.length
    · simp [h2]
    · simp [h2, List.getElem?_eq_none (Nat.le_of_not_lt h2)]
  · simp [h]

/-- The parity bytes after the first `n ≤ 48` bits of a Kaseikyo frame. -/
theorem store_bits_xor_check (c : Config) (s : State) (bs : List Bool)
    (hK : c.IRMP_SUPPORT_KASEIKYO_PROTOCOL = true)
    (hp : s.irmp_param.protocol = IRMP_KASEIKYO_PROTOCOL)
    (h48 : 48 ≤ c.K .KASEIKYO_COMPLETE_DATA_LEN) (hb : s.irmp_bit = 0)
    (hx : s.xor_check.length = 6) (hn : bs.length ≤ 48) :
    (store_bits c s bs).irmp_bit = bs.length ∧
    (store_bits c s bs).xor_check.length = 6 ∧
    (∀ i, i < bs.length →
      ((store_bits c s bs).xor_check.getD (i / 8) 0).testBit (i % 8) = bs.getD i false) ∧
    (∀ k, 8 * k < bs.length → (store_bits c s bs).xor_check.getD k 0 < 256) := by
  induction bs using List.reverseRecOn with
  | nil =>
    refine ⟨hb, hx, fun i hi => absurd hi (Nat.not_lt_zero i), fun k hk => ?_⟩
    exact absurd hk (Nat.not_lt_zero _)
  | append_singleton l b ih =>
    rw [List.length_append, List.length_singleton] at hn
    obtain ⟨i1, i2, i3, i4⟩ := ih (by omega)
    have hpar : (store_bits c s l).irmp_param.protocol = IRMP_KASEIKYO_PROTOCOL := by
      rw [store_bits_param]; exact hp
    have hlt : ((store_bits c s l).irmp_bit : Int) < c.K .KASEIKYO_COMPLETE_DATA_LEN := by
      rw [i1]; omega
    have hxc := store_bit_xor_check c (store_bits c s l) (if b then 1 else 0) hK hpar hlt
    rw [i1] at hxc
    have hidx : l.length / 8 < (store_bits c s l).xor_check.length := by rw [i2]; omega
    rw [store_bits_append, List.length_append, List.length_singleton]
    refine ⟨?_, ?_, ?_, ?_⟩
    · rw [store_bit_index, i1]; exact Nat.mod_eq_of_lt (by omega)
    · rw [hxc, List.length_set]; exact i2
    · intro i hi
      rw [hxc, getD_set_nat]
      by_cases h1 : l.length / 8 = i / 8
      · rw [if_pos ⟨h1, hidx⟩, written_byte_testBit _ _ _ _ (Nat.mod_lt _ (by decide))]
        by_cases h2 : l.length % 8 = i % 8
        · have e : i = l.length := by omega
          rw [if_pos h2, e, getD_append_last]
        · have e : i < l.length := by omega
          rw [if_neg h2, h1, i3 i e, getD_append_left l b i e]
      · have e : i < l.length := by
          rcases Nat.lt_or_ge i l.length with h | h
          · exact h
          · exact absurd (by congr 1; omega) h1
        rw [if_neg (fun h => h1 h.1), i3 i e, getD_append_left l b i e]
    · intro k hk
      rw [hxc, getD_set_nat]
      by_cases h1 : l.length / 8 = k
      · rw [if_pos ⟨h1, hidx⟩]; exact written_byte_lt _ _ _
      · rw [if_neg (fun h => h1 h.1)]
        exact i4 k (by omega)

theorem lsb_sum_testBit (l : List Bool) (j : Nat) :
    (lsb_sum l).testBit j = l.getD j false := by
  induction l using List.reverseRecOn generalizing j with
  | nil => simp [lsb_sum]
  | append_singleton l b ih =>
    rw [lsb_sum_append, Nat.add_comm, Nat.mul_comm,
      Nat.testBit_mul_pow_two_add _ (lsb_sum_lt l) j]
    by_cases h : j < l.length
    · rw [if_pos h, ih, getD_append_left l b j h]
    · rw [if_neg h]
      by_cases h2 : j = l.length
      · subst h2
        rw [Nat.sub_self, getD_append_last]
        cases b <;> simp
      · have h3 : 1 ≤ j - l.length := by omega
        have h4 : (l ++ [b]).getD j false = false := by
          rw [List.getD_eq_getElem?_getD, List.getElem?_eq_none]
          · rfl
          · rw [List.length_append, List.length_singleton]; omega
        rw [h4]
        apply Nat.testBit_lt_two_pow
        calc (if b = true then 1 else 0) < 2 ^ 1 := by cases b <;> simp
          _ ≤ 2 ^ (j - l.length) := Nat.pow_le_pow_right (by decide) h3

/-- A byte is determined by its eight bits. -/
theorem byte_eq_lsb_sum (x : Nat) (l : List Bool) (hx : x < 256) (hl : l.length = 8)
    (h : ∀ j, j < 8 → x.testBit j = l.getD j false) : x = lsb_sum l := by
  apply Nat.eq_of_testBit_eq
  intro j
  rw [lsb_sum_testBit]
  by_cases hj : j < 8
  · exact h j hj
  · have h1 : x.testBit j = false := by
      apply Nat.testBit_lt_two_pow
      calc x < 2 ^ 8 := hx
        _ ≤ 2 ^ j := Nat.pow_le_pow_right (by decide) (by omega)
    rw [h1, List.getD_eq_getElem?_getD, List.getElem?_eq_none (by omega)]
    rfl

theorem getD_drop_take (bs : List Bool) (k j : Nat) (hj : j < 8) :
    ((bs.drop (8 * k)).take 8).getD j false = bs.getD (8 * k + j) false := by
  rw [List.getD_eq_getElem?_getD, List.getD_eq_getElem?_getD, List.getElem?_take_of_lt hj,
    List.getElem?_drop]

/-- C34: for the Kaseikyo descriptor (with `KASEIKYO_COMPLETE_DATA_LEN` at least 48), after
the 48 calls `irmp_store_bit (b_0)`, ..., `irmp_store_bit (b_47)` made from
`irmp_bit = 0`, each `xor_check[k]`, `k = 0..5`, is the byte whose bit `j` is `b_(8k+j)`:
`xor_check` is the list of these six bytes whatever it held before, so two decoders that
differ only in the old content of `xor_check` end with the same `xor_check`. -/
theorem C34_xor_check_bytes (c : Config) (s : State) (bs : List Bool)
    (hK : c.IRMP_SUPPORT_KASEIKYO_PROTOCOL = true)
    (hp : s.irmp_param.protocol = IRMP_KASEIKYO_PROTOCOL)
    (h48 : 48 ≤ c.K .KASEIKYO_COMPLETE_DATA_LEN) (hb : s.irmp_bit = 0)
    (hx : s.xor_check.length = 6) (hn : bs.length = 48) :
    (∀ k, k < 6 →
      (store_bits c s bs).xor_check.getD k 0 = lsb_sum ((bs.drop (8 * k)).take 8)) ∧
    (store_bits c s bs).xor_check =
      (List.range 6).map (fun k => lsb_sum ((bs.drop (8 * k)).take 8)) ∧
    (∀ old : List Nat, old.length = 6 →
      (store_bits c { s with xor_check := old } bs).xor_check =
        (store_bits c s bs).xor_check) := by
  have main : ∀ t : State, t.irmp_param.protocol = IRMP_KASEIKYO_PROTOCOL → t.irmp_bit = 0 →
      t.xor_check.length = 6 →
      (∀ k, k < 6 →
        (store_bits c t bs).xor_check.getD k 0 = lsb_sum ((bs.drop (8 * k)).take 8)) ∧
      (store_bits c t bs).xor_check =
        (List.range 6).map (fun k => lsb_sum ((bs.drop (8 * k)).take 8)) := by
    intro t tp tb tx
    obtain ⟨_, i2, i3, i4⟩ := store_bits_xor_check c t bs hK tp h48 tb tx (by omega)
    have hk : ∀ k, k < 6 →
        (store_bits c t bs).xor_check.getD k 0 = lsb_sum ((bs.drop (8 * k)).take 8) := by
      intro k hk
      apply byte_eq_lsb_sum _ _ (i4 k (by omega))
      · rw [List.length_take, List.length_drop]; omega
      · intro j hj
        rw [getD_drop_take bs k j hj]
        have h := i3 (8 * k + j) (by omega)
        rw [show (8 * k + j) / 8 = k by omega, show (8 * k + j) % 8 = j by omega] at h
        exact h
    refine ⟨hk, ?_⟩
    apply List.ext_getElem
    · rw [i2, List.length_map, List.length_range]
    · intro k h1 h2
      rw [i2] at h1
      have h := hk k h1
      rw [List.getD_eq_getElem?_getD, List.getElem?_eq_getElem (by rw [i2]; exact h1)] at h
      rw [List.getElem_map, List.getElem_range]
      exact h
  obtain ⟨m1, m2⟩ := main s hp hb hx
  refine ⟨m1, m2, fun old ho => ?_⟩
  rw [m2]
  exact (main { s with xor_check := old } hp hb ho).2

set_option maxRecDepth 100000 in
/-- Witness of C34: the 48 bits of the bytes `02 20 0F 00 A5 7C`, stored from `irmp_bit = 0`
while `xor_check` holds the bytes `02 20 90 31 42 E3` of an earlier frame, leave
`xor_check = 02 20 0F 00 A5 7C`, as from a cleared `xor_check`. -/
theorem C34_xor_check_bytes_witness :
    kaseikyo_residue.irmp_param.protocol = IRMP_KASEIKYO_PROTOCOL ∧
    kaseikyo_residue.irmp_bit = 0 ∧
    kaseikyo_residue.xor_check = [0x02, 0x20, 0x90, 0x31, 0x42, 0xE3] ∧
    ([0x02, 0x20, 0x0F, 0x00, 0xA5, 0x7C].flatMap (lsb_bits 8)).length = 48 ∧
    (store_bits remote_build kaseikyo_residue
      ([0x02, 0x20, 0x0F, 0x00, 0xA5, 0x7C].flatMap (lsb_bits 8))).xor_check =
      [0x02, 0x20, 0x0F, 0x00, 0xA5, 0x7C] ∧
    (store_bits remote_build { kaseikyo_residue with xor_check := [0, 0, 0, 0, 0, 0] }
      ([0x02, 0x20, 0x0F, 0x00, 0xA5, 0x7C].flatMap (lsb_bits 8))).xor_check =
      (store_bits remote_build kaseikyo_residue
        ([0x02, 0x20, 0x0F, 0x00, 0xA5, 0x7C].flatMap (lsb_bits 8))).xor_check := by
  have h := C34_xor_check_bytes remote_build kaseikyo_residue
    ([0x02, 0x20, 0x0F, 0x00, 0xA5, 0x7C].flatMap (lsb_bits 8)) (by decide) (by decide)
    (by decide) (by decide) (by decide) (by decide)
  exact ⟨by decide, by decide, by decide, by decide, h.2.1.trans (by decide),
    h.2.2 [0, 0, 0, 0, 0, 0] rfl⟩


/-! ## The promotion of Ruwido to Siemens (lines 2597-2624) -/

theorem or_mod_pow (u v n : Nat) : (u ||| v) % 2 ^ n = (u % 2 ^ n) ||| (v % 2 ^ n) := by
  apply Nat.eq_of_testBit_eq
  intro i
  simp only [Nat.testBit_mod_two_pow, Nat.testBit_or]
  by_cases h : i < n <;> simp [h]

/-- Lines 2597-2624 on the dark tick of the promotion: the branch of `isr_space_dark` taken
for the Ruwido descriptor once `RUWIDO_COMPLETE_DATA_LEN` bits are stored. -/
theorem ruwido_promotion_step (c : Config) (s : State)
    (hc : c.IRMP_SUPPORT_SIEMENS_OR_RUWIDO_PROTOCOL = true)
    (hp : s.irmp_param.protocol = IRMP_RUWIDO_PROTOCOL) (hs : s.irmp_param.stop_bit = 0)
    (hn : ¬ ((s.irmp_pause_time + 1) % c.PAUSE_LEN_MOD ≥ 2 * s.irmp_param.pause_1_len_max ∧
      (s.irmp_bit : Int) ≥ c.K .RUWIDO_COMPLETE_DATA_LEN - 2))
    (hb : (s.irmp_bit : Int) ≥ c.K .RUWIDO_COMPLETE_DATA_LEN) :
    isr_space_dark c s =
      ({ s with
           irmp_pause_time := (s.irmp_pause_time + 1) % c.PAUSE_LEN_MOD
           irmp_param :=
             { s.irmp_param with
                 protocol := IRMP_SIEMENS_PROTOCOL,
                 address_offset := u8 (c.K .SIEMENS_ADDRESS_OFFSET),
                 address_end := u8 (c.K .SIEMENS_ADDRESS_OFFSET + c.K .SIEMENS_ADDRESS_LEN),
                 command_offset := u8 (c.K .SIEMENS_COMMAND_OFFSET),
                 command_end := u8 (c.K .SIEMENS_COMMAND_OFFSET + c.K .SIEMENS_COMMAND_LEN) }
           irmp_tmp_address :=
             (((s.irmp_tmp_address <<< 2) % 65536) ||| (s.irmp_tmp_command >>> 6)) % 65536
           irmp_tmp_command :=
             ((((s.irmp_tmp_command &&& 0x003F) <<< 4) % 65536) ||| s.last_value) % 65536 },
       false) := by
  have e1 : ¬ (s.irmp_bit = s.irmp_param.complete_len ∧ s.irmp_param.stop_bit = 1) := by
    rw [hs]; exact fun h => absurd h.2 (by decide)
  have e2 : ¬ (c.IRMP_SUPPORT_SIRCS_PROTOCOL = true ∧
      s.irmp_param.protocol = IRMP_SIRCS_PROTOCOL ∧
      (((s.irmp_pause_time + 1) % c.PAUSE_LEN_MOD : Nat) : Int) > c.K .SIRCS_PAUSE_LEN_MAX ∧
      s.irmp_bit ≥ 12 - 1) := by
    rw [hp]; exact fun h => absurd h.2.1 (by decide)
  have e3 : ¬ (c.IRMP_SUPPORT_SERIAL = true ∧
      has_flag s.irmp_param IRMP_PARAM_FLAG_IS_SERIAL ∧
      s.irmp_param.protocol = IRMP_NETBOX_PROTOCOL ∧
      (((s.irmp_pause_time + 1) % c.PAUSE_LEN_MOD : Nat) : Int) ≥
        c.K .NETBOX_PULSE_LEN * (c.K .NETBOX_COMPLETE_DATA_LEN - (s.irmp_bit : Int))) := by
    rw [hp]; exact fun h => absurd h.2.2.1 (by decide)
  have e4 : ¬ (c.IRMP_SUPPORT_GRUNDIG_NOKIA_IR60_PROTOCOL = true ∧
      s.irmp_param.protocol = IRMP_GRUNDIG_PROTOCOL ∧ s.irmp_param.stop_bit = 0) := by
    rw [hp]; exact fun h => absurd h.2.1 (by decide)
  have e5 : c.IRMP_SUPPORT_SIEMENS_OR_RUWIDO_PROTOCOL = true ∧
      s.irmp_param.protocol = IRMP_RUWIDO_PROTOCOL ∧ s.irmp_param.stop_bit = 0 := ⟨hc, hp, hs⟩
  unfold isr_space_dark
  dsimp only
  rw [if_neg e1, if_neg e2, if_neg e3, if_neg e4, if_pos e5, if_neg hn, if_pos hb]

theorem ruwido_promotion_reached :
    run_poll ruwido_build initial (siemens_frame.take 201) = (ruwido_promotion, []) := by
  rw [run_poll_eval ruwido_build 4]
  decide!

/-- C35: on the dark tick on which the Ruwido descriptor is promoted to Siemens (lines
2597-2624: stop bit not yet set, at least `RUWIDO_COMPLETE_DATA_LEN` bits stored, the pause
not long enough to end a Ruwido frame), with `a = irmp_tmp_address` and
`c = irmp_tmp_command` before the tick, the new `irmp_tmp_address` is
`((a << 2) | (c >> 6)) mod 2^16`, which for the eight bits `CCCCCCCp` of a Ruwido command
(`c < 2^8`) is `((a << 2) | ((c >> 6) & 3)) mod 2^16`, and the new `irmp_tmp_command` is
`((c & 0x3F) << 4) | last_value`; the descriptor becomes Siemens and no bit is stored on
this tick.  With the pause being counted, this is the state at line 3160 of the call. -/
theorem C35_ruwido_to_siemens (c : Config) (s : State)
    (hc : c.IRMP_SUPPORT_SIEMENS_OR_RUWIDO_PROTOCOL = true)
    (hp : s.irmp_param.protocol = IRMP_RUWIDO_PROTOCOL) (hs : s.irmp_param.stop_bit = 0)
    (hn : ¬ ((s.irmp_pause_time + 1) % c.PAUSE_LEN_MOD ≥ 2 * s.irmp_param.pause_1_len_max ∧
      (s.irmp_bit : Int) ≥ c.K .RUWIDO_COMPLETE_DATA_LEN - 2))
    (hb : (s.irmp_bit : Int) ≥ c.K .RUWIDO_COMPLETE_DATA_LEN)
    (hl : s.last_value < 2 ^ 8) :
    (isr_space_dark c s).2 = false ∧
    (isr_space_dark c s).1.irmp_param.protocol = IRMP_SIEMENS_PROTOCOL ∧
    (isr_space_dark c s).1.irmp_bit = s.irmp_bit ∧
    (isr_space_dark c s).1.irmp_tmp_address =
      ((s.irmp_tmp_address <<< 2) ||| (s.irmp_tmp_command >>> 6)) % 2 ^ 16 ∧
    (s.irmp_tmp_command < 2 ^ 8 →
      (isr_space_dark c s).1.irmp_tmp_address =
        ((s.irmp_tmp_address <<< 2) ||| ((s.irmp_tmp_command >>> 6) &&& 3)) % 2 ^ 16) ∧
    (isr_space_dark c s).1.irmp_tmp_command =
      ((s.irmp_tmp_command &&& 0x3F) <<< 4) ||| s.last_value ∧
    (s.wait_for_start_space = 0 → s.wait_for_space ≠ 0 →
      isr_body c s true = (isr_space_dark c s).1) := by
  have e := ruwido_promotion_step c s hc hp hs hn hb
  have ea : (((s.irmp_tmp_address <<< 2) % 65536) ||| (s.irmp_tmp_command >>> 6)) % 65536 =
      ((s.irmp_tmp_address <<< 2) ||| (s.irmp_tmp_command >>> 6)) % 2 ^ 16 := by
    rw [show (65536 : Nat) = 2 ^ 16 from rfl, or_mod_pow, Nat.mod_mod, ← or_mod_pow]
  have ec : ((((s.irmp_tmp_command &&& 0x003F) <<< 4) % 65536) ||| s.last_value) % 65536 =
      ((s.irmp_tmp_command &&& 0x3F) <<< 4) ||| s.last_value := by
    have h1 : s.irmp_tmp_command &&& 0x3F < 2 ^ 6 := by
      rw [Nat.and_pow_two_sub_one_eq_mod _ 6]
      exact Nat.mod_lt _ (by decide)
    have h2 : (s.irmp_tmp_command &&& 0x3F) <<< 4 < 2 ^ 16 := by
      rw [Nat.shiftLeft_eq]
      have : (2 : Nat) ^ 4 = 16 := by decide
      have : (2 : Nat) ^ 6 = 64 := by decide
      have : (2 : Nat) ^ 16 = 65536 := by decide
      omega
    have h3 : s.last_value < 2 ^ 16 := lt_trans hl (by decide)
    have h4 : (s.irmp_tmp_command &&& 0x3F) <<< 4 % 65536 = (s.irmp_tmp_command &&& 0x3F) <<< 4 :=
      Nat.mod_eq_of_lt h2
    rw [h4]
    exact Nat.mod_eq_of_lt (Nat.or_lt_two_pow h2 h3)
  refine ⟨by rw [e], by rw [e], by rw [e], by rw [e]; exact ea, fun h8 => ?_, by rw [e]; exact ec,
    fun h1 h2 => ?_⟩
  · have h4 : (s.irmp_tmp_command >>> 6) &&& 3 = s.irmp_tmp_command >>> 6 := by
      rw [Nat.and_pow_two_sub_one_eq_mod _ 2, Nat.shiftRight_eq_div_pow]
      apply Nat.mod_eq_of_lt
      have : (2 : Nat) ^ 8 = 256 := by decide
      have : (2 : Nat) ^ 6 = 64 := by decide
      have : (2 : Nat) ^ 2 = 4 := by decide
      omega
    rw [h4, e]
    exact ea
  · unfold isr_body
    rw [if_neg (fun h => h h1), if_pos h2]
    dsimp only
    rw [if_pos rfl, e]
    rfl

/-- Witness of C35: 201 ticks into a 22-bit Siemens frame the decoder of `ruwido_build`
holds `a = 0xA9`, `c = 0x5B` and `last_value = 0` under the Ruwido descriptor; the next
dark tick gives `irmp_tmp_address = 0x2A5` and `irmp_tmp_command = 0x1B0` under the Siemens
descriptor, and the frame is delivered as `(SIEMENS, 0x2A5, 0xD86)`. -/
theorem C35_ruwido_to_siemens_witness :
    ruwido_promotion.irmp_param.protocol = IRMP_RUWIDO_PROTOCOL ∧
    ruwido_promotion.irmp_tmp_address = 0xA9 ∧ ruwido_promotion.irmp_tmp_command = 0x5B ∧
    ruwido_promotion.last_value = 0 ∧
    (isr_space_dark ruwido_build ruwido_promotion).1.irmp_param.protocol =
      IRMP_SIEMENS_PROTOCOL ∧
    (isr_space_dark ruwido_build ruwido_promotion).1.irmp_tmp_address = 0x2A5 ∧
    (isr_space_dark ruwido_build ruwido_promotion).1.irmp_tmp_command = 0x1B0 ∧
    (irmp_ISR ruwido_build ruwido_promotion true).1.irmp_tmp_address = 0x2A5 ∧
    (irmp_ISR ruwido_build ruwido_promotion true).1.irmp_tmp_command = 0x1B0 ∧
    (run_poll ruwido_build initial siemens_frame).2 =
      [⟨IRMP_SIEMENS_PROTOCOL, 0x2A5, 0xD86, 0⟩] := by
  have h := C35_ruwido_to_siemens ruwido_build ruwido_promotion (by decide) (by decide)
    (by decide) (by decide) (by decide) (by decide)
  refine ⟨by decide, by decide, by decide, by decide, h.2.1,
    (h.2.2.2.2.1 (by decide)).trans (by decide), h.2.2.2.2.2.1.trans (by decide),
    by decide, by decide, ?_⟩
  rw [run_poll_eval ruwido_build 7]
  decide!


/-! ## The loops of the serial decoder (lines 2901-2935) -/

theorem serial_pulse_loop_succ (c : Config) (n : Nat) (s : State) :
    serial_pulse_loop c (n + 1) s =
      if serial_pulse_cond s then serial_pulse_loop c n (serial_pulse_body c s) else s := rfl

theorem serial_pause_loop_succ (c : Config) (n : Nat) (s : State) :
    serial_pause_loop c (n + 1) s =
      if serial_pause_cond s then serial_pause_loop c n (serial_pause_body c s) else s := rfl

theorem serial_pulse_body_fields (c : Config) (s : State) :
    (serial_pulse_body c s).irmp_bit = (s.irmp_bit + 1) % 256 ∧
    (serial_pulse_body c s).irmp_param = s.irmp_param := by
  constructor
  · simp only [serial_pulse_body, apply_ite State.irmp_bit, store_bit_index, ite_self]
  · simp only [serial_pulse_body, apply_ite State.irmp_param, store_bit_param, ite_self]

theorem serial_pause_body_fields (c : Config) (s : State) :
    (serial_pause_body c s).irmp_bit = (s.irmp_bit + 1) % 256 ∧
    (serial_pause_body c s).irmp_param = s.irmp_param := by
  constructor
  · simp only [serial_pause_body, apply_ite State.irmp_bit, store_bit_index, ite_self]
  · simp only [serial_pause_body, apply_ite State.irmp_param, store_bit_param, ite_self]

/-- A loop whose condition requires `irmp_bit < complete_len` and whose body stores one bit
ends after at most `complete_len - irmp_bit` passes. -/
theorem bounded_loop (cond : State → Prop) [DecidablePred cond] (body : State → State)
    (loop : Nat → State → State) (h0 : ∀ s, loop 0 s = s)
    (hs : ∀ n s, loop (n + 1) s = if cond s then loop n (body s) else s)
    (hc : ∀ s, cond s → s.irmp_bit < s.irmp_param.complete_len)
    (hb : ∀ s, (body s).irmp_bit = (s.irmp_bit + 1) % 256 ∧
      (body s).irmp_param = s.irmp_param) :
    ∀ (n : Nat) (s : State), s.irmp_param.complete_len < 256 →
      s.irmp_param.complete_len - s.irmp_bit ≤ n →
      ∃ k, k ≤ s.irmp_param.complete_len - s.irmp_bit ∧
        (∀ j, j < k → cond (Nat.iterate body j s)) ∧ ¬ cond (Nat.iterate body k s) ∧
        loop n s = Nat.iterate body k s ∧
        (Nat.iterate body k s).irmp_bit = s.irmp_bit + k ∧
        (Nat.iterate body k s).irmp_param = s.irmp_param := by
  intro n
  induction n with
  | zero =>
    intro s _ hn
    refine ⟨0, Nat.zero_le _, fun j hj => absurd hj (Nat.not_lt_zero j), ?_, h0 s, rfl, rfl⟩
    intro hcs
    have := hc s hcs
    omega
  | succ n ih =>
    intro s h256 hn
    by_cases hcs : cond s
    · have hlt := hc s hcs
      have hbit : (body s).irmp_bit = s.irmp_bit + 1 := by
        rw [(hb s).1]; exact Nat.mod_eq_of_lt (by omega)
      have hpar := (hb s).2
      obtain ⟨k, hk, hall, hex, hl, hi, hp⟩ := ih (body s) (by rw [hpar]; exact h256)
        (by rw [hpar, hbit]; omega)
      rw [hpar, hbit] at hk
      refine ⟨k + 1, by omega, ?_, ?_, ?_, ?_, ?_⟩
      · intro j hj
        cases j with
        | zero => exact hcs
        | succ j => rw [Function.iterate_succ_apply]; exact hall j (by omega)
      · rw [Function.iterate_succ_apply]; exact hex
      · rw [hs, if_pos hcs, hl, Function.iterate_succ_apply]
      · rw [Function.iterate_succ_apply, hi, hbit]; omega
      · rw [Function.iterate_succ_apply, hp, hpar]
    · exact ⟨0, Nat.zero_le _, fun j hj => absurd hj (Nat.not_lt_zero j), hcs,
        by rw [hs, if_neg hcs]; rfl, rfl, rfl⟩

/-- The number of passes of a loop is determined by its condition. -/
theorem passes_unique (cond : State → Prop) (body : State → State) (s : State) (k k2 : Nat)
    (h1 : ∀ j, j < k → cond (Nat.iterate body j s)) (h2 : ¬ cond (Nat.iterate body k s))
    (h3 : ∀ j, j < k2 → cond (Nat.iterate body j s)) (h4 : ¬ cond (Nat.iterate body k2 s)) :
    k = k2 := by
  rcases Nat.lt_trichotomy k k2 with h | h | h
  · exact absurd (h3 k h) h2
  · exact h
  · exact absurd (h1 k2 h) h4

/-- C36: with `complete_len` a `uint8_t`, the two `while` loops of the serial decoder end:
the first makes `k1` passes and the second `k2` passes with
`k1 + k2 ≤ complete_len - irmp_bit`; the condition holds before each pass and fails after
the last one; every pass advances `irmp_bit` by one; whatever `pulse_1_len_min` and
`pause_1_len_min` are.  The loops of the model reach that result with any bound of at
least `complete_len - irmp_bit` passes, so the 256 passes allowed in `got_light_serial`
are never used up and `irmp_ISR`, which has no other loop, returns. -/
theorem C36_serial_loops_terminate (c : Config) (s : State)
    (h : s.irmp_param.complete_len < 256) :
    ∃ k1 k2, k1 + k2 ≤ s.irmp_param.complete_len - s.irmp_bit ∧
      (∀ j, j < k1 → serial_pulse_cond (Nat.iterate (serial_pulse_body c) j s)) ∧
      ¬ serial_pulse_cond (Nat.iterate (serial_pulse_body c) k1 s) ∧
      (Nat.iterate (serial_pulse_body c) k1 s).irmp_bit = s.irmp_bit + k1 ∧
      (∀ j, j < k2 → serial_pause_cond
        (Nat.iterate (serial_pause_body c) j (Nat.iterate (serial_pulse_body c) k1 s))) ∧
      ¬ serial_pause_cond
        (Nat.iterate (serial_pause_body c) k2 (Nat.iterate (serial_pulse_body c) k1 s)) ∧
      (Nat.iterate (serial_pause_body c) k2
        (Nat.iterate (serial_pulse_body c) k1 s)).irmp_bit = s.irmp_bit + k1 + k2 ∧
      (∀ n, s.irmp_param.complete_len - s.irmp_bit ≤ n →
        serial_pulse_loop c n s = Nat.iterate (serial_pulse_body c) k1 s ∧
        serial_pause_loop c n (Nat.iterate (serial_pulse_body c) k1 s) =
          Nat.iterate (serial_pause_body c) k2 (Nat.iterate (serial_pulse_body c) k1 s)) ∧
      got_light_serial c s =
        { Nat.iterate (serial_pause_body c) k2 (Nat.iterate (serial_pulse_body c) k1 s) with
            wait_for_space := 0 } := by
  have B1 := bounded_loop serial_pulse_cond (serial_pulse_body c) (serial_pulse_loop c)
    (fun _ => rfl) (serial_pulse_loop_succ c) (fun _ hc => hc.1) (serial_pulse_body_fields c)
  have B2 := bounded_loop serial_pause_cond (serial_pause_body c) (serial_pause_loop c)
    (fun _ => rfl) (serial_pause_loop_succ c) (fun _ hc => hc.1) (serial_pause_body_fields c)
  obtain ⟨k1, hk1, ha1, he1, hl1, hi1, hp1⟩ := B1 256 s h (by omega)
  generalize ht : Nat.iterate (serial_pulse_body c) k1 s = t at *
  obtain ⟨k2, hk2, ha2, he2, hl2, hi2, hp2⟩ := B2 256 t (by rw [hp1]; exact h)
    (by rw [hp1]; omega)
  rw [hp1, hi1] at hk2
  refine ⟨k1, k2, ?_⟩
  rw [ht]
  refine ⟨by omega, ha1, he1, hi1, ha2, he2, by rw [hi2, hi1], ?_, ?_⟩
  · intro n hn
    obtain ⟨j1, _, hb1, hf1, hm1, _, _⟩ := B1 n s h hn
    have e1 : j1 = k1 := by
      refine passes_unique serial_pulse_cond (serial_pulse_body c) s j1 k1 hb1 hf1 ?_ ?_
      · intro j hj
        by_cases hjk : j < k1
        · exact ha1 j hjk
        · exact absurd hj hjk
      · rw [ht]; exact he1
    subst e1
    obtain ⟨j2, _, hb2, hf2, hm2, _, _⟩ := B2 n t (by rw [hp1]; exact h) (by rw [hp1]; omega)
    have e2 : j2 = k2 := passes_unique serial_pause_cond (serial_pause_body c) t j2 k2 hb2 hf2
      ha2 he2
    subst e2
    exact ⟨by rw [hm1, ht], hm2⟩
  · show { serial_pause_loop c 256 (serial_pulse_loop c 256 s) with wait_for_space := 0 } = _
    rw [hl1, hl2]

set_option maxRecDepth 100000 in
/-- Witness of C36: a serial descriptor with `pulse_1_len_min = pause_1_len_min = 0` and a
10-tick pulse counted: the pulse counter stays 10, yet the first loop ends after 16 passes
with `irmp_bit = complete_len = 16`. -/
theorem C36_serial_loops_terminate_witness :
    serial_zero_min.irmp_param.complete_len < 256 ∧
    serial_zero_min.irmp_param.pulse_1_len_min = 0 ∧
    serial_zero_min.irmp_param.pause_1_len_min = 0 ∧
    (∃ k1 k2, k1 + k2 ≤ 16 ∧
      ¬ serial_pulse_cond (Nat.iterate (serial_pulse_body switch_build) k1 serial_zero_min) ∧
      got_light_serial switch_build serial_zero_min =
        { Nat.iterate (serial_pause_body switch_build) k2
            (Nat.iterate (serial_pulse_body switch_build) k1 serial_zero_min) with
            wait_for_space := 0 }) ∧
    (got_light_serial switch_build serial_zero_min).irmp_bit = 16 ∧
    (got_light_serial switch_build serial_zero_min).irmp_pulse_time = 10 ∧
    (got_light_serial switch_build serial_zero_min).irmp_tmp_command = 0x1FFF ∧
    (irmp_ISR switch_build serial_zero_min false).1.irmp_bit = 16 := by
  obtain ⟨k1, k2, h1, _, h3, _, _, _, _, _, h9⟩ :=
    C36_serial_loops_terminate switch_build serial_zero_min (by decide)
  exact ⟨by decide, rfl, rfl, ⟨k1, k2, h1, h3, h9⟩, by decide, by decide, by decide, by decide⟩


/-! ## The flags of a rejected frame -/

theorem flags_ite (p : Prop) [Decidable p] (a b : State) :
    (if p then a else b).irmp_flags =
      if p then a.irmp_flags else b.irmp_flags :=
  apply_ite State.irmp_flags p a b

theorem store_xor_check_flags (s : State) (v : Nat) :
    (store_xor_check s v).irmp_flags = s.irmp_flags := by
  simp only [store_xor_check, flags_ite, ite_self]

theorem irmp_store_bit_flags (c : Config) (s : State) (v : Nat) :
    (irmp_store_bit c s v).irmp_flags = s.irmp_flags := by
  simp only [irmp_store_bit, flags_ite, store_xor_check_flags, ite_self]

theorem irmp_store_bit2_flags (s : State) (v : Nat) :
    (irmp_store_bit2 s v).irmp_flags = s.irmp_flags := by
  simp only [irmp_store_bit2, flags_ite, ite_self]

theorem isr_pulse_flags (s : State) (x : Bool) :
    (isr_pulse s x).irmp_flags = s.irmp_flags := by
  simp only [isr_pulse, flags_ite, ite_self]

theorem isr_start_dark_flags (c : Config) (s : State) :
    (isr_start_dark c s).irmp_flags = s.irmp_flags := by
  simp only [isr_start_dark, flags_ite, ite_self]

theorem classify_flags (c : Config) (s : State) :
    (classify c s).2.irmp_flags = s.irmp_flags := by
  simp only [classify, snd_ite, flags_ite, ite_self]

theorem reset_param2_flags (c : Config) (s : State) :
    (reset_param2 c s).irmp_flags = s.irmp_flags := by
  simp only [reset_param2, flags_ite, ite_self]

theorem load_param_flags (r : Option IRMP_PARAMETER × State) :
    (load_param r).irmp_flags = r.2.irmp_flags := by
  unfold load_param
  cases r.1 <;> simp only [flags_ite, ite_self]

theorem first_data_bit_flags (c : Config) (s : State) :
    (first_data_bit c s).irmp_flags = s.irmp_flags := by
  simp only [first_data_bit, flags_ite, irmp_store_bit_flags, ite_self]

theorem isr_start_light_flags (c : Config) (s : State) :
    (isr_start_light c s).irmp_flags = s.irmp_flags := by
  simp only [isr_start_light, first_data_bit_flags, load_param_flags, classify_flags, reset_param2_flags]

theorem data_timeout_flags (c : Config) (s : State) :
    (data_timeout c s).irmp_flags = s.irmp_flags := by
  simp only [data_timeout, flags_ite, ite_self]

theorem isr_space_dark_flags (c : Config) (s : State) :
    (isr_space_dark c s).1.irmp_flags = s.irmp_flags := by
  simp only [isr_space_dark, fst_ite, flags_ite, data_timeout_flags, ite_self]

theorem got_light_manchester_flags (c : Config) (s : State) :
    (got_light_manchester c s).irmp_flags = s.irmp_flags := by
  simp only [got_light_manchester, flags_ite, irmp_store_bit_flags, irmp_store_bit2_flags, ite_self]

theorem serial_pulse_loop_flags (c : Config) (n : Nat) (s : State) :
    (serial_pulse_loop c n s).irmp_flags = s.irmp_flags := by
  induction n generalizing s with
  | zero => rfl
  | succ n ih => simp only [serial_pulse_loop, flags_ite, ih, irmp_store_bit_flags, ite_self]

theorem serial_pause_loop_flags (c : Config) (n : Nat) (s : State) :
    (serial_pause_loop c n s).irmp_flags = s.irmp_flags := by
  induction n generalizing s with
  | zero => rfl
  | succ n ih => simp only [serial_pause_loop, flags_ite, ih, irmp_store_bit_flags, ite_self]

theorem got_light_serial_flags (c : Config) (s : State) :
    (got_light_serial c s).irmp_flags = s.irmp_flags := by
  simp only [got_light_serial, serial_pause_loop_flags, serial_pulse_loop_flags]

theorem got_light_samsung_flags (c : Config) (s : State) :
    (got_light_samsung c s).irmp_flags = s.irmp_flags := by
  simp only [got_light_samsung, flags_ite, irmp_store_bit_flags, ite_self]

theorem got_light_bang_olufsen_flags (c : Config) (s : State) :
    (got_light_bang_olufsen c s).irmp_flags = s.irmp_flags := by
  simp only [got_light_bang_olufsen, flags_ite, irmp_store_bit_flags, ite_self]

theorem isr_got_light_flags (c : Config) (s : State) :
    (isr_got_light c s).irmp_flags = s.irmp_flags := by
  simp only [isr_got_light, flags_ite, irmp_store_bit_flags, got_light_manchester_flags,
    got_light_serial_flags, got_light_samsung_flags, got_light_bang_olufsen_flags, ite_self]

/-- The body of `irmp_ISR` before line 3160 does not write `irmp_flags`. -/
theorem isr_body_flags (c : Config) (s : State) (x : Bool) :
    (isr_body c s x).irmp_flags = s.irmp_flags := by
  cases x <;>
    simp only [isr_body, flags_ite, isr_start_dark_flags, isr_start_light_flags, isr_pulse_flags,
      isr_got_light_flags, isr_space_dark_flags, ite_self, Bool.false_eq_true, if_false, if_true]

theorem or_repetition_bit (f : Nat) :
    ((f ||| IRMP_FLAG_REPETITION) % 256) &&& IRMP_FLAG_REPETITION ≠ 0 := by
  have h : ((f ||| 1) % 256).testBit 0 = true := by
    rw [show (256 : Nat) = 2 ^ 8 from rfl, Nat.testBit_mod_two_pow]
    simp
  intro h0
  have h2 : (((f ||| 1) % 256) &&& 1).testBit 0 = true := by
    rw [Nat.testBit_and, h]; rfl
  rw [show ((f ||| 1) % 256) &&& 1 = 0 from h0] at h2
  simp at h2

theorem isr_idle_flags (c : Config) (s : State) (x : Bool) :
    (isr_idle c s x).irmp_flags = s.irmp_flags := by
  simp only [isr_idle, flags_ite, ite_self]

theorem latch_frame_repetition (c : Config) (s : State)
    (h : s.irmp_flags &&& IRMP_FLAG_REPETITION ≠ 0) :
    (latch_frame c s).irmp_flags &&& IRMP_FLAG_REPETITION ≠ 0 := by
  rw [latch_frame_stages]
  split_ifs
  · exact h
  · exact h
  · exact h
  · exact h
  · rw [frame_store_flags]
    rcases frame_checks_flags c s.irmp_param { s with irmp_ir_detected := TRUE } with h1 | h1
    · rw [h1.1]; exact h
    · rw [h1]; exact or_repetition_bit _

theorem key_repetition_repetition (c : Config) (s : State)
    (h : s.irmp_flags &&& IRMP_FLAG_REPETITION ≠ 0) :
    (key_repetition c s).irmp_flags &&& IRMP_FLAG_REPETITION ≠ 0 := by
  by_cases hd : s.irmp_ir_detected = 0
  · rw [key_repetition_unlatched c s hd]; exact h
  · rw [key_repetition_latched c s hd]
    show (if _ then _ else _) &&& IRMP_FLAG_REPETITION ≠ 0
    split_ifs
    · exact or_repetition_bit _
    · exact h

theorem isr_frame_end_repetition (c : Config) (m : State)
    (h : m.irmp_flags &&& IRMP_FLAG_REPETITION ≠ 0) :
    (isr_frame_end c m).irmp_flags &&& IRMP_FLAG_REPETITION ≠ 0 := by
  by_cases hcomp : frame_complete m
  · rw [isr_frame_end_complete c m hcomp, (frame_reset_fields c _).2.2.2.1]
    apply key_repetition_repetition
    split_ifs
    · exact h
    · exact latch_frame_repetition c _ h
  · have : isr_frame_end c m = m := by
      unfold isr_frame_end
      exact if_neg hcomp
    rw [this]; exact h

/-- One call of `irmp_ISR` never clears the REPETITION bit of `irmp_flags`. -/
theorem isr_step_repetition (c : Config) (s : State) (x : Bool)
    (h : s.irmp_flags &&& IRMP_FLAG_REPETITION ≠ 0) :
    (isr_step c s x).irmp_flags &&& IRMP_FLAG_REPETITION ≠ 0 := by
  by_cases h1 : s.irmp_ir_detected = 0
  · by_cases h2 : s.irmp_start_bit_detected = 0
    · rw [isr_step_idle c s x h1 h2, isr_idle_flags]; exact h
    · rw [isr_step_body c s x h1 h2]
      apply isr_frame_end_repetition
      rw [isr_body_flags]; exact h
  · rw [isr_step_latched c s x h1]; exact h

theorem run_isr_repetition (c : Config) (xs : List Bool) (s : State)
    (h : s.irmp_flags &&& IRMP_FLAG_REPETITION ≠ 0) :
    (run_isr c s xs).irmp_flags &&& IRMP_FLAG_REPETITION ≠ 0 := by
  induction xs generalizing s with
  | nil => exact h
  | cons x xs ih => exact ih _ (isr_step_repetition c s x h)

/-- The `switch` of `irmp_get_data` changes a variable only in a case that ends with
`rtc = TRUE`. -/
theorem pred_ite {α : Type} (P : α → Prop) (p : Prop) [Decidable p] (a b : α) (ha : P a)
    (hb : P b) : P (if p then a else b) := by
  split_ifs <;> assumption

theorem get_data_switch_elim (c : Config) (s : State) (P : Bool × State → Prop)
    (h1 : ∀ t, P (true, t)) (h2 : P (false, s)) : P (get_data_switch c s) := by
  unfold get_data_switch
  dsimp only
  repeat' refine pred_ite P _ _ _ ?_ ?_
  all_goals first | exact h1 _ | exact h2

theorem get_data_switch_cases (c : Config) (s : State) :
    (get_data_switch c s).1 = true ∨ get_data_switch c s = (false, s) :=
  get_data_switch_elim c s (fun r => r.1 = true ∨ r = (false, s)) (fun _ => Or.inl rfl)
    (Or.inr rfl)

theorem get_data_switch_rejected (c : Config) (s : State)
    (h : (get_data_switch c s).1 = false) : (get_data_switch c s).2 = s := by
  rcases get_data_switch_cases c s with h1 | h1
  · rw [h] at h1; exact absurd h1 (by decide)
  · rw [h1]

/-- The `switch` of `irmp_get_data` does not write `irmp_flags`. -/
theorem get_data_switch_flags (c : Config) (s : State) :
    (get_data_switch c s).2.irmp_flags = s.irmp_flags := by
  simp only [get_data_switch, snd_ite, flags_ite, ite_self]

theorem nec_rejected_twice_reached :
    (irmp_ISR nec_build (run_poll nec_build initial (rejected_twice_wave.take 1693)).1 true).1 =
      nec_rejected_twice := by
  rw [run_poll_eval nec_build 27]
  decide!

/-- C37: when the validation of the latched frame fails (the `switch` of `irmp_get_data`
ends with `rtc = FALSE`), `irmp_get_data` returns FALSE, leaves the caller's structure as it
was and only clears the latch: `irmp_flags`, `irmp_address`, `irmp_command` and
`irmp_protocol` keep their values.  A REPETITION flag set at that moment stays set through
every later call of `irmp_ISR`, so the next frame that `irmp_get_data` delivers carries
it. -/
theorem C37_rejected_frame_keeps_flags (c : Config) (s : State) (d d2 : IRMP_DATA)
    (xs : List Bool) (hl : s.irmp_ir_detected ≠ 0) (hv : (get_data_switch c s).1 = false) :
    (irmp_get_data c s d).1 = false ∧
    (irmp_get_data c s d).2.2 = d ∧
    (irmp_get_data c s d).2.1 = { s with irmp_ir_detected := FALSE } ∧
    (irmp_get_data c s d).2.1.irmp_ir_detected = 0 ∧
    (irmp_get_data c s d).2.1.irmp_flags = s.irmp_flags ∧
    (irmp_get_data c s d).2.1.irmp_address = s.irmp_address ∧
    (irmp_get_data c s d).2.1.irmp_command = s.irmp_command ∧
    (irmp_get_data c s d).2.1.irmp_protocol = s.irmp_protocol ∧
    (s.irmp_flags &&& IRMP_FLAG_REPETITION ≠ 0 →
      (run_isr c (irmp_get_data c s d).2.1 xs).irmp_flags &&& IRMP_FLAG_REPETITION ≠ 0 ∧
      ((irmp_get_data c (run_isr c (irmp_get_data c s d).2.1 xs) d2).1 = true →
        (irmp_get_data c (run_isr c (irmp_get_data c s d).2.1 xs) d2).2.2.flags &&&
          IRMP_FLAG_REPETITION ≠ 0)) := by
  have hs := get_data_switch_rejected c s hv
  have e : irmp_get_data c s d = (false, { s with irmp_ir_detected := FALSE }, d) := by
    unfold irmp_get_data
    rw [if_pos hl]
    dsimp only
    rw [hv, hs]
    rfl
  rw [e]
  refine ⟨rfl, rfl, rfl, rfl, rfl, rfl, rfl, rfl, fun hf => ?_⟩
  have hr := run_isr_repetition c xs { s with irmp_ir_detected := FALSE } hf
  refine ⟨hr, fun ht => ?_⟩
  generalize run_isr c { s with irmp_ir_detected := FALSE } xs = t at hr ht ⊢
  have hd : t.irmp_ir_detected ≠ 0 := by
    intro h0
    rw [irmp_get_data_unlatched c t d2 h0] at ht
    exact Bool.false_ne_true ht
  have hsw : (get_data_switch c t).1 = true := by
    cases h : (get_data_switch c t).1 with
    | true => rfl
    | false =>
      unfold irmp_get_data at ht
      rw [if_pos hd] at ht
      dsimp only at ht
      rw [if_neg (by rw [h]; exact Bool.false_ne_true)] at ht
      exact absurd ht Bool.false_ne_true
  have e2 : (irmp_get_data c t d2).2.2.flags = (get_data_switch c t).2.irmp_flags := by
    unfold irmp_get_data
    rw [if_pos hd]
    dsimp only
    rw [if_pos hsw]
  rw [e2, get_data_switch_flags]
  exact hr

/-- Witness of C37 in the NEC build: a key whose frames fail the inversion test is sent
twice; the second frame is latched with the REPETITION flag and rejected, the flag stays
in `irmp_flags`, and the valid frame of another key that follows is delivered as
`(NEC, 0x1234, 0x56)` with flags 1, while received alone it is delivered with flags 0. -/
theorem C37_rejected_frame_keeps_flags_witness :
    nec_rejected_twice.irmp_ir_detected ≠ 0 ∧
    (get_data_switch nec_build nec_rejected_twice).1 = false ∧
    nec_rejected_twice.irmp_flags &&& IRMP_FLAG_REPETITION ≠ 0 ∧
    (irmp_get_data nec_build nec_rejected_twice ⟨9, 9, 9, 9⟩).1 = false ∧
    (irmp_get_data nec_build nec_rejected_twice ⟨9, 9, 9, 9⟩).2.2 = ⟨9, 9, 9, 9⟩ ∧
    (irmp_get_data nec_build nec_rejected_twice ⟨9, 9, 9, 9⟩).2.1.irmp_flags = 1 ∧
    (irmp_get_data nec_build nec_rejected_twice ⟨9, 9, 9, 9⟩).2.1.irmp_command = 0x1256 ∧
    ((irmp_get_data nec_build
        (run_isr nec_build (irmp_get_data nec_build nec_rejected_twice ⟨9, 9, 9, 9⟩).2.1
          (nec_wave 0x1234 0x56 1)) ⟨0, 0, 0, 0⟩).1 = true →
      (irmp_get_data nec_build
        (run_isr nec_build (irmp_get_data nec_build nec_rejected_twice ⟨9, 9, 9, 9⟩).2.1
          (nec_wave 0x1234 0x56 1)) ⟨0, 0, 0, 0⟩).2.2.flags &&& IRMP_FLAG_REPETITION ≠ 0) ∧
    (run_poll nec_build initial rejected_twice_wave).2 = [⟨IRMP_NEC_PROTOCOL, 0x1234, 0x56, 1⟩] ∧
    (run_poll nec_build initial (nec_wave 0x1234 0x56 2)).2 =
      [⟨IRMP_NEC_PROTOCOL, 0x1234, 0x56, 0⟩] := by
  have h := C37_rejected_frame_keeps_flags nec_build nec_rejected_twice ⟨9, 9, 9, 9⟩
    ⟨0, 0, 0, 0⟩ (nec_wave 0x1234 0x56 1) (by decide) (by decide)
  refine ⟨by decide, by decide, by decide, h.1, h.2.1, h.2.2.2.2.1.trans (by decide),
    h.2.2.2.2.2.2.1.trans (by decide), (h.2.2.2.2.2.2.2.2 (by decide)).2, ?_, ?_⟩
  · rw [run_poll_eval nec_build 44]
    decide!
  · rw [run_poll_eval nec_build 12]
    decide!


/-! ## The counters of the Idle state -/

theorem run_isr_cons (c : Config) (s : State) (x : Bool) (xs : List Bool) :
    run_isr c s (x :: xs) = run_isr c (isr_step c s x) xs :=
  rfl

/-- Light ticks in Idle only count the pulse, modulo 256 (line 1915). -/
theorem idle_light_run (c : Config) (n : Nat) :
    ∀ s : State, s.irmp_ir_detected = 0 → s.irmp_start_bit_detected = 0 →
      run_isr c s (List.replicate n false) =
        { s with irmp_pulse_time := (s.irmp_pulse_time % 256 + n) % 256 } ∨
      n = 0 := by
  induction n with
  | zero => exact fun _ _ _ => Or.inr rfl
  | succ n ih =>
    intro s h1 h2
    left
    rw [List.replicate_succ, run_isr_cons, isr_step_idle c s false h1 h2]
    have e : isr_idle c s false = { s with irmp_pulse_time := (s.irmp_pulse_time + 1) % 256 } := by
      simp [isr_idle]
    rw [e]
    rcases ih { s with irmp_pulse_time := (s.irmp_pulse_time + 1) % 256 } h1 h2 with h | h
    · rw [h]
      show ({ s with irmp_pulse_time := ((s.irmp_pulse_time + 1) % 256 % 256 + n) % 256 } : State) = _
      have : ((s.irmp_pulse_time + 1) % 256 % 256 + n) % 256 =
          (s.irmp_pulse_time % 256 + (n + 1)) % 256 := by omega
      rw [this]
    · subst h
      show ({ s with irmp_pulse_time := (s.irmp_pulse_time + 1) % 256 } : State) = _
      have : (s.irmp_pulse_time + 1) % 256 = (s.irmp_pulse_time % 256 + (0 + 1)) % 256 := by
        omega
      rw [this]

/-- A dark tick in Idle with a pulse counted starts the pause of a start bit (lines
1919-1937); without a pulse counted it only advances `repetition_len` (lines 1938-1944). -/
theorem idle_dark_tick (c : Config) (s : State) (h1 : s.irmp_ir_detected = 0)
    (h2 : s.irmp_start_bit_detected = 0) :
    (s.irmp_pulse_time ≠ 0 → (isr_step c s true).irmp_start_bit_detected = 1) ∧
    (s.irmp_pulse_time = 0 →
      isr_step c s true =
        { s with repetition_len :=
            if s.repetition_len < 0xFFFF then s.repetition_len + 1 else s.repetition_len }) := by
  rw [isr_step_idle c s true h1 h2]
  constructor
  · intro h
    simp only [isr_idle, if_pos h, Bool.true_eq_false, if_false,
      apply_ite State.irmp_start_bit_detected, ite_self]
  · intro h
    have e : isr_idle c s true =
        if s.repetition_len < 0xFFFF then { s with repetition_len := s.repetition_len + 1 }
        else s := by
      unfold isr_idle
      rw [if_neg (by decide), if_neg (fun hh => hh h)]
    rw [e]
    by_cases hr : s.repetition_len < 0xFFFF
    · rw [if_pos hr, if_pos hr]
    · rw [if_neg hr, if_neg hr]

/-- C38: the pulse counter is 8 bits wide and wraps modulo 256.  In Idle with no pulse
counted, for every `L` with `1 <= L <= 255`, a burst of `L + 256` ticks leaves the decoder
in the same state as a burst of `L` ticks, with pulse count `L`, so that whatever follows
is decoded alike and both are taken as a start pulse by the next dark tick; a burst of
exactly 256 ticks leaves the decoder as it was, and the dark tick after it does not set the
start-bit flag. -/
theorem C38_pulse_counter_wraps (c : Config) (s : State) (L : Nat) (xs : List Bool)
    (h1 : s.irmp_ir_detected = 0) (h2 : s.irmp_start_bit_detected = 0)
    (h3 : s.irmp_pulse_time = 0) (hL : 1 ≤ L ∧ L ≤ 255) :
    (run_isr c s (List.replicate L false)).irmp_pulse_time = L ∧
    run_isr c s (List.replicate (L + 256) false) = run_isr c s (List.replicate L false) ∧
    run_isr c s (List.replicate (L + 256) false ++ xs) =
      run_isr c s (List.replicate L false ++ xs) ∧
    (run_isr c s (List.replicate L false ++ [true])).irmp_start_bit_detected = 1 ∧
    (run_isr c s (List.replicate (L + 256) false ++ [true])).irmp_start_bit_detected = 1 ∧
    run_isr c s (List.replicate 256 false) = s ∧
    (run_isr c s (List.replicate 256 false ++ [true])).irmp_start_bit_detected = 0 ∧
    run_isr c s (List.replicate 256 false ++ xs) = run_isr c s xs := by
  have eL : run_isr c s (List.replicate L false) = { s with irmp_pulse_time := L } := by
    rcases idle_light_run c L s h1 h2 with h | h
    · rw [h, h3]
      have : (0 % 256 + L) % 256 = L := by omega
      rw [this]
    · omega
  have eW : run_isr c s (List.replicate (L + 256) false) = { s with irmp_pulse_time := L } := by
    rcases idle_light_run c (L + 256) s h1 h2 with h | h
    · rw [h, h3]
      have : (0 % 256 + (L + 256)) % 256 = L := by omega
      rw [this]
    · omega
  have e0 : run_isr c s (List.replicate 256 false) = s := by
    rcases idle_light_run c 256 s h1 h2 with h | h
    · rw [h, h3]
      show ({ s with irmp_pulse_time := 0 } : State) = s
      rw [← h3]
    · omega
  have d1 : (run_isr c { s with irmp_pulse_time := L } [true]).irmp_start_bit_detected = 1 :=
    (idle_dark_tick c { s with irmp_pulse_time := L } h1 h2).1 (by show L ≠ 0; omega)
  refine ⟨by rw [eL], by rw [eL, eW], by rw [run_isr_append, run_isr_append, eL, eW], ?_, ?_,
    e0, ?_, by rw [run_isr_append, e0]⟩
  · rw [run_isr_append, eL]
    exact d1
  · rw [run_isr_append, eW]
    exact d1
  · rw [run_isr_append, e0]
    have h := (idle_dark_tick c s h1 h2).2 h3
    show (isr_step c s true).irmp_start_bit_detected = 0
    rw [h]
    exact h2

/-- Witness of C38, from program start in the NEC build: bursts of 90 and of 346 ticks
leave the pulse count 90, and a NEC frame whose start pulse lasts 346 ticks is delivered
like the canonical one; after a burst of 256 ticks the decoder is in its initial state. -/
theorem C38_pulse_counter_wraps_witness :
    initial.irmp_ir_detected = 0 ∧ initial.irmp_start_bit_detected = 0 ∧
      initial.irmp_pulse_time = 0 ∧
      (run_isr nec_build initial (List.replicate 90 false)).irmp_pulse_time = 90 ∧
      run_isr nec_build initial (List.replicate (90 + 256) false) =
        run_isr nec_build initial (List.replicate 90 false) ∧
      run_isr nec_build initial (List.replicate 256 false) = initial ∧
      (run_isr nec_build initial (List.replicate 256 false ++ [true])).irmp_start_bit_detected
        = 0 ∧
      (run_poll nec_build initial (nec_wave_from 90 0x1234 0x56 2)).2 =
        [⟨IRMP_NEC_PROTOCOL, 0x1234, 0x56, 0⟩] ∧
      (run_poll nec_build initial (nec_wave_from (90 + 256) 0x1234 0x56 2)).2 =
        [⟨IRMP_NEC_PROTOCOL, 0x1234, 0x56, 0⟩] := by
  have h := C38_pulse_counter_wraps nec_build initial 90 [] rfl rfl rfl (by decide)
  refine ⟨rfl, rfl, rfl, h.1, h.2.1, h.2.2.2.2.2.1, h.2.2.2.2.2.2.1, ?_, ?_⟩
  · rw [run_poll_eval nec_build 12]
    decide!
  · rw [run_poll_eval nec_build 16]
    decide!

/-- Dark ticks in Idle with no pulse counted only advance `repetition_len`, up to
`0xFFFF` (lines 1938-1944). -/
theorem idle_dark_count (c : Config) (n : Nat) :
    ∀ s : State, s.irmp_ir_detected = 0 → s.irmp_start_bit_detected = 0 →
      s.irmp_pulse_time = 0 → s.repetition_len ≤ 0xFFFF →
      run_isr c s (List.replicate n true) =
        { s with repetition_len := min (s.repetition_len + n) 0xFFFF } := by
  induction n with
  | zero =>
    intro s _ _ _ h4
    show s = { s with repetition_len := min (s.repetition_len + 0) 0xFFFF }
    have : min (s.repetition_len + 0) 0xFFFF = s.repetition_len := by
      rw [Nat.add_zero]
      exact Nat.min_eq_left h4
    rw [this]
  | succ n ih =>
    intro s h1 h2 h3 h4
    rw [List.replicate_succ, run_isr_cons, (idle_dark_tick c s h1 h2).2 h3]
    generalize hr1 : (if s.repetition_len < 0xFFFF then s.repetition_len + 1
      else s.repetition_len) = r1
    have hle : r1 ≤ 0xFFFF := by
      rw [← hr1]
      split_ifs <;> omega
    have hm : min (r1 + n) 0xFFFF = min (s.repetition_len + (n + 1)) 0xFFFF := by
      rw [← hr1]
      split_ifs <;> omega
    rw [ih { s with repetition_len := r1 } h1 h2 h3 hle]
    show ({ s with repetition_len := min (r1 + n) 0xFFFF } : State) = _
    rw [hm]

/-- C39: `repetition_len` saturates instead of wrapping.  On an Idle tick with dark input
and no pulse pending it increases by exactly 1 while below `0xFFFF` and stays at `0xFFFF`
once reached; after `n` such ticks it is `min (repetition_len + n) 0xFFFF`, so that it is
not below a limit `T <= 0xFFFF` (such as the repetition limits) once `n >= T`; a call of
`irmp_ISR` with a frame latched and unretrieved changes nothing. -/
theorem C39_repetition_len_saturates (c : Config) (s : State) (n : Nat)
    (h1 : s.irmp_ir_detected = 0) (h2 : s.irmp_start_bit_detected = 0)
    (h3 : s.irmp_pulse_time = 0) (h4 : s.repetition_len ≤ 0xFFFF) :
    (s.repetition_len < 0xFFFF →
      (irmp_ISR c s true).1 = { s with repetition_len := s.repetition_len + 1 }) ∧
    (s.repetition_len = 0xFFFF → (irmp_ISR c s true).1 = s) ∧
    run_isr c s (List.replicate n true) =
      { s with repetition_len := min (s.repetition_len + n) 0xFFFF } ∧
    (∀ T : Int, T ≤ 0xFFFF → T ≤ (n : Int) →
      ¬ ((run_isr c s (List.replicate n true)).repetition_len : Int) < T) ∧
    (∀ (t : State) (x : Bool), t.irmp_ir_detected ≠ 0 →
      (irmp_ISR c t x).1 = t ∧ (irmp_ISR c t x).1.repetition_len = t.repetition_len) := by
  have e := (idle_dark_tick c s h1 h2).2 h3
  have r := idle_dark_count c n s h1 h2 h3 h4
  refine ⟨fun h => ?_, fun h => ?_, r, fun T hT hn => ?_, fun t x ht => ?_⟩
  · show isr_step c s true = _
    rw [e, if_pos h]
  · show isr_step c s true = _
    rw [e, if_neg (by omega)]
  · rw [r]
    show ¬ ((min (s.repetition_len + n) 0xFFFF : Nat) : Int) < T
    omega
  · have : (irmp_ISR c t x).1 = t := isr_step_latched c t x ht
    exact ⟨this, by rw [this]⟩

/-- Witness of C39: from program start, 70000 dark ticks leave `repetition_len = 0xFFFF`,
which is not below the key-repetition limit 1500 of the NEC build, and one dark tick
leaves `repetition_len = 1`. -/
theorem C39_repetition_len_saturates_witness :
    initial.irmp_ir_detected = 0 ∧ initial.irmp_start_bit_detected = 0 ∧
      initial.irmp_pulse_time = 0 ∧ initial.repetition_len ≤ 0xFFFF ∧
      (run_isr nec_build initial (List.replicate 70000 true)).repetition_len = 0xFFFF ∧
      ¬ ((run_isr nec_build initial (List.replicate 70000 true)).repetition_len : Int) <
        nec_build.K .IRMP_KEY_REPETITION_LEN ∧
      (irmp_ISR nec_build initial true).1.repetition_len = 1 := by
  have h := C39_repetition_len_saturates nec_build initial 70000 rfl rfl rfl (by decide)
  refine ⟨rfl, rfl, rfl, by decide, ?_, ?_, ?_⟩
  · rw [h.2.2.1]
    decide
  · exact h.2.2.2.1 (nec_build.K .IRMP_KEY_REPETITION_LEN) (by decide) (by decide)
  · rw [h.1 (by decide)]
    rfl


/-! ## The RCCAR rearrangement -/

set_option maxRecDepth 100000 in
theorem rccar_raw_fields_split : ∀ h, h < 128 → ∀ l, l < 64 →
    rccar_raw (rccar_fields (64 * h + l)).1 (rccar_fields (64 * h + l)).2 = 64 * h + l := by
  decide!

theorem rccar_raw_fields (r : Nat) (hr : r < 2 ^ 13) :
    rccar_raw (rccar_fields r).1 (rccar_fields r).2 = r := by
  have h := rccar_raw_fields_split (r / 64) (by norm_num at hr; omega) (r % 64)
    (Nat.mod_lt _ (by decide))
  rw [Nat.div_add_mod] at h
  exact h

theorem get_data_rccar_fields (c : Config) (s : State) (d : IRMP_DATA)
    (hc : c.IRMP_SUPPORT_RCCAR_PROTOCOL = true) (hl : s.irmp_ir_detected ≠ 0)
    (hp : s.irmp_protocol = IRMP_RCCAR_PROTOCOL) :
    (irmp_get_data c s d).2.2.address = (rccar_fields s.irmp_command).1 ∧
    (irmp_get_data c s d).2.2.command = (rccar_fields s.irmp_command).2 := by
  have e := get_data_switch_rccar hc hp
  constructor
  · simp only [irmp_get_data, if_pos hl, e]
    rfl
  · simp only [irmp_get_data, if_pos hl, e]
    rfl

/-- C40: the RCCAR rearrangement of `irmp_get_data` loses no information on 13-bit
inputs: two latched RCCAR frames with raw commands below `2^13` that are delivered with
the same address and the same command have the same raw command. -/
theorem C40_rccar_injective (c : Config) (s1 s2 : State) (d1 d2 : IRMP_DATA)
    (hc : c.IRMP_SUPPORT_RCCAR_PROTOCOL = true)
    (hl1 : s1.irmp_ir_detected ≠ 0) (hp1 : s1.irmp_protocol = IRMP_RCCAR_PROTOCOL)
    (hl2 : s2.irmp_ir_detected ≠ 0) (hp2 : s2.irmp_protocol = IRMP_RCCAR_PROTOCOL)
    (hr1 : s1.irmp_command < 2 ^ 13) (hr2 : s2.irmp_command < 2 ^ 13)
    (ha : (irmp_get_data c s1 d1).2.2.address = (irmp_get_data c s2 d2).2.2.address)
    (hk : (irmp_get_data c s1 d1).2.2.command = (irmp_get_data c s2 d2).2.2.command) :
    s1.irmp_command = s2.irmp_command := by
  obtain ⟨a1, k1⟩ := get_data_rccar_fields c s1 d1 hc hl1 hp1
  obtain ⟨a2, k2⟩ := get_data_rccar_fields c s2 d2 hc hl2 hp2
  rw [a1, a2] at ha
  rw [k1, k2] at hk
  rw [← rccar_raw_fields s1.irmp_command hr1, ← rccar_raw_fields s2.irmp_command hr2, ha, hk]

/-- Witness of C40: two latched RCCAR frames with the raw command `0x1ABD` and different
latched addresses are delivered alike, as `(RCCAR, 3, 0x5AB)`; the raw command `0x1ABE` is
delivered as `(RCCAR, 3, 0x6AB)`. -/
theorem C40_rccar_injective_witness :
    switch_build.IRMP_SUPPORT_RCCAR_PROTOCOL = true ∧
      (latched_frame IRMP_RCCAR_PROTOCOL 0 0x1ABD).irmp_command < 2 ^ 13 ∧
      (irmp_get_data switch_build (latched_frame IRMP_RCCAR_PROTOCOL 0 0x1ABD)
        ⟨0, 0, 0, 0⟩).2.2 =
        (irmp_get_data switch_build (latched_frame IRMP_RCCAR_PROTOCOL 7 0x1ABD)
          ⟨0, 0, 0, 0⟩).2.2 ∧
      (latched_frame IRMP_RCCAR_PROTOCOL 0 0x1ABD).irmp_command =
        (latched_frame IRMP_RCCAR_PROTOCOL 7 0x1ABD).irmp_command ∧
      (irmp_get_data switch_build (latched_frame IRMP_RCCAR_PROTOCOL 0 0x1ABD)
        ⟨0, 0, 0, 0⟩).2.2 = ⟨IRMP_RCCAR_PROTOCOL, 3, 0x5AB, 0⟩ ∧
      (irmp_get_data switch_build (latched_frame IRMP_RCCAR_PROTOCOL 0 0x1ABE)
        ⟨0, 0, 0, 0⟩).2.2 = ⟨IRMP_RCCAR_PROTOCOL, 3, 0x6AB, 0⟩ :=
  ⟨rfl, by decide, by decide,
    C40_rccar_injective switch_build (latched_frame IRMP_RCCAR_PROTOCOL 0 0x1ABD)
      (latched_frame IRMP_RCCAR_PROTOCOL 7 0x1ABD) ⟨0, 0, 0, 0⟩ ⟨0, 0, 0, 0⟩ rfl (by decide) rfl
      (by decide) rfl (by decide) (by decide) (by decide) (by decide), by decide, by decide⟩

/-! ## The bit count in the decoding phase -/

theorem store_bit_flags_kept (c : Config) (s : State) (v : Nat) :
    (irmp_store_bit c s v).irmp_start_bit_detected = s.irmp_start_bit_detected ∧
    (irmp_store_bit c s v).wait_for_start_space = s.wait_for_start_space := by
  constructor
  · simp only [irmp_store_bit, apply_ite State.irmp_start_bit_detected, store_xor_check,
      ite_self]
  · simp only [irmp_store_bit, apply_ite State.wait_for_start_space, store_xor_check,
      ite_self]

/-- The `switch` of `irmp_get_data` and the rest of `irmp_get_data` leave the variables of
the state machine alone. -/
theorem get_data_decoder_fields (c : Config) (s : State) (d : IRMP_DATA) :
    (irmp_get_data c s d).2.1.irmp_start_bit_detected = s.irmp_start_bit_detected ∧
    (irmp_get_data c s d).2.1.wait_for_start_space = s.wait_for_start_space ∧
    (irmp_get_data c s d).2.1.wait_for_space = s.wait_for_space ∧
    (irmp_get_data c s d).2.1.irmp_param = s.irmp_param ∧
    (irmp_get_data c s d).2.1.irmp_bit = s.irmp_bit ∧
    (irmp_get_data c s d).2.1.irmp_pause_time = s.irmp_pause_time := by
  have e1 : (get_data_switch c s).2.irmp_start_bit_detected = s.irmp_start_bit_detected := by
    simp only [get_data_switch, snd_ite, apply_ite State.irmp_start_bit_detected, ite_self]
  have e2 : (get_data_switch c s).2.wait_for_start_space = s.wait_for_start_space := by
    simp only [get_data_switch, snd_ite, apply_ite State.wait_for_start_space, ite_self]
  have e3 : (get_data_switch c s).2.wait_for_space = s.wait_for_space := by
    simp only [get_data_switch, snd_ite, apply_ite State.wait_for_space, ite_self]
  have e4 : (get_data_switch c s).2.irmp_param = s.irmp_param := by
    simp only [get_data_switch, snd_ite, apply_ite State.irmp_param, ite_self]
  have e5 : (get_data_switch c s).2.irmp_bit = s.irmp_bit := by
    simp only [get_data_switch, snd_ite, apply_ite State.irmp_bit, ite_self]
  have e6 : (get_data_switch c s).2.irmp_pause_time = s.irmp_pause_time := by
    simp only [get_data_switch, snd_ite, apply_ite State.irmp_pause_time, ite_self]
  unfold irmp_get_data
  dsimp only
  split_ifs
  · exact ⟨e1, e2, e3, e4, e5, e6⟩
  · exact ⟨e1, e2, e3, e4, e5, e6⟩
  · exact ⟨rfl, rfl, rfl, rfl, rfl, rfl⟩

theorem pred_ite_cond {α : Type} (P : α → Prop) (p : Prop) [Decidable p] (a b : α)
    (ha : p → P a) (hb : ¬ p → P b) : P (if p then a else b) := by
  split_ifs with h
  · exact ha h
  · exact hb h

theorem u8_lt (x : Int) : u8 x < 256 := by
  unfold u8
  omega

theorem store_bit_wait_for_space (c : Config) (s : State) (v : Nat) :
    (irmp_store_bit c s v).wait_for_space = s.wait_for_space := by
  simp only [irmp_store_bit, apply_ite State.wait_for_space, store_xor_check, ite_self]

/-- Lines 1904-1946: a start bit is detected with `wait_for_start_space` set and
`wait_for_space` cleared. -/
theorem isr_idle_start (c : Config) (s : State) (x : Bool) (h0 : s.irmp_start_bit_detected = 0)
    (h : (isr_idle c s x).irmp_start_bit_detected ≠ 0) :
    (isr_idle c s x).wait_for_start_space ≠ 0 ∧ (isr_idle c s x).wait_for_space = 0 := by
  unfold isr_idle at h ⊢
  dsimp only at h ⊢
  by_cases hx : x = false
  · rw [if_pos hx] at h
    exact absurd h0 h
  · rw [if_neg hx] at h ⊢
    by_cases hp : s.irmp_pulse_time ≠ 0
    · rw [if_pos hp]
      split_ifs <;> exact ⟨Nat.one_ne_zero, rfl⟩
    · rw [if_neg hp] at h
      split_ifs at h <;> exact absurd h0 h

/-- Lines 1981-2350: the classifier either chooses a descriptor or clears the start bit
flag. -/
theorem classify_found (c : Config) (s : State)
    (h : (classify c s).2.irmp_start_bit_detected ≠ 0) : ∃ p, (classify c s).1 = some p := by
  have key : ∀ (P : Option IRMP_PARAMETER × State → Prop),
      (∀ p t, P (some p, t)) → P (none, { s with irmp_start_bit_detected := 0 }) →
      P (classify c s) := by
    intro P h1 h2
    unfold classify
    dsimp only
    repeat' refine pred_ite P _ _ _ ?_ ?_
    all_goals first | exact h1 _ _ | exact h2
  exact key (fun r => r.2.irmp_start_bit_detected ≠ 0 → ∃ p, r.1 = some p)
    (fun p _ _ => ⟨p, rfl⟩) (fun g => absurd rfl g) h

theorem classify_wait_for_space (c : Config) (s : State) :
    (classify c s).2.wait_for_space = s.wait_for_space := by
  simp only [classify, snd_ite, apply_ite State.wait_for_space, ite_self]

theorem load_param_fields (r : Option IRMP_PARAMETER × State) :
    (load_param r).irmp_start_bit_detected = r.2.irmp_start_bit_detected ∧
    (load_param r).wait_for_space = r.2.wait_for_space := by
  unfold load_param
  cases r.1 <;> constructor <;> dsimp only <;> split_ifs <;> rfl

theorem load_param_found (r : Option IRMP_PARAMETER × State) (p : IRMP_PARAMETER)
    (h : r.2.irmp_start_bit_detected ≠ 0) (hp : r.1 = some p) :
    (load_param r).irmp_param = p := by
  unfold load_param
  rw [if_pos h, hp]

theorem first_data_bit_fields (c : Config) (s : State) :
    (first_data_bit c s).irmp_start_bit_detected = s.irmp_start_bit_detected ∧
    (first_data_bit c s).wait_for_space = s.wait_for_space ∧
    (first_data_bit c s).irmp_param = s.irmp_param := by
  refine ⟨?_, ?_, ?_⟩
  · simp only [first_data_bit, apply_ite State.irmp_start_bit_detected,
      (store_bit_flags_kept _ _ _).1, ite_self]
  · simp only [first_data_bit, apply_ite State.wait_for_space, store_bit_wait_for_space,
      ite_self]
  · simp only [first_data_bit, apply_ite State.irmp_param, store_bit_param, ite_self]

/-- Lines 2409-2486: after the first data bit `irmp_bit` is 0, or 1 for a Manchester, Denon
or Thomson descriptor. -/
theorem first_data_bit_index (c : Config) (s : State) :
    (first_data_bit c s).irmp_bit = 0 ∨
    ((first_data_bit c s).irmp_bit = 1 ∧
      ((c.IRMP_SUPPORT_MANCHESTER ∧ has_flag s.irmp_param IRMP_PARAM_FLAG_IS_MANCHESTER) ∨
        (c.IRMP_SUPPORT_DENON_PROTOCOL ∧ s.irmp_param.protocol = IRMP_DENON_PROTOCOL) ∨
        (c.IRMP_SUPPORT_THOMSON_PROTOCOL ∧ s.irmp_param.protocol = IRMP_THOMSON_PROTOCOL))) := by
  unfold first_data_bit
  dsimp only
  split_ifs with h1 h2 h3 h4 h5 h6 h7 h8
  all_goals first
    | exact Or.inl rfl
    | exact Or.inr ⟨by rw [store_bit_index]; rfl, Or.inl ⟨h1.1, h1.2.1⟩⟩
    | exact Or.inr ⟨by rw [store_bit_index]; rfl, Or.inr (Or.inl (by assumption))⟩
    | exact Or.inr ⟨by rw [store_bit_index]; rfl, Or.inr (Or.inr (by assumption))⟩

/-- Lines 1981-2350: the classifier loads a descriptor of the list `descriptors`. -/
theorem classify_descriptor (c : Config) (s : State) (p : IRMP_PARAMETER)
    (h : (classify c s).1 = some p) : p ∈ descriptors c := by
  have key : ∀ (P : Option IRMP_PARAMETER × State → Prop),
      (∀ q t, q ∈ descriptors c → P (some q, t)) → (∀ t, P (none, t)) →
      P (classify c s) := by
    intro P h1 h2
    unfold classify
    dsimp only
    repeat' refine pred_ite_cond P _ _ _ (fun h => ?_) (fun _ => ?_)
    all_goals first
      | exact h2 _
      | (refine h1 _ _ ?_
         simp only [descriptors, h.1, if_true, List.mem_append, List.mem_cons, List.mem_singleton,
           true_or, or_true, List.not_mem_nil, or_false, false_or])
      | (refine h1 _ _ ?_
         rename_i h0
         simp only [descriptors, h0.1, if_true, List.mem_append, List.mem_cons,
           List.mem_singleton, true_or, or_true, List.not_mem_nil, or_false, false_or])
  exact key (fun r => r.1 = some p → p ∈ descriptors c)
    (fun q _ hq e => by rw [← Option.some.inj e]; exact hq) (fun _ e => absurd e (by simp)) h

/-- Lines 1980-2491 in a regular build: after the start pause the decoder works with a
regular descriptor from `irmp_bit = 0` or 1, or the start bit flag is cleared. -/
theorem isr_start_light_regular (c : Config) (hc : regular_build c) (s : State)
    (h : (isr_start_light c s).irmp_start_bit_detected ≠ 0) :
    regular_descriptor c (isr_start_light c s).irmp_param ∧
    (isr_start_light c s).irmp_bit ≤ (isr_start_light c s).irmp_param.complete_len ∧
    (isr_start_light c s).wait_for_start_space = 0 ∧
    (isr_start_light c s).wait_for_space = s.wait_for_space := by
  have e0 : (isr_start_light c s).irmp_start_bit_detected =
      (classify c (reset_param2 c s)).2.irmp_start_bit_detected := by
    show (first_data_bit c (load_param (classify c (reset_param2 c s)))).irmp_start_bit_detected
      = _
    rw [(first_data_bit_fields _ _).1, (load_param_fields _).1]
  rw [e0] at h
  obtain ⟨p, hp⟩ := classify_found c _ h
  have e1 : (isr_start_light c s).irmp_param = p := by
    show (first_data_bit c (load_param (classify c (reset_param2 c s)))).irmp_param = _
    rw [(first_data_bit_fields _ _).2.2, load_param_found _ p h hp]
  have hr := hc p (classify_descriptor c _ p hp)
  have e2 : (isr_start_light c s).wait_for_space = s.wait_for_space := by
    show (first_data_bit c (load_param (classify c (reset_param2 c s)))).wait_for_space = _
    rw [(first_data_bit_fields _ _).2.1, (load_param_fields _).2, classify_wait_for_space]
    simp only [reset_param2, apply_ite State.wait_for_space, ite_self]
  have e3 : (isr_start_light c s).irmp_bit =
      (first_data_bit c (load_param (classify c (reset_param2 c s)))).irmp_bit := rfl
  refine ⟨by rw [e1]; exact hr, ?_, rfl, e2⟩
  rw [e1, e3]
  rcases first_data_bit_index c (load_param (classify c (reset_param2 c s))) with g | ⟨g, hk⟩
  · rw [g]; exact Nat.zero_le _
  · rw [g]
    rw [load_param_found _ p h hp] at hk
    rcases hk with k | k | k
    · exact absurd k hr.1.1
    · exact hr.2.2.2.1 k.1 k.2
    · exact hr.2.2.2.2 k.1 k.2

/-- Every row of the protocol table has a `uint8_t` bit count. -/
theorem descriptors_complete_len (c : Config) (p : IRMP_PARAMETER) (h : p ∈ descriptors c) :
    p.complete_len < 256 := by
  unfold descriptors at h
  simp only [List.mem_append, List.mem_ite_nil_right, List.mem_singleton, List.mem_cons,
    List.not_mem_nil, or_false] at h
  casesm* _ ∨ _, _ ∧ _
  all_goals
    rename_i h
    first
      | (rw [h]; exact u8_lt _)
      | (rw [h]; split_ifs <;> exact u8_lt _)
      | (rw [h]; show (0 : Nat) < 256; decide)

theorem has_flag_congr (p q : IRMP_PARAMETER) (m : Nat) (h : q.flags = p.flags) :
    has_flag q m ↔ has_flag p m := by
  unfold has_flag
  rw [h]

/-- A descriptor that differs from a regular one in the frame geometry only, under a
protocol without a branch of its own (SIRCS, SAMSUNG32, NEC16 or JVC), is regular. -/
theorem regular_neutral (c : Config) (p q : IRMP_PARAMETER) (hp : regular_descriptor c p)
    (hf : q.flags = p.flags) (hs : q.stop_bit ≤ 1) (hl : q.complete_len < 256)
    (h1 : q.pause_1_len_min = p.pause_1_len_min) (h0 : q.pause_0_len_min = p.pause_0_len_min)
    (hn : q.protocol = IRMP_SIRCS_PROTOCOL ∨ q.protocol = IRMP_SAMSUNG32_PROTOCOL ∨
      q.protocol = IRMP_NEC16_PROTOCOL ∨ q.protocol = IRMP_JVC_PROTOCOL) :
    regular_descriptor c q := by
  obtain ⟨⟨d1, _, _, d4, _, _⟩, _, _⟩ := hp
  have ne : ∀ k : Nat, k ≠ IRMP_SIRCS_PROTOCOL → k ≠ IRMP_SAMSUNG32_PROTOCOL →
      k ≠ IRMP_NEC16_PROTOCOL → k ≠ IRMP_JVC_PROTOCOL → q.protocol ≠ k := by
    intro k k1 k2 k3 k4 e
    rcases hn with g | g | g | g
    · exact k1 (e.symm.trans g)
    · exact k2 (e.symm.trans g)
    · exact k3 (e.symm.trans g)
    · exact k4 (e.symm.trans g)
  have n1 := ne IRMP_GRUNDIG_PROTOCOL (by decide) (by decide) (by decide) (by decide)
  have n2 := ne IRMP_RUWIDO_PROTOCOL (by decide) (by decide) (by decide) (by decide)
  have n3 := ne IRMP_SAMSUNG_PROTOCOL (by decide) (by decide) (by decide) (by decide)
  have n4 := ne IRMP_NEC_PROTOCOL (by decide) (by decide) (by decide) (by decide)
  have n5 := ne IRMP_NEC42_PROTOCOL (by decide) (by decide) (by decide) (by decide)
  have n6 := ne IRMP_BANG_OLUFSEN_PROTOCOL (by decide) (by decide) (by decide) (by decide)
  have n7 := ne IRMP_KATHREIN_PROTOCOL (by decide) (by decide) (by decide) (by decide)
  have n8 := ne IRMP_DENON_PROTOCOL (by decide) (by decide) (by decide) (by decide)
  have n9 := ne IRMP_THOMSON_PROTOCOL (by decide) (by decide) (by decide) (by decide)
  refine ⟨⟨?_, hs, hl, ?_, fun _ => n1, fun _ => n2⟩,
    ⟨fun _ g => absurd g n3, fun _ g => ?_, fun _ g => absurd g n6, fun _ g => absurd g n7⟩,
    ⟨fun _ g => ?_, fun _ g => absurd g n8, fun _ g => absurd g n9⟩⟩
  · exact fun g => d1 ⟨g.1, (has_flag_congr p q _ hf).mp g.2⟩
  · intro g
    rw [h1, h0]
    exact d4 (fun k => g ⟨k.1, (has_flag_congr p q _ hf).mpr k.2⟩)
  · rcases g with g | g
    · exact absurd g n4
    · exact absurd g n5
  · rcases g with g | g
    · exact absurd g n4
    · exact absurd g n5

/-- The NEC descriptor a timed-out NEC42 frame is promoted to (lines 2657-2670) is
regular. -/
theorem regular_nec_promoted (c : Config) (p q : IRMP_PARAMETER) (hp : regular_descriptor c p)
    (hpp : p.protocol = IRMP_NEC42_PROTOCOL) (hq : q.protocol = IRMP_NEC_PROTOCOL)
    (hf : q.flags = p.flags) (hs : q.stop_bit ≤ 1) (hl : q.complete_len < 256)
    (h1 : q.pause_1_len_min = p.pause_1_len_min) (h0 : q.pause_0_len_min = p.pause_0_len_min)
    (g1 : q.pause_1_len_max = p.pause_1_len_max) (g0 : q.pause_0_len_max = p.pause_0_len_max) :
    regular_descriptor c q := by
  obtain ⟨⟨d1, _, _, d4, _, _⟩, ⟨_, s2, _, _⟩, ⟨t1, _, _⟩⟩ := hp
  refine ⟨⟨?_, hs, hl, ?_, fun _ => by rw [hq]; decide, fun _ => by rw [hq]; decide⟩,
    ⟨fun _ g => ?_, fun k _ => s2 k (Or.inr hpp), fun _ g => ?_, fun _ g => ?_⟩,
    ⟨fun k _ => ?_, fun _ g => ?_, fun _ g => ?_⟩⟩
  · exact fun g => d1 ⟨g.1, (has_flag_congr p q _ hf).mp g.2⟩
  · intro g
    rw [h1, h0]
    exact d4 (fun k => g ⟨k.1, (has_flag_congr p q _ hf).mpr k.2⟩)
  · rw [hq] at g; exact absurd g (by decide)
  · rw [hq] at g; exact absurd g (by decide)
  · rw [hq] at g; exact absurd g (by decide)
  · rw [g1, g0]; exact t1 k (Or.inr hpp)
  · rw [hq] at g; exact absurd g (by decide)
  · rw [hq] at g; exact absurd g (by decide)

theorem bit_stored_pulse (c : Config) (s x : State) (h : bit_stored c s x) :
    bit_stored c s { x with irmp_pulse_time := 1 } := h

theorem bit_stored_dropped (c : Config) (s x : State) (h : x.irmp_start_bit_detected = 0) :
    bit_stored c s x := fun g => absurd h g

/-- One more bit below `complete_len`: `t` agrees with `irmp_store_bit` on the bit count
and the descriptor, and a pulse is being counted. -/
theorem bit_stored_of_store (c : Config) (s t : State) (v : Nat)
    (hr : regular_descriptor c s.irmp_param) (hlt : s.irmp_bit < s.irmp_param.complete_len)
    (e1 : t.wait_for_start_space = (irmp_store_bit c s v).wait_for_start_space)
    (e2 : t.wait_for_space = 0) (e3 : t.irmp_param = (irmp_store_bit c s v).irmp_param)
    (e4 : t.irmp_bit = (irmp_store_bit c s v).irmp_bit) : bit_stored c s t := by
  intro _
  refine ⟨e1.trans (store_bit_flags_kept _ _ _).2, e2, ?_, ?_⟩
  · rw [e3, store_bit_param]; exact hr
  · rw [e3, e4, store_bit_param, store_bit_index]
    exact Nat.le_trans (Nat.mod_le _ _) hlt

/-- One more position below `complete_len` without a stored bit (a sync bit). -/
theorem bit_stored_of_skip (c : Config) (s t : State)
    (hr : regular_descriptor c s.irmp_param) (hlt : s.irmp_bit < s.irmp_param.complete_len)
    (e1 : t.wait_for_start_space = s.wait_for_start_space)
    (e2 : t.wait_for_space = 0) (e3 : t.irmp_param = s.irmp_param)
    (e4 : t.irmp_bit = (s.irmp_bit + 1) % 256) : bit_stored c s t := by
  intro _
  refine ⟨e1, e2, ?_, ?_⟩
  · rw [e3]; exact hr
  · rw [e3, e4]
    exact Nat.le_trans (Nat.mod_le _ _) hlt

/-- With `complete_len` bits stored and the pause no pause of a data bit, neither window of
the pulse distance decoder matches. -/
theorem stop_pause_rejected (c : Config) (s : State) (hr : regular_descriptor c s.irmp_param)
    (hn : ¬ (c.IRMP_SUPPORT_SERIAL ∧ has_flag s.irmp_param IRMP_PARAM_FLAG_IS_SERIAL))
    (hq : stop_pause s) :
    ¬ (s.irmp_param.pause_1_len_min ≤ s.irmp_pause_time ∧
        s.irmp_pause_time ≤ s.irmp_param.pause_1_len_max) ∧
    ¬ (s.irmp_param.pause_0_len_min ≤ s.irmp_pause_time ∧
        s.irmp_pause_time ≤ s.irmp_param.pause_0_len_max) := by
  have w := hr.1.2.2.2.1 hn
  rcases hq with g | ⟨_, g1, g0⟩
  · constructor <;> intro k <;> omega
  · constructor <;> intro k <;> omega

/-- A loop of the serial decoder keeps the descriptor and `wait_for_start_space`, and keeps
`irmp_bit` within `complete_len`. -/
theorem serial_loop_kept (cond : State → Prop) [DecidablePred cond] (body : State → State)
    (loop : Nat → State → State) (h0 : ∀ s, loop 0 s = s)
    (hs : ∀ n s, loop (n + 1) s = if cond s then loop n (body s) else s)
    (hc : ∀ s, cond s → s.irmp_bit < s.irmp_param.complete_len)
    (hb : ∀ s, (body s).irmp_bit = (s.irmp_bit + 1) % 256 ∧
      (body s).irmp_param = s.irmp_param)
    (hw : ∀ s, (body s).wait_for_start_space = s.wait_for_start_space) :
    ∀ (n : Nat) (s : State), (loop n s).irmp_param = s.irmp_param ∧
      (loop n s).wait_for_start_space = s.wait_for_start_space ∧
      (s.irmp_bit ≤ s.irmp_param.complete_len →
        (loop n s).irmp_bit ≤ s.irmp_param.complete_len) := by
  intro n
  induction n with
  | zero =>
    intro s
    rw [h0]
    exact ⟨rfl, rfl, fun h => h⟩
  | succ n ih =>
    intro s
    rw [hs]
    by_cases hcs : cond s
    · rw [if_pos hcs]
      obtain ⟨i1, i2, i3⟩ := ih (body s)
      rw [(hb s).2] at i1 i3
      rw [hw s] at i2
      refine ⟨i1, i2, fun _ => i3 ?_⟩
      rw [(hb s).1]
      exact Nat.le_trans (Nat.mod_le _ _) (hc s hcs)
    · rw [if_neg hcs]
      exact ⟨rfl, rfl, fun h => h⟩

theorem serial_body_start_space (c : Config) (s : State) :
    (serial_pulse_body c s).wait_for_start_space = s.wait_for_start_space ∧
    (serial_pause_body c s).wait_for_start_space = s.wait_for_start_space := by
  constructor
  · simp only [serial_pulse_body, apply_ite State.wait_for_start_space,
      (store_bit_flags_kept _ _ _).2, ite_self]
  · simp only [serial_pause_body, apply_ite State.wait_for_start_space,
      (store_bit_flags_kept _ _ _).2, ite_self]

/-- Lines 2902-2935: the serial decoder stores bits below `complete_len` only. -/
theorem got_light_serial_stored (c : Config) (s : State)
    (hr : regular_descriptor c s.irmp_param) (hb : s.irmp_bit ≤ s.irmp_param.complete_len) :
    bit_stored c s (got_light_serial c s) := by
  have B1 := serial_loop_kept serial_pulse_cond (serial_pulse_body c) (serial_pulse_loop c)
    (fun _ => rfl) (serial_pulse_loop_succ c) (fun _ hc => hc.1) (serial_pulse_body_fields c)
    (fun t => (serial_body_start_space c t).1) 256 s
  have B2 := serial_loop_kept serial_pause_cond (serial_pause_body c) (serial_pause_loop c)
    (fun _ => rfl) (serial_pause_loop_succ c) (fun _ hc => hc.1) (serial_pause_body_fields c)
    (fun t => (serial_body_start_space c t).2) 256 (serial_pulse_loop c 256 s)
  obtain ⟨a1, a2, a3⟩ := B1
  obtain ⟨b1, b2, b3⟩ := B2
  rw [a1] at b1 b3
  intro _
  refine ⟨b2.trans a2, rfl, ?_, ?_⟩
  · show regular_descriptor c
      (serial_pause_loop c 256 (serial_pulse_loop c 256 s)).irmp_param
    rw [b1]; exact hr
  · show (serial_pause_loop c 256 (serial_pulse_loop c 256 s)).irmp_bit ≤
      (serial_pause_loop c 256 (serial_pulse_loop c 256 s)).irmp_param.complete_len
    rw [b1]
    exact b3 (a3 hb)

/-- Lines 2940-2982: the sync bit of Samsung is position 16 of a longer frame, and the
frame that turns out to be SAMSUNG32 is longer as well. -/
theorem got_light_samsung_stored (c : Config) (s : State)
    (hr : regular_descriptor c s.irmp_param)
    (h : c.IRMP_SUPPORT_SAMSUNG_PROTOCOL = true ∧
      s.irmp_param.protocol = IRMP_SAMSUNG_PROTOCOL ∧ s.irmp_bit = 16) :
    bit_stored c s (got_light_samsung c s) := by
  obtain ⟨g1, g2⟩ := hr.2.1.1 h.1 h.2.1
  have hlt : s.irmp_bit < s.irmp_param.complete_len := by rw [h.2.2]; omega
  have hnew : regular_descriptor c
      { s.irmp_param with
          protocol := IRMP_SAMSUNG32_PROTOCOL,
          command_offset := u8 (c.K .SAMSUNG32_COMMAND_OFFSET),
          command_end := u8 (c.K .SAMSUNG32_COMMAND_OFFSET + c.K .SAMSUNG32_COMMAND_LEN),
          complete_len := u8 (c.K .SAMSUNG32_COMPLETE_DATA_LEN) } :=
    regular_neutral c s.irmp_param _ hr rfl hr.1.2.1 (u8_lt _) rfl rfl (Or.inr (Or.inl rfl))
  have sw : ∀ v : Nat, bit_stored c s
      { irmp_store_bit c
          { s with irmp_param :=
              { s.irmp_param with
                  protocol := IRMP_SAMSUNG32_PROTOCOL,
                  command_offset := u8 (c.K .SAMSUNG32_COMMAND_OFFSET),
                  command_end := u8 (c.K .SAMSUNG32_COMMAND_OFFSET + c.K .SAMSUNG32_COMMAND_LEN),
                  complete_len := u8 (c.K .SAMSUNG32_COMPLETE_DATA_LEN) } } v with
          wait_for_space := 0 } := by
    intro v _
    refine ⟨(store_bit_flags_kept _ _ _).2, rfl, ?_, ?_⟩
    · show regular_descriptor c (irmp_store_bit c _ v).irmp_param
      rw [store_bit_param]; exact hnew
    · show (irmp_store_bit c _ v).irmp_bit ≤ (irmp_store_bit c _ v).irmp_param.complete_len
      rw [store_bit_param, store_bit_index]
      show (s.irmp_bit + 1) % 256 ≤ u8 (c.K .SAMSUNG32_COMPLETE_DATA_LEN)
      rw [h.2.2]
      exact g2
  unfold got_light_samsung
  dsimp only
  split_ifs
  · exact bit_stored_of_skip c s _ hr hlt rfl rfl rfl rfl
  · exact sw 1
  · exact sw 0
  · exact bit_stored_dropped c s _ rfl

theorem within_one (lo hi : Int) (h : 2 ≤ lo) : ¬ within 1 lo hi := by
  unfold within
  intro k
  have := k.1
  omega

/-- Lines 3007-3088: the Bang & Olufsen decoder stores bits below `complete_len` only. -/
theorem got_light_bang_olufsen_stored (c : Config) (s : State)
    (hr : regular_descriptor c s.irmp_param)
    (hb : s.irmp_bit ≤ s.irmp_param.complete_len)
    (hq : s.irmp_bit = s.irmp_param.complete_len → stop_pause s)
    (h : c.IRMP_SUPPORT_BANG_OLUFSEN_PROTOCOL = true ∧
      s.irmp_param.protocol = IRMP_BANG_OLUFSEN_PROTOCOL) :
    bit_stored c s (got_light_bang_olufsen c s) := by
  obtain ⟨g1, g2, g3, g4⟩ := hr.2.1.2.2.1 h.1 h.2
  have one : s.irmp_bit = s.irmp_param.complete_len → s.irmp_pause_time = 1 := by
    intro e
    rcases hq e with k | ⟨k, _⟩
    · exact k
    · rw [h.2] at k
      rcases k with k | k <;> exact absurd k (by decide)
  have lt_of : ∀ lo hi : Int, 2 ≤ lo → within s.irmp_pause_time lo hi →
      s.irmp_bit < s.irmp_param.complete_len := by
    intro lo hi hlo hw
    rcases Nat.lt_or_ge s.irmp_bit s.irmp_param.complete_len with k | k
    · exact k
    · have e := one (Nat.le_antisymm hb k)
      rw [e] at hw
      exact absurd hw (within_one lo hi hlo)
  unfold got_light_bang_olufsen
  dsimp only
  split_ifs with w0 b1 w1 b19 w19 w2 w3 w4
  · exact bit_stored_of_skip c s _ hr (by omega) rfl rfl rfl rfl
  · exact bit_stored_dropped c s _ rfl
  · exact bit_stored_of_skip c s _ hr (by omega) rfl rfl rfl rfl
  · exact bit_stored_dropped c s _ rfl
  · exact bit_stored_of_store c s _ 1 hr (lt_of _ _ g2 w2) rfl rfl rfl rfl
  · exact bit_stored_of_store c s _ 0 hr (lt_of _ _ g3 w3) rfl rfl rfl rfl
  · exact bit_stored_of_store c s _ s.last_value hr (lt_of _ _ g4 w4) rfl rfl rfl rfl
  · exact bit_stored_dropped c s _ rfl
  · exact bit_stored_dropped c s _ rfl

/-- Lines 2705-3145 in a regular build: a run pair stores bits below `complete_len` only;
with `complete_len` bits stored, a pause that is no pause of a data bit ends the frame. -/
theorem got_light_stored (c : Config) (s : State) (hr : regular_descriptor c s.irmp_param)
    (hb : s.irmp_bit ≤ s.irmp_param.complete_len)
    (hq : s.irmp_bit = s.irmp_param.complete_len → stop_pause s) :
    bit_stored c s (isr_got_light c s) := by
  unfold isr_got_light
  dsimp only
  apply bit_stored_pulse
  refine pred_ite_cond (bit_stored c s) _ _ _ (fun h => absurd h hr.1.1) (fun _ => ?_)
  refine pred_ite_cond (bit_stored c s) _ _ _ (fun _ => got_light_serial_stored c s hr hb)
    (fun hser => ?_)
  refine pred_ite_cond (bit_stored c s) _ _ _ (fun h => got_light_samsung_stored c s hr h)
    (fun _ => ?_)
  refine pred_ite_cond (bit_stored c s) _ _ _ (fun h => ?_) (fun _ => ?_)
  · -- lines 2985-3002: the frame turns out to be NEC16
    have hp : s.irmp_param.protocol = IRMP_NEC_PROTOCOL ∨
        s.irmp_param.protocol = IRMP_NEC42_PROTOCOL := by
      have h5 := h.2.1
      split_ifs at h5
      · exact Or.inr h5
      · exact Or.inl h5
    have g := hr.2.1.2.1 h.1 hp
    intro _
    refine ⟨rfl, rfl, ?_, ?_⟩
    · exact regular_neutral c s.irmp_param _ hr rfl hr.1.2.1 (u8_lt _) rfl rfl
        (Or.inr (Or.inr (Or.inl rfl)))
    · show s.irmp_bit ≤ u8 (c.K .NEC16_COMPLETE_DATA_LEN)
      rw [h.2.2.1]
      exact g
  refine pred_ite_cond (bit_stored c s) _ _ _
    (fun h => got_light_bang_olufsen_stored c s hr hb hq h) (fun _ => ?_)
  have hlt : ∀ lo hi : Nat, (lo = s.irmp_param.pause_1_len_min ∧ hi = s.irmp_param.pause_1_len_max) ∨
      (lo = s.irmp_param.pause_0_len_min ∧ hi = s.irmp_param.pause_0_len_max) →
      lo ≤ s.irmp_pause_time ∧ s.irmp_pause_time ≤ hi →
      s.irmp_bit < s.irmp_param.complete_len := by
    intro lo hi hw k
    rcases Nat.lt_or_ge s.irmp_bit s.irmp_param.complete_len with g | g
    · exact g
    · have r := stop_pause_rejected c s hr hser (hq (Nat.le_antisymm hb g))
      rcases hw with ⟨e1, e2⟩ | ⟨e1, e2⟩
      · subst e1 e2; exact absurd k r.1
      · subst e1 e2; exact absurd k r.2
  refine pred_ite_cond (bit_stored c s) _ _ _ (fun h => ?_) (fun _ => ?_)
  · exact bit_stored_of_store c s _ 1 hr (hlt _ _ (Or.inl ⟨rfl, rfl⟩) h.2.2) rfl rfl rfl rfl
  refine pred_ite_cond (bit_stored c s) _ _ _ (fun h => ?_) (fun _ => ?_)
  · exact bit_stored_of_store c s _ 0 hr (hlt _ _ (Or.inr ⟨rfl, rfl⟩) h.2.2) rfl rfl rfl rfl
  refine pred_ite_cond (bit_stored c s) _ _ _ (fun h => ?_) (fun _ => ?_)
  · -- lines 3110-3134: the sync bits of Kathrein
    have g := hr.2.1.2.2.2 h.1 h.2.1
    have hl : s.irmp_bit < s.irmp_param.complete_len := by
      rcases h.2.2.2 with ⟨k | k, _⟩ | ⟨k, _⟩ <;> omega
    refine pred_ite_cond (bit_stored c s) _ _ _ (fun _ => ?_) (fun _ => ?_)
    · exact bit_stored_of_skip c s _ hr hl rfl rfl rfl rfl
    · exact bit_stored_of_store c s _ 1 hr hl rfl rfl rfl rfl
  · exact bit_stored_dropped c s _ rfl

theorem decoder_inv_of_idle (c : Config) (m : State) (h : m.irmp_start_bit_detected = 0) :
    decoder_inv c m :=
  fun h1 => absurd h h1

theorem decoder_inv_of_stored (c : Config) (s t : State) (h : bit_stored c s t)
    (hs : s.wait_for_start_space = 0) : decoder_inv c t := by
  intro st
  obtain ⟨e1, e2, e3, e4⟩ := h st
  exact ⟨fun g => absurd (e1.trans hs) g, fun _ => ⟨e3, e4, fun g => absurd e2 g⟩⟩

/-- Line 3160 and lines 3371-3374: after the test of line 3160 the invariant holds and no
complete frame is left in the decoding phase. -/
theorem decoder_inv_frame_end (c : Config) (m : State)
    (hm : ¬ frame_complete m → decoder_inv c m) :
    decoder_inv c (isr_frame_end c m) ∧
    (decoding (isr_frame_end c m) → ¬ frame_complete (isr_frame_end c m)) := by
  by_cases hc : frame_complete m
  · have e := isr_frame_end_start_bit c m hc
    exact ⟨decoder_inv_of_idle c _ e, fun g => absurd e g.1⟩
  · rw [isr_frame_end_incomplete c m hc]
    exact ⟨hm hc, fun _ => hc⟩

/-- Lines 2636-2697 in the decoding phase of a regular build, below `complete_len`: the
frame is completed, dropped, or promoted to JVC or NEC with `complete_len` set to the bits
stored, the stop bit pending and a pause beyond both pause windows. -/
theorem data_timeout_inv (c : Config) (s : State) (hr : regular_descriptor c s.irmp_param)
    (hlt : s.irmp_bit < s.irmp_param.complete_len) (hw : s.wait_for_start_space = 0)
    (ht : (s.irmp_pause_time : Int) > c.K .IRMP_TIMEOUT_LEN)
    (hn : ¬ frame_complete (data_timeout c s)) : decoder_inv c (data_timeout c s) := by
  have h256 := hr.1.2.2.1
  have beyond : c.IRMP_SUPPORT_JVC_PROTOCOL = true ∨ c.IRMP_SUPPORT_NEC42_PROTOCOL = true →
      s.irmp_param.protocol = IRMP_NEC_PROTOCOL ∨ s.irmp_param.protocol = IRMP_NEC42_PROTOCOL →
      s.irmp_param.pause_1_len_max < s.irmp_pause_time ∧
      s.irmp_param.pause_0_len_max < s.irmp_pause_time := by
    intro k1 k2
    have g := hr.2.2.1 k1 k2
    constructor <;> omega
  unfold data_timeout at hn ⊢
  dsimp only at hn ⊢
  split_ifs at hn ⊢ with h1 h2 h3 h4
  · intro st
    exfalso
    apply hn
    refine ⟨st, ?_, h1.2⟩
    show (s.irmp_bit + 1) % 256 = s.irmp_param.complete_len
    have := h1.1
    omega
  · intro _
    refine ⟨fun g => absurd hw g, fun _ => ⟨?_, Nat.le_refl _, fun _ _ => Or.inr ⟨Or.inr rfl, ?_⟩⟩⟩
    · exact regular_neutral c s.irmp_param _ hr rfl (Nat.le_refl 1)
        (Nat.lt_trans hlt h256) rfl rfl (Or.inr (Or.inr (Or.inr rfl)))
    · exact beyond (Or.inl h2.1) (Or.inl h2.2.1)
  · intro _
    refine ⟨fun g => absurd hw g, fun _ => ⟨?_, Nat.le_refl _, fun _ _ => Or.inr ⟨Or.inl rfl, ?_⟩⟩⟩
    · exact regular_nec_promoted c s.irmp_param _ hr h3.2.2.1 rfl rfl (Nat.le_refl 1)
        (Nat.lt_trans hlt h256) rfl rfl rfl rfl
    · exact beyond (Or.inr h3.1) (Or.inr h3.2.2.1)
  · intro _
    refine ⟨fun g => absurd hw g, fun _ => ⟨?_, Nat.le_refl _, fun _ _ => Or.inr ⟨Or.inr rfl, ?_⟩⟩⟩
    · exact regular_neutral c s.irmp_param _ hr rfl (Nat.le_refl 1)
        (Nat.lt_trans hlt h256) rfl rfl (Or.inr (Or.inr (Or.inr rfl)))
    · exact beyond (Or.inr h4.1) (Or.inr h4.2.2.1)
  · exact decoder_inv_of_idle c _ rfl

/-- Lines 2497-2699 and the run pair they may complete, in the decoding phase of a regular
build: unless the frame is complete, the invariant holds after the dark tick. -/
theorem space_dark_inv (c : Config) (s : State) (hr : regular_descriptor c s.irmp_param)
    (hb : s.irmp_bit ≤ s.irmp_param.complete_len) (hw : s.wait_for_start_space = 0)
    (hs : s.irmp_start_bit_detected ≠ 0) (hf : ¬ frame_complete s)
    (hn : ¬ frame_complete
      (if (isr_space_dark c s).2 then isr_got_light c (isr_space_dark c s).1
        else (isr_space_dark c s).1)) :
    decoder_inv c
      (if (isr_space_dark c s).2 then isr_got_light c (isr_space_dark c s).1
        else (isr_space_dark c s).1) := by
  have key : ∀ P : State × Bool → Prop,
      (∀ t : State, (¬ frame_complete t → decoder_inv c t) → P (t, false)) →
      (∀ t : State, (¬ frame_complete (isr_got_light c t) →
        decoder_inv c (isr_got_light c t)) → P (t, true)) →
      P (isr_space_dark c s) := by
    intro P p0 p1
    unfold isr_space_dark
    dsimp only
    refine pred_ite_cond P _ _ _ (fun h => ?_) (fun h => ?_)
    · -- lines 2499-2525: the stop bit
      refine pred_ite_cond P _ _ _ (fun _ => p0 _ ?_) (fun _ => p0 _ ?_)
      · intro k
        exact absurd (show frame_complete
          { s with irmp_param := { s.irmp_param with stop_bit := 0 } } from ⟨hs, h.1, rfl⟩) k
      · exact fun _ => decoder_inv_of_idle c _ rfl
    have hlt : s.irmp_bit < s.irmp_param.complete_len := by
      rcases Nat.lt_or_ge s.irmp_bit s.irmp_param.complete_len with g | g
      · exact g
      · have e := Nat.le_antisymm hb g
        have st := hr.1.2.1
        have s0 : s.irmp_param.stop_bit = 0 := by
          rcases Nat.eq_zero_or_pos s.irmp_param.stop_bit with k | k
          · exact k
          · exact absurd ⟨e, by omega⟩ h
        exact absurd ⟨hs, e, s0⟩ hf
    have h256 := hr.1.2.2.1
    refine pred_ite_cond P _ _ _ (fun g => p1 _ ?_) (fun _ => ?_)
    · -- lines 2532-2543: the SIRCS frame is closed after the pending bit
      intro _
      refine decoder_inv_of_stored c _ _ (got_light_stored c _ ?_ ?_ ?_) hw
      · exact regular_neutral c s.irmp_param _ hr rfl hr.1.2.1 (Nat.mod_lt _ (by decide))
          rfl rfl (Or.inl g.2.1)
      · show s.irmp_bit ≤ (s.irmp_bit + 1) % 256
        omega
      · intro e
        have e2 : s.irmp_bit = (s.irmp_bit + 1) % 256 := e
        omega
    refine pred_ite_cond P _ _ _ (fun _ => p1 _ ?_) (fun _ => ?_)
    · -- lines 2546-2555: the Netbox frame ends with the pause
      intro _
      refine decoder_inv_of_stored c _ _ (got_light_stored c _ hr hb ?_) hw
      intro e
      exact absurd e (Nat.ne_of_lt hlt)
    refine pred_ite_cond P _ _ _ (fun g => absurd g.2.1 (hr.1.2.2.2.2.1 g.1)) (fun _ => ?_)
    refine pred_ite_cond P _ _ _ (fun g => absurd g.2.1 (hr.1.2.2.2.2.2 g.1)) (fun _ => ?_)
    refine pred_ite_cond P _ _ _ (fun g => absurd ⟨g.1, g.2.1⟩ hr.1.1) (fun _ => ?_)
    refine pred_ite_cond P _ _ _ (fun g => p0 _ ?_) (fun _ => p0 _ ?_)
    · exact data_timeout_inv c _ hr hlt hw g
    · intro _ _
      exact ⟨fun k => absurd hw k, fun _ => ⟨hr, hb, fun _ e => absurd e (Nat.ne_of_lt hlt)⟩⟩
  exact key (fun r => ¬ frame_complete (if r.2 then isr_got_light c r.1 else r.1) →
      decoder_inv c (if r.2 then isr_got_light c r.1 else r.1))
    (fun t h => h) (fun t h => h) hn

/-- One call of `irmp_ISR` in a regular build keeps the invariant, and leaves no complete
frame in the decoding phase. -/
theorem decoder_inv_step (c : Config) (hc : regular_build c) (s : State) (x : Bool)
    (hi : decoder_inv c s) (hf : decoding s → ¬ frame_complete s) :
    decoder_inv c (isr_step c s x) ∧
    (decoding (isr_step c s x) → ¬ frame_complete (isr_step c s x)) := by
  by_cases h1 : s.irmp_ir_detected = 0
  swap
  · rw [isr_step_latched _ s x h1]
    exact ⟨hi, hf⟩
  by_cases h2 : s.irmp_start_bit_detected = 0
  · rw [isr_step_idle _ s x h1 h2]
    constructor
    · intro h
      have hh := isr_idle_start c s x h2 h
      exact ⟨fun _ => hh.2, fun h0 => absurd h0 hh.1⟩
    · intro g
      exact absurd g.2 (isr_idle_start c s x h2 g.1).1
  have hs := hi h2
  by_cases h3 : s.wait_for_start_space = 0
  swap
  · -- the start pause
    cases x
    · rw [isr_step_start_light _ s h1 h2 h3]
      apply decoder_inv_frame_end
      intro _ hm
      obtain ⟨hp, hb0, hw, hws⟩ := isr_start_light_regular c hc s hm
      refine ⟨fun g => absurd hw g, fun _ => ⟨hp, hb0, fun g => ?_⟩⟩
      rw [hws] at g
      exact absurd (hs.1 h3) g
    · rw [isr_step_start_dark _ s h1 h2 h3]
      apply decoder_inv_frame_end
      intro _
      unfold isr_start_dark
      dsimp only
      split_ifs
      all_goals first
        | exact decoder_inv_of_idle c _ rfl
        | exact fun _ => ⟨fun _ => hs.1 h3, fun g => absurd g h3⟩
  obtain ⟨hr, hb, hq⟩ := hs.2 h3
  have nfc := hf ⟨h2, h3⟩
  by_cases h4 : s.wait_for_space = 0
  · -- counting a pulse
    rw [isr_step_pulse _ s x h1 h2 h3 h4]
    apply decoder_inv_frame_end
    intro _
    unfold isr_pulse
    split_ifs
    · exact fun _ => ⟨fun g => absurd h3 g, fun _ => ⟨hr, hb, fun g => absurd h4 g⟩⟩
    · exact fun _ => ⟨fun g => absurd h3 g, fun _ => ⟨hr, hb, fun _ _ => Or.inl rfl⟩⟩
  cases x
  · -- light after a pause: a run pair is complete
    rw [isr_step_space_light _ s h1 h2 h3 h4]
    apply decoder_inv_frame_end
    intro _
    exact decoder_inv_of_stored c s _ (got_light_stored c s hr hb (hq h4)) h3
  · -- dark: the stop bit, the end of the frame, the timeout, or one more tick
    rw [isr_step_space_dark _ s h1 h2 h3 h4]
    apply decoder_inv_frame_end
    intro hn
    exact space_dark_inv c s hr hb h3 h2 nfc hn

theorem decoder_inv_run (c : Config) (hc : regular_build c) (xs : List Bool) :
    ∀ s : State, decoder_inv c s → (decoding s → ¬ frame_complete s) →
      decoder_inv c (run_isr c s xs) ∧
      (decoding (run_isr c s xs) → ¬ frame_complete (run_isr c s xs)) := by
  induction xs with
  | nil => exact fun s h g => ⟨h, g⟩
  | cons x xs ih =>
    intro s h g
    have k := decoder_inv_step c hc s x h g
    exact ih _ k.1 k.2

theorem decoder_inv_get_data (c : Config) (s : State) (d : IRMP_DATA)
    (h : decoder_inv c s) (g : decoding s → ¬ frame_complete s) :
    decoder_inv c (irmp_get_data c s d).2.1 ∧
    (decoding (irmp_get_data c s d).2.1 → ¬ frame_complete (irmp_get_data c s d).2.1) := by
  obtain ⟨e1, e2, e3, e4, e5, e6⟩ := get_data_decoder_fields c s d
  unfold decoder_inv stop_pause at h ⊢
  unfold decoding frame_complete at g ⊢
  rw [e1, e2, e3, e4, e5, e6]
  exact ⟨h, g⟩

theorem decoder_inv_poll (c : Config) (hc : regular_build c) (xs : List Bool) :
    ∀ st : State × List IRMP_DATA, decoder_inv c st.1 → (decoding st.1 → ¬ frame_complete st.1) →
      decoder_inv c (xs.foldl (poll_step c) st).1 := by
  induction xs with
  | nil => exact fun st h _ => h
  | cons x xs ih =>
    intro st h g
    have k := decoder_inv_step c hc st.1 x h g
    have k2 := decoder_inv_get_data c _ ⟨0, 0, 0, 0⟩ k.1 k.2
    exact ih _ k2.1 k2.2

/-- C33, amended: in a regular build, one in which every descriptor the start-bit
classifier can load is regular (not Manchester coded, `stop_bit` 0 or 1, pause windows
beginning at 2 ticks or more unless it is serial, consistent sync positions), every state
reached from the initial state by calls of `irmp_ISR`, with or without `irmp_get_data`
polled after each call, that is in the decoding phase has
`irmp_bit <= irmp_param.complete_len`, and its descriptor is regular. -/
theorem C33_bit_count_bounded (c : Config) (hc : regular_build c) (xs : List Bool) (s : State)
    (hr : s = run_isr c initial xs ∨ s = (run_poll c initial xs).1) (hd : decoding s) :
    s.irmp_bit ≤ s.irmp_param.complete_len ∧ regular_descriptor c s.irmp_param := by
  have hi : decoder_inv c s := by
    rcases hr with hr | hr
    · rw [hr]
      exact (decoder_inv_run c hc xs initial (decoder_inv_of_idle c _ rfl)
        (fun g => absurd rfl g.1)).1
    · rw [hr]
      exact decoder_inv_poll c hc xs (initial, []) (decoder_inv_of_idle c _ rfl)
        (fun g => absurd rfl g.1)
  obtain ⟨hp, hb, _⟩ := (hi hd.1).2 hd.2
  exact ⟨hb, hp⟩

/-- Witness of C33 amended: the builds `kaseikyo_build` (Kaseikyo at 15 kHz),
`distance_build` (SIRCS, NEC and Denon at 10 kHz), `nec_build` and `nec42_build` are
regular; 931 ticks into a Kaseikyo frame the decoder of `kaseikyo_build` is in the decoding
phase with all 48 bits stored, 300 ticks into a SIRCS frame the decoder of `distance_build`
has stored 19 of 20 bits, and 100 ticks into a Denon frame 7 of 15. -/
theorem C33_bit_count_bounded_witness :
    regular_build kaseikyo_build ∧ regular_build distance_build ∧ regular_build nec_build ∧
    regular_build nec42_build ∧
    decoding (run_isr kaseikyo_build initial
      ((kaseikyo_wave_15 [0x02, 0x20, 0x90, 0x31, 0x42, 0xE3] 1).take 931)) ∧
    (run_isr kaseikyo_build initial
      ((kaseikyo_wave_15 [0x02, 0x20, 0x90, 0x31, 0x42, 0xE3] 1).take 931)).irmp_bit = 48 ∧
    (run_isr kaseikyo_build initial
      ((kaseikyo_wave_15 [0x02, 0x20, 0x90, 0x31, 0x42, 0xE3] 1).take 931)).irmp_bit ≤
      (run_isr kaseikyo_build initial
        ((kaseikyo_wave_15 [0x02, 0x20, 0x90, 0x31, 0x42, 0xE3] 1).take
          931)).irmp_param.complete_len ∧
    decoding (run_isr distance_build initial ((sircs_frame 5).take 300)) ∧
    (run_isr distance_build initial ((sircs_frame 5).take 300)).irmp_bit = 19 ∧
    (run_isr distance_build initial ((sircs_frame 5).take 300)).irmp_bit ≤
      (run_isr distance_build initial ((sircs_frame 5).take 300)).irmp_param.complete_len ∧
    decoding (run_isr distance_build initial ((denon_wave 8 0x155 640).take 100)) ∧
    (run_isr distance_build initial ((denon_wave 8 0x155 640).take 100)).irmp_bit = 7 ∧
    (run_isr distance_build initial ((denon_wave 8 0x155 640).take 100)).irmp_bit ≤
      (run_isr distance_build initial
        ((denon_wave 8 0x155 640).take 100)).irmp_param.complete_len := by
  have h1 := C33_bit_count_bounded kaseikyo_build (by decide)
    ((kaseikyo_wave_15 [0x02, 0x20, 0x90, 0x31, 0x42, 0xE3] 1).take 931)
    (run_isr kaseikyo_build initial
      ((kaseikyo_wave_15 [0x02, 0x20, 0x90, 0x31, 0x42, 0xE3] 1).take 931))
    (Or.inl rfl) (by decide!)
  have h2 := C33_bit_count_bounded distance_build (by decide) ((sircs_frame 5).take 300)
    (run_isr distance_build initial ((sircs_frame 5).take 300)) (Or.inl rfl) (by decide!)
  have h3 := C33_bit_count_bounded distance_build (by decide)
    ((denon_wave 8 0x155 640).take 100)
    (run_isr distance_build initial ((denon_wave 8 0x155 640).take 100)) (Or.inl rfl)
    (by decide!)
  exact ⟨by decide, by decide, by decide, by decide, by decide!, by decide!, h1.1,
    by decide!, by decide!, h2.1, by decide!, by decide!, h3.1⟩

/-- C33 fails on the code: `irmp_bit` can pass `complete_len` in the decoding phase, in the
Manchester decoder and in the pulse distance decoder, in builds that are not regular.  In
the build with RC5 and RC6, the Manchester stream `rc5_overlong_wave` (a RC5 frame followed
by three more bits) brings the decoder, by `irmp_ISR` calls from the initial state, to
`irmp_bit = 12` of `complete_len = 13` with a long pulse of 18 ticks counted; the next call
stores two bits at once (lines 2713-2741), so line 3160 never sees
`irmp_bit == complete_len`: the decoder is in the decoding phase with `irmp_bit = 14`, and
with `irmp_bit = 16` at the end of the stream.  No frame is delivered, while the RC5 frame
alone is delivered.  In the build with SIRCS, NEC, Kaseikyo and Denon at 10 kHz the pause
window of a Kaseikyo 0 begins at 1 tick; after the 48 bits and the stop pulse of a Kaseikyo
frame, one tick of darkness and a further pulse are taken for a data bit (lines 3100-3108):
the decoder is in the decoding phase with `irmp_bit = 49`, then 50, of `complete_len = 48`,
and the frame, which is delivered when 40 ticks of darkness follow the stop pulse, is not
delivered. -/
theorem C33_bit_count_overrun :
    ¬ regular_build manchester_build ∧
    (run_isr manchester_build initial (rc5_overlong_wave.take 270)).irmp_bit = 12 ∧
    (run_isr manchester_build initial (rc5_overlong_wave.take 270)).irmp_pulse_time = 18 ∧
    decoding (run_isr manchester_build initial (rc5_overlong_wave.take 271)) ∧
    (run_isr manchester_build initial (rc5_overlong_wave.take 271)).irmp_bit = 14 ∧
    (run_isr manchester_build initial (rc5_overlong_wave.take 271)).irmp_param.complete_len =
      13 ∧
    ¬ ((run_isr manchester_build initial (rc5_overlong_wave.take 271)).irmp_bit ≤
      (run_isr manchester_build initial (rc5_overlong_wave.take 271)).irmp_param.complete_len) ∧
    decoding (run_isr manchester_build initial rc5_overlong_wave) ∧
    (run_isr manchester_build initial rc5_overlong_wave).irmp_bit = 16 ∧
    (run_isr manchester_build initial rc5_overlong_wave).irmp_param.complete_len = 13 ∧
    (run_poll manchester_build initial rc5_overlong_wave).2 = [] ∧
    (run_poll manchester_build initial (rc5_wave false 0x05 0x35 50)).2 =
      [⟨IRMP_RC5_PROTOCOL, 0x05, 0x35, 0⟩] ∧
    ¬ regular_build remote_build ∧
    (kaseikyo_param remote_build).pause_0_len_min = 1 ∧
    (run_isr remote_build initial (kaseikyo_overlong_wave.take 615)).irmp_bit = 48 ∧
    (run_isr remote_build initial (kaseikyo_overlong_wave.take 615)).irmp_pause_time = 1 ∧
    decoding (run_isr remote_build initial (kaseikyo_overlong_wave.take 616)) ∧
    (run_isr remote_build initial (kaseikyo_overlong_wave.take 616)).irmp_bit = 49 ∧
    (run_isr remote_build initial (kaseikyo_overlong_wave.take 616)).irmp_param.complete_len =
      48 ∧
    ¬ ((run_isr remote_build initial (kaseikyo_overlong_wave.take 616)).irmp_bit ≤
      (run_isr remote_build initial (kaseikyo_overlong_wave.take 616)).irmp_param.complete_len) ∧
    decoding (run_isr remote_build initial kaseikyo_overlong_wave) ∧
    (run_isr remote_build initial kaseikyo_overlong_wave).irmp_bit = 50 ∧
    (run_isr remote_build initial kaseikyo_overlong_wave).irmp_param.complete_len = 48 ∧
    (run_poll remote_build initial (kaseikyo_overlong_wave ++ List.replicate 300 true)).2 =
      [] ∧
    (run_poll remote_build initial
      (kaseikyo_wave [0x02, 0x20, 0x90, 0x31, 0x42, 0xE3] 40)).2 =
      [⟨IRMP_KASEIKYO_PROTOCOL, 0x2002, 0x9423, 0⟩] := by
  refine ⟨by decide, by decide!, by decide!, by decide!, by decide!, by decide!, by decide!,
    by decide!, by decide!, by decide!, ?_, ?_, by decide, by decide, by decide!, by decide!,
    by decide!, by decide!, by decide!, by decide!, by decide!, by decide!, by decide!, ?_, ?_⟩
  · rw [run_poll_eval manchester_build 6]
    decide!
  · rw [run_poll_eval manchester_build 5]
    decide!
  · rw [run_poll_eval remote_build 15]
    decide!
  · rw [run_poll_eval remote_build 11]
    decide!

end Irmp
